import Mathlib

/-!
Shallow embedding of the firehose Go package (FlightAware Firehose client).

The embedding covers the three core components of the package:

* the InitCommand builder and its String serialization,
* the tagged Message envelope decoder (Message.UnmarshalJSON with its
  ErrorMessage and PositionMessage payload variants), and
* the Stream.NextMessage cancellable read loop.

Modelling conventions, stated once here:

* JSON input is modelled at the value level by the inductive type Json
  (a raw byte sequence that is not syntactically valid JSON is modelled
  as the absence of a value, see unmarshalRaw).  JSON numbers are carried
  as exact rationals; every finite float64 is an exact rational, and the
  Go decoder for the integer fields rejects any number with a fractional
  part.
* Go struct unmarshalling (encoding/json) is modelled field by field:
  object members are processed in order, an incoming key is matched to a
  struct field by ASCII case-insensitive comparison with its json tag,
  unknown keys are skipped, a JSON null leaves a non-pointer field
  unchanged and resets a pointer field to nil, a type mismatch records
  the first error and decoding continues with the remaining members,
  exactly as encoding/json does.
* float64 values in InitCommand rectangles are modelled as exact
  rationals; the Sprintf percent-f verb is modelled by fmtF, which
  renders the value with exactly six digits after the decimal point,
  rounding the scaled value half-to-even as the strconv fixed-precision
  decimal conversion does.
* The race in Stream.NextMessage between the background decode goroutine
  and ctx.Done is inherently concurrent; it is modelled by an explicit
  oracle argument (RaceOutcome) recording which select branch fired
  first, and the claims are stated conditionally on that oracle.
-/

namespace Firehose

/-! ## JSON values and decoding primitives (encoding/json semantics) -/

/-- A decoded JSON value.  Object member lists keep their textual order and
may contain duplicate keys, as the streaming decoder sees them. -/
inductive Json where
  | null
  | bool (b : Bool)
  | num (q : ℚ)
  | str (s : String)
  | arr (elems : List Json)
  | obj (fields : List (String × Json))

/-- The JSON kind name used in Go UnmarshalTypeError values. -/
def Json.kindName : Json → String
  | .null => "null"
  | .bool _ => "bool"
  | .num _ => "number"
  | .str _ => "string"
  | .arr _ => "array"
  | .obj _ => "object"

/-- Errors produced by encoding/json while filling a Go value:
a type mismatch (UnmarshalTypeError) or a syntax error in the raw bytes. -/
inductive JsonErr where
  | typeMismatch (got want : String)
  | badSyntax

/-- ASCII lower-casing of one character, as the encoding/json field-name
folding does. -/
def asciiLower (c : Char) : Char :=
  if 'A' ≤ c ∧ c ≤ 'Z' then Char.ofNat (c.toNat + 32) else c

/-- Fold an incoming object key for field matching: encoding/json matches
keys to json tags ASCII case-insensitively. -/
def foldKey (k : String) : String :=
  String.mk (k.data.map asciiLower)

/-- Store a JSON value into a Go string field: a string sets it, null is a
no-op, anything else is an UnmarshalTypeError. -/
def setString (v : Json) (old : String) : String × Option JsonErr :=
  match v with
  | .str s => (s, none)
  | .null => (old, none)
  | v => (old, some (.typeMismatch v.kindName "string"))

/-- Store a JSON value into a Go pointer-to-string field: a string allocates
and sets it, null resets the pointer to nil, anything else is an
UnmarshalTypeError. -/
def setOptString (v : Json) (old : Option String) : Option String × Option JsonErr :=
  match v with
  | .str s => (some s, none)
  | .null => (none, none)
  | v => (old, some (.typeMismatch v.kindName "string"))

/-- Store a JSON value into a Go pointer-to-int field: an integral number
sets it, a non-integral number or any non-number is an UnmarshalTypeError,
null resets the pointer to nil. -/
def setOptInt (v : Json) (old : Option ℤ) : Option ℤ × Option JsonErr :=
  match v with
  | .num q => if q.den = 1 then (some q.num, none) else (old, some (.typeMismatch "number" "int"))
  | .null => (none, none)
  | v => (old, some (.typeMismatch v.kindName "int"))

/-- Store a JSON value into a Go pointer-to-float64 field. -/
def setOptNum (v : Json) (old : Option ℚ) : Option ℚ × Option JsonErr :=
  match v with
  | .num q => (some q, none)
  | .null => (none, none)
  | v => (old, some (.typeMismatch v.kindName "float64"))

/-- Store a JSON value into a Go float64 field (non-pointer): a number sets
it, null is a no-op, anything else is an UnmarshalTypeError. -/
def setNum (v : Json) (old : ℚ) : ℚ × Option JsonErr :=
  match v with
  | .num q => (q, none)
  | .null => (old, none)
  | v => (old, some (.typeMismatch v.kindName "float64"))

/-- Decode the members of one JSON object into a Go struct value, given the
per-member assignment function.  Members are processed in order, the first
error is saved and decoding continues, as encoding/json does. -/
def foldFields {σ : Type} (assign : String → Json → σ → σ × Option JsonErr)
    (init : σ × Option JsonErr) (F : List (String × Json)) : σ × Option JsonErr :=
  F.foldl (fun acc kv =>
    ((assign (foldKey kv.1) kv.2 acc.1).1,
      acc.2 <|> (assign (foldKey kv.1) kv.2 acc.1).2)) init

/-- Decode one JSON value into a Go struct starting from its zero value:
an object is decoded member by member, null is a no-op, any other kind is
an UnmarshalTypeError. -/
def decodeWith {σ : Type} (assign : String → Json → σ → σ × Option JsonErr)
    (zero : σ) (j : Json) : σ × Option JsonErr :=
  match j with
  | .obj F => foldFields assign (zero, none) F
  | .null => (zero, none)
  | v => (zero, some (.typeMismatch v.kindName "struct"))

/-! ## The message payload structs (source lines 136 to 343) -/

/-- ErrorMessage indicates an error condition (json tags: type, error_msg). -/
structure ErrorMessage where
  «Type» : String := ""
  ErrorMessage : String := ""

/-- Waypoint contains position data (json tags: lat, lon, clock, name, alt, gs). -/
structure Waypoint where
  Lat : ℚ := 0
  Lon : ℚ := 0
  Clock : Option String := none
  Name : Option String := none
  Alt : Option String := none
  GS : Option String := none

/-- PositionMessage includes a position report.  Field-by-field translation
of the Go struct: plain string fields stay String (zero value the empty
string), pointer fields become Option, the Waypoints slice becomes a list.
The json tag of each field is the one given in the source. -/
structure PositionMessage where
  «Type» : String := ""
  Ident : String := ""
  Lat : String := ""
  Lon : String := ""
  Clock : String := ""
  ID : String := ""
  UpdateType : String := ""
  AirGround : String := ""
  FacilityHash : String := ""
  FacilityName : String := ""
  PITR : String := ""
  Alt : Option String := none
  AltChange : Option String := none
  GS : Option String := none
  Heading : Option String := none
  Squawk : Option String := none
  Hexid : Option String := none
  ATCIdent : Option String := none
  AircraftType : Option String := none
  Orig : Option String := none
  Dest : Option String := none
  Reg : Option String := none
  ETA : Option String := none
  EDT : Option String := none
  ETE : Option String := none
  Speed : Option String := none
  Waypoints : List Waypoint := []
  Route : Option String := none
  ADSBVersion : Option String := none
  NACp : Option ℤ := none
  NACv : Option ℤ := none
  NIC : Option ℤ := none
  NICBaro : Option ℤ := none
  SIL : Option ℤ := none
  SILType : Option String := none
  PosRC : Option ℚ := none
  HeadingMagnetic : Option String := none
  HeadingTrue : Option String := none
  Mach : Option String := none
  SpeedTAS : Option String := none
  SpeedIAS : Option String := none
  Pressure : Option String := none
  WindQuality : Option String := none
  WindDir : Option String := none
  WindSpeed : Option String := none
  TemperatureQuality : Option String := none
  Temperature : Option String := none
  NavHeading : Option String := none
  NavAltitude : Option String := none
  NavQNH : Option String := none
  NavModes : Option String := none
  AltGNSS : Option String := none
  VertRate : Option String := none
  VertRateGeom : Option String := none
  FuelOnBoard : Option String := none
  FuelOnBoardUnit : Option String := none

/-- Member assignment for the pass-1 stub struct, whose single field Type
has json tag type.  The state is the value of that field. -/
def stubAssign (k : String) (v : Json) (t : String) : String × Option JsonErr :=
  if k = "type" then setString v t else (t, none)

/-- Pass 1 of Message.UnmarshalJSON: unmarshal only the type discriminant.
Succeeds with the empty string on a JSON null (unmarshalling null into a
struct is a no-op in Go), fails on any non-object non-null value. -/
def stubDecode (j : Json) : Except JsonErr String :=
  match j with
  | .obj F =>
    match foldFields stubAssign ("", none) F with
    | (t, none) => .ok t
    | (_, some e) => .error e
  | .null => .ok ""
  | v => .error (.typeMismatch v.kindName "struct")

/-- Member assignment for the ErrorMessage struct (folded tags type and
error_msg). -/
def errAssign (k : String) (v : Json) (p : ErrorMessage) : ErrorMessage × Option JsonErr :=
  if k = "type" then
    ({ p with «Type» := (setString v p.«Type»).1 }, (setString v p.«Type»).2)
  else if k = "error_msg" then
    ({ p with ErrorMessage := (setString v p.ErrorMessage).1 }, (setString v p.ErrorMessage).2)
  else (p, none)

/-- Member assignment for the Waypoint struct. -/
def wpAssign (k : String) (v : Json) (p : Waypoint) : Waypoint × Option JsonErr :=
  if k = "lat" then ({ p with Lat := (setNum v p.Lat).1 }, (setNum v p.Lat).2)
  else if k = "lon" then ({ p with Lon := (setNum v p.Lon).1 }, (setNum v p.Lon).2)
  else if k = "clock" then ({ p with Clock := (setOptString v p.Clock).1 }, (setOptString v p.Clock).2)
  else if k = "name" then ({ p with Name := (setOptString v p.Name).1 }, (setOptString v p.Name).2)
  else if k = "alt" then ({ p with Alt := (setOptString v p.Alt).1 }, (setOptString v p.Alt).2)
  else if k = "gs" then ({ p with GS := (setOptString v p.GS).1 }, (setOptString v p.GS).2)
  else (p, none)

/-- Decode one JSON value into a Waypoint. -/
def decodeWaypoint (j : Json) : Waypoint × Option JsonErr :=
  decodeWith wpAssign {} j

/-- Store a JSON value into the Waypoints slice field: an array decodes each
element (keeping the first element error, as encoding/json saves errors and
continues), null resets the slice to nil, anything else is an
UnmarshalTypeError. -/
def setWaypoints (v : Json) (old : List Waypoint) : List Waypoint × Option JsonErr :=
  match v with
  | .arr xs =>
    ((xs.map decodeWaypoint).map Prod.fst,
      (xs.map decodeWaypoint).foldl (fun o p => o <|> p.2) none)
  | .null => ([], none)
  | v => (old, some (.typeMismatch v.kindName "slice"))

/-- Member assignment for the PositionMessage struct: one arm per json tag
of the source struct, keys already ASCII-folded. -/
def posAssign (k : String) (v : Json) (p : PositionMessage) : PositionMessage × Option JsonErr :=
  if k = "type" then ({ p with «Type» := (setString v p.«Type»).1 }, (setString v p.«Type»).2)
  else if k = "ident" then ({ p with Ident := (setString v p.Ident).1 }, (setString v p.Ident).2)
  else if k = "lat" then ({ p with Lat := (setString v p.Lat).1 }, (setString v p.Lat).2)
  else if k = "lon" then ({ p with Lon := (setString v p.Lon).1 }, (setString v p.Lon).2)
  else if k = "clock" then ({ p with Clock := (setString v p.Clock).1 }, (setString v p.Clock).2)
  else if k = "id" then ({ p with ID := (setString v p.ID).1 }, (setString v p.ID).2)
  else if k = "updatetype" then ({ p with UpdateType := (setString v p.UpdateType).1 }, (setString v p.UpdateType).2)
  else if k = "air_ground" then ({ p with AirGround := (setString v p.AirGround).1 }, (setString v p.AirGround).2)
  else if k = "facility_hash" then ({ p with FacilityHash := (setString v p.FacilityHash).1 }, (setString v p.FacilityHash).2)
  else if k = "facility_name" then ({ p with FacilityName := (setString v p.FacilityName).1 }, (setString v p.FacilityName).2)
  else if k = "pitr" then ({ p with PITR := (setString v p.PITR).1 }, (setString v p.PITR).2)
  else if k = "alt" then ({ p with Alt := (setOptString v p.Alt).1 }, (setOptString v p.Alt).2)
  else if k = "alt_change" then ({ p with AltChange := (setOptString v p.AltChange).1 }, (setOptString v p.AltChange).2)
  else if k = "gs" then ({ p with GS := (setOptString v p.GS).1 }, (setOptString v p.GS).2)
  else if k = "heading" then ({ p with Heading := (setOptString v p.Heading).1 }, (setOptString v p.Heading).2)
  else if k = "squawk" then ({ p with Squawk := (setOptString v p.Squawk).1 }, (setOptString v p.Squawk).2)
  else if k = "hexid" then ({ p with Hexid := (setOptString v p.Hexid).1 }, (setOptString v p.Hexid).2)
  else if k = "atcident" then ({ p with ATCIdent := (setOptString v p.ATCIdent).1 }, (setOptString v p.ATCIdent).2)
  else if k = "aircrafttype" then ({ p with AircraftType := (setOptString v p.AircraftType).1 }, (setOptString v p.AircraftType).2)
  else if k = "orig" then ({ p with Orig := (setOptString v p.Orig).1 }, (setOptString v p.Orig).2)
  else if k = "dest" then ({ p with Dest := (setOptString v p.Dest).1 }, (setOptString v p.Dest).2)
  else if k = "reg" then ({ p with Reg := (setOptString v p.Reg).1 }, (setOptString v p.Reg).2)
  else if k = "eta" then ({ p with ETA := (setOptString v p.ETA).1 }, (setOptString v p.ETA).2)
  else if k = "edt" then ({ p with EDT := (setOptString v p.EDT).1 }, (setOptString v p.EDT).2)
  else if k = "ete" then ({ p with ETE := (setOptString v p.ETE).1 }, (setOptString v p.ETE).2)
  else if k = "speed" then ({ p with Speed := (setOptString v p.Speed).1 }, (setOptString v p.Speed).2)
  else if k = "waypoints" then ({ p with Waypoints := (setWaypoints v p.Waypoints).1 }, (setWaypoints v p.Waypoints).2)
  else if k = "route" then ({ p with Route := (setOptString v p.Route).1 }, (setOptString v p.Route).2)
  else if k = "adsb_version" then ({ p with ADSBVersion := (setOptString v p.ADSBVersion).1 }, (setOptString v p.ADSBVersion).2)
  else if k = "nac_p" then ({ p with NACp := (setOptInt v p.NACp).1 }, (setOptInt v p.NACp).2)
  else if k = "nac_v" then ({ p with NACv := (setOptInt v p.NACv).1 }, (setOptInt v p.NACv).2)
  else if k = "nic" then ({ p with NIC := (setOptInt v p.NIC).1 }, (setOptInt v p.NIC).2)
  else if k = "nic_baro" then ({ p with NICBaro := (setOptInt v p.NICBaro).1 }, (setOptInt v p.NICBaro).2)
  else if k = "sil" then ({ p with SIL := (setOptInt v p.SIL).1 }, (setOptInt v p.SIL).2)
  else if k = "sil_type" then ({ p with SILType := (setOptString v p.SILType).1 }, (setOptString v p.SILType).2)
  else if k = "pos_rc" then ({ p with PosRC := (setOptNum v p.PosRC).1 }, (setOptNum v p.PosRC).2)
  else if k = "heading_magnetic" then ({ p with HeadingMagnetic := (setOptString v p.HeadingMagnetic).1 }, (setOptString v p.HeadingMagnetic).2)
  else if k = "heading_true" then ({ p with HeadingTrue := (setOptString v p.HeadingTrue).1 }, (setOptString v p.HeadingTrue).2)
  else if k = "mach" then ({ p with Mach := (setOptString v p.Mach).1 }, (setOptString v p.Mach).2)
  else if k = "speed_tas" then ({ p with SpeedTAS := (setOptString v p.SpeedTAS).1 }, (setOptString v p.SpeedTAS).2)
  else if k = "speed_ias" then ({ p with SpeedIAS := (setOptString v p.SpeedIAS).1 }, (setOptString v p.SpeedIAS).2)
  else if k = "pressure" then ({ p with Pressure := (setOptString v p.Pressure).1 }, (setOptString v p.Pressure).2)
  else if k = "wind_quality" then ({ p with WindQuality := (setOptString v p.WindQuality).1 }, (setOptString v p.WindQuality).2)
  else if k = "wind_dir" then ({ p with WindDir := (setOptString v p.WindDir).1 }, (setOptString v p.WindDir).2)
  else if k = "wind_speed" then ({ p with WindSpeed := (setOptString v p.WindSpeed).1 }, (setOptString v p.WindSpeed).2)
  else if k = "temperature_quality" then ({ p with TemperatureQuality := (setOptString v p.TemperatureQuality).1 }, (setOptString v p.TemperatureQuality).2)
  else if k = "temperature" then ({ p with Temperature := (setOptString v p.Temperature).1 }, (setOptString v p.Temperature).2)
  else if k = "nav_heading" then ({ p with NavHeading := (setOptString v p.NavHeading).1 }, (setOptString v p.NavHeading).2)
  else if k = "nav_altitude" then ({ p with NavAltitude := (setOptString v p.NavAltitude).1 }, (setOptString v p.NavAltitude).2)
  else if k = "nav_qnh" then ({ p with NavQNH := (setOptString v p.NavQNH).1 }, (setOptString v p.NavQNH).2)
  else if k = "nav_modes" then ({ p with NavModes := (setOptString v p.NavModes).1 }, (setOptString v p.NavModes).2)
  else if k = "alt_gnss" then ({ p with AltGNSS := (setOptString v p.AltGNSS).1 }, (setOptString v p.AltGNSS).2)
  else if k = "vertrate" then ({ p with VertRate := (setOptString v p.VertRate).1 }, (setOptString v p.VertRate).2)
  else if k = "vertrate_geom" then ({ p with VertRateGeom := (setOptString v p.VertRateGeom).1 }, (setOptString v p.VertRateGeom).2)
  else if k = "fuel_on_board" then ({ p with FuelOnBoard := (setOptString v p.FuelOnBoard).1 }, (setOptString v p.FuelOnBoard).2)
  else if k = "fuel_on_board_unit" then ({ p with FuelOnBoardUnit := (setOptString v p.FuelOnBoardUnit).1 }, (setOptString v p.FuelOnBoardUnit).2)
  else (p, none)

/-! ## The Message envelope (source lines 136 to 164) -/

/-- The payload slot of a Message.  In Go it is an interface value holding
nil, an ErrorMessage, or a PositionMessage; here it is an explicit sum. -/
inductive MsgPayload where
  | empty
  | errorMsg (e : ErrorMessage)
  | position (p : PositionMessage)

/-- Message is a tagged envelope: the discriminant and one payload. -/
structure Message where
  «Type» : String := ""
  Payload : MsgPayload := .empty

/-- The error returned by Message.UnmarshalJSON:
a wrapped pass-1 failure (could not determine message type), a payload
decode failure returned unchanged from pass 2, or the unrecognized message
type failure carrying the offending discriminant. -/
inductive DecodeError where
  | malformedEnvelope (inner : JsonErr)
  | payloadError (inner : JsonErr)
  | unknownMessageType (t : String)

/-- Message.UnmarshalJSON over an already-parsed JSON value: pass 1 decodes
the discriminant (a failure is wrapped and the Message left at its zero
value), then pass 2 dispatches on it.  The pair returned is the final state
of the Message being filled and the returned error, mirroring the Go method
that mutates its receiver and returns an error. -/
def unmarshalMessage (j : Json) : Message × Option DecodeError :=
  match stubDecode j with
  | .error e => ({}, some (.malformedEnvelope e))
  | .ok t =>
    if t = "error" then
      ({ «Type» := t, Payload := .errorMsg (decodeWith errAssign {} j).1 },
        (decodeWith errAssign {} j).2.map .payloadError)
    else if t = "position" then
      ({ «Type» := t, Payload := .position (decodeWith posAssign {} j).1 },
        (decodeWith posAssign {} j).2.map .payloadError)
    else
      ({ «Type» := t, Payload := .empty }, some (.unknownMessageType t))

/-- Decoding from raw bytes: input that is not syntactically valid JSON is
modelled as none and never reaches the envelope logic (encoding/json
surfaces the syntax failure itself); it belongs to the malformed-envelope
failure class of the specification, before discriminant dispatch. -/
def unmarshalRaw (r : Option Json) : Message × Option DecodeError :=
  match r with
  | none => ({}, some (.malformedEnvelope .badSyntax))
  | some j => unmarshalMessage j

/-! ## InitCommand and its serialization (source lines 15 to 105) -/

/-- Event is a named string constant selecting a downlink message kind. -/
abbrev Event := String

/-- PositionEvent is the event constant for position messages. -/
def PositionEvent : Event := "position"

/-- Rectangle holds four float64 bounds; they are modelled as exact
rationals (every finite float64 value is one). -/
structure Rectangle where
  LowLat : ℚ
  LowLon : ℚ
  HiLat : ℚ
  HiLon : ℚ

/-- PITRRange holds the two endpoints of a range directive. -/
structure PITRRange where
  Start : String
  End : String

/-- InitCommand is the sparse configuration aggregate serialized into one
initiation command line. -/
structure InitCommand where
  Live : Bool := false
  PITR : String := ""
  Range : Option PITRRange := none
  Password : String := ""
  Username : String := ""
  AirportFilter : List String := []
  Events : List Event := []
  LatLong : List Rectangle := []

/-- The six decimal digits of the fractional part, most significant first,
zero padded, as the percent-f verb prints them. -/
def pad6 (n : ℕ) : String :=
  String.mk ((List.range 6).map (fun j => Char.ofNat (48 + n / 10 ^ (5 - j) % 10)))

/-- Decimal digits of a natural number, most significant first; the first
argument is recursion fuel (any fuel larger than the number of digits gives
the full representation). -/
def natDigitsAux : ℕ → ℕ → List Char
  | 0, _ => []
  | fuel + 1, n =>
    if n = 0 then [] else natDigitsAux fuel (n / 10) ++ [Char.ofNat (48 + n % 10)]

/-- Decimal representation of a natural number. -/
def natRepr (n : ℕ) : String :=
  if n = 0 then "0" else String.mk (natDigitsAux (n + 1) n)

/-- The magnitude of q scaled by one million and rounded to the nearest
integer, ties to even: this is the digit count the strconv fixed-precision
decimal conversion produces for six fractional digits. -/
def scaled6 (q : ℚ) : ℕ :=
  let m := q.num.natAbs * 1000000
  let d := q.den
  if 2 * (m % d) < d then m / d
  else if d < 2 * (m % d) then m / d + 1
  else if m / d % 2 = 0 then m / d else m / d + 1

/-- The Sprintf percent-f verb with its default precision: six digits after
the decimal point, ordinary (non-exponential) notation, a leading minus
sign for negative values. -/
def fmtF (q : ℚ) : String :=
  (if q.num < 0 then "-" else "")
    ++ natRepr (scaled6 q / 1000000) ++ "." ++ pad6 (scaled6 q % 1000000)

/-- The quoted latlong argument for one rectangle, as Sprintf builds it. -/
def rectQuoted (r : Rectangle) : String :=
  "\"" ++ fmtF r.LowLat ++ " " ++ fmtF r.LowLon ++ " "
    ++ fmtF r.HiLat ++ " " ++ fmtF r.HiLon ++ "\""

/-- The body of InitCommand.String, translated statement by statement from
the Go method: a parts list is grown by conditional appends and joined with
single spaces.  The loop over LatLong appends two tokens per rectangle.
It lives in its own definition because inside a declaration named String
the type String is shadowed. -/
def initCommandString (i : InitCommand) : String :=
  let parts : List String := []
  let parts := if i.Live then parts ++ ["live"] else parts
  let parts := if i.PITR ≠ "" then parts ++ ["pitr", i.PITR] else parts
  let parts := match i.Range with
    | some r => parts ++ ["range", r.Start, r.End]
    | none => parts
  let parts := parts ++ ["username", i.Username]
  let parts := parts ++ ["password", i.Password]
  let parts := if i.AirportFilter.length > 0 then
      parts ++ ["airport_filter", "\"" ++ String.intercalate " " i.AirportFilter ++ "\""]
    else parts
  let parts := if i.Events.length > 0 then
      parts ++ ["events", "\"" ++ String.intercalate " " (i.Events.map (fun e => (e : String))) ++ "\""]
    else parts
  let parts := parts ++ (i.LatLong.map (fun r => ["latlong", rectQuoted r])).flatten
  String.intercalate " " parts

/-- The String method of InitCommand. -/
def InitCommand.String (i : InitCommand) : String :=
  initCommandString i

/-- The specification token sequence of section 4.1: seven segments in a
fixed order, each optional segment present exactly when its field is. -/
def initTokens (i : InitCommand) : List String :=
  (if i.Live then ["live"] else [])
    ++ (if i.PITR ≠ "" then ["pitr", i.PITR] else [])
    ++ (match i.Range with
        | some r => ["range", r.Start, r.End]
        | none => [])
    ++ ["username", i.Username, "password", i.Password]
    ++ (if i.AirportFilter ≠ [] then
          ["airport_filter", "\"" ++ String.intercalate " " i.AirportFilter ++ "\""]
        else [])
    ++ (if i.Events ≠ [] then
          ["events", "\"" ++ String.intercalate " " (i.Events.map (fun e => (e : String))) ++ "\""]
        else [])
    ++ (i.LatLong.map (fun r => ["latlong", rectQuoted r])).flatten

/-! ## Stream and the cancellable read loop (source lines 119 to 370) -/

/-- The session state of a Stream: whether its transport has been closed.
The byte cursor itself lives in the transport and is not part of the model;
what each NextMessage call reads is supplied as an oracle. -/
structure Stream where
  closed : Bool := false

/-- Stream.Close closes the underlying transport. -/
def Stream.close (st : Stream) : Stream :=
  { st with closed := true }

/-- The error held by a context once it is done. -/
inductive CtxErr where
  | canceled
  | deadlineExceeded

/-- What the background decode goroutine would deliver on its channel:
a complete JSON value handed to Message.UnmarshalJSON, a syntax failure in
the byte stream, or a transport read failure. -/
inductive DecodeOutcome where
  | value (j : Json)
  | syntaxFailure
  | transportFailure

/-- Which select branch fires first in NextMessage: the context done
channel (with the context error) or the decode channel (with its result).
This oracle stands for the inherently concurrent race. -/
inductive RaceOutcome where
  | ctxDone (e : CtxErr)
  | decodeDone (d : DecodeOutcome)

/-- The error NextMessage returns: a deadline-setting failure, the decode
side (unmarshal error, syntax failure, transport failure), or the context
error propagated on cancellation. -/
inductive StreamErr where
  | deadlineSet
  | unmarshal (e : DecodeError)
  | badSyntax
  | transport
  | fromCtx (e : CtxErr)

/-- The message variable and error produced by one decoder.Decode call: on
a read value the Message mutated by UnmarshalJSON together with its error,
otherwise the untouched zero Message with the read failure. -/
def runDecode : DecodeOutcome → Message × Option StreamErr
  | .value j => ((unmarshalMessage j).1, (unmarshalMessage j).2.map .unmarshal)
  | .syntaxFailure => ({}, some .badSyntax)
  | .transportFailure => ({}, some .transport)

/-- Stream.NextMessage: if the context carries a deadline it is first
applied to the transport (a failure there returns early with a nil
message); then the decode result races the context done channel.  On
cancellation the Stream closes its transport and returns nil with the
context error; on decode completion it returns the address of the message
variable (never nil) with the decode error. -/
def Stream.nextMessage (st : Stream) (hasDeadline setDeadlineFails : Bool)
    (outcome : RaceOutcome) : Stream × Option Message × Option StreamErr :=
  if hasDeadline && setDeadlineFails then (st, none, some .deadlineSet)
  else
    match outcome with
    | .ctxDone e => (st.close, none, some (.fromCtx e))
    | .decodeDone d => (st, some (runDecode d).1, (runDecode d).2)

/-! ## Predicates used in the claim statements -/

/-- No member of the object list matches the folded key t. -/
def absentKey (t : String) (F : List (String × Json)) : Prop :=
  ∀ kv ∈ F, foldKey kv.1 ≠ t

instance absentKeyDecidable (t : String) (F : List (String × Json)) :
    Decidable (absentKey t F) :=
  inferInstanceAs (Decidable (∀ kv ∈ F, foldKey kv.1 ≠ t))

/-- A JSON value that is neither a string nor null (so storing it into a
Go string field fails). -/
def notStrNull : Json → Bool
  | .str _ => false
  | .null => false
  | _ => true

/-- A JSON value that is neither an object nor null (so unmarshalling it
into a struct fails). -/
def notObjNull : Json → Bool
  | .obj _ => false
  | .null => false
  | _ => true

/-- Whether a returned error is the wrapped pass-1 envelope failure. -/
def isMalformedB : Option DecodeError → Bool
  | some (.malformedEnvelope _) => true
  | _ => false

/-! ## Helper lemmas -/

lemma ite_frame {A B : Type} {c : Prop} {inst : Decidable c} {a b : A}
    (g : A → B) (y : B) (ha : g a = y) (hb : g b = y) : g (@ite A c inst a b) = y := by
  cases inst with
  | isFalse h => exact hb
  | isTrue h => exact ha

lemma ite_rel {A A2 : Type} {c : Prop} {inst : Decidable c} {a b : A} {a2 b2 : A2}
    (R : A → A2 → Prop) (ha : R a a2) (hb : R b b2) :
    R (@ite A c inst a b) (@ite A2 c inst a2 b2) := by
  cases inst with
  | isFalse h => exact hb
  | isTrue h => exact ha

lemma setString_snd (v : Json) (a b : String) : (setString v a).2 = (setString v b).2 := by
  cases v <;> rfl

lemma setOptString_snd (v : Json) (a b : Option String) :
    (setOptString v a).2 = (setOptString v b).2 := by
  cases v <;> rfl

lemma setOptInt_snd (v : Json) (a b : Option ℤ) : (setOptInt v a).2 = (setOptInt v b).2 := by
  cases v <;> first
    | rfl
    | exact ite_rel (fun (x y : Option ℤ × Option JsonErr) => x.2 = y.2) rfl rfl

lemma setOptNum_snd (v : Json) (a b : Option ℚ) : (setOptNum v a).2 = (setOptNum v b).2 := by
  cases v <;> rfl

lemma setNum_snd (v : Json) (a b : ℚ) : (setNum v a).2 = (setNum v b).2 := by
  cases v <;> rfl

lemma setWaypoints_snd (v : Json) (a b : List Waypoint) :
    (setWaypoints v a).2 = (setWaypoints v b).2 := by
  cases v <;> rfl

lemma stubAssign_snd (k : String) (v : Json) (a b : String) :
    (stubAssign k v a).2 = (stubAssign k v b).2 := by
  unfold stubAssign
  refine ite_rel (fun (x y : String × Option JsonErr) => x.2 = y.2) (setString_snd v _ _) ?_
  rfl

lemma foldFields_err_stay {σ : Type} (assign : String → Json → σ → σ × Option JsonErr)
    (F : List (String × Json)) (s : σ) (e : JsonErr) :
    (foldFields assign (s, some e) F).2 = some e := by
  induction F generalizing s with
  | nil => rfl
  | cons kv F ih => exact ih _

lemma foldFields_err_mono {σ : Type} (assign : String → Json → σ → σ × Option JsonErr)
    (F : List (String × Json)) (init : σ × Option JsonErr) (h : init.2.isSome = true) :
    (foldFields assign init F).2.isSome = true := by
  obtain ⟨s, e⟩ := init
  cases e with
  | none => simp at h
  | some e => rw [foldFields_err_stay]; rfl

lemma foldFields_proj {σ α : Type} (assign : String → Json → σ → σ × Option JsonErr)
    (proj : σ → α) (t : String)
    (hframe : ∀ k v s, k ≠ t → proj (assign k v s).1 = proj s)
    (F : List (String × Json)) (init : σ × Option JsonErr)
    (habs : ∀ kv ∈ F, foldKey kv.1 ≠ t) :
    proj (foldFields assign init F).1 = proj init.1 := by
  revert habs
  induction F generalizing init with
  | nil => intro _; rfl
  | cons kv F ih =>
    intro habs
    calc proj (foldFields assign
            ((assign (foldKey kv.1) kv.2 init.1).1,
              init.2 <|> (assign (foldKey kv.1) kv.2 init.1).2) F).1
        = proj (assign (foldKey kv.1) kv.2 init.1).1 :=
          ih _ (fun x hx => habs x (List.mem_cons_of_mem _ hx))
      _ = proj init.1 := hframe _ _ _ (habs kv (List.mem_cons_self _ _))

lemma foldFields_err_mem {σ : Type} (assign : String → Json → σ → σ × Option JsonErr)
    (indep : ∀ (k : String) (v : Json) (a b : σ), (assign k v a).2 = (assign k v b).2)
    (F : List (String × Json)) (kv : String × Json) (probe : σ)
    (he : (assign (foldKey kv.1) kv.2 probe).2.isSome = true)
    (init : σ × Option JsonErr) (hm : kv ∈ F) :
    (foldFields assign init F).2.isSome = true := by
  revert hm
  induction F generalizing init with
  | nil => intro hm; cases hm
  | cons a F ih =>
    intro hm
    rcases List.mem_cons.mp hm with rfl | hm2
    · refine foldFields_err_mono assign F
        ((assign (foldKey kv.1) kv.2 init.1).1,
          init.2 <|> (assign (foldKey kv.1) kv.2 init.1).2) ?_
      show (init.2 <|> (assign (foldKey kv.1) kv.2 init.1).2).isSome = true
      cases hI : init.2 with
      | some e => rfl
      | none =>
        show ((assign (foldKey kv.1) kv.2 init.1).2).isSome = true
        rw [indep _ _ init.1 probe]
        exact he
    · exact ih _ hm2

lemma stubFold_null (F : List (String × Json))
    (h : ∀ kv ∈ F, foldKey kv.1 = "type" → kv.2 = Json.null) :
    foldFields stubAssign ("", none) F = ("", none) := by
  induction F with
  | nil => rfl
  | cons kv F ih =>
    have hstep : stubAssign (foldKey kv.1) kv.2 "" = ("", none) := by
      by_cases hk : foldKey kv.1 = "type"
      · rw [h kv (List.mem_cons_self _ _) hk] at *
        simp [stubAssign, hk, setString]
      · simp [stubAssign, hk]
    have h1 := congrArg Prod.fst hstep
    have h2 := congrArg Prod.snd hstep
    simp only at h1 h2
    calc foldFields stubAssign ("", none) (kv :: F)
        = foldFields stubAssign ((stubAssign (foldKey kv.1) kv.2 "").1,
            none <|> (stubAssign (foldKey kv.1) kv.2 "").2) F := rfl
      _ = foldFields stubAssign ("", none) F := by rw [h1, h2]; rfl
      _ = ("", none) := ih (fun kv hkv => h kv (List.mem_cons_of_mem _ hkv))

lemma stringEqTokens (i : InitCommand) :
    InitCommand.String i = String.intercalate " " (initTokens i) := by
  unfold InitCommand.String initCommandString initTokens
  by_cases hL : i.Live <;> by_cases hP : i.PITR = "" <;> cases hR : i.Range <;>
    by_cases hA : i.AirportFilter = [] <;> by_cases hE : i.Events = [] <;>
    simp [hL, hP, hA, hE, hR, List.length_pos, List.append_assoc]

lemma latlongTokensLength (L : List Rectangle) :
    ((L.map (fun r => ["latlong", rectQuoted r])).flatten).length = 2 * L.length := by
  induction L with
  | nil => rfl
  | cons r L ih =>
    simp only [List.map_cons, List.flatten_cons, List.length_append, List.length_cons,
      List.length_nil]
    omega

lemma digitChar_isDigit : ∀ d, d < 10 → (Char.ofNat (48 + d)).isDigit = true := by decide

lemma pad6_length (n : ℕ) : (pad6 n).length = 6 := rfl

lemma pad6_digits (n : ℕ) : ∀ c ∈ (pad6 n).data, c.isDigit = true := by
  intro c hc
  simp only [pad6, List.mem_map, List.mem_range] at hc
  obtain ⟨j, hj, rfl⟩ := hc
  exact digitChar_isDigit _ (Nat.mod_lt _ (by norm_num))

lemma natDigitsAux_digits : ∀ (fuel n : ℕ), ∀ c ∈ natDigitsAux fuel n, c.isDigit = true := by
  intro fuel
  induction fuel with
  | zero => intro n c hc; cases hc
  | succ fuel ih =>
    intro n c hc
    unfold natDigitsAux at hc
    by_cases hn : n = 0
    · simp [hn] at hc
    · rw [if_neg hn] at hc
      rcases List.mem_append.mp hc with h1 | h2
      · exact ih _ _ h1
      · rcases List.mem_singleton.mp h2 with rfl
        exact digitChar_isDigit _ (Nat.mod_lt _ (by norm_num))

lemma natRepr_digits (n : ℕ) : ∀ c ∈ (natRepr n).data, c.isDigit = true := by
  intro c hc
  unfold natRepr at hc
  by_cases hn : n = 0
  · simp [hn] at hc
    rcases hc with rfl
    decide
  · rw [if_neg hn] at hc
    exact natDigitsAux_digits _ _ _ hc

lemma natRepr_ne_empty (n : ℕ) : natRepr n ≠ "" := by
  unfold natRepr
  by_cases hn : n = 0
  · simp [hn]
  · rw [if_neg hn]
    intro hcon
    have hnil : natDigitsAux (n + 1) n = [] := by
      have := congrArg String.data hcon
      simpa using this
    unfold natDigitsAux at hnil
    rw [if_neg hn] at hnil
    simp at hnil

/-! ## Frame lemmas: posAssign with a key other than a given json tag leaves
the corresponding field untouched (one lemma per field of the struct). -/

lemma posFrame_Type {k : String} (v : Json) (p : PositionMessage) (h : k ≠ "type") :
    ((posAssign k v p).1).«Type» = p.«Type» := by
  unfold posAssign
  rw [if_neg h]
  refine ite_frame (fun x : PositionMessage × Option JsonErr => (x.1).«Type») p.«Type» rfl ?_
  refine ite_frame (fun x : PositionMessage × Option JsonErr => (x.1).«Type») p.«Type» rfl ?_
  refine ite_frame (fun x : PositionMessage × Option JsonErr => (x.1).«Type») p.«Type» rfl ?_
  refine ite_frame (fun x : PositionMessage × Option JsonErr => (x.1).«Type») p.«Type» rfl ?_
  refine ite_frame (fun x : PositionMessage × Option JsonErr => (x.1).«Type») p.«Type» rfl ?_
  refine ite_frame (fun x : PositionMessage × Option JsonErr => (x.1).«Type») p.«Type» rfl ?_
  refine ite_frame (fun x : PositionMessage × Option JsonErr => (x.1).«Type») p.«Type» rfl ?_
  refine ite_frame (fun x : PositionMessage × Option JsonErr => (x.1).«Type») p.«Type» rfl ?_
  refine ite_frame (fun x : PositionMessage × Option JsonErr => (x.1).«Type») p.«Type» rfl ?_
  refine ite_frame (fun x : PositionMessage × Option JsonErr => (x.1).«Type») p.«Type» rfl ?_
  refine ite_frame (fun x : PositionMessage × Option JsonErr => (x.1).«Type») p.«Type» rfl ?_
  refine ite_frame (fun x : PositionMessage × Option JsonErr => (x.1).«Type») p.«Type» rfl ?_
  refine ite_frame (fun x : PositionMessage × Option JsonErr => (x.1).«Type») p.«Type» rfl ?_
  refine ite_frame (fun x : PositionMessage × Option JsonErr => (x.1).«Type») p.«Type» rfl ?_
  refine ite_frame (fun x : PositionMessage × Option JsonErr => (x.1).«Type») p.«Type» rfl ?_
  refine ite_frame (fun x : PositionMessage × Option JsonErr => (x.1).«Type») p.«Type» rfl ?_
  refine ite_frame (fun x : PositionMessage × Option JsonErr => (x.1).«Type») p.«Type» rfl ?_
  refine ite_frame (fun x : PositionMessage × Option JsonErr => (x.1).«Type») p.«Type» rfl ?_
  refine ite_frame (fun x : PositionMessage × Option JsonErr => (x.1).«Type») p.«Type» rfl ?_
  refine ite_frame (fun x : PositionMessage × Option JsonErr => (x.1).«Type») p.«Type» rfl ?_
  refine ite_frame (fun x : PositionMessage × Option JsonErr => (x.1).«Type») p.«Type» rfl ?_
  refine ite_frame (fun x : PositionMessage × Option JsonErr => (x.1).«Type») p.«Type» rfl ?_
  refine ite_frame (fun x : PositionMessage × Option JsonErr => (x.1).«Type») p.«Type» rfl ?_
  refine ite_frame (fun x : PositionMessage × Option JsonErr => (x.1).«Type») p.«Type» rfl ?_
  refine ite_frame (fun x : PositionMessage × Option JsonErr => (x.1).«Type») p.«Type» rfl ?_
  refine ite_frame (fun x : PositionMessage × Option JsonErr => (x.1).«Type») p.«Type» rfl ?_
  refine ite_frame (fun x : PositionMessage × Option JsonErr => (x.1).«Type») p.«Type» rfl ?_
  refine ite_frame (fun x : PositionMessage × Option JsonErr => (x.1).«Type») p.«Type» rfl ?_
  refine ite_frame (fun x : PositionMessage × Option JsonErr => (x.1).«Type») p.«Type» rfl ?_
  refine ite_frame (fun x : PositionMessage × Option JsonErr => (x.1).«Type») p.«Type» rfl ?_
  refine ite_frame (fun x : PositionMessage × Option JsonErr => (x.1).«Type») p.«Type» rfl ?_
  refine ite_frame (fun x : PositionMessage × Option JsonErr => (x.1).«Type») p.«Type» rfl ?_
  refine ite_frame (fun x : PositionMessage × Option JsonErr => (x.1).«Type») p.«Type» rfl ?_
  refine ite_frame (fun x : PositionMessage × Option JsonErr => (x.1).«Type») p.«Type» rfl ?_
  refine ite_frame (fun x : PositionMessage × Option JsonErr => (x.1).«Type») p.«Type» rfl ?_
  refine ite_frame (fun x : PositionMessage × Option JsonErr => (x.1).«Type») p.«Type» rfl ?_
  refine ite_frame (fun x : PositionMessage × Option JsonErr => (x.1).«Type») p.«Type» rfl ?_
  refine ite_frame (fun x : PositionMessage × Option JsonErr => (x.1).«Type») p.«Type» rfl ?_
  refine ite_frame (fun x : PositionMessage × Option JsonErr => (x.1).«Type») p.«Type» rfl ?_
  refine ite_frame (fun x : PositionMessage × Option JsonErr => (x.1).«Type») p.«Type» rfl ?_
  refine ite_frame (fun x : PositionMessage × Option JsonErr => (x.1).«Type») p.«Type» rfl ?_
  refine ite_frame (fun x : PositionMessage × Option JsonErr => (x.1).«Type») p.«Type» rfl ?_
  refine ite_frame (fun x : PositionMessage × Option JsonErr => (x.1).«Type») p.«Type» rfl ?_
  refine ite_frame (fun x : PositionMessage × Option JsonErr => (x.1).«Type») p.«Type» rfl ?_
  refine ite_frame (fun x : PositionMessage × Option JsonErr => (x.1).«Type») p.«Type» rfl ?_
  refine ite_frame (fun x : PositionMessage × Option JsonErr => (x.1).«Type») p.«Type» rfl ?_
  refine ite_frame (fun x : PositionMessage × Option JsonErr => (x.1).«Type») p.«Type» rfl ?_
  refine ite_frame (fun x : PositionMessage × Option JsonErr => (x.1).«Type») p.«Type» rfl ?_
  refine ite_frame (fun x : PositionMessage × Option JsonErr => (x.1).«Type») p.«Type» rfl ?_
  refine ite_frame (fun x : PositionMessage × Option JsonErr => (x.1).«Type») p.«Type» rfl ?_
  refine ite_frame (fun x : PositionMessage × Option JsonErr => (x.1).«Type») p.«Type» rfl ?_
  refine ite_frame (fun x : PositionMessage × Option JsonErr => (x.1).«Type») p.«Type» rfl ?_
  refine ite_frame (fun x : PositionMessage × Option JsonErr => (x.1).«Type») p.«Type» rfl ?_
  refine ite_frame (fun x : PositionMessage × Option JsonErr => (x.1).«Type») p.«Type» rfl ?_
  refine ite_frame (fun x : PositionMessage × Option JsonErr => (x.1).«Type») p.«Type» rfl ?_
  rfl

lemma posFrame_Ident {k : String} (v : Json) (p : PositionMessage) (h : k ≠ "ident") :
    ((posAssign k v p).1).Ident = p.Ident := by
  unfold posAssign
  refine ite_frame (fun x : PositionMessage × Option JsonErr => (x.1).Ident) p.Ident rfl ?_
  rw [if_neg h]
  refine ite_frame (fun x : PositionMessage × Option JsonErr => (x.1).Ident) p.Ident rfl ?_
  refine ite_frame (fun x : PositionMessage × Option JsonErr => (x.1).Ident) p.Ident rfl ?_
  refine ite_frame (fun x : PositionMessage × Option JsonErr => (x.1).Ident) p.Ident rfl ?_
  refine ite_frame (fun x : PositionMessage × Option JsonErr => (x.1).Ident) p.Ident rfl ?_
  refine ite_frame (fun x : PositionMessage × Option JsonErr => (x.1).Ident) p.Ident rfl ?_
  refine ite_frame (fun x : PositionMessage × Option JsonErr => (x.1).Ident) p.Ident rfl ?_
  refine ite_frame (fun x : PositionMessage × Option JsonErr => (x.1).Ident) p.Ident rfl ?_
  refine ite_frame (fun x : PositionMessage × Option JsonErr => (x.1).Ident) p.Ident rfl ?_
  refine ite_frame (fun x : PositionMessage × Option JsonErr => (x.1).Ident) p.Ident rfl ?_
  refine ite_frame (fun x : PositionMessage × Option JsonErr => (x.1).Ident) p.Ident rfl ?_
  refine ite_frame (fun x : PositionMessage × Option JsonErr => (x.1).Ident) p.Ident rfl ?_
  refine ite_frame (fun x : PositionMessage × Option JsonErr => (x.1).Ident) p.Ident rfl ?_
  refine ite_frame (fun x : PositionMessage × Option JsonErr => (x.1).Ident) p.Ident rfl ?_
  refine ite_frame (fun x : PositionMessage × Option JsonErr => (x.1).Ident) p.Ident rfl ?_
  refine ite_frame (fun x : PositionMessage × Option JsonErr => (x.1).Ident) p.Ident rfl ?_
  refine ite_frame (fun x : PositionMessage × Option JsonErr => (x.1).Ident) p.Ident rfl ?_
  refine ite_frame (fun x : PositionMessage × Option JsonErr => (x.1).Ident) p.Ident rfl ?_
  refine ite_frame (fun x : PositionMessage × Option JsonErr => (x.1).Ident) p.Ident rfl ?_
  refine ite_frame (fun x : PositionMessage × Option JsonErr => (x.1).Ident) p.Ident rfl ?_
  refine ite_frame (fun x : PositionMessage × Option JsonErr => (x.1).Ident) p.Ident rfl ?_
  refine ite_frame (fun x : PositionMessage × Option JsonErr => (x.1).Ident) p.Ident rfl ?_
  refine ite_frame (fun x : PositionMessage × Option JsonErr => (x.1).Ident) p.Ident rfl ?_
  refine ite_frame (fun x : PositionMessage × Option JsonErr => (x.1).Ident) p.Ident rfl ?_
  refine ite_frame (fun x : PositionMessage × Option JsonErr => (x.1).Ident) p.Ident rfl ?_
  refine ite_frame (fun x : PositionMessage × Option JsonErr => (x.1).Ident) p.Ident rfl ?_
  refine ite_frame (fun x : PositionMessage × Option JsonErr => (x.1).Ident) p.Ident rfl ?_
  refine ite_frame (fun x : PositionMessage × Option JsonErr => (x.1).Ident) p.Ident rfl ?_
  refine ite_frame (fun x : PositionMessage × Option JsonErr => (x.1).Ident) p.Ident rfl ?_
  refine ite_frame (fun x : PositionMessage × Option JsonErr => (x.1).Ident) p.Ident rfl ?_
  refine ite_frame (fun x : PositionMessage × Option JsonErr => (x.1).Ident) p.Ident rfl ?_
  refine ite_frame (fun x : PositionMessage × Option JsonErr => (x.1).Ident) p.Ident rfl ?_
  refine ite_frame (fun x : PositionMessage × Option JsonErr => (x.1).Ident) p.Ident rfl ?_
  refine ite_frame (fun x : PositionMessage × Option JsonErr => (x.1).Ident) p.Ident rfl ?_
  refine ite_frame (fun x : PositionMessage × Option JsonErr => (x.1).Ident) p.Ident rfl ?_
  refine ite_frame (fun x : PositionMessage × Option JsonErr => (x.1).Ident) p.Ident rfl ?_
  refine ite_frame (fun x : PositionMessage × Option JsonErr => (x.1).Ident) p.Ident rfl ?_
  refine ite_frame (fun x : PositionMessage × Option JsonErr => (x.1).Ident) p.Ident rfl ?_
  refine ite_frame (fun x : PositionMessage × Option JsonErr => (x.1).Ident) p.Ident rfl ?_
  refine ite_frame (fun x : PositionMessage × Option JsonErr => (x.1).Ident) p.Ident rfl ?_
  refine ite_frame (fun x : PositionMessage × Option JsonErr => (x.1).Ident) p.Ident rfl ?_
  refine ite_frame (fun x : PositionMessage × Option JsonErr => (x.1).Ident) p.Ident rfl ?_
  refine ite_frame (fun x : PositionMessage × Option JsonErr => (x.1).Ident) p.Ident rfl ?_
  refine ite_frame (fun x : PositionMessage × Option JsonErr => (x.1).Ident) p.Ident rfl ?_
  refine ite_frame (fun x : PositionMessage × Option JsonErr => (x.1).Ident) p.Ident rfl ?_
  refine ite_frame (fun x : PositionMessage × Option JsonErr => (x.1).Ident) p.Ident rfl ?_
  refine ite_frame (fun x : PositionMessage × Option JsonErr => (x.1).Ident) p.Ident rfl ?_
  refine ite_frame (fun x : PositionMessage × Option JsonErr => (x.1).Ident) p.Ident rfl ?_
  refine ite_frame (fun x : PositionMessage × Option JsonErr => (x.1).Ident) p.Ident rfl ?_
  refine ite_frame (fun x : PositionMessage × Option JsonErr => (x.1).Ident) p.Ident rfl ?_
  refine ite_frame (fun x : PositionMessage × Option JsonErr => (x.1).Ident) p.Ident rfl ?_
  refine ite_frame (fun x : PositionMessage × Option JsonErr => (x.1).Ident) p.Ident rfl ?_
  refine ite_frame (fun x : PositionMessage × Option JsonErr => (x.1).Ident) p.Ident rfl ?_
  refine ite_frame (fun x : PositionMessage × Option JsonErr => (x.1).Ident) p.Ident rfl ?_
  refine ite_frame (fun x : PositionMessage × Option JsonErr => (x.1).Ident) p.Ident rfl ?_
  rfl

lemma posFrame_Lat {k : String} (v : Json) (p : PositionMessage) (h : k ≠ "lat") :
    ((posAssign k v p).1).Lat = p.Lat := by
  unfold posAssign
  refine ite_frame (fun x : PositionMessage × Option JsonErr => (x.1).Lat) p.Lat rfl ?_
  refine ite_frame (fun x : PositionMessage × Option JsonErr => (x.1).Lat) p.Lat rfl ?_
  rw [if_neg h]
  refine ite_frame (fun x : PositionMessage × Option JsonErr => (x.1).Lat) p.Lat rfl ?_
  refine ite_frame (fun x : PositionMessage × Option JsonErr => (x.1).Lat) p.Lat rfl ?_
  refine ite_frame (fun x : PositionMessage × Option JsonErr => (x.1).Lat) p.Lat rfl ?_
  refine ite_frame (fun x : PositionMessage × Option JsonErr => (x.1).Lat) p.Lat rfl ?_
  refine ite_frame (fun x : PositionMessage × Option JsonErr => (x.1).Lat) p.Lat rfl ?_
  refine ite_frame (fun x : PositionMessage × Option JsonErr => (x.1).Lat) p.Lat rfl ?_
  refine ite_frame (fun x : PositionMessage × Option JsonErr => (x.1).Lat) p.Lat rfl ?_
  refine ite_frame (fun x : PositionMessage × Option JsonErr => (x.1).Lat) p.Lat rfl ?_
  refine ite_frame (fun x : PositionMessage × Option JsonErr => (x.1).Lat) p.Lat rfl ?_
  refine ite_frame (fun x : PositionMessage × Option JsonErr => (x.1).Lat) p.Lat rfl ?_
  refine ite_frame (fun x : PositionMessage × Option JsonErr => (x.1).Lat) p.Lat rfl ?_
  refine ite_frame (fun x : PositionMessage × Option JsonErr => (x.1).Lat) p.Lat rfl ?_
  refine ite_frame (fun x : PositionMessage × Option JsonErr => (x.1).Lat) p.Lat rfl ?_
  refine ite_frame (fun x : PositionMessage × Option JsonErr => (x.1).Lat) p.Lat rfl ?_
  refine ite_frame (fun x : PositionMessage × Option JsonErr => (x.1).Lat) p.Lat rfl ?_
  refine ite_frame (fun x : PositionMessage × Option JsonErr => (x.1).Lat) p.Lat rfl ?_
  refine ite_frame (fun x : PositionMessage × Option JsonErr => (x.1).Lat) p.Lat rfl ?_
  refine ite_frame (fun x : PositionMessage × Option JsonErr => (x.1).Lat) p.Lat rfl ?_
  refine ite_frame (fun x : PositionMessage × Option JsonErr => (x.1).Lat) p.Lat rfl ?_
  refine ite_frame (fun x : PositionMessage × Option JsonErr => (x.1).Lat) p.Lat rfl ?_
  refine ite_frame (fun x : PositionMessage × Option JsonErr => (x.1).Lat) p.Lat rfl ?_
  refine ite_frame (fun x : PositionMessage × Option JsonErr => (x.1).Lat) p.Lat rfl ?_
  refine ite_frame (fun x : PositionMessage × Option JsonErr => (x.1).Lat) p.Lat rfl ?_
  refine ite_frame (fun x : PositionMessage × Option JsonErr => (x.1).Lat) p.Lat rfl ?_
  refine ite_frame (fun x : PositionMessage × Option JsonErr => (x.1).Lat) p.Lat rfl ?_
  refine ite_frame (fun x : PositionMessage × Option JsonErr => (x.1).Lat) p.Lat rfl ?_
  refine ite_frame (fun x : PositionMessage × Option JsonErr => (x.1).Lat) p.Lat rfl ?_
  refine ite_frame (fun x : PositionMessage × Option JsonErr => (x.1).Lat) p.Lat rfl ?_
  refine ite_frame (fun x : PositionMessage × Option JsonErr => (x.1).Lat) p.Lat rfl ?_
  refine ite_frame (fun x : PositionMessage × Option JsonErr => (x.1).Lat) p.Lat rfl ?_
  refine ite_frame (fun x : PositionMessage × Option JsonErr => (x.1).Lat) p.Lat rfl ?_
  refine ite_frame (fun x : PositionMessage × Option JsonErr => (x.1).Lat) p.Lat rfl ?_
  refine ite_frame (fun x : PositionMessage × Option JsonErr => (x.1).Lat) p.Lat rfl ?_
  refine ite_frame (fun x : PositionMessage × Option JsonErr => (x.1).Lat) p.Lat rfl ?_
  refine ite_frame (fun x : PositionMessage × Option JsonErr => (x.1).Lat) p.Lat rfl ?_
  refine ite_frame (fun x : PositionMessage × Option JsonErr => (x.1).Lat) p.Lat rfl ?_
  refine ite_frame (fun x : PositionMessage × Option JsonErr => (x.1).Lat) p.Lat rfl ?_
  refine ite_frame (fun x : PositionMessage × Option JsonErr => (x.1).Lat) p.Lat rfl ?_
  refine ite_frame (fun x : PositionMessage × Option JsonErr => (x.1).Lat) p.Lat rfl ?_
  refine ite_frame (fun x : PositionMessage × Option JsonErr => (x.1).Lat) p.Lat rfl ?_
  refine ite_frame (fun x : PositionMessage × Option JsonErr => (x.1).Lat) p.Lat rfl ?_
  refine ite_frame (fun x : PositionMessage × Option JsonErr => (x.1).Lat) p.Lat rfl ?_
  refine ite_frame (fun x : PositionMessage × Option JsonErr => (x.1).Lat) p.Lat rfl ?_
  refine ite_frame (fun x : PositionMessage × Option JsonErr => (x.1).Lat) p.Lat rfl ?_
  refine ite_frame (fun x : PositionMessage × Option JsonErr => (x.1).Lat) p.Lat rfl ?_
  refine ite_frame (fun x : PositionMessage × Option JsonErr => (x.1).Lat) p.Lat rfl ?_
  refine ite_frame (fun x : PositionMessage × Option JsonErr => (x.1).Lat) p.Lat rfl ?_
  refine ite_frame (fun x : PositionMessage × Option JsonErr => (x.1).Lat) p.Lat rfl ?_
  refine ite_frame (fun x : PositionMessage × Option JsonErr => (x.1).Lat) p.Lat rfl ?_
  refine ite_frame (fun x : PositionMessage × Option JsonErr => (x.1).Lat) p.Lat rfl ?_
  refine ite_frame (fun x : PositionMessage × Option JsonErr => (x.1).Lat) p.Lat rfl ?_
  refine ite_frame (fun x : PositionMessage × Option JsonErr => (x.1).Lat) p.Lat rfl ?_
  refine ite_frame (fun x : PositionMessage × Option JsonErr => (x.1).Lat) p.Lat rfl ?_
  rfl

lemma posFrame_Lon {k : String} (v : Json) (p : PositionMessage) (h : k ≠ "lon") :
    ((posAssign k v p).1).Lon = p.Lon := by
  unfold posAssign
  refine ite_frame (fun x : PositionMessage × Option JsonErr => (x.1).Lon) p.Lon rfl ?_
  refine ite_frame (fun x : PositionMessage × Option JsonErr => (x.1).Lon) p.Lon rfl ?_
  refine ite_frame (fun x : PositionMessage × Option JsonErr => (x.1).Lon) p.Lon rfl ?_
  rw [if_neg h]
  refine ite_frame (fun x : PositionMessage × Option JsonErr => (x.1).Lon) p.Lon rfl ?_
  refine ite_frame (fun x : PositionMessage × Option JsonErr => (x.1).Lon) p.Lon rfl ?_
  refine ite_frame (fun x : PositionMessage × Option JsonErr => (x.1).Lon) p.Lon rfl ?_
  refine ite_frame (fun x : PositionMessage × Option JsonErr => (x.1).Lon) p.Lon rfl ?_
  refine ite_frame (fun x : PositionMessage × Option JsonErr => (x.1).Lon) p.Lon rfl ?_
  refine ite_frame (fun x : PositionMessage × Option JsonErr => (x.1).Lon) p.Lon rfl ?_
  refine ite_frame (fun x : PositionMessage × Option JsonErr => (x.1).Lon) p.Lon rfl ?_
  refine ite_frame (fun x : PositionMessage × Option JsonErr => (x.1).Lon) p.Lon rfl ?_
  refine ite_frame (fun x : PositionMessage × Option JsonErr => (x.1).Lon) p.Lon rfl ?_
  refine ite_frame (fun x : PositionMessage × Option JsonErr => (x.1).Lon) p.Lon rfl ?_
  refine ite_frame (fun x : PositionMessage × Option JsonErr => (x.1).Lon) p.Lon rfl ?_
  refine ite_frame (fun x : PositionMessage × Option JsonErr => (x.1).Lon) p.Lon rfl ?_
  refine ite_frame (fun x : PositionMessage × Option JsonErr => (x.1).Lon) p.Lon rfl ?_
  refine ite_frame (fun x : PositionMessage × Option JsonErr => (x.1).Lon) p.Lon rfl ?_
  refine ite_frame (fun x : PositionMessage × Option JsonErr => (x.1).Lon) p.Lon rfl ?_
  refine ite_frame (fun x : PositionMessage × Option JsonErr => (x.1).Lon) p.Lon rfl ?_
  refine ite_frame (fun x : PositionMessage × Option JsonErr => (x.1).Lon) p.Lon rfl ?_
  refine ite_frame (fun x : PositionMessage × Option JsonErr => (x.1).Lon) p.Lon rfl ?_
  refine ite_frame (fun x : PositionMessage × Option JsonErr => (x.1).Lon) p.Lon rfl ?_
  refine ite_frame (fun x : PositionMessage × Option JsonErr => (x.1).Lon) p.Lon rfl ?_
  refine ite_frame (fun x : PositionMessage × Option JsonErr => (x.1).Lon) p.Lon rfl ?_
  refine ite_frame (fun x : PositionMessage × Option JsonErr => (x.1).Lon) p.Lon rfl ?_
  refine ite_frame (fun x : PositionMessage × Option JsonErr => (x.1).Lon) p.Lon rfl ?_
  refine ite_frame (fun x : PositionMessage × Option JsonErr => (x.1).Lon) p.Lon rfl ?_
  refine ite_frame (fun x : PositionMessage × Option JsonErr => (x.1).Lon) p.Lon rfl ?_
  refine ite_frame (fun x : PositionMessage × Option JsonErr => (x.1).Lon) p.Lon rfl ?_
  refine ite_frame (fun x : PositionMessage × Option JsonErr => (x.1).Lon) p.Lon rfl ?_
  refine ite_frame (fun x : PositionMessage × Option JsonErr => (x.1).Lon) p.Lon rfl ?_
  refine ite_frame (fun x : PositionMessage × Option JsonErr => (x.1).Lon) p.Lon rfl ?_
  refine ite_frame (fun x : PositionMessage × Option JsonErr => (x.1).Lon) p.Lon rfl ?_
  refine ite_frame (fun x : PositionMessage × Option JsonErr => (x.1).Lon) p.Lon rfl ?_
  refine ite_frame (fun x : PositionMessage × Option JsonErr => (x.1).Lon) p.Lon rfl ?_
  refine ite_frame (fun x : PositionMessage × Option JsonErr => (x.1).Lon) p.Lon rfl ?_
  refine ite_frame (fun x : PositionMessage × Option JsonErr => (x.1).Lon) p.Lon rfl ?_
  refine ite_frame (fun x : PositionMessage × Option JsonErr => (x.1).Lon) p.Lon rfl ?_
  refine ite_frame (fun x : PositionMessage × Option JsonErr => (x.1).Lon) p.Lon rfl ?_
  refine ite_frame (fun x : PositionMessage × Option JsonErr => (x.1).Lon) p.Lon rfl ?_
  refine ite_frame (fun x : PositionMessage × Option JsonErr => (x.1).Lon) p.Lon rfl ?_
  refine ite_frame (fun x : PositionMessage × Option JsonErr => (x.1).Lon) p.Lon rfl ?_
  refine ite_frame (fun x : PositionMessage × Option JsonErr => (x.1).Lon) p.Lon rfl ?_
  refine ite_frame (fun x : PositionMessage × Option JsonErr => (x.1).Lon) p.Lon rfl ?_
  refine ite_frame (fun x : PositionMessage × Option JsonErr => (x.1).Lon) p.Lon rfl ?_
  refine ite_frame (fun x : PositionMessage × Option JsonErr => (x.1).Lon) p.Lon rfl ?_
  refine ite_frame (fun x : PositionMessage × Option JsonErr => (x.1).Lon) p.Lon rfl ?_
  refine ite_frame (fun x : PositionMessage × Option JsonErr => (x.1).Lon) p.Lon rfl ?_
  refine ite_frame (fun x : PositionMessage × Option JsonErr => (x.1).Lon) p.Lon rfl ?_
  refine ite_frame (fun x : PositionMessage × Option JsonErr => (x.1).Lon) p.Lon rfl ?_
  refine ite_frame (fun x : PositionMessage × Option JsonErr => (x.1).Lon) p.Lon rfl ?_
  refine ite_frame (fun x : PositionMessage × Option JsonErr => (x.1).Lon) p.Lon rfl ?_
  refine ite_frame (fun x : PositionMessage × Option JsonErr => (x.1).Lon) p.Lon rfl ?_
  refine ite_frame (fun x : PositionMessage × Option JsonErr => (x.1).Lon) p.Lon rfl ?_
  refine ite_frame (fun x : PositionMessage × Option JsonErr => (x.1).Lon) p.Lon rfl ?_
  rfl

lemma posFrame_Clock {k : String} (v : Json) (p : PositionMessage) (h : k ≠ "clock") :
    ((posAssign k v p).1).Clock = p.Clock := by
  unfold posAssign
  refine ite_frame (fun x : PositionMessage × Option JsonErr => (x.1).Clock) p.Clock rfl ?_
  refine ite_frame (fun x : PositionMessage × Option JsonErr => (x.1).Clock) p.Clock rfl ?_
  refine ite_frame (fun x : PositionMessage × Option JsonErr => (x.1).Clock) p.Clock rfl ?_
  refine ite_frame (fun x : PositionMessage × Option JsonErr => (x.1).Clock) p.Clock rfl ?_
  rw [if_neg h]
  refine ite_frame (fun x : PositionMessage × Option JsonErr => (x.1).Clock) p.Clock rfl ?_
  refine ite_frame (fun x : PositionMessage × Option JsonErr => (x.1).Clock) p.Clock rfl ?_
  refine ite_frame (fun x : PositionMessage × Option JsonErr => (x.1).Clock) p.Clock rfl ?_
  refine ite_frame (fun x : PositionMessage × Option JsonErr => (x.1).Clock) p.Clock rfl ?_
  refine ite_frame (fun x : PositionMessage × Option JsonErr => (x.1).Clock) p.Clock rfl ?_
  refine ite_frame (fun x : PositionMessage × Option JsonErr => (x.1).Clock) p.Clock rfl ?_
  refine ite_frame (fun x : PositionMessage × Option JsonErr => (x.1).Clock) p.Clock rfl ?_
  refine ite_frame (fun x : PositionMessage × Option JsonErr => (x.1).Clock) p.Clock rfl ?_
  refine ite_frame (fun x : PositionMessage × Option JsonErr => (x.1).Clock) p.Clock rfl ?_
  refine ite_frame (fun x : PositionMessage × Option JsonErr => (x.1).Clock) p.Clock rfl ?_
  refine ite_frame (fun x : PositionMessage × Option JsonErr => (x.1).Clock) p.Clock rfl ?_
  refine ite_frame (fun x : PositionMessage × Option JsonErr => (x.1).Clock) p.Clock rfl ?_
  refine ite_frame (fun x : PositionMessage × Option JsonErr => (x.1).Clock) p.Clock rfl ?_
  refine ite_frame (fun x : PositionMessage × Option JsonErr => (x.1).Clock) p.Clock rfl ?_
  refine ite_frame (fun x : PositionMessage × Option JsonErr => (x.1).Clock) p.Clock rfl ?_
  refine ite_frame (fun x : PositionMessage × Option JsonErr => (x.1).Clock) p.Clock rfl ?_
  refine ite_frame (fun x : PositionMessage × Option JsonErr => (x.1).Clock) p.Clock rfl ?_
  refine ite_frame (fun x : PositionMessage × Option JsonErr => (x.1).Clock) p.Clock rfl ?_
  refine ite_frame (fun x : PositionMessage × Option JsonErr => (x.1).Clock) p.Clock rfl ?_
  refine ite_frame (fun x : PositionMessage × Option JsonErr => (x.1).Clock) p.Clock rfl ?_
  refine ite_frame (fun x : PositionMessage × Option JsonErr => (x.1).Clock) p.Clock rfl ?_
  refine ite_frame (fun x : PositionMessage × Option JsonErr => (x.1).Clock) p.Clock rfl ?_
  refine ite_frame (fun x : PositionMessage × Option JsonErr => (x.1).Clock) p.Clock rfl ?_
  refine ite_frame (fun x : PositionMessage × Option JsonErr => (x.1).Clock) p.Clock rfl ?_
  refine ite_frame (fun x : PositionMessage × Option JsonErr => (x.1).Clock) p.Clock rfl ?_
  refine ite_frame (fun x : PositionMessage × Option JsonErr => (x.1).Clock) p.Clock rfl ?_
  refine ite_frame (fun x : PositionMessage × Option JsonErr => (x.1).Clock) p.Clock rfl ?_
  refine ite_frame (fun x : PositionMessage × Option JsonErr => (x.1).Clock) p.Clock rfl ?_
  refine ite_frame (fun x : PositionMessage × Option JsonErr => (x.1).Clock) p.Clock rfl ?_
  refine ite_frame (fun x : PositionMessage × Option JsonErr => (x.1).Clock) p.Clock rfl ?_
  refine ite_frame (fun x : PositionMessage × Option JsonErr => (x.1).Clock) p.Clock rfl ?_
  refine ite_frame (fun x : PositionMessage × Option JsonErr => (x.1).Clock) p.Clock rfl ?_
  refine ite_frame (fun x : PositionMessage × Option JsonErr => (x.1).Clock) p.Clock rfl ?_
  refine ite_frame (fun x : PositionMessage × Option JsonErr => (x.1).Clock) p.Clock rfl ?_
  refine ite_frame (fun x : PositionMessage × Option JsonErr => (x.1).Clock) p.Clock rfl ?_
  refine ite_frame (fun x : PositionMessage × Option JsonErr => (x.1).Clock) p.Clock rfl ?_
  refine ite_frame (fun x : PositionMessage × Option JsonErr => (x.1).Clock) p.Clock rfl ?_
  refine ite_frame (fun x : PositionMessage × Option JsonErr => (x.1).Clock) p.Clock rfl ?_
  refine ite_frame (fun x : PositionMessage × Option JsonErr => (x.1).Clock) p.Clock rfl ?_
  refine ite_frame (fun x : PositionMessage × Option JsonErr => (x.1).Clock) p.Clock rfl ?_
  refine ite_frame (fun x : PositionMessage × Option JsonErr => (x.1).Clock) p.Clock rfl ?_
  refine ite_frame (fun x : PositionMessage × Option JsonErr => (x.1).Clock) p.Clock rfl ?_
  refine ite_frame (fun x : PositionMessage × Option JsonErr => (x.1).Clock) p.Clock rfl ?_
  refine ite_frame (fun x : PositionMessage × Option JsonErr => (x.1).Clock) p.Clock rfl ?_
  refine ite_frame (fun x : PositionMessage × Option JsonErr => (x.1).Clock) p.Clock rfl ?_
  refine ite_frame (fun x : PositionMessage × Option JsonErr => (x.1).Clock) p.Clock rfl ?_
  refine ite_frame (fun x : PositionMessage × Option JsonErr => (x.1).Clock) p.Clock rfl ?_
  refine ite_frame (fun x : PositionMessage × Option JsonErr => (x.1).Clock) p.Clock rfl ?_
  refine ite_frame (fun x : PositionMessage × Option JsonErr => (x.1).Clock) p.Clock rfl ?_
  refine ite_frame (fun x : PositionMessage × Option JsonErr => (x.1).Clock) p.Clock rfl ?_
  refine ite_frame (fun x : PositionMessage × Option JsonErr => (x.1).Clock) p.Clock rfl ?_
  rfl

lemma posFrame_ID {k : String} (v : Json) (p : PositionMessage) (h : k ≠ "id") :
    ((posAssign k v p).1).ID = p.ID := by
  unfold posAssign
  refine ite_frame (fun x : PositionMessage × Option JsonErr => (x.1).ID) p.ID rfl ?_
  refine ite_frame (fun x : PositionMessage × Option JsonErr => (x.1).ID) p.ID rfl ?_
  refine ite_frame (fun x : PositionMessage × Option JsonErr => (x.1).ID) p.ID rfl ?_
  refine ite_frame (fun x : PositionMessage × Option JsonErr => (x.1).ID) p.ID rfl ?_
  refine ite_frame (fun x : PositionMessage × Option JsonErr => (x.1).ID) p.ID rfl ?_
  rw [if_neg h]
  refine ite_frame (fun x : PositionMessage × Option JsonErr => (x.1).ID) p.ID rfl ?_
  refine ite_frame (fun x : PositionMessage × Option JsonErr => (x.1).ID) p.ID rfl ?_
  refine ite_frame (fun x : PositionMessage × Option JsonErr => (x.1).ID) p.ID rfl ?_
  refine ite_frame (fun x : PositionMessage × Option JsonErr => (x.1).ID) p.ID rfl ?_
  refine ite_frame (fun x : PositionMessage × Option JsonErr => (x.1).ID) p.ID rfl ?_
  refine ite_frame (fun x : PositionMessage × Option JsonErr => (x.1).ID) p.ID rfl ?_
  refine ite_frame (fun x : PositionMessage × Option JsonErr => (x.1).ID) p.ID rfl ?_
  refine ite_frame (fun x : PositionMessage × Option JsonErr => (x.1).ID) p.ID rfl ?_
  refine ite_frame (fun x : PositionMessage × Option JsonErr => (x.1).ID) p.ID rfl ?_
  refine ite_frame (fun x : PositionMessage × Option JsonErr => (x.1).ID) p.ID rfl ?_
  refine ite_frame (fun x : PositionMessage × Option JsonErr => (x.1).ID) p.ID rfl ?_
  refine ite_frame (fun x : PositionMessage × Option JsonErr => (x.1).ID) p.ID rfl ?_
  refine ite_frame (fun x : PositionMessage × Option JsonErr => (x.1).ID) p.ID rfl ?_
  refine ite_frame (fun x : PositionMessage × Option JsonErr => (x.1).ID) p.ID rfl ?_
  refine ite_frame (fun x : PositionMessage × Option JsonErr => (x.1).ID) p.ID rfl ?_
  refine ite_frame (fun x : PositionMessage × Option JsonErr => (x.1).ID) p.ID rfl ?_
  refine ite_frame (fun x : PositionMessage × Option JsonErr => (x.1).ID) p.ID rfl ?_
  refine ite_frame (fun x : PositionMessage × Option JsonErr => (x.1).ID) p.ID rfl ?_
  refine ite_frame (fun x : PositionMessage × Option JsonErr => (x.1).ID) p.ID rfl ?_
  refine ite_frame (fun x : PositionMessage × Option JsonErr => (x.1).ID) p.ID rfl ?_
  refine ite_frame (fun x : PositionMessage × Option JsonErr => (x.1).ID) p.ID rfl ?_
  refine ite_frame (fun x : PositionMessage × Option JsonErr => (x.1).ID) p.ID rfl ?_
  refine ite_frame (fun x : PositionMessage × Option JsonErr => (x.1).ID) p.ID rfl ?_
  refine ite_frame (fun x : PositionMessage × Option JsonErr => (x.1).ID) p.ID rfl ?_
  refine ite_frame (fun x : PositionMessage × Option JsonErr => (x.1).ID) p.ID rfl ?_
  refine ite_frame (fun x : PositionMessage × Option JsonErr => (x.1).ID) p.ID rfl ?_
  refine ite_frame (fun x : PositionMessage × Option JsonErr => (x.1).ID) p.ID rfl ?_
  refine ite_frame (fun x : PositionMessage × Option JsonErr => (x.1).ID) p.ID rfl ?_
  refine ite_frame (fun x : PositionMessage × Option JsonErr => (x.1).ID) p.ID rfl ?_
  refine ite_frame (fun x : PositionMessage × Option JsonErr => (x.1).ID) p.ID rfl ?_
  refine ite_frame (fun x : PositionMessage × Option JsonErr => (x.1).ID) p.ID rfl ?_
  refine ite_frame (fun x : PositionMessage × Option JsonErr => (x.1).ID) p.ID rfl ?_
  refine ite_frame (fun x : PositionMessage × Option JsonErr => (x.1).ID) p.ID rfl ?_
  refine ite_frame (fun x : PositionMessage × Option JsonErr => (x.1).ID) p.ID rfl ?_
  refine ite_frame (fun x : PositionMessage × Option JsonErr => (x.1).ID) p.ID rfl ?_
  refine ite_frame (fun x : PositionMessage × Option JsonErr => (x.1).ID) p.ID rfl ?_
  refine ite_frame (fun x : PositionMessage × Option JsonErr => (x.1).ID) p.ID rfl ?_
  refine ite_frame (fun x : PositionMessage × Option JsonErr => (x.1).ID) p.ID rfl ?_
  refine ite_frame (fun x : PositionMessage × Option JsonErr => (x.1).ID) p.ID rfl ?_
  refine ite_frame (fun x : PositionMessage × Option JsonErr => (x.1).ID) p.ID rfl ?_
  refine ite_frame (fun x : PositionMessage × Option JsonErr => (x.1).ID) p.ID rfl ?_
  refine ite_frame (fun x : PositionMessage × Option JsonErr => (x.1).ID) p.ID rfl ?_
  refine ite_frame (fun x : PositionMessage × Option JsonErr => (x.1).ID) p.ID rfl ?_
  refine ite_frame (fun x : PositionMessage × Option JsonErr => (x.1).ID) p.ID rfl ?_
  refine ite_frame (fun x : PositionMessage × Option JsonErr => (x.1).ID) p.ID rfl ?_
  refine ite_frame (fun x : PositionMessage × Option JsonErr => (x.1).ID) p.ID rfl ?_
  refine ite_frame (fun x : PositionMessage × Option JsonErr => (x.1).ID) p.ID rfl ?_
  refine ite_frame (fun x : PositionMessage × Option JsonErr => (x.1).ID) p.ID rfl ?_
  refine ite_frame (fun x : PositionMessage × Option JsonErr => (x.1).ID) p.ID rfl ?_
  refine ite_frame (fun x : PositionMessage × Option JsonErr => (x.1).ID) p.ID rfl ?_
  rfl

lemma posFrame_UpdateType {k : String} (v : Json) (p : PositionMessage) (h : k ≠ "updatetype") :
    ((posAssign k v p).1).UpdateType = p.UpdateType := by
  unfold posAssign
  refine ite_frame (fun x : PositionMessage × Option JsonErr => (x.1).UpdateType) p.UpdateType rfl ?_
  refine ite_frame (fun x : PositionMessage × Option JsonErr => (x.1).UpdateType) p.UpdateType rfl ?_
  refine ite_frame (fun x : PositionMessage × Option JsonErr => (x.1).UpdateType) p.UpdateType rfl ?_
  refine ite_frame (fun x : PositionMessage × Option JsonErr => (x.1).UpdateType) p.UpdateType rfl ?_
  refine ite_frame (fun x : PositionMessage × Option JsonErr => (x.1).UpdateType) p.UpdateType rfl ?_
  refine ite_frame (fun x : PositionMessage × Option JsonErr => (x.1).UpdateType) p.UpdateType rfl ?_
  rw [if_neg h]
  refine ite_frame (fun x : PositionMessage × Option JsonErr => (x.1).UpdateType) p.UpdateType rfl ?_
  refine ite_frame (fun x : PositionMessage × Option JsonErr => (x.1).UpdateType) p.UpdateType rfl ?_
  refine ite_frame (fun x : PositionMessage × Option JsonErr => (x.1).UpdateType) p.UpdateType rfl ?_
  refine ite_frame (fun x : PositionMessage × Option JsonErr => (x.1).UpdateType) p.UpdateType rfl ?_
  refine ite_frame (fun x : PositionMessage × Option JsonErr => (x.1).UpdateType) p.UpdateType rfl ?_
  refine ite_frame (fun x : PositionMessage × Option JsonErr => (x.1).UpdateType) p.UpdateType rfl ?_
  refine ite_frame (fun x : PositionMessage × Option JsonErr => (x.1).UpdateType) p.UpdateType rfl ?_
  refine ite_frame (fun x : PositionMessage × Option JsonErr => (x.1).UpdateType) p.UpdateType rfl ?_
  refine ite_frame (fun x : PositionMessage × Option JsonErr => (x.1).UpdateType) p.UpdateType rfl ?_
  refine ite_frame (fun x : PositionMessage × Option JsonErr => (x.1).UpdateType) p.UpdateType rfl ?_
  refine ite_frame (fun x : PositionMessage × Option JsonErr => (x.1).UpdateType) p.UpdateType rfl ?_
  refine ite_frame (fun x : PositionMessage × Option JsonErr => (x.1).UpdateType) p.UpdateType rfl ?_
  refine ite_frame (fun x : PositionMessage × Option JsonErr => (x.1).UpdateType) p.UpdateType rfl ?_
  refine ite_frame (fun x : PositionMessage × Option JsonErr => (x.1).UpdateType) p.UpdateType rfl ?_
  refine ite_frame (fun x : PositionMessage × Option JsonErr => (x.1).UpdateType) p.UpdateType rfl ?_
  refine ite_frame (fun x : PositionMessage × Option JsonErr => (x.1).UpdateType) p.UpdateType rfl ?_
  refine ite_frame (fun x : PositionMessage × Option JsonErr => (x.1).UpdateType) p.UpdateType rfl ?_
  refine ite_frame (fun x : PositionMessage × Option JsonErr => (x.1).UpdateType) p.UpdateType rfl ?_
  refine ite_frame (fun x : PositionMessage × Option JsonErr => (x.1).UpdateType) p.UpdateType rfl ?_
  refine ite_frame (fun x : PositionMessage × Option JsonErr => (x.1).UpdateType) p.UpdateType rfl ?_
  refine ite_frame (fun x : PositionMessage × Option JsonErr => (x.1).UpdateType) p.UpdateType rfl ?_
  refine ite_frame (fun x : PositionMessage × Option JsonErr => (x.1).UpdateType) p.UpdateType rfl ?_
  refine ite_frame (fun x : PositionMessage × Option JsonErr => (x.1).UpdateType) p.UpdateType rfl ?_
  refine ite_frame (fun x : PositionMessage × Option JsonErr => (x.1).UpdateType) p.UpdateType rfl ?_
  refine ite_frame (fun x : PositionMessage × Option JsonErr => (x.1).UpdateType) p.UpdateType rfl ?_
  refine ite_frame (fun x : PositionMessage × Option JsonErr => (x.1).UpdateType) p.UpdateType rfl ?_
  refine ite_frame (fun x : PositionMessage × Option JsonErr => (x.1).UpdateType) p.UpdateType rfl ?_
  refine ite_frame (fun x : PositionMessage × Option JsonErr => (x.1).UpdateType) p.UpdateType rfl ?_
  refine ite_frame (fun x : PositionMessage × Option JsonErr => (x.1).UpdateType) p.UpdateType rfl ?_
  refine ite_frame (fun x : PositionMessage × Option JsonErr => (x.1).UpdateType) p.UpdateType rfl ?_
  refine ite_frame (fun x : PositionMessage × Option JsonErr => (x.1).UpdateType) p.UpdateType rfl ?_
  refine ite_frame (fun x : PositionMessage × Option JsonErr => (x.1).UpdateType) p.UpdateType rfl ?_
  refine ite_frame (fun x : PositionMessage × Option JsonErr => (x.1).UpdateType) p.UpdateType rfl ?_
  refine ite_frame (fun x : PositionMessage × Option JsonErr => (x.1).UpdateType) p.UpdateType rfl ?_
  refine ite_frame (fun x : PositionMessage × Option JsonErr => (x.1).UpdateType) p.UpdateType rfl ?_
  refine ite_frame (fun x : PositionMessage × Option JsonErr => (x.1).UpdateType) p.UpdateType rfl ?_
  refine ite_frame (fun x : PositionMessage × Option JsonErr => (x.1).UpdateType) p.UpdateType rfl ?_
  refine ite_frame (fun x : PositionMessage × Option JsonErr => (x.1).UpdateType) p.UpdateType rfl ?_
  refine ite_frame (fun x : PositionMessage × Option JsonErr => (x.1).UpdateType) p.UpdateType rfl ?_
  refine ite_frame (fun x : PositionMessage × Option JsonErr => (x.1).UpdateType) p.UpdateType rfl ?_
  refine ite_frame (fun x : PositionMessage × Option JsonErr => (x.1).UpdateType) p.UpdateType rfl ?_
  refine ite_frame (fun x : PositionMessage × Option JsonErr => (x.1).UpdateType) p.UpdateType rfl ?_
  refine ite_frame (fun x : PositionMessage × Option JsonErr => (x.1).UpdateType) p.UpdateType rfl ?_
  refine ite_frame (fun x : PositionMessage × Option JsonErr => (x.1).UpdateType) p.UpdateType rfl ?_
  refine ite_frame (fun x : PositionMessage × Option JsonErr => (x.1).UpdateType) p.UpdateType rfl ?_
  refine ite_frame (fun x : PositionMessage × Option JsonErr => (x.1).UpdateType) p.UpdateType rfl ?_
  refine ite_frame (fun x : PositionMessage × Option JsonErr => (x.1).UpdateType) p.UpdateType rfl ?_
  refine ite_frame (fun x : PositionMessage × Option JsonErr => (x.1).UpdateType) p.UpdateType rfl ?_
  refine ite_frame (fun x : PositionMessage × Option JsonErr => (x.1).UpdateType) p.UpdateType rfl ?_
  rfl

lemma posFrame_AirGround {k : String} (v : Json) (p : PositionMessage) (h : k ≠ "air_ground") :
    ((posAssign k v p).1).AirGround = p.AirGround := by
  unfold posAssign
  refine ite_frame (fun x : PositionMessage × Option JsonErr => (x.1).AirGround) p.AirGround rfl ?_
  refine ite_frame (fun x : PositionMessage × Option JsonErr => (x.1).AirGround) p.AirGround rfl ?_
  refine ite_frame (fun x : PositionMessage × Option JsonErr => (x.1).AirGround) p.AirGround rfl ?_
  refine ite_frame (fun x : PositionMessage × Option JsonErr => (x.1).AirGround) p.AirGround rfl ?_
  refine ite_frame (fun x : PositionMessage × Option JsonErr => (x.1).AirGround) p.AirGround rfl ?_
  refine ite_frame (fun x : PositionMessage × Option JsonErr => (x.1).AirGround) p.AirGround rfl ?_
  refine ite_frame (fun x : PositionMessage × Option JsonErr => (x.1).AirGround) p.AirGround rfl ?_
  rw [if_neg h]
  refine ite_frame (fun x : PositionMessage × Option JsonErr => (x.1).AirGround) p.AirGround rfl ?_
  refine ite_frame (fun x : PositionMessage × Option JsonErr => (x.1).AirGround) p.AirGround rfl ?_
  refine ite_frame (fun x : PositionMessage × Option JsonErr => (x.1).AirGround) p.AirGround rfl ?_
  refine ite_frame (fun x : PositionMessage × Option JsonErr => (x.1).AirGround) p.AirGround rfl ?_
  refine ite_frame (fun x : PositionMessage × Option JsonErr => (x.1).AirGround) p.AirGround rfl ?_
  refine ite_frame (fun x : PositionMessage × Option JsonErr => (x.1).AirGround) p.AirGround rfl ?_
  refine ite_frame (fun x : PositionMessage × Option JsonErr => (x.1).AirGround) p.AirGround rfl ?_
  refine ite_frame (fun x : PositionMessage × Option JsonErr => (x.1).AirGround) p.AirGround rfl ?_
  refine ite_frame (fun x : PositionMessage × Option JsonErr => (x.1).AirGround) p.AirGround rfl ?_
  refine ite_frame (fun x : PositionMessage × Option JsonErr => (x.1).AirGround) p.AirGround rfl ?_
  refine ite_frame (fun x : PositionMessage × Option JsonErr => (x.1).AirGround) p.AirGround rfl ?_
  refine ite_frame (fun x : PositionMessage × Option JsonErr => (x.1).AirGround) p.AirGround rfl ?_
  refine ite_frame (fun x : PositionMessage × Option JsonErr => (x.1).AirGround) p.AirGround rfl ?_
  refine ite_frame (fun x : PositionMessage × Option JsonErr => (x.1).AirGround) p.AirGround rfl ?_
  refine ite_frame (fun x : PositionMessage × Option JsonErr => (x.1).AirGround) p.AirGround rfl ?_
  refine ite_frame (fun x : PositionMessage × Option JsonErr => (x.1).AirGround) p.AirGround rfl ?_
  refine ite_frame (fun x : PositionMessage × Option JsonErr => (x.1).AirGround) p.AirGround rfl ?_
  refine ite_frame (fun x : PositionMessage × Option JsonErr => (x.1).AirGround) p.AirGround rfl ?_
  refine ite_frame (fun x : PositionMessage × Option JsonErr => (x.1).AirGround) p.AirGround rfl ?_
  refine ite_frame (fun x : PositionMessage × Option JsonErr => (x.1).AirGround) p.AirGround rfl ?_
  refine ite_frame (fun x : PositionMessage × Option JsonErr => (x.1).AirGround) p.AirGround rfl ?_
  refine ite_frame (fun x : PositionMessage × Option JsonErr => (x.1).AirGround) p.AirGround rfl ?_
  refine ite_frame (fun x : PositionMessage × Option JsonErr => (x.1).AirGround) p.AirGround rfl ?_
  refine ite_frame (fun x : PositionMessage × Option JsonErr => (x.1).AirGround) p.AirGround rfl ?_
  refine ite_frame (fun x : PositionMessage × Option JsonErr => (x.1).AirGround) p.AirGround rfl ?_
  refine ite_frame (fun x : PositionMessage × Option JsonErr => (x.1).AirGround) p.AirGround rfl ?_
  refine ite_frame (fun x : PositionMessage × Option JsonErr => (x.1).AirGround) p.AirGround rfl ?_
  refine ite_frame (fun x : PositionMessage × Option JsonErr => (x.1).AirGround) p.AirGround rfl ?_
  refine ite_frame (fun x : PositionMessage × Option JsonErr => (x.1).AirGround) p.AirGround rfl ?_
  refine ite_frame (fun x : PositionMessage × Option JsonErr => (x.1).AirGround) p.AirGround rfl ?_
  refine ite_frame (fun x : PositionMessage × Option JsonErr => (x.1).AirGround) p.AirGround rfl ?_
  refine ite_frame (fun x : PositionMessage × Option JsonErr => (x.1).AirGround) p.AirGround rfl ?_
  refine ite_frame (fun x : PositionMessage × Option JsonErr => (x.1).AirGround) p.AirGround rfl ?_
  refine ite_frame (fun x : PositionMessage × Option JsonErr => (x.1).AirGround) p.AirGround rfl ?_
  refine ite_frame (fun x : PositionMessage × Option JsonErr => (x.1).AirGround) p.AirGround rfl ?_
  refine ite_frame (fun x : PositionMessage × Option JsonErr => (x.1).AirGround) p.AirGround rfl ?_
  refine ite_frame (fun x : PositionMessage × Option JsonErr => (x.1).AirGround) p.AirGround rfl ?_
  refine ite_frame (fun x : PositionMessage × Option JsonErr => (x.1).AirGround) p.AirGround rfl ?_
  refine ite_frame (fun x : PositionMessage × Option JsonErr => (x.1).AirGround) p.AirGround rfl ?_
  refine ite_frame (fun x : PositionMessage × Option JsonErr => (x.1).AirGround) p.AirGround rfl ?_
  refine ite_frame (fun x : PositionMessage × Option JsonErr => (x.1).AirGround) p.AirGround rfl ?_
  refine ite_frame (fun x : PositionMessage × Option JsonErr => (x.1).AirGround) p.AirGround rfl ?_
  refine ite_frame (fun x : PositionMessage × Option JsonErr => (x.1).AirGround) p.AirGround rfl ?_
  refine ite_frame (fun x : PositionMessage × Option JsonErr => (x.1).AirGround) p.AirGround rfl ?_
  refine ite_frame (fun x : PositionMessage × Option JsonErr => (x.1).AirGround) p.AirGround rfl ?_
  refine ite_frame (fun x : PositionMessage × Option JsonErr => (x.1).AirGround) p.AirGround rfl ?_
  refine ite_frame (fun x : PositionMessage × Option JsonErr => (x.1).AirGround) p.AirGround rfl ?_
  refine ite_frame (fun x : PositionMessage × Option JsonErr => (x.1).AirGround) p.AirGround rfl ?_
  rfl

lemma posFrame_FacilityHash {k : String} (v : Json) (p : PositionMessage) (h : k ≠ "facility_hash") :
    ((posAssign k v p).1).FacilityHash = p.FacilityHash := by
  unfold posAssign
  refine ite_frame (fun x : PositionMessage × Option JsonErr => (x.1).FacilityHash) p.FacilityHash rfl ?_
  refine ite_frame (fun x : PositionMessage × Option JsonErr => (x.1).FacilityHash) p.FacilityHash rfl ?_
  refine ite_frame (fun x : PositionMessage × Option JsonErr => (x.1).FacilityHash) p.FacilityHash rfl ?_
  refine ite_frame (fun x : PositionMessage × Option JsonErr => (x.1).FacilityHash) p.FacilityHash rfl ?_
  refine ite_frame (fun x : PositionMessage × Option JsonErr => (x.1).FacilityHash) p.FacilityHash rfl ?_
  refine ite_frame (fun x : PositionMessage × Option JsonErr => (x.1).FacilityHash) p.FacilityHash rfl ?_
  refine ite_frame (fun x : PositionMessage × Option JsonErr => (x.1).FacilityHash) p.FacilityHash rfl ?_
  refine ite_frame (fun x : PositionMessage × Option JsonErr => (x.1).FacilityHash) p.FacilityHash rfl ?_
  rw [if_neg h]
  refine ite_frame (fun x : PositionMessage × Option JsonErr => (x.1).FacilityHash) p.FacilityHash rfl ?_
  refine ite_frame (fun x : PositionMessage × Option JsonErr => (x.1).FacilityHash) p.FacilityHash rfl ?_
  refine ite_frame (fun x : PositionMessage × Option JsonErr => (x.1).FacilityHash) p.FacilityHash rfl ?_
  refine ite_frame (fun x : PositionMessage × Option JsonErr => (x.1).FacilityHash) p.FacilityHash rfl ?_
  refine ite_frame (fun x : PositionMessage × Option JsonErr => (x.1).FacilityHash) p.FacilityHash rfl ?_
  refine ite_frame (fun x : PositionMessage × Option JsonErr => (x.1).FacilityHash) p.FacilityHash rfl ?_
  refine ite_frame (fun x : PositionMessage × Option JsonErr => (x.1).FacilityHash) p.FacilityHash rfl ?_
  refine ite_frame (fun x : PositionMessage × Option JsonErr => (x.1).FacilityHash) p.FacilityHash rfl ?_
  refine ite_frame (fun x : PositionMessage × Option JsonErr => (x.1).FacilityHash) p.FacilityHash rfl ?_
  refine ite_frame (fun x : PositionMessage × Option JsonErr => (x.1).FacilityHash) p.FacilityHash rfl ?_
  refine ite_frame (fun x : PositionMessage × Option JsonErr => (x.1).FacilityHash) p.FacilityHash rfl ?_
  refine ite_frame (fun x : PositionMessage × Option JsonErr => (x.1).FacilityHash) p.FacilityHash rfl ?_
  refine ite_frame (fun x : PositionMessage × Option JsonErr => (x.1).FacilityHash) p.FacilityHash rfl ?_
  refine ite_frame (fun x : PositionMessage × Option JsonErr => (x.1).FacilityHash) p.FacilityHash rfl ?_
  refine ite_frame (fun x : PositionMessage × Option JsonErr => (x.1).FacilityHash) p.FacilityHash rfl ?_
  refine ite_frame (fun x : PositionMessage × Option JsonErr => (x.1).FacilityHash) p.FacilityHash rfl ?_
  refine ite_frame (fun x : PositionMessage × Option JsonErr => (x.1).FacilityHash) p.FacilityHash rfl ?_
  refine ite_frame (fun x : PositionMessage × Option JsonErr => (x.1).FacilityHash) p.FacilityHash rfl ?_
  refine ite_frame (fun x : PositionMessage × Option JsonErr => (x.1).FacilityHash) p.FacilityHash rfl ?_
  refine ite_frame (fun x : PositionMessage × Option JsonErr => (x.1).FacilityHash) p.FacilityHash rfl ?_
  refine ite_frame (fun x : PositionMessage × Option JsonErr => (x.1).FacilityHash) p.FacilityHash rfl ?_
  refine ite_frame (fun x : PositionMessage × Option JsonErr => (x.1).FacilityHash) p.FacilityHash rfl ?_
  refine ite_frame (fun x : PositionMessage × Option JsonErr => (x.1).FacilityHash) p.FacilityHash rfl ?_
  refine ite_frame (fun x : PositionMessage × Option JsonErr => (x.1).FacilityHash) p.FacilityHash rfl ?_
  refine ite_frame (fun x : PositionMessage × Option JsonErr => (x.1).FacilityHash) p.FacilityHash rfl ?_
  refine ite_frame (fun x : PositionMessage × Option JsonErr => (x.1).FacilityHash) p.FacilityHash rfl ?_
  refine ite_frame (fun x : PositionMessage × Option JsonErr => (x.1).FacilityHash) p.FacilityHash rfl ?_
  refine ite_frame (fun x : PositionMessage × Option JsonErr => (x.1).FacilityHash) p.FacilityHash rfl ?_
  refine ite_frame (fun x : PositionMessage × Option JsonErr => (x.1).FacilityHash) p.FacilityHash rfl ?_
  refine ite_frame (fun x : PositionMessage × Option JsonErr => (x.1).FacilityHash) p.FacilityHash rfl ?_
  refine ite_frame (fun x : PositionMessage × Option JsonErr => (x.1).FacilityHash) p.FacilityHash rfl ?_
  refine ite_frame (fun x : PositionMessage × Option JsonErr => (x.1).FacilityHash) p.FacilityHash rfl ?_
  refine ite_frame (fun x : PositionMessage × Option JsonErr => (x.1).FacilityHash) p.FacilityHash rfl ?_
  refine ite_frame (fun x : PositionMessage × Option JsonErr => (x.1).FacilityHash) p.FacilityHash rfl ?_
  refine ite_frame (fun x : PositionMessage × Option JsonErr => (x.1).FacilityHash) p.FacilityHash rfl ?_
  refine ite_frame (fun x : PositionMessage × Option JsonErr => (x.1).FacilityHash) p.FacilityHash rfl ?_
  refine ite_frame (fun x : PositionMessage × Option JsonErr => (x.1).FacilityHash) p.FacilityHash rfl ?_
  refine ite_frame (fun x : PositionMessage × Option JsonErr => (x.1).FacilityHash) p.FacilityHash rfl ?_
  refine ite_frame (fun x : PositionMessage × Option JsonErr => (x.1).FacilityHash) p.FacilityHash rfl ?_
  refine ite_frame (fun x : PositionMessage × Option JsonErr => (x.1).FacilityHash) p.FacilityHash rfl ?_
  refine ite_frame (fun x : PositionMessage × Option JsonErr => (x.1).FacilityHash) p.FacilityHash rfl ?_
  refine ite_frame (fun x : PositionMessage × Option JsonErr => (x.1).FacilityHash) p.FacilityHash rfl ?_
  refine ite_frame (fun x : PositionMessage × Option JsonErr => (x.1).FacilityHash) p.FacilityHash rfl ?_
  refine ite_frame (fun x : PositionMessage × Option JsonErr => (x.1).FacilityHash) p.FacilityHash rfl ?_
  refine ite_frame (fun x : PositionMessage × Option JsonErr => (x.1).FacilityHash) p.FacilityHash rfl ?_
  refine ite_frame (fun x : PositionMessage × Option JsonErr => (x.1).FacilityHash) p.FacilityHash rfl ?_
  refine ite_frame (fun x : PositionMessage × Option JsonErr => (x.1).FacilityHash) p.FacilityHash rfl ?_
  rfl

lemma posFrame_FacilityName {k : String} (v : Json) (p : PositionMessage) (h : k ≠ "facility_name") :
    ((posAssign k v p).1).FacilityName = p.FacilityName := by
  unfold posAssign
  refine ite_frame (fun x : PositionMessage × Option JsonErr => (x.1).FacilityName) p.FacilityName rfl ?_
  refine ite_frame (fun x : PositionMessage × Option JsonErr => (x.1).FacilityName) p.FacilityName rfl ?_
  refine ite_frame (fun x : PositionMessage × Option JsonErr => (x.1).FacilityName) p.FacilityName rfl ?_
  refine ite_frame (fun x : PositionMessage × Option JsonErr => (x.1).FacilityName) p.FacilityName rfl ?_
  refine ite_frame (fun x : PositionMessage × Option JsonErr => (x.1).FacilityName) p.FacilityName rfl ?_
  refine ite_frame (fun x : PositionMessage × Option JsonErr => (x.1).FacilityName) p.FacilityName rfl ?_
  refine ite_frame (fun x : PositionMessage × Option JsonErr => (x.1).FacilityName) p.FacilityName rfl ?_
  refine ite_frame (fun x : PositionMessage × Option JsonErr => (x.1).FacilityName) p.FacilityName rfl ?_
  refine ite_frame (fun x : PositionMessage × Option JsonErr => (x.1).FacilityName) p.FacilityName rfl ?_
  rw [if_neg h]
  refine ite_frame (fun x : PositionMessage × Option JsonErr => (x.1).FacilityName) p.FacilityName rfl ?_
  refine ite_frame (fun x : PositionMessage × Option JsonErr => (x.1).FacilityName) p.FacilityName rfl ?_
  refine ite_frame (fun x : PositionMessage × Option JsonErr => (x.1).FacilityName) p.FacilityName rfl ?_
  refine ite_frame (fun x : PositionMessage × Option JsonErr => (x.1).FacilityName) p.FacilityName rfl ?_
  refine ite_frame (fun x : PositionMessage × Option JsonErr => (x.1).FacilityName) p.FacilityName rfl ?_
  refine ite_frame (fun x : PositionMessage × Option JsonErr => (x.1).FacilityName) p.FacilityName rfl ?_
  refine ite_frame (fun x : PositionMessage × Option JsonErr => (x.1).FacilityName) p.FacilityName rfl ?_
  refine ite_frame (fun x : PositionMessage × Option JsonErr => (x.1).FacilityName) p.FacilityName rfl ?_
  refine ite_frame (fun x : PositionMessage × Option JsonErr => (x.1).FacilityName) p.FacilityName rfl ?_
  refine ite_frame (fun x : PositionMessage × Option JsonErr => (x.1).FacilityName) p.FacilityName rfl ?_
  refine ite_frame (fun x : PositionMessage × Option JsonErr => (x.1).FacilityName) p.FacilityName rfl ?_
  refine ite_frame (fun x : PositionMessage × Option JsonErr => (x.1).FacilityName) p.FacilityName rfl ?_
  refine ite_frame (fun x : PositionMessage × Option JsonErr => (x.1).FacilityName) p.FacilityName rfl ?_
  refine ite_frame (fun x : PositionMessage × Option JsonErr => (x.1).FacilityName) p.FacilityName rfl ?_
  refine ite_frame (fun x : PositionMessage × Option JsonErr => (x.1).FacilityName) p.FacilityName rfl ?_
  refine ite_frame (fun x : PositionMessage × Option JsonErr => (x.1).FacilityName) p.FacilityName rfl ?_
  refine ite_frame (fun x : PositionMessage × Option JsonErr => (x.1).FacilityName) p.FacilityName rfl ?_
  refine ite_frame (fun x : PositionMessage × Option JsonErr => (x.1).FacilityName) p.FacilityName rfl ?_
  refine ite_frame (fun x : PositionMessage × Option JsonErr => (x.1).FacilityName) p.FacilityName rfl ?_
  refine ite_frame (fun x : PositionMessage × Option JsonErr => (x.1).FacilityName) p.FacilityName rfl ?_
  refine ite_frame (fun x : PositionMessage × Option JsonErr => (x.1).FacilityName) p.FacilityName rfl ?_
  refine ite_frame (fun x : PositionMessage × Option JsonErr => (x.1).FacilityName) p.FacilityName rfl ?_
  refine ite_frame (fun x : PositionMessage × Option JsonErr => (x.1).FacilityName) p.FacilityName rfl ?_
  refine ite_frame (fun x : PositionMessage × Option JsonErr => (x.1).FacilityName) p.FacilityName rfl ?_
  refine ite_frame (fun x : PositionMessage × Option JsonErr => (x.1).FacilityName) p.FacilityName rfl ?_
  refine ite_frame (fun x : PositionMessage × Option JsonErr => (x.1).FacilityName) p.FacilityName rfl ?_
  refine ite_frame (fun x : PositionMessage × Option JsonErr => (x.1).FacilityName) p.FacilityName rfl ?_
  refine ite_frame (fun x : PositionMessage × Option JsonErr => (x.1).FacilityName) p.FacilityName rfl ?_
  refine ite_frame (fun x : PositionMessage × Option JsonErr => (x.1).FacilityName) p.FacilityName rfl ?_
  refine ite_frame (fun x : PositionMessage × Option JsonErr => (x.1).FacilityName) p.FacilityName rfl ?_
  refine ite_frame (fun x : PositionMessage × Option JsonErr => (x.1).FacilityName) p.FacilityName rfl ?_
  refine ite_frame (fun x : PositionMessage × Option JsonErr => (x.1).FacilityName) p.FacilityName rfl ?_
  refine ite_frame (fun x : PositionMessage × Option JsonErr => (x.1).FacilityName) p.FacilityName rfl ?_
  refine ite_frame (fun x : PositionMessage × Option JsonErr => (x.1).FacilityName) p.FacilityName rfl ?_
  refine ite_frame (fun x : PositionMessage × Option JsonErr => (x.1).FacilityName) p.FacilityName rfl ?_
  refine ite_frame (fun x : PositionMessage × Option JsonErr => (x.1).FacilityName) p.FacilityName rfl ?_
  refine ite_frame (fun x : PositionMessage × Option JsonErr => (x.1).FacilityName) p.FacilityName rfl ?_
  refine ite_frame (fun x : PositionMessage × Option JsonErr => (x.1).FacilityName) p.FacilityName rfl ?_
  refine ite_frame (fun x : PositionMessage × Option JsonErr => (x.1).FacilityName) p.FacilityName rfl ?_
  refine ite_frame (fun x : PositionMessage × Option JsonErr => (x.1).FacilityName) p.FacilityName rfl ?_
  refine ite_frame (fun x : PositionMessage × Option JsonErr => (x.1).FacilityName) p.FacilityName rfl ?_
  refine ite_frame (fun x : PositionMessage × Option JsonErr => (x.1).FacilityName) p.FacilityName rfl ?_
  refine ite_frame (fun x : PositionMessage × Option JsonErr => (x.1).FacilityName) p.FacilityName rfl ?_
  refine ite_frame (fun x : PositionMessage × Option JsonErr => (x.1).FacilityName) p.FacilityName rfl ?_
  refine ite_frame (fun x : PositionMessage × Option JsonErr => (x.1).FacilityName) p.FacilityName rfl ?_
  refine ite_frame (fun x : PositionMessage × Option JsonErr => (x.1).FacilityName) p.FacilityName rfl ?_
  rfl

lemma posFrame_PITR {k : String} (v : Json) (p : PositionMessage) (h : k ≠ "pitr") :
    ((posAssign k v p).1).PITR = p.PITR := by
  unfold posAssign
  refine ite_frame (fun x : PositionMessage × Option JsonErr => (x.1).PITR) p.PITR rfl ?_
  refine ite_frame (fun x : PositionMessage × Option JsonErr => (x.1).PITR) p.PITR rfl ?_
  refine ite_frame (fun x : PositionMessage × Option JsonErr => (x.1).PITR) p.PITR rfl ?_
  refine ite_frame (fun x : PositionMessage × Option JsonErr => (x.1).PITR) p.PITR rfl ?_
  refine ite_frame (fun x : PositionMessage × Option JsonErr => (x.1).PITR) p.PITR rfl ?_
  refine ite_frame (fun x : PositionMessage × Option JsonErr => (x.1).PITR) p.PITR rfl ?_
  refine ite_frame (fun x : PositionMessage × Option JsonErr => (x.1).PITR) p.PITR rfl ?_
  refine ite_frame (fun x : PositionMessage × Option JsonErr => (x.1).PITR) p.PITR rfl ?_
  refine ite_frame (fun x : PositionMessage × Option JsonErr => (x.1).PITR) p.PITR rfl ?_
  refine ite_frame (fun x : PositionMessage × Option JsonErr => (x.1).PITR) p.PITR rfl ?_
  rw [if_neg h]
  refine ite_frame (fun x : PositionMessage × Option JsonErr => (x.1).PITR) p.PITR rfl ?_
  refine ite_frame (fun x : PositionMessage × Option JsonErr => (x.1).PITR) p.PITR rfl ?_
  refine ite_frame (fun x : PositionMessage × Option JsonErr => (x.1).PITR) p.PITR rfl ?_
  refine ite_frame (fun x : PositionMessage × Option JsonErr => (x.1).PITR) p.PITR rfl ?_
  refine ite_frame (fun x : PositionMessage × Option JsonErr => (x.1).PITR) p.PITR rfl ?_
  refine ite_frame (fun x : PositionMessage × Option JsonErr => (x.1).PITR) p.PITR rfl ?_
  refine ite_frame (fun x : PositionMessage × Option JsonErr => (x.1).PITR) p.PITR rfl ?_
  refine ite_frame (fun x : PositionMessage × Option JsonErr => (x.1).PITR) p.PITR rfl ?_
  refine ite_frame (fun x : PositionMessage × Option JsonErr => (x.1).PITR) p.PITR rfl ?_
  refine ite_frame (fun x : PositionMessage × Option JsonErr => (x.1).PITR) p.PITR rfl ?_
  refine ite_frame (fun x : PositionMessage × Option JsonErr => (x.1).PITR) p.PITR rfl ?_
  refine ite_frame (fun x : PositionMessage × Option JsonErr => (x.1).PITR) p.PITR rfl ?_
  refine ite_frame (fun x : PositionMessage × Option JsonErr => (x.1).PITR) p.PITR rfl ?_
  refine ite_frame (fun x : PositionMessage × Option JsonErr => (x.1).PITR) p.PITR rfl ?_
  refine ite_frame (fun x : PositionMessage × Option JsonErr => (x.1).PITR) p.PITR rfl ?_
  refine ite_frame (fun x : PositionMessage × Option JsonErr => (x.1).PITR) p.PITR rfl ?_
  refine ite_frame (fun x : PositionMessage × Option JsonErr => (x.1).PITR) p.PITR rfl ?_
  refine ite_frame (fun x : PositionMessage × Option JsonErr => (x.1).PITR) p.PITR rfl ?_
  refine ite_frame (fun x : PositionMessage × Option JsonErr => (x.1).PITR) p.PITR rfl ?_
  refine ite_frame (fun x : PositionMessage × Option JsonErr => (x.1).PITR) p.PITR rfl ?_
  refine ite_frame (fun x : PositionMessage × Option JsonErr => (x.1).PITR) p.PITR rfl ?_
  refine ite_frame (fun x : PositionMessage × Option JsonErr => (x.1).PITR) p.PITR rfl ?_
  refine ite_frame (fun x : PositionMessage × Option JsonErr => (x.1).PITR) p.PITR rfl ?_
  refine ite_frame (fun x : PositionMessage × Option JsonErr => (x.1).PITR) p.PITR rfl ?_
  refine ite_frame (fun x : PositionMessage × Option JsonErr => (x.1).PITR) p.PITR rfl ?_
  refine ite_frame (fun x : PositionMessage × Option JsonErr => (x.1).PITR) p.PITR rfl ?_
  refine ite_frame (fun x : PositionMessage × Option JsonErr => (x.1).PITR) p.PITR rfl ?_
  refine ite_frame (fun x : PositionMessage × Option JsonErr => (x.1).PITR) p.PITR rfl ?_
  refine ite_frame (fun x : PositionMessage × Option JsonErr => (x.1).PITR) p.PITR rfl ?_
  refine ite_frame (fun x : PositionMessage × Option JsonErr => (x.1).PITR) p.PITR rfl ?_
  refine ite_frame (fun x : PositionMessage × Option JsonErr => (x.1).PITR) p.PITR rfl ?_
  refine ite_frame (fun x : PositionMessage × Option JsonErr => (x.1).PITR) p.PITR rfl ?_
  refine ite_frame (fun x : PositionMessage × Option JsonErr => (x.1).PITR) p.PITR rfl ?_
  refine ite_frame (fun x : PositionMessage × Option JsonErr => (x.1).PITR) p.PITR rfl ?_
  refine ite_frame (fun x : PositionMessage × Option JsonErr => (x.1).PITR) p.PITR rfl ?_
  refine ite_frame (fun x : PositionMessage × Option JsonErr => (x.1).PITR) p.PITR rfl ?_
  refine ite_frame (fun x : PositionMessage × Option JsonErr => (x.1).PITR) p.PITR rfl ?_
  refine ite_frame (fun x : PositionMessage × Option JsonErr => (x.1).PITR) p.PITR rfl ?_
  refine ite_frame (fun x : PositionMessage × Option JsonErr => (x.1).PITR) p.PITR rfl ?_
  refine ite_frame (fun x : PositionMessage × Option JsonErr => (x.1).PITR) p.PITR rfl ?_
  refine ite_frame (fun x : PositionMessage × Option JsonErr => (x.1).PITR) p.PITR rfl ?_
  refine ite_frame (fun x : PositionMessage × Option JsonErr => (x.1).PITR) p.PITR rfl ?_
  refine ite_frame (fun x : PositionMessage × Option JsonErr => (x.1).PITR) p.PITR rfl ?_
  refine ite_frame (fun x : PositionMessage × Option JsonErr => (x.1).PITR) p.PITR rfl ?_
  refine ite_frame (fun x : PositionMessage × Option JsonErr => (x.1).PITR) p.PITR rfl ?_
  rfl

lemma posFrame_Alt {k : String} (v : Json) (p : PositionMessage) (h : k ≠ "alt") :
    ((posAssign k v p).1).Alt = p.Alt := by
  unfold posAssign
  refine ite_frame (fun x : PositionMessage × Option JsonErr => (x.1).Alt) p.Alt rfl ?_
  refine ite_frame (fun x : PositionMessage × Option JsonErr => (x.1).Alt) p.Alt rfl ?_
  refine ite_frame (fun x : PositionMessage × Option JsonErr => (x.1).Alt) p.Alt rfl ?_
  refine ite_frame (fun x : PositionMessage × Option JsonErr => (x.1).Alt) p.Alt rfl ?_
  refine ite_frame (fun x : PositionMessage × Option JsonErr => (x.1).Alt) p.Alt rfl ?_
  refine ite_frame (fun x : PositionMessage × Option JsonErr => (x.1).Alt) p.Alt rfl ?_
  refine ite_frame (fun x : PositionMessage × Option JsonErr => (x.1).Alt) p.Alt rfl ?_
  refine ite_frame (fun x : PositionMessage × Option JsonErr => (x.1).Alt) p.Alt rfl ?_
  refine ite_frame (fun x : PositionMessage × Option JsonErr => (x.1).Alt) p.Alt rfl ?_
  refine ite_frame (fun x : PositionMessage × Option JsonErr => (x.1).Alt) p.Alt rfl ?_
  refine ite_frame (fun x : PositionMessage × Option JsonErr => (x.1).Alt) p.Alt rfl ?_
  rw [if_neg h]
  refine ite_frame (fun x : PositionMessage × Option JsonErr => (x.1).Alt) p.Alt rfl ?_
  refine ite_frame (fun x : PositionMessage × Option JsonErr => (x.1).Alt) p.Alt rfl ?_
  refine ite_frame (fun x : PositionMessage × Option JsonErr => (x.1).Alt) p.Alt rfl ?_
  refine ite_frame (fun x : PositionMessage × Option JsonErr => (x.1).Alt) p.Alt rfl ?_
  refine ite_frame (fun x : PositionMessage × Option JsonErr => (x.1).Alt) p.Alt rfl ?_
  refine ite_frame (fun x : PositionMessage × Option JsonErr => (x.1).Alt) p.Alt rfl ?_
  refine ite_frame (fun x : PositionMessage × Option JsonErr => (x.1).Alt) p.Alt rfl ?_
  refine ite_frame (fun x : PositionMessage × Option JsonErr => (x.1).Alt) p.Alt rfl ?_
  refine ite_frame (fun x : PositionMessage × Option JsonErr => (x.1).Alt) p.Alt rfl ?_
  refine ite_frame (fun x : PositionMessage × Option JsonErr => (x.1).Alt) p.Alt rfl ?_
  refine ite_frame (fun x : PositionMessage × Option JsonErr => (x.1).Alt) p.Alt rfl ?_
  refine ite_frame (fun x : PositionMessage × Option JsonErr => (x.1).Alt) p.Alt rfl ?_
  refine ite_frame (fun x : PositionMessage × Option JsonErr => (x.1).Alt) p.Alt rfl ?_
  refine ite_frame (fun x : PositionMessage × Option JsonErr => (x.1).Alt) p.Alt rfl ?_
  refine ite_frame (fun x : PositionMessage × Option JsonErr => (x.1).Alt) p.Alt rfl ?_
  refine ite_frame (fun x : PositionMessage × Option JsonErr => (x.1).Alt) p.Alt rfl ?_
  refine ite_frame (fun x : PositionMessage × Option JsonErr => (x.1).Alt) p.Alt rfl ?_
  refine ite_frame (fun x : PositionMessage × Option JsonErr => (x.1).Alt) p.Alt rfl ?_
  refine ite_frame (fun x : PositionMessage × Option JsonErr => (x.1).Alt) p.Alt rfl ?_
  refine ite_frame (fun x : PositionMessage × Option JsonErr => (x.1).Alt) p.Alt rfl ?_
  refine ite_frame (fun x : PositionMessage × Option JsonErr => (x.1).Alt) p.Alt rfl ?_
  refine ite_frame (fun x : PositionMessage × Option JsonErr => (x.1).Alt) p.Alt rfl ?_
  refine ite_frame (fun x : PositionMessage × Option JsonErr => (x.1).Alt) p.Alt rfl ?_
  refine ite_frame (fun x : PositionMessage × Option JsonErr => (x.1).Alt) p.Alt rfl ?_
  refine ite_frame (fun x : PositionMessage × Option JsonErr => (x.1).Alt) p.Alt rfl ?_
  refine ite_frame (fun x : PositionMessage × Option JsonErr => (x.1).Alt) p.Alt rfl ?_
  refine ite_frame (fun x : PositionMessage × Option JsonErr => (x.1).Alt) p.Alt rfl ?_
  refine ite_frame (fun x : PositionMessage × Option JsonErr => (x.1).Alt) p.Alt rfl ?_
  refine ite_frame (fun x : PositionMessage × Option JsonErr => (x.1).Alt) p.Alt rfl ?_
  refine ite_frame (fun x : PositionMessage × Option JsonErr => (x.1).Alt) p.Alt rfl ?_
  refine ite_frame (fun x : PositionMessage × Option JsonErr => (x.1).Alt) p.Alt rfl ?_
  refine ite_frame (fun x : PositionMessage × Option JsonErr => (x.1).Alt) p.Alt rfl ?_
  refine ite_frame (fun x : PositionMessage × Option JsonErr => (x.1).Alt) p.Alt rfl ?_
  refine ite_frame (fun x : PositionMessage × Option JsonErr => (x.1).Alt) p.Alt rfl ?_
  refine ite_frame (fun x : PositionMessage × Option JsonErr => (x.1).Alt) p.Alt rfl ?_
  refine ite_frame (fun x : PositionMessage × Option JsonErr => (x.1).Alt) p.Alt rfl ?_
  refine ite_frame (fun x : PositionMessage × Option JsonErr => (x.1).Alt) p.Alt rfl ?_
  refine ite_frame (fun x : PositionMessage × Option JsonErr => (x.1).Alt) p.Alt rfl ?_
  refine ite_frame (fun x : PositionMessage × Option JsonErr => (x.1).Alt) p.Alt rfl ?_
  refine ite_frame (fun x : PositionMessage × Option JsonErr => (x.1).Alt) p.Alt rfl ?_
  refine ite_frame (fun x : PositionMessage × Option JsonErr => (x.1).Alt) p.Alt rfl ?_
  refine ite_frame (fun x : PositionMessage × Option JsonErr => (x.1).Alt) p.Alt rfl ?_
  refine ite_frame (fun x : PositionMessage × Option JsonErr => (x.1).Alt) p.Alt rfl ?_
  refine ite_frame (fun x : PositionMessage × Option JsonErr => (x.1).Alt) p.Alt rfl ?_
  rfl

lemma posFrame_AltChange {k : String} (v : Json) (p : PositionMessage) (h : k ≠ "alt_change") :
    ((posAssign k v p).1).AltChange = p.AltChange := by
  unfold posAssign
  refine ite_frame (fun x : PositionMessage × Option JsonErr => (x.1).AltChange) p.AltChange rfl ?_
  refine ite_frame (fun x : PositionMessage × Option JsonErr => (x.1).AltChange) p.AltChange rfl ?_
  refine ite_frame (fun x : PositionMessage × Option JsonErr => (x.1).AltChange) p.AltChange rfl ?_
  refine ite_frame (fun x : PositionMessage × Option JsonErr => (x.1).AltChange) p.AltChange rfl ?_
  refine ite_frame (fun x : PositionMessage × Option JsonErr => (x.1).AltChange) p.AltChange rfl ?_
  refine ite_frame (fun x : PositionMessage × Option JsonErr => (x.1).AltChange) p.AltChange rfl ?_
  refine ite_frame (fun x : PositionMessage × Option JsonErr => (x.1).AltChange) p.AltChange rfl ?_
  refine ite_frame (fun x : PositionMessage × Option JsonErr => (x.1).AltChange) p.AltChange rfl ?_
  refine ite_frame (fun x : PositionMessage × Option JsonErr => (x.1).AltChange) p.AltChange rfl ?_
  refine ite_frame (fun x : PositionMessage × Option JsonErr => (x.1).AltChange) p.AltChange rfl ?_
  refine ite_frame (fun x : PositionMessage × Option JsonErr => (x.1).AltChange) p.AltChange rfl ?_
  refine ite_frame (fun x : PositionMessage × Option JsonErr => (x.1).AltChange) p.AltChange rfl ?_
  rw [if_neg h]
  refine ite_frame (fun x : PositionMessage × Option JsonErr => (x.1).AltChange) p.AltChange rfl ?_
  refine ite_frame (fun x : PositionMessage × Option JsonErr => (x.1).AltChange) p.AltChange rfl ?_
  refine ite_frame (fun x : PositionMessage × Option JsonErr => (x.1).AltChange) p.AltChange rfl ?_
  refine ite_frame (fun x : PositionMessage × Option JsonErr => (x.1).AltChange) p.AltChange rfl ?_
  refine ite_frame (fun x : PositionMessage × Option JsonErr => (x.1).AltChange) p.AltChange rfl ?_
  refine ite_frame (fun x : PositionMessage × Option JsonErr => (x.1).AltChange) p.AltChange rfl ?_
  refine ite_frame (fun x : PositionMessage × Option JsonErr => (x.1).AltChange) p.AltChange rfl ?_
  refine ite_frame (fun x : PositionMessage × Option JsonErr => (x.1).AltChange) p.AltChange rfl ?_
  refine ite_frame (fun x : PositionMessage × Option JsonErr => (x.1).AltChange) p.AltChange rfl ?_
  refine ite_frame (fun x : PositionMessage × Option JsonErr => (x.1).AltChange) p.AltChange rfl ?_
  refine ite_frame (fun x : PositionMessage × Option JsonErr => (x.1).AltChange) p.AltChange rfl ?_
  refine ite_frame (fun x : PositionMessage × Option JsonErr => (x.1).AltChange) p.AltChange rfl ?_
  refine ite_frame (fun x : PositionMessage × Option JsonErr => (x.1).AltChange) p.AltChange rfl ?_
  refine ite_frame (fun x : PositionMessage × Option JsonErr => (x.1).AltChange) p.AltChange rfl ?_
  refine ite_frame (fun x : PositionMessage × Option JsonErr => (x.1).AltChange) p.AltChange rfl ?_
  refine ite_frame (fun x : PositionMessage × Option JsonErr => (x.1).AltChange) p.AltChange rfl ?_
  refine ite_frame (fun x : PositionMessage × Option JsonErr => (x.1).AltChange) p.AltChange rfl ?_
  refine ite_frame (fun x : PositionMessage × Option JsonErr => (x.1).AltChange) p.AltChange rfl ?_
  refine ite_frame (fun x : PositionMessage × Option JsonErr => (x.1).AltChange) p.AltChange rfl ?_
  refine ite_frame (fun x : PositionMessage × Option JsonErr => (x.1).AltChange) p.AltChange rfl ?_
  refine ite_frame (fun x : PositionMessage × Option JsonErr => (x.1).AltChange) p.AltChange rfl ?_
  refine ite_frame (fun x : PositionMessage × Option JsonErr => (x.1).AltChange) p.AltChange rfl ?_
  refine ite_frame (fun x : PositionMessage × Option JsonErr => (x.1).AltChange) p.AltChange rfl ?_
  refine ite_frame (fun x : PositionMessage × Option JsonErr => (x.1).AltChange) p.AltChange rfl ?_
  refine ite_frame (fun x : PositionMessage × Option JsonErr => (x.1).AltChange) p.AltChange rfl ?_
  refine ite_frame (fun x : PositionMessage × Option JsonErr => (x.1).AltChange) p.AltChange rfl ?_
  refine ite_frame (fun x : PositionMessage × Option JsonErr => (x.1).AltChange) p.AltChange rfl ?_
  refine ite_frame (fun x : PositionMessage × Option JsonErr => (x.1).AltChange) p.AltChange rfl ?_
  refine ite_frame (fun x : PositionMessage × Option JsonErr => (x.1).AltChange) p.AltChange rfl ?_
  refine ite_frame (fun x : PositionMessage × Option JsonErr => (x.1).AltChange) p.AltChange rfl ?_
  refine ite_frame (fun x : PositionMessage × Option JsonErr => (x.1).AltChange) p.AltChange rfl ?_
  refine ite_frame (fun x : PositionMessage × Option JsonErr => (x.1).AltChange) p.AltChange rfl ?_
  refine ite_frame (fun x : PositionMessage × Option JsonErr => (x.1).AltChange) p.AltChange rfl ?_
  refine ite_frame (fun x : PositionMessage × Option JsonErr => (x.1).AltChange) p.AltChange rfl ?_
  refine ite_frame (fun x : PositionMessage × Option JsonErr => (x.1).AltChange) p.AltChange rfl ?_
  refine ite_frame (fun x : PositionMessage × Option JsonErr => (x.1).AltChange) p.AltChange rfl ?_
  refine ite_frame (fun x : PositionMessage × Option JsonErr => (x.1).AltChange) p.AltChange rfl ?_
  refine ite_frame (fun x : PositionMessage × Option JsonErr => (x.1).AltChange) p.AltChange rfl ?_
  refine ite_frame (fun x : PositionMessage × Option JsonErr => (x.1).AltChange) p.AltChange rfl ?_
  refine ite_frame (fun x : PositionMessage × Option JsonErr => (x.1).AltChange) p.AltChange rfl ?_
  refine ite_frame (fun x : PositionMessage × Option JsonErr => (x.1).AltChange) p.AltChange rfl ?_
  refine ite_frame (fun x : PositionMessage × Option JsonErr => (x.1).AltChange) p.AltChange rfl ?_
  refine ite_frame (fun x : PositionMessage × Option JsonErr => (x.1).AltChange) p.AltChange rfl ?_
  rfl

lemma posFrame_GS {k : String} (v : Json) (p : PositionMessage) (h : k ≠ "gs") :
    ((posAssign k v p).1).GS = p.GS := by
  unfold posAssign
  refine ite_frame (fun x : PositionMessage × Option JsonErr => (x.1).GS) p.GS rfl ?_
  refine ite_frame (fun x : PositionMessage × Option JsonErr => (x.1).GS) p.GS rfl ?_
  refine ite_frame (fun x : PositionMessage × Option JsonErr => (x.1).GS) p.GS rfl ?_
  refine ite_frame (fun x : PositionMessage × Option JsonErr => (x.1).GS) p.GS rfl ?_
  refine ite_frame (fun x : PositionMessage × Option JsonErr => (x.1).GS) p.GS rfl ?_
  refine ite_frame (fun x : PositionMessage × Option JsonErr => (x.1).GS) p.GS rfl ?_
  refine ite_frame (fun x : PositionMessage × Option JsonErr => (x.1).GS) p.GS rfl ?_
  refine ite_frame (fun x : PositionMessage × Option JsonErr => (x.1).GS) p.GS rfl ?_
  refine ite_frame (fun x : PositionMessage × Option JsonErr => (x.1).GS) p.GS rfl ?_
  refine ite_frame (fun x : PositionMessage × Option JsonErr => (x.1).GS) p.GS rfl ?_
  refine ite_frame (fun x : PositionMessage × Option JsonErr => (x.1).GS) p.GS rfl ?_
  refine ite_frame (fun x : PositionMessage × Option JsonErr => (x.1).GS) p.GS rfl ?_
  refine ite_frame (fun x : PositionMessage × Option JsonErr => (x.1).GS) p.GS rfl ?_
  rw [if_neg h]
  refine ite_frame (fun x : PositionMessage × Option JsonErr => (x.1).GS) p.GS rfl ?_
  refine ite_frame (fun x : PositionMessage × Option JsonErr => (x.1).GS) p.GS rfl ?_
  refine ite_frame (fun x : PositionMessage × Option JsonErr => (x.1).GS) p.GS rfl ?_
  refine ite_frame (fun x : PositionMessage × Option JsonErr => (x.1).GS) p.GS rfl ?_
  refine ite_frame (fun x : PositionMessage × Option JsonErr => (x.1).GS) p.GS rfl ?_
  refine ite_frame (fun x : PositionMessage × Option JsonErr => (x.1).GS) p.GS rfl ?_
  refine ite_frame (fun x : PositionMessage × Option JsonErr => (x.1).GS) p.GS rfl ?_
  refine ite_frame (fun x : PositionMessage × Option JsonErr => (x.1).GS) p.GS rfl ?_
  refine ite_frame (fun x : PositionMessage × Option JsonErr => (x.1).GS) p.GS rfl ?_
  refine ite_frame (fun x : PositionMessage × Option JsonErr => (x.1).GS) p.GS rfl ?_
  refine ite_frame (fun x : PositionMessage × Option JsonErr => (x.1).GS) p.GS rfl ?_
  refine ite_frame (fun x : PositionMessage × Option JsonErr => (x.1).GS) p.GS rfl ?_
  refine ite_frame (fun x : PositionMessage × Option JsonErr => (x.1).GS) p.GS rfl ?_
  refine ite_frame (fun x : PositionMessage × Option JsonErr => (x.1).GS) p.GS rfl ?_
  refine ite_frame (fun x : PositionMessage × Option JsonErr => (x.1).GS) p.GS rfl ?_
  refine ite_frame (fun x : PositionMessage × Option JsonErr => (x.1).GS) p.GS rfl ?_
  refine ite_frame (fun x : PositionMessage × Option JsonErr => (x.1).GS) p.GS rfl ?_
  refine ite_frame (fun x : PositionMessage × Option JsonErr => (x.1).GS) p.GS rfl ?_
  refine ite_frame (fun x : PositionMessage × Option JsonErr => (x.1).GS) p.GS rfl ?_
  refine ite_frame (fun x : PositionMessage × Option JsonErr => (x.1).GS) p.GS rfl ?_
  refine ite_frame (fun x : PositionMessage × Option JsonErr => (x.1).GS) p.GS rfl ?_
  refine ite_frame (fun x : PositionMessage × Option JsonErr => (x.1).GS) p.GS rfl ?_
  refine ite_frame (fun x : PositionMessage × Option JsonErr => (x.1).GS) p.GS rfl ?_
  refine ite_frame (fun x : PositionMessage × Option JsonErr => (x.1).GS) p.GS rfl ?_
  refine ite_frame (fun x : PositionMessage × Option JsonErr => (x.1).GS) p.GS rfl ?_
  refine ite_frame (fun x : PositionMessage × Option JsonErr => (x.1).GS) p.GS rfl ?_
  refine ite_frame (fun x : PositionMessage × Option JsonErr => (x.1).GS) p.GS rfl ?_
  refine ite_frame (fun x : PositionMessage × Option JsonErr => (x.1).GS) p.GS rfl ?_
  refine ite_frame (fun x : PositionMessage × Option JsonErr => (x.1).GS) p.GS rfl ?_
  refine ite_frame (fun x : PositionMessage × Option JsonErr => (x.1).GS) p.GS rfl ?_
  refine ite_frame (fun x : PositionMessage × Option JsonErr => (x.1).GS) p.GS rfl ?_
  refine ite_frame (fun x : PositionMessage × Option JsonErr => (x.1).GS) p.GS rfl ?_
  refine ite_frame (fun x : PositionMessage × Option JsonErr => (x.1).GS) p.GS rfl ?_
  refine ite_frame (fun x : PositionMessage × Option JsonErr => (x.1).GS) p.GS rfl ?_
  refine ite_frame (fun x : PositionMessage × Option JsonErr => (x.1).GS) p.GS rfl ?_
  refine ite_frame (fun x : PositionMessage × Option JsonErr => (x.1).GS) p.GS rfl ?_
  refine ite_frame (fun x : PositionMessage × Option JsonErr => (x.1).GS) p.GS rfl ?_
  refine ite_frame (fun x : PositionMessage × Option JsonErr => (x.1).GS) p.GS rfl ?_
  refine ite_frame (fun x : PositionMessage × Option JsonErr => (x.1).GS) p.GS rfl ?_
  refine ite_frame (fun x : PositionMessage × Option JsonErr => (x.1).GS) p.GS rfl ?_
  refine ite_frame (fun x : PositionMessage × Option JsonErr => (x.1).GS) p.GS rfl ?_
  refine ite_frame (fun x : PositionMessage × Option JsonErr => (x.1).GS) p.GS rfl ?_
  rfl

lemma posFrame_Heading {k : String} (v : Json) (p : PositionMessage) (h : k ≠ "heading") :
    ((posAssign k v p).1).Heading = p.Heading := by
  unfold posAssign
  refine ite_frame (fun x : PositionMessage × Option JsonErr => (x.1).Heading) p.Heading rfl ?_
  refine ite_frame (fun x : PositionMessage × Option JsonErr => (x.1).Heading) p.Heading rfl ?_
  refine ite_frame (fun x : PositionMessage × Option JsonErr => (x.1).Heading) p.Heading rfl ?_
  refine ite_frame (fun x : PositionMessage × Option JsonErr => (x.1).Heading) p.Heading rfl ?_
  refine ite_frame (fun x : PositionMessage × Option JsonErr => (x.1).Heading) p.Heading rfl ?_
  refine ite_frame (fun x : PositionMessage × Option JsonErr => (x.1).Heading) p.Heading rfl ?_
  refine ite_frame (fun x : PositionMessage × Option JsonErr => (x.1).Heading) p.Heading rfl ?_
  refine ite_frame (fun x : PositionMessage × Option JsonErr => (x.1).Heading) p.Heading rfl ?_
  refine ite_frame (fun x : PositionMessage × Option JsonErr => (x.1).Heading) p.Heading rfl ?_
  refine ite_frame (fun x : PositionMessage × Option JsonErr => (x.1).Heading) p.Heading rfl ?_
  refine ite_frame (fun x : PositionMessage × Option JsonErr => (x.1).Heading) p.Heading rfl ?_
  refine ite_frame (fun x : PositionMessage × Option JsonErr => (x.1).Heading) p.Heading rfl ?_
  refine ite_frame (fun x : PositionMessage × Option JsonErr => (x.1).Heading) p.Heading rfl ?_
  refine ite_frame (fun x : PositionMessage × Option JsonErr => (x.1).Heading) p.Heading rfl ?_
  rw [if_neg h]
  refine ite_frame (fun x : PositionMessage × Option JsonErr => (x.1).Heading) p.Heading rfl ?_
  refine ite_frame (fun x : PositionMessage × Option JsonErr => (x.1).Heading) p.Heading rfl ?_
  refine ite_frame (fun x : PositionMessage × Option JsonErr => (x.1).Heading) p.Heading rfl ?_
  refine ite_frame (fun x : PositionMessage × Option JsonErr => (x.1).Heading) p.Heading rfl ?_
  refine ite_frame (fun x : PositionMessage × Option JsonErr => (x.1).Heading) p.Heading rfl ?_
  refine ite_frame (fun x : PositionMessage × Option JsonErr => (x.1).Heading) p.Heading rfl ?_
  refine ite_frame (fun x : PositionMessage × Option JsonErr => (x.1).Heading) p.Heading rfl ?_
  refine ite_frame (fun x : PositionMessage × Option JsonErr => (x.1).Heading) p.Heading rfl ?_
  refine ite_frame (fun x : PositionMessage × Option JsonErr => (x.1).Heading) p.Heading rfl ?_
  refine ite_frame (fun x : PositionMessage × Option JsonErr => (x.1).Heading) p.Heading rfl ?_
  refine ite_frame (fun x : PositionMessage × Option JsonErr => (x.1).Heading) p.Heading rfl ?_
  refine ite_frame (fun x : PositionMessage × Option JsonErr => (x.1).Heading) p.Heading rfl ?_
  refine ite_frame (fun x : PositionMessage × Option JsonErr => (x.1).Heading) p.Heading rfl ?_
  refine ite_frame (fun x : PositionMessage × Option JsonErr => (x.1).Heading) p.Heading rfl ?_
  refine ite_frame (fun x : PositionMessage × Option JsonErr => (x.1).Heading) p.Heading rfl ?_
  refine ite_frame (fun x : PositionMessage × Option JsonErr => (x.1).Heading) p.Heading rfl ?_
  refine ite_frame (fun x : PositionMessage × Option JsonErr => (x.1).Heading) p.Heading rfl ?_
  refine ite_frame (fun x : PositionMessage × Option JsonErr => (x.1).Heading) p.Heading rfl ?_
  refine ite_frame (fun x : PositionMessage × Option JsonErr => (x.1).Heading) p.Heading rfl ?_
  refine ite_frame (fun x : PositionMessage × Option JsonErr => (x.1).Heading) p.Heading rfl ?_
  refine ite_frame (fun x : PositionMessage × Option JsonErr => (x.1).Heading) p.Heading rfl ?_
  refine ite_frame (fun x : PositionMessage × Option JsonErr => (x.1).Heading) p.Heading rfl ?_
  refine ite_frame (fun x : PositionMessage × Option JsonErr => (x.1).Heading) p.Heading rfl ?_
  refine ite_frame (fun x : PositionMessage × Option JsonErr => (x.1).Heading) p.Heading rfl ?_
  refine ite_frame (fun x : PositionMessage × Option JsonErr => (x.1).Heading) p.Heading rfl ?_
  refine ite_frame (fun x : PositionMessage × Option JsonErr => (x.1).Heading) p.Heading rfl ?_
  refine ite_frame (fun x : PositionMessage × Option JsonErr => (x.1).Heading) p.Heading rfl ?_
  refine ite_frame (fun x : PositionMessage × Option JsonErr => (x.1).Heading) p.Heading rfl ?_
  refine ite_frame (fun x : PositionMessage × Option JsonErr => (x.1).Heading) p.Heading rfl ?_
  refine ite_frame (fun x : PositionMessage × Option JsonErr => (x.1).Heading) p.Heading rfl ?_
  refine ite_frame (fun x : PositionMessage × Option JsonErr => (x.1).Heading) p.Heading rfl ?_
  refine ite_frame (fun x : PositionMessage × Option JsonErr => (x.1).Heading) p.Heading rfl ?_
  refine ite_frame (fun x : PositionMessage × Option JsonErr => (x.1).Heading) p.Heading rfl ?_
  refine ite_frame (fun x : PositionMessage × Option JsonErr => (x.1).Heading) p.Heading rfl ?_
  refine ite_frame (fun x : PositionMessage × Option JsonErr => (x.1).Heading) p.Heading rfl ?_
  refine ite_frame (fun x : PositionMessage × Option JsonErr => (x.1).Heading) p.Heading rfl ?_
  refine ite_frame (fun x : PositionMessage × Option JsonErr => (x.1).Heading) p.Heading rfl ?_
  refine ite_frame (fun x : PositionMessage × Option JsonErr => (x.1).Heading) p.Heading rfl ?_
  refine ite_frame (fun x : PositionMessage × Option JsonErr => (x.1).Heading) p.Heading rfl ?_
  refine ite_frame (fun x : PositionMessage × Option JsonErr => (x.1).Heading) p.Heading rfl ?_
  refine ite_frame (fun x : PositionMessage × Option JsonErr => (x.1).Heading) p.Heading rfl ?_
  rfl

lemma posFrame_Squawk {k : String} (v : Json) (p : PositionMessage) (h : k ≠ "squawk") :
    ((posAssign k v p).1).Squawk = p.Squawk := by
  unfold posAssign
  refine ite_frame (fun x : PositionMessage × Option JsonErr => (x.1).Squawk) p.Squawk rfl ?_
  refine ite_frame (fun x : PositionMessage × Option JsonErr => (x.1).Squawk) p.Squawk rfl ?_
  refine ite_frame (fun x : PositionMessage × Option JsonErr => (x.1).Squawk) p.Squawk rfl ?_
  refine ite_frame (fun x : PositionMessage × Option JsonErr => (x.1).Squawk) p.Squawk rfl ?_
  refine ite_frame (fun x : PositionMessage × Option JsonErr => (x.1).Squawk) p.Squawk rfl ?_
  refine ite_frame (fun x : PositionMessage × Option JsonErr => (x.1).Squawk) p.Squawk rfl ?_
  refine ite_frame (fun x : PositionMessage × Option JsonErr => (x.1).Squawk) p.Squawk rfl ?_
  refine ite_frame (fun x : PositionMessage × Option JsonErr => (x.1).Squawk) p.Squawk rfl ?_
  refine ite_frame (fun x : PositionMessage × Option JsonErr => (x.1).Squawk) p.Squawk rfl ?_
  refine ite_frame (fun x : PositionMessage × Option JsonErr => (x.1).Squawk) p.Squawk rfl ?_
  refine ite_frame (fun x : PositionMessage × Option JsonErr => (x.1).Squawk) p.Squawk rfl ?_
  refine ite_frame (fun x : PositionMessage × Option JsonErr => (x.1).Squawk) p.Squawk rfl ?_
  refine ite_frame (fun x : PositionMessage × Option JsonErr => (x.1).Squawk) p.Squawk rfl ?_
  refine ite_frame (fun x : PositionMessage × Option JsonErr => (x.1).Squawk) p.Squawk rfl ?_
  refine ite_frame (fun x : PositionMessage × Option JsonErr => (x.1).Squawk) p.Squawk rfl ?_
  rw [if_neg h]
  refine ite_frame (fun x : PositionMessage × Option JsonErr => (x.1).Squawk) p.Squawk rfl ?_
  refine ite_frame (fun x : PositionMessage × Option JsonErr => (x.1).Squawk) p.Squawk rfl ?_
  refine ite_frame (fun x : PositionMessage × Option JsonErr => (x.1).Squawk) p.Squawk rfl ?_
  refine ite_frame (fun x : PositionMessage × Option JsonErr => (x.1).Squawk) p.Squawk rfl ?_
  refine ite_frame (fun x : PositionMessage × Option JsonErr => (x.1).Squawk) p.Squawk rfl ?_
  refine ite_frame (fun x : PositionMessage × Option JsonErr => (x.1).Squawk) p.Squawk rfl ?_
  refine ite_frame (fun x : PositionMessage × Option JsonErr => (x.1).Squawk) p.Squawk rfl ?_
  refine ite_frame (fun x : PositionMessage × Option JsonErr => (x.1).Squawk) p.Squawk rfl ?_
  refine ite_frame (fun x : PositionMessage × Option JsonErr => (x.1).Squawk) p.Squawk rfl ?_
  refine ite_frame (fun x : PositionMessage × Option JsonErr => (x.1).Squawk) p.Squawk rfl ?_
  refine ite_frame (fun x : PositionMessage × Option JsonErr => (x.1).Squawk) p.Squawk rfl ?_
  refine ite_frame (fun x : PositionMessage × Option JsonErr => (x.1).Squawk) p.Squawk rfl ?_
  refine ite_frame (fun x : PositionMessage × Option JsonErr => (x.1).Squawk) p.Squawk rfl ?_
  refine ite_frame (fun x : PositionMessage × Option JsonErr => (x.1).Squawk) p.Squawk rfl ?_
  refine ite_frame (fun x : PositionMessage × Option JsonErr => (x.1).Squawk) p.Squawk rfl ?_
  refine ite_frame (fun x : PositionMessage × Option JsonErr => (x.1).Squawk) p.Squawk rfl ?_
  refine ite_frame (fun x : PositionMessage × Option JsonErr => (x.1).Squawk) p.Squawk rfl ?_
  refine ite_frame (fun x : PositionMessage × Option JsonErr => (x.1).Squawk) p.Squawk rfl ?_
  refine ite_frame (fun x : PositionMessage × Option JsonErr => (x.1).Squawk) p.Squawk rfl ?_
  refine ite_frame (fun x : PositionMessage × Option JsonErr => (x.1).Squawk) p.Squawk rfl ?_
  refine ite_frame (fun x : PositionMessage × Option JsonErr => (x.1).Squawk) p.Squawk rfl ?_
  refine ite_frame (fun x : PositionMessage × Option JsonErr => (x.1).Squawk) p.Squawk rfl ?_
  refine ite_frame (fun x : PositionMessage × Option JsonErr => (x.1).Squawk) p.Squawk rfl ?_
  refine ite_frame (fun x : PositionMessage × Option JsonErr => (x.1).Squawk) p.Squawk rfl ?_
  refine ite_frame (fun x : PositionMessage × Option JsonErr => (x.1).Squawk) p.Squawk rfl ?_
  refine ite_frame (fun x : PositionMessage × Option JsonErr => (x.1).Squawk) p.Squawk rfl ?_
  refine ite_frame (fun x : PositionMessage × Option JsonErr => (x.1).Squawk) p.Squawk rfl ?_
  refine ite_frame (fun x : PositionMessage × Option JsonErr => (x.1).Squawk) p.Squawk rfl ?_
  refine ite_frame (fun x : PositionMessage × Option JsonErr => (x.1).Squawk) p.Squawk rfl ?_
  refine ite_frame (fun x : PositionMessage × Option JsonErr => (x.1).Squawk) p.Squawk rfl ?_
  refine ite_frame (fun x : PositionMessage × Option JsonErr => (x.1).Squawk) p.Squawk rfl ?_
  refine ite_frame (fun x : PositionMessage × Option JsonErr => (x.1).Squawk) p.Squawk rfl ?_
  refine ite_frame (fun x : PositionMessage × Option JsonErr => (x.1).Squawk) p.Squawk rfl ?_
  refine ite_frame (fun x : PositionMessage × Option JsonErr => (x.1).Squawk) p.Squawk rfl ?_
  refine ite_frame (fun x : PositionMessage × Option JsonErr => (x.1).Squawk) p.Squawk rfl ?_
  refine ite_frame (fun x : PositionMessage × Option JsonErr => (x.1).Squawk) p.Squawk rfl ?_
  refine ite_frame (fun x : PositionMessage × Option JsonErr => (x.1).Squawk) p.Squawk rfl ?_
  refine ite_frame (fun x : PositionMessage × Option JsonErr => (x.1).Squawk) p.Squawk rfl ?_
  refine ite_frame (fun x : PositionMessage × Option JsonErr => (x.1).Squawk) p.Squawk rfl ?_
  refine ite_frame (fun x : PositionMessage × Option JsonErr => (x.1).Squawk) p.Squawk rfl ?_
  rfl

lemma posFrame_Hexid {k : String} (v : Json) (p : PositionMessage) (h : k ≠ "hexid") :
    ((posAssign k v p).1).Hexid = p.Hexid := by
  unfold posAssign
  refine ite_frame (fun x : PositionMessage × Option JsonErr => (x.1).Hexid) p.Hexid rfl ?_
  refine ite_frame (fun x : PositionMessage × Option JsonErr => (x.1).Hexid) p.Hexid rfl ?_
  refine ite_frame (fun x : PositionMessage × Option JsonErr => (x.1).Hexid) p.Hexid rfl ?_
  refine ite_frame (fun x : PositionMessage × Option JsonErr => (x.1).Hexid) p.Hexid rfl ?_
  refine ite_frame (fun x : PositionMessage × Option JsonErr => (x.1).Hexid) p.Hexid rfl ?_
  refine ite_frame (fun x : PositionMessage × Option JsonErr => (x.1).Hexid) p.Hexid rfl ?_
  refine ite_frame (fun x : PositionMessage × Option JsonErr => (x.1).Hexid) p.Hexid rfl ?_
  refine ite_frame (fun x : PositionMessage × Option JsonErr => (x.1).Hexid) p.Hexid rfl ?_
  refine ite_frame (fun x : PositionMessage × Option JsonErr => (x.1).Hexid) p.Hexid rfl ?_
  refine ite_frame (fun x : PositionMessage × Option JsonErr => (x.1).Hexid) p.Hexid rfl ?_
  refine ite_frame (fun x : PositionMessage × Option JsonErr => (x.1).Hexid) p.Hexid rfl ?_
  refine ite_frame (fun x : PositionMessage × Option JsonErr => (x.1).Hexid) p.Hexid rfl ?_
  refine ite_frame (fun x : PositionMessage × Option JsonErr => (x.1).Hexid) p.Hexid rfl ?_
  refine ite_frame (fun x : PositionMessage × Option JsonErr => (x.1).Hexid) p.Hexid rfl ?_
  refine ite_frame (fun x : PositionMessage × Option JsonErr => (x.1).Hexid) p.Hexid rfl ?_
  refine ite_frame (fun x : PositionMessage × Option JsonErr => (x.1).Hexid) p.Hexid rfl ?_
  rw [if_neg h]
  refine ite_frame (fun x : PositionMessage × Option JsonErr => (x.1).Hexid) p.Hexid rfl ?_
  refine ite_frame (fun x : PositionMessage × Option JsonErr => (x.1).Hexid) p.Hexid rfl ?_
  refine ite_frame (fun x : PositionMessage × Option JsonErr => (x.1).Hexid) p.Hexid rfl ?_
  refine ite_frame (fun x : PositionMessage × Option JsonErr => (x.1).Hexid) p.Hexid rfl ?_
  refine ite_frame (fun x : PositionMessage × Option JsonErr => (x.1).Hexid) p.Hexid rfl ?_
  refine ite_frame (fun x : PositionMessage × Option JsonErr => (x.1).Hexid) p.Hexid rfl ?_
  refine ite_frame (fun x : PositionMessage × Option JsonErr => (x.1).Hexid) p.Hexid rfl ?_
  refine ite_frame (fun x : PositionMessage × Option JsonErr => (x.1).Hexid) p.Hexid rfl ?_
  refine ite_frame (fun x : PositionMessage × Option JsonErr => (x.1).Hexid) p.Hexid rfl ?_
  refine ite_frame (fun x : PositionMessage × Option JsonErr => (x.1).Hexid) p.Hexid rfl ?_
  refine ite_frame (fun x : PositionMessage × Option JsonErr => (x.1).Hexid) p.Hexid rfl ?_
  refine ite_frame (fun x : PositionMessage × Option JsonErr => (x.1).Hexid) p.Hexid rfl ?_
  refine ite_frame (fun x : PositionMessage × Option JsonErr => (x.1).Hexid) p.Hexid rfl ?_
  refine ite_frame (fun x : PositionMessage × Option JsonErr => (x.1).Hexid) p.Hexid rfl ?_
  refine ite_frame (fun x : PositionMessage × Option JsonErr => (x.1).Hexid) p.Hexid rfl ?_
  refine ite_frame (fun x : PositionMessage × Option JsonErr => (x.1).Hexid) p.Hexid rfl ?_
  refine ite_frame (fun x : PositionMessage × Option JsonErr => (x.1).Hexid) p.Hexid rfl ?_
  refine ite_frame (fun x : PositionMessage × Option JsonErr => (x.1).Hexid) p.Hexid rfl ?_
  refine ite_frame (fun x : PositionMessage × Option JsonErr => (x.1).Hexid) p.Hexid rfl ?_
  refine ite_frame (fun x : PositionMessage × Option JsonErr => (x.1).Hexid) p.Hexid rfl ?_
  refine ite_frame (fun x : PositionMessage × Option JsonErr => (x.1).Hexid) p.Hexid rfl ?_
  refine ite_frame (fun x : PositionMessage × Option JsonErr => (x.1).Hexid) p.Hexid rfl ?_
  refine ite_frame (fun x : PositionMessage × Option JsonErr => (x.1).Hexid) p.Hexid rfl ?_
  refine ite_frame (fun x : PositionMessage × Option JsonErr => (x.1).Hexid) p.Hexid rfl ?_
  refine ite_frame (fun x : PositionMessage × Option JsonErr => (x.1).Hexid) p.Hexid rfl ?_
  refine ite_frame (fun x : PositionMessage × Option JsonErr => (x.1).Hexid) p.Hexid rfl ?_
  refine ite_frame (fun x : PositionMessage × Option JsonErr => (x.1).Hexid) p.Hexid rfl ?_
  refine ite_frame (fun x : PositionMessage × Option JsonErr => (x.1).Hexid) p.Hexid rfl ?_
  refine ite_frame (fun x : PositionMessage × Option JsonErr => (x.1).Hexid) p.Hexid rfl ?_
  refine ite_frame (fun x : PositionMessage × Option JsonErr => (x.1).Hexid) p.Hexid rfl ?_
  refine ite_frame (fun x : PositionMessage × Option JsonErr => (x.1).Hexid) p.Hexid rfl ?_
  refine ite_frame (fun x : PositionMessage × Option JsonErr => (x.1).Hexid) p.Hexid rfl ?_
  refine ite_frame (fun x : PositionMessage × Option JsonErr => (x.1).Hexid) p.Hexid rfl ?_
  refine ite_frame (fun x : PositionMessage × Option JsonErr => (x.1).Hexid) p.Hexid rfl ?_
  refine ite_frame (fun x : PositionMessage × Option JsonErr => (x.1).Hexid) p.Hexid rfl ?_
  refine ite_frame (fun x : PositionMessage × Option JsonErr => (x.1).Hexid) p.Hexid rfl ?_
  refine ite_frame (fun x : PositionMessage × Option JsonErr => (x.1).Hexid) p.Hexid rfl ?_
  refine ite_frame (fun x : PositionMessage × Option JsonErr => (x.1).Hexid) p.Hexid rfl ?_
  refine ite_frame (fun x : PositionMessage × Option JsonErr => (x.1).Hexid) p.Hexid rfl ?_
  rfl

lemma posFrame_ATCIdent {k : String} (v : Json) (p : PositionMessage) (h : k ≠ "atcident") :
    ((posAssign k v p).1).ATCIdent = p.ATCIdent := by
  unfold posAssign
  refine ite_frame (fun x : PositionMessage × Option JsonErr => (x.1).ATCIdent) p.ATCIdent rfl ?_
  refine ite_frame (fun x : PositionMessage × Option JsonErr => (x.1).ATCIdent) p.ATCIdent rfl ?_
  refine ite_frame (fun x : PositionMessage × Option JsonErr => (x.1).ATCIdent) p.ATCIdent rfl ?_
  refine ite_frame (fun x : PositionMessage × Option JsonErr => (x.1).ATCIdent) p.ATCIdent rfl ?_
  refine ite_frame (fun x : PositionMessage × Option JsonErr => (x.1).ATCIdent) p.ATCIdent rfl ?_
  refine ite_frame (fun x : PositionMessage × Option JsonErr => (x.1).ATCIdent) p.ATCIdent rfl ?_
  refine ite_frame (fun x : PositionMessage × Option JsonErr => (x.1).ATCIdent) p.ATCIdent rfl ?_
  refine ite_frame (fun x : PositionMessage × Option JsonErr => (x.1).ATCIdent) p.ATCIdent rfl ?_
  refine ite_frame (fun x : PositionMessage × Option JsonErr => (x.1).ATCIdent) p.ATCIdent rfl ?_
  refine ite_frame (fun x : PositionMessage × Option JsonErr => (x.1).ATCIdent) p.ATCIdent rfl ?_
  refine ite_frame (fun x : PositionMessage × Option JsonErr => (x.1).ATCIdent) p.ATCIdent rfl ?_
  refine ite_frame (fun x : PositionMessage × Option JsonErr => (x.1).ATCIdent) p.ATCIdent rfl ?_
  refine ite_frame (fun x : PositionMessage × Option JsonErr => (x.1).ATCIdent) p.ATCIdent rfl ?_
  refine ite_frame (fun x : PositionMessage × Option JsonErr => (x.1).ATCIdent) p.ATCIdent rfl ?_
  refine ite_frame (fun x : PositionMessage × Option JsonErr => (x.1).ATCIdent) p.ATCIdent rfl ?_
  refine ite_frame (fun x : PositionMessage × Option JsonErr => (x.1).ATCIdent) p.ATCIdent rfl ?_
  refine ite_frame (fun x : PositionMessage × Option JsonErr => (x.1).ATCIdent) p.ATCIdent rfl ?_
  rw [if_neg h]
  refine ite_frame (fun x : PositionMessage × Option JsonErr => (x.1).ATCIdent) p.ATCIdent rfl ?_
  refine ite_frame (fun x : PositionMessage × Option JsonErr => (x.1).ATCIdent) p.ATCIdent rfl ?_
  refine ite_frame (fun x : PositionMessage × Option JsonErr => (x.1).ATCIdent) p.ATCIdent rfl ?_
  refine ite_frame (fun x : PositionMessage × Option JsonErr => (x.1).ATCIdent) p.ATCIdent rfl ?_
  refine ite_frame (fun x : PositionMessage × Option JsonErr => (x.1).ATCIdent) p.ATCIdent rfl ?_
  refine ite_frame (fun x : PositionMessage × Option JsonErr => (x.1).ATCIdent) p.ATCIdent rfl ?_
  refine ite_frame (fun x : PositionMessage × Option JsonErr => (x.1).ATCIdent) p.ATCIdent rfl ?_
  refine ite_frame (fun x : PositionMessage × Option JsonErr => (x.1).ATCIdent) p.ATCIdent rfl ?_
  refine ite_frame (fun x : PositionMessage × Option JsonErr => (x.1).ATCIdent) p.ATCIdent rfl ?_
  refine ite_frame (fun x : PositionMessage × Option JsonErr => (x.1).ATCIdent) p.ATCIdent rfl ?_
  refine ite_frame (fun x : PositionMessage × Option JsonErr => (x.1).ATCIdent) p.ATCIdent rfl ?_
  refine ite_frame (fun x : PositionMessage × Option JsonErr => (x.1).ATCIdent) p.ATCIdent rfl ?_
  refine ite_frame (fun x : PositionMessage × Option JsonErr => (x.1).ATCIdent) p.ATCIdent rfl ?_
  refine ite_frame (fun x : PositionMessage × Option JsonErr => (x.1).ATCIdent) p.ATCIdent rfl ?_
  refine ite_frame (fun x : PositionMessage × Option JsonErr => (x.1).ATCIdent) p.ATCIdent rfl ?_
  refine ite_frame (fun x : PositionMessage × Option JsonErr => (x.1).ATCIdent) p.ATCIdent rfl ?_
  refine ite_frame (fun x : PositionMessage × Option JsonErr => (x.1).ATCIdent) p.ATCIdent rfl ?_
  refine ite_frame (fun x : PositionMessage × Option JsonErr => (x.1).ATCIdent) p.ATCIdent rfl ?_
  refine ite_frame (fun x : PositionMessage × Option JsonErr => (x.1).ATCIdent) p.ATCIdent rfl ?_
  refine ite_frame (fun x : PositionMessage × Option JsonErr => (x.1).ATCIdent) p.ATCIdent rfl ?_
  refine ite_frame (fun x : PositionMessage × Option JsonErr => (x.1).ATCIdent) p.ATCIdent rfl ?_
  refine ite_frame (fun x : PositionMessage × Option JsonErr => (x.1).ATCIdent) p.ATCIdent rfl ?_
  refine ite_frame (fun x : PositionMessage × Option JsonErr => (x.1).ATCIdent) p.ATCIdent rfl ?_
  refine ite_frame (fun x : PositionMessage × Option JsonErr => (x.1).ATCIdent) p.ATCIdent rfl ?_
  refine ite_frame (fun x : PositionMessage × Option JsonErr => (x.1).ATCIdent) p.ATCIdent rfl ?_
  refine ite_frame (fun x : PositionMessage × Option JsonErr => (x.1).ATCIdent) p.ATCIdent rfl ?_
  refine ite_frame (fun x : PositionMessage × Option JsonErr => (x.1).ATCIdent) p.ATCIdent rfl ?_
  refine ite_frame (fun x : PositionMessage × Option JsonErr => (x.1).ATCIdent) p.ATCIdent rfl ?_
  refine ite_frame (fun x : PositionMessage × Option JsonErr => (x.1).ATCIdent) p.ATCIdent rfl ?_
  refine ite_frame (fun x : PositionMessage × Option JsonErr => (x.1).ATCIdent) p.ATCIdent rfl ?_
  refine ite_frame (fun x : PositionMessage × Option JsonErr => (x.1).ATCIdent) p.ATCIdent rfl ?_
  refine ite_frame (fun x : PositionMessage × Option JsonErr => (x.1).ATCIdent) p.ATCIdent rfl ?_
  refine ite_frame (fun x : PositionMessage × Option JsonErr => (x.1).ATCIdent) p.ATCIdent rfl ?_
  refine ite_frame (fun x : PositionMessage × Option JsonErr => (x.1).ATCIdent) p.ATCIdent rfl ?_
  refine ite_frame (fun x : PositionMessage × Option JsonErr => (x.1).ATCIdent) p.ATCIdent rfl ?_
  refine ite_frame (fun x : PositionMessage × Option JsonErr => (x.1).ATCIdent) p.ATCIdent rfl ?_
  refine ite_frame (fun x : PositionMessage × Option JsonErr => (x.1).ATCIdent) p.ATCIdent rfl ?_
  refine ite_frame (fun x : PositionMessage × Option JsonErr => (x.1).ATCIdent) p.ATCIdent rfl ?_
  rfl

lemma posFrame_AircraftType {k : String} (v : Json) (p : PositionMessage) (h : k ≠ "aircrafttype") :
    ((posAssign k v p).1).AircraftType = p.AircraftType := by
  unfold posAssign
  refine ite_frame (fun x : PositionMessage × Option JsonErr => (x.1).AircraftType) p.AircraftType rfl ?_
  refine ite_frame (fun x : PositionMessage × Option JsonErr => (x.1).AircraftType) p.AircraftType rfl ?_
  refine ite_frame (fun x : PositionMessage × Option JsonErr => (x.1).AircraftType) p.AircraftType rfl ?_
  refine ite_frame (fun x : PositionMessage × Option JsonErr => (x.1).AircraftType) p.AircraftType rfl ?_
  refine ite_frame (fun x : PositionMessage × Option JsonErr => (x.1).AircraftType) p.AircraftType rfl ?_
  refine ite_frame (fun x : PositionMessage × Option JsonErr => (x.1).AircraftType) p.AircraftType rfl ?_
  refine ite_frame (fun x : PositionMessage × Option JsonErr => (x.1).AircraftType) p.AircraftType rfl ?_
  refine ite_frame (fun x : PositionMessage × Option JsonErr => (x.1).AircraftType) p.AircraftType rfl ?_
  refine ite_frame (fun x : PositionMessage × Option JsonErr => (x.1).AircraftType) p.AircraftType rfl ?_
  refine ite_frame (fun x : PositionMessage × Option JsonErr => (x.1).AircraftType) p.AircraftType rfl ?_
  refine ite_frame (fun x : PositionMessage × Option JsonErr => (x.1).AircraftType) p.AircraftType rfl ?_
  refine ite_frame (fun x : PositionMessage × Option JsonErr => (x.1).AircraftType) p.AircraftType rfl ?_
  refine ite_frame (fun x : PositionMessage × Option JsonErr => (x.1).AircraftType) p.AircraftType rfl ?_
  refine ite_frame (fun x : PositionMessage × Option JsonErr => (x.1).AircraftType) p.AircraftType rfl ?_
  refine ite_frame (fun x : PositionMessage × Option JsonErr => (x.1).AircraftType) p.AircraftType rfl ?_
  refine ite_frame (fun x : PositionMessage × Option JsonErr => (x.1).AircraftType) p.AircraftType rfl ?_
  refine ite_frame (fun x : PositionMessage × Option JsonErr => (x.1).AircraftType) p.AircraftType rfl ?_
  refine ite_frame (fun x : PositionMessage × Option JsonErr => (x.1).AircraftType) p.AircraftType rfl ?_
  rw [if_neg h]
  refine ite_frame (fun x : PositionMessage × Option JsonErr => (x.1).AircraftType) p.AircraftType rfl ?_
  refine ite_frame (fun x : PositionMessage × Option JsonErr => (x.1).AircraftType) p.AircraftType rfl ?_
  refine ite_frame (fun x : PositionMessage × Option JsonErr => (x.1).AircraftType) p.AircraftType rfl ?_
  refine ite_frame (fun x : PositionMessage × Option JsonErr => (x.1).AircraftType) p.AircraftType rfl ?_
  refine ite_frame (fun x : PositionMessage × Option JsonErr => (x.1).AircraftType) p.AircraftType rfl ?_
  refine ite_frame (fun x : PositionMessage × Option JsonErr => (x.1).AircraftType) p.AircraftType rfl ?_
  refine ite_frame (fun x : PositionMessage × Option JsonErr => (x.1).AircraftType) p.AircraftType rfl ?_
  refine ite_frame (fun x : PositionMessage × Option JsonErr => (x.1).AircraftType) p.AircraftType rfl ?_
  refine ite_frame (fun x : PositionMessage × Option JsonErr => (x.1).AircraftType) p.AircraftType rfl ?_
  refine ite_frame (fun x : PositionMessage × Option JsonErr => (x.1).AircraftType) p.AircraftType rfl ?_
  refine ite_frame (fun x : PositionMessage × Option JsonErr => (x.1).AircraftType) p.AircraftType rfl ?_
  refine ite_frame (fun x : PositionMessage × Option JsonErr => (x.1).AircraftType) p.AircraftType rfl ?_
  refine ite_frame (fun x : PositionMessage × Option JsonErr => (x.1).AircraftType) p.AircraftType rfl ?_
  refine ite_frame (fun x : PositionMessage × Option JsonErr => (x.1).AircraftType) p.AircraftType rfl ?_
  refine ite_frame (fun x : PositionMessage × Option JsonErr => (x.1).AircraftType) p.AircraftType rfl ?_
  refine ite_frame (fun x : PositionMessage × Option JsonErr => (x.1).AircraftType) p.AircraftType rfl ?_
  refine ite_frame (fun x : PositionMessage × Option JsonErr => (x.1).AircraftType) p.AircraftType rfl ?_
  refine ite_frame (fun x : PositionMessage × Option JsonErr => (x.1).AircraftType) p.AircraftType rfl ?_
  refine ite_frame (fun x : PositionMessage × Option JsonErr => (x.1).AircraftType) p.AircraftType rfl ?_
  refine ite_frame (fun x : PositionMessage × Option JsonErr => (x.1).AircraftType) p.AircraftType rfl ?_
  refine ite_frame (fun x : PositionMessage × Option JsonErr => (x.1).AircraftType) p.AircraftType rfl ?_
  refine ite_frame (fun x : PositionMessage × Option JsonErr => (x.1).AircraftType) p.AircraftType rfl ?_
  refine ite_frame (fun x : PositionMessage × Option JsonErr => (x.1).AircraftType) p.AircraftType rfl ?_
  refine ite_frame (fun x : PositionMessage × Option JsonErr => (x.1).AircraftType) p.AircraftType rfl ?_
  refine ite_frame (fun x : PositionMessage × Option JsonErr => (x.1).AircraftType) p.AircraftType rfl ?_
  refine ite_frame (fun x : PositionMessage × Option JsonErr => (x.1).AircraftType) p.AircraftType rfl ?_
  refine ite_frame (fun x : PositionMessage × Option JsonErr => (x.1).AircraftType) p.AircraftType rfl ?_
  refine ite_frame (fun x : PositionMessage × Option JsonErr => (x.1).AircraftType) p.AircraftType rfl ?_
  refine ite_frame (fun x : PositionMessage × Option JsonErr => (x.1).AircraftType) p.AircraftType rfl ?_
  refine ite_frame (fun x : PositionMessage × Option JsonErr => (x.1).AircraftType) p.AircraftType rfl ?_
  refine ite_frame (fun x : PositionMessage × Option JsonErr => (x.1).AircraftType) p.AircraftType rfl ?_
  refine ite_frame (fun x : PositionMessage × Option JsonErr => (x.1).AircraftType) p.AircraftType rfl ?_
  refine ite_frame (fun x : PositionMessage × Option JsonErr => (x.1).AircraftType) p.AircraftType rfl ?_
  refine ite_frame (fun x : PositionMessage × Option JsonErr => (x.1).AircraftType) p.AircraftType rfl ?_
  refine ite_frame (fun x : PositionMessage × Option JsonErr => (x.1).AircraftType) p.AircraftType rfl ?_
  refine ite_frame (fun x : PositionMessage × Option JsonErr => (x.1).AircraftType) p.AircraftType rfl ?_
  refine ite_frame (fun x : PositionMessage × Option JsonErr => (x.1).AircraftType) p.AircraftType rfl ?_
  rfl

lemma posFrame_Orig {k : String} (v : Json) (p : PositionMessage) (h : k ≠ "orig") :
    ((posAssign k v p).1).Orig = p.Orig := by
  unfold posAssign
  refine ite_frame (fun x : PositionMessage × Option JsonErr => (x.1).Orig) p.Orig rfl ?_
  refine ite_frame (fun x : PositionMessage × Option JsonErr => (x.1).Orig) p.Orig rfl ?_
  refine ite_frame (fun x : PositionMessage × Option JsonErr => (x.1).Orig) p.Orig rfl ?_
  refine ite_frame (fun x : PositionMessage × Option JsonErr => (x.1).Orig) p.Orig rfl ?_
  refine ite_frame (fun x : PositionMessage × Option JsonErr => (x.1).Orig) p.Orig rfl ?_
  refine ite_frame (fun x : PositionMessage × Option JsonErr => (x.1).Orig) p.Orig rfl ?_
  refine ite_frame (fun x : PositionMessage × Option JsonErr => (x.1).Orig) p.Orig rfl ?_
  refine ite_frame (fun x : PositionMessage × Option JsonErr => (x.1).Orig) p.Orig rfl ?_
  refine ite_frame (fun x : PositionMessage × Option JsonErr => (x.1).Orig) p.Orig rfl ?_
  refine ite_frame (fun x : PositionMessage × Option JsonErr => (x.1).Orig) p.Orig rfl ?_
  refine ite_frame (fun x : PositionMessage × Option JsonErr => (x.1).Orig) p.Orig rfl ?_
  refine ite_frame (fun x : PositionMessage × Option JsonErr => (x.1).Orig) p.Orig rfl ?_
  refine ite_frame (fun x : PositionMessage × Option JsonErr => (x.1).Orig) p.Orig rfl ?_
  refine ite_frame (fun x : PositionMessage × Option JsonErr => (x.1).Orig) p.Orig rfl ?_
  refine ite_frame (fun x : PositionMessage × Option JsonErr => (x.1).Orig) p.Orig rfl ?_
  refine ite_frame (fun x : PositionMessage × Option JsonErr => (x.1).Orig) p.Orig rfl ?_
  refine ite_frame (fun x : PositionMessage × Option JsonErr => (x.1).Orig) p.Orig rfl ?_
  refine ite_frame (fun x : PositionMessage × Option JsonErr => (x.1).Orig) p.Orig rfl ?_
  refine ite_frame (fun x : PositionMessage × Option JsonErr => (x.1).Orig) p.Orig rfl ?_
  rw [if_neg h]
  refine ite_frame (fun x : PositionMessage × Option JsonErr => (x.1).Orig) p.Orig rfl ?_
  refine ite_frame (fun x : PositionMessage × Option JsonErr => (x.1).Orig) p.Orig rfl ?_
  refine ite_frame (fun x : PositionMessage × Option JsonErr => (x.1).Orig) p.Orig rfl ?_
  refine ite_frame (fun x : PositionMessage × Option JsonErr => (x.1).Orig) p.Orig rfl ?_
  refine ite_frame (fun x : PositionMessage × Option JsonErr => (x.1).Orig) p.Orig rfl ?_
  refine ite_frame (fun x : PositionMessage × Option JsonErr => (x.1).Orig) p.Orig rfl ?_
  refine ite_frame (fun x : PositionMessage × Option JsonErr => (x.1).Orig) p.Orig rfl ?_
  refine ite_frame (fun x : PositionMessage × Option JsonErr => (x.1).Orig) p.Orig rfl ?_
  refine ite_frame (fun x : PositionMessage × Option JsonErr => (x.1).Orig) p.Orig rfl ?_
  refine ite_frame (fun x : PositionMessage × Option JsonErr => (x.1).Orig) p.Orig rfl ?_
  refine ite_frame (fun x : PositionMessage × Option JsonErr => (x.1).Orig) p.Orig rfl ?_
  refine ite_frame (fun x : PositionMessage × Option JsonErr => (x.1).Orig) p.Orig rfl ?_
  refine ite_frame (fun x : PositionMessage × Option JsonErr => (x.1).Orig) p.Orig rfl ?_
  refine ite_frame (fun x : PositionMessage × Option JsonErr => (x.1).Orig) p.Orig rfl ?_
  refine ite_frame (fun x : PositionMessage × Option JsonErr => (x.1).Orig) p.Orig rfl ?_
  refine ite_frame (fun x : PositionMessage × Option JsonErr => (x.1).Orig) p.Orig rfl ?_
  refine ite_frame (fun x : PositionMessage × Option JsonErr => (x.1).Orig) p.Orig rfl ?_
  refine ite_frame (fun x : PositionMessage × Option JsonErr => (x.1).Orig) p.Orig rfl ?_
  refine ite_frame (fun x : PositionMessage × Option JsonErr => (x.1).Orig) p.Orig rfl ?_
  refine ite_frame (fun x : PositionMessage × Option JsonErr => (x.1).Orig) p.Orig rfl ?_
  refine ite_frame (fun x : PositionMessage × Option JsonErr => (x.1).Orig) p.Orig rfl ?_
  refine ite_frame (fun x : PositionMessage × Option JsonErr => (x.1).Orig) p.Orig rfl ?_
  refine ite_frame (fun x : PositionMessage × Option JsonErr => (x.1).Orig) p.Orig rfl ?_
  refine ite_frame (fun x : PositionMessage × Option JsonErr => (x.1).Orig) p.Orig rfl ?_
  refine ite_frame (fun x : PositionMessage × Option JsonErr => (x.1).Orig) p.Orig rfl ?_
  refine ite_frame (fun x : PositionMessage × Option JsonErr => (x.1).Orig) p.Orig rfl ?_
  refine ite_frame (fun x : PositionMessage × Option JsonErr => (x.1).Orig) p.Orig rfl ?_
  refine ite_frame (fun x : PositionMessage × Option JsonErr => (x.1).Orig) p.Orig rfl ?_
  refine ite_frame (fun x : PositionMessage × Option JsonErr => (x.1).Orig) p.Orig rfl ?_
  refine ite_frame (fun x : PositionMessage × Option JsonErr => (x.1).Orig) p.Orig rfl ?_
  refine ite_frame (fun x : PositionMessage × Option JsonErr => (x.1).Orig) p.Orig rfl ?_
  refine ite_frame (fun x : PositionMessage × Option JsonErr => (x.1).Orig) p.Orig rfl ?_
  refine ite_frame (fun x : PositionMessage × Option JsonErr => (x.1).Orig) p.Orig rfl ?_
  refine ite_frame (fun x : PositionMessage × Option JsonErr => (x.1).Orig) p.Orig rfl ?_
  refine ite_frame (fun x : PositionMessage × Option JsonErr => (x.1).Orig) p.Orig rfl ?_
  refine ite_frame (fun x : PositionMessage × Option JsonErr => (x.1).Orig) p.Orig rfl ?_
  rfl

lemma posFrame_Dest {k : String} (v : Json) (p : PositionMessage) (h : k ≠ "dest") :
    ((posAssign k v p).1).Dest = p.Dest := by
  unfold posAssign
  refine ite_frame (fun x : PositionMessage × Option JsonErr => (x.1).Dest) p.Dest rfl ?_
  refine ite_frame (fun x : PositionMessage × Option JsonErr => (x.1).Dest) p.Dest rfl ?_
  refine ite_frame (fun x : PositionMessage × Option JsonErr => (x.1).Dest) p.Dest rfl ?_
  refine ite_frame (fun x : PositionMessage × Option JsonErr => (x.1).Dest) p.Dest rfl ?_
  refine ite_frame (fun x : PositionMessage × Option JsonErr => (x.1).Dest) p.Dest rfl ?_
  refine ite_frame (fun x : PositionMessage × Option JsonErr => (x.1).Dest) p.Dest rfl ?_
  refine ite_frame (fun x : PositionMessage × Option JsonErr => (x.1).Dest) p.Dest rfl ?_
  refine ite_frame (fun x : PositionMessage × Option JsonErr => (x.1).Dest) p.Dest rfl ?_
  refine ite_frame (fun x : PositionMessage × Option JsonErr => (x.1).Dest) p.Dest rfl ?_
  refine ite_frame (fun x : PositionMessage × Option JsonErr => (x.1).Dest) p.Dest rfl ?_
  refine ite_frame (fun x : PositionMessage × Option JsonErr => (x.1).Dest) p.Dest rfl ?_
  refine ite_frame (fun x : PositionMessage × Option JsonErr => (x.1).Dest) p.Dest rfl ?_
  refine ite_frame (fun x : PositionMessage × Option JsonErr => (x.1).Dest) p.Dest rfl ?_
  refine ite_frame (fun x : PositionMessage × Option JsonErr => (x.1).Dest) p.Dest rfl ?_
  refine ite_frame (fun x : PositionMessage × Option JsonErr => (x.1).Dest) p.Dest rfl ?_
  refine ite_frame (fun x : PositionMessage × Option JsonErr => (x.1).Dest) p.Dest rfl ?_
  refine ite_frame (fun x : PositionMessage × Option JsonErr => (x.1).Dest) p.Dest rfl ?_
  refine ite_frame (fun x : PositionMessage × Option JsonErr => (x.1).Dest) p.Dest rfl ?_
  refine ite_frame (fun x : PositionMessage × Option JsonErr => (x.1).Dest) p.Dest rfl ?_
  refine ite_frame (fun x : PositionMessage × Option JsonErr => (x.1).Dest) p.Dest rfl ?_
  rw [if_neg h]
  refine ite_frame (fun x : PositionMessage × Option JsonErr => (x.1).Dest) p.Dest rfl ?_
  refine ite_frame (fun x : PositionMessage × Option JsonErr => (x.1).Dest) p.Dest rfl ?_
  refine ite_frame (fun x : PositionMessage × Option JsonErr => (x.1).Dest) p.Dest rfl ?_
  refine ite_frame (fun x : PositionMessage × Option JsonErr => (x.1).Dest) p.Dest rfl ?_
  refine ite_frame (fun x : PositionMessage × Option JsonErr => (x.1).Dest) p.Dest rfl ?_
  refine ite_frame (fun x : PositionMessage × Option JsonErr => (x.1).Dest) p.Dest rfl ?_
  refine ite_frame (fun x : PositionMessage × Option JsonErr => (x.1).Dest) p.Dest rfl ?_
  refine ite_frame (fun x : PositionMessage × Option JsonErr => (x.1).Dest) p.Dest rfl ?_
  refine ite_frame (fun x : PositionMessage × Option JsonErr => (x.1).Dest) p.Dest rfl ?_
  refine ite_frame (fun x : PositionMessage × Option JsonErr => (x.1).Dest) p.Dest rfl ?_
  refine ite_frame (fun x : PositionMessage × Option JsonErr => (x.1).Dest) p.Dest rfl ?_
  refine ite_frame (fun x : PositionMessage × Option JsonErr => (x.1).Dest) p.Dest rfl ?_
  refine ite_frame (fun x : PositionMessage × Option JsonErr => (x.1).Dest) p.Dest rfl ?_
  refine ite_frame (fun x : PositionMessage × Option JsonErr => (x.1).Dest) p.Dest rfl ?_
  refine ite_frame (fun x : PositionMessage × Option JsonErr => (x.1).Dest) p.Dest rfl ?_
  refine ite_frame (fun x : PositionMessage × Option JsonErr => (x.1).Dest) p.Dest rfl ?_
  refine ite_frame (fun x : PositionMessage × Option JsonErr => (x.1).Dest) p.Dest rfl ?_
  refine ite_frame (fun x : PositionMessage × Option JsonErr => (x.1).Dest) p.Dest rfl ?_
  refine ite_frame (fun x : PositionMessage × Option JsonErr => (x.1).Dest) p.Dest rfl ?_
  refine ite_frame (fun x : PositionMessage × Option JsonErr => (x.1).Dest) p.Dest rfl ?_
  refine ite_frame (fun x : PositionMessage × Option JsonErr => (x.1).Dest) p.Dest rfl ?_
  refine ite_frame (fun x : PositionMessage × Option JsonErr => (x.1).Dest) p.Dest rfl ?_
  refine ite_frame (fun x : PositionMessage × Option JsonErr => (x.1).Dest) p.Dest rfl ?_
  refine ite_frame (fun x : PositionMessage × Option JsonErr => (x.1).Dest) p.Dest rfl ?_
  refine ite_frame (fun x : PositionMessage × Option JsonErr => (x.1).Dest) p.Dest rfl ?_
  refine ite_frame (fun x : PositionMessage × Option JsonErr => (x.1).Dest) p.Dest rfl ?_
  refine ite_frame (fun x : PositionMessage × Option JsonErr => (x.1).Dest) p.Dest rfl ?_
  refine ite_frame (fun x : PositionMessage × Option JsonErr => (x.1).Dest) p.Dest rfl ?_
  refine ite_frame (fun x : PositionMessage × Option JsonErr => (x.1).Dest) p.Dest rfl ?_
  refine ite_frame (fun x : PositionMessage × Option JsonErr => (x.1).Dest) p.Dest rfl ?_
  refine ite_frame (fun x : PositionMessage × Option JsonErr => (x.1).Dest) p.Dest rfl ?_
  refine ite_frame (fun x : PositionMessage × Option JsonErr => (x.1).Dest) p.Dest rfl ?_
  refine ite_frame (fun x : PositionMessage × Option JsonErr => (x.1).Dest) p.Dest rfl ?_
  refine ite_frame (fun x : PositionMessage × Option JsonErr => (x.1).Dest) p.Dest rfl ?_
  refine ite_frame (fun x : PositionMessage × Option JsonErr => (x.1).Dest) p.Dest rfl ?_
  rfl

lemma posFrame_Reg {k : String} (v : Json) (p : PositionMessage) (h : k ≠ "reg") :
    ((posAssign k v p).1).Reg = p.Reg := by
  unfold posAssign
  refine ite_frame (fun x : PositionMessage × Option JsonErr => (x.1).Reg) p.Reg rfl ?_
  refine ite_frame (fun x : PositionMessage × Option JsonErr => (x.1).Reg) p.Reg rfl ?_
  refine ite_frame (fun x : PositionMessage × Option JsonErr => (x.1).Reg) p.Reg rfl ?_
  refine ite_frame (fun x : PositionMessage × Option JsonErr => (x.1).Reg) p.Reg rfl ?_
  refine ite_frame (fun x : PositionMessage × Option JsonErr => (x.1).Reg) p.Reg rfl ?_
  refine ite_frame (fun x : PositionMessage × Option JsonErr => (x.1).Reg) p.Reg rfl ?_
  refine ite_frame (fun x : PositionMessage × Option JsonErr => (x.1).Reg) p.Reg rfl ?_
  refine ite_frame (fun x : PositionMessage × Option JsonErr => (x.1).Reg) p.Reg rfl ?_
  refine ite_frame (fun x : PositionMessage × Option JsonErr => (x.1).Reg) p.Reg rfl ?_
  refine ite_frame (fun x : PositionMessage × Option JsonErr => (x.1).Reg) p.Reg rfl ?_
  refine ite_frame (fun x : PositionMessage × Option JsonErr => (x.1).Reg) p.Reg rfl ?_
  refine ite_frame (fun x : PositionMessage × Option JsonErr => (x.1).Reg) p.Reg rfl ?_
  refine ite_frame (fun x : PositionMessage × Option JsonErr => (x.1).Reg) p.Reg rfl ?_
  refine ite_frame (fun x : PositionMessage × Option JsonErr => (x.1).Reg) p.Reg rfl ?_
  refine ite_frame (fun x : PositionMessage × Option JsonErr => (x.1).Reg) p.Reg rfl ?_
  refine ite_frame (fun x : PositionMessage × Option JsonErr => (x.1).Reg) p.Reg rfl ?_
  refine ite_frame (fun x : PositionMessage × Option JsonErr => (x.1).Reg) p.Reg rfl ?_
  refine ite_frame (fun x : PositionMessage × Option JsonErr => (x.1).Reg) p.Reg rfl ?_
  refine ite_frame (fun x : PositionMessage × Option JsonErr => (x.1).Reg) p.Reg rfl ?_
  refine ite_frame (fun x : PositionMessage × Option JsonErr => (x.1).Reg) p.Reg rfl ?_
  refine ite_frame (fun x : PositionMessage × Option JsonErr => (x.1).Reg) p.Reg rfl ?_
  rw [if_neg h]
  refine ite_frame (fun x : PositionMessage × Option JsonErr => (x.1).Reg) p.Reg rfl ?_
  refine ite_frame (fun x : PositionMessage × Option JsonErr => (x.1).Reg) p.Reg rfl ?_
  refine ite_frame (fun x : PositionMessage × Option JsonErr => (x.1).Reg) p.Reg rfl ?_
  refine ite_frame (fun x : PositionMessage × Option JsonErr => (x.1).Reg) p.Reg rfl ?_
  refine ite_frame (fun x : PositionMessage × Option JsonErr => (x.1).Reg) p.Reg rfl ?_
  refine ite_frame (fun x : PositionMessage × Option JsonErr => (x.1).Reg) p.Reg rfl ?_
  refine ite_frame (fun x : PositionMessage × Option JsonErr => (x.1).Reg) p.Reg rfl ?_
  refine ite_frame (fun x : PositionMessage × Option JsonErr => (x.1).Reg) p.Reg rfl ?_
  refine ite_frame (fun x : PositionMessage × Option JsonErr => (x.1).Reg) p.Reg rfl ?_
  refine ite_frame (fun x : PositionMessage × Option JsonErr => (x.1).Reg) p.Reg rfl ?_
  refine ite_frame (fun x : PositionMessage × Option JsonErr => (x.1).Reg) p.Reg rfl ?_
  refine ite_frame (fun x : PositionMessage × Option JsonErr => (x.1).Reg) p.Reg rfl ?_
  refine ite_frame (fun x : PositionMessage × Option JsonErr => (x.1).Reg) p.Reg rfl ?_
  refine ite_frame (fun x : PositionMessage × Option JsonErr => (x.1).Reg) p.Reg rfl ?_
  refine ite_frame (fun x : PositionMessage × Option JsonErr => (x.1).Reg) p.Reg rfl ?_
  refine ite_frame (fun x : PositionMessage × Option JsonErr => (x.1).Reg) p.Reg rfl ?_
  refine ite_frame (fun x : PositionMessage × Option JsonErr => (x.1).Reg) p.Reg rfl ?_
  refine ite_frame (fun x : PositionMessage × Option JsonErr => (x.1).Reg) p.Reg rfl ?_
  refine ite_frame (fun x : PositionMessage × Option JsonErr => (x.1).Reg) p.Reg rfl ?_
  refine ite_frame (fun x : PositionMessage × Option JsonErr => (x.1).Reg) p.Reg rfl ?_
  refine ite_frame (fun x : PositionMessage × Option JsonErr => (x.1).Reg) p.Reg rfl ?_
  refine ite_frame (fun x : PositionMessage × Option JsonErr => (x.1).Reg) p.Reg rfl ?_
  refine ite_frame (fun x : PositionMessage × Option JsonErr => (x.1).Reg) p.Reg rfl ?_
  refine ite_frame (fun x : PositionMessage × Option JsonErr => (x.1).Reg) p.Reg rfl ?_
  refine ite_frame (fun x : PositionMessage × Option JsonErr => (x.1).Reg) p.Reg rfl ?_
  refine ite_frame (fun x : PositionMessage × Option JsonErr => (x.1).Reg) p.Reg rfl ?_
  refine ite_frame (fun x : PositionMessage × Option JsonErr => (x.1).Reg) p.Reg rfl ?_
  refine ite_frame (fun x : PositionMessage × Option JsonErr => (x.1).Reg) p.Reg rfl ?_
  refine ite_frame (fun x : PositionMessage × Option JsonErr => (x.1).Reg) p.Reg rfl ?_
  refine ite_frame (fun x : PositionMessage × Option JsonErr => (x.1).Reg) p.Reg rfl ?_
  refine ite_frame (fun x : PositionMessage × Option JsonErr => (x.1).Reg) p.Reg rfl ?_
  refine ite_frame (fun x : PositionMessage × Option JsonErr => (x.1).Reg) p.Reg rfl ?_
  refine ite_frame (fun x : PositionMessage × Option JsonErr => (x.1).Reg) p.Reg rfl ?_
  refine ite_frame (fun x : PositionMessage × Option JsonErr => (x.1).Reg) p.Reg rfl ?_
  rfl

lemma posFrame_ETA {k : String} (v : Json) (p : PositionMessage) (h : k ≠ "eta") :
    ((posAssign k v p).1).ETA = p.ETA := by
  unfold posAssign
  refine ite_frame (fun x : PositionMessage × Option JsonErr => (x.1).ETA) p.ETA rfl ?_
  refine ite_frame (fun x : PositionMessage × Option JsonErr => (x.1).ETA) p.ETA rfl ?_
  refine ite_frame (fun x : PositionMessage × Option JsonErr => (x.1).ETA) p.ETA rfl ?_
  refine ite_frame (fun x : PositionMessage × Option JsonErr => (x.1).ETA) p.ETA rfl ?_
  refine ite_frame (fun x : PositionMessage × Option JsonErr => (x.1).ETA) p.ETA rfl ?_
  refine ite_frame (fun x : PositionMessage × Option JsonErr => (x.1).ETA) p.ETA rfl ?_
  refine ite_frame (fun x : PositionMessage × Option JsonErr => (x.1).ETA) p.ETA rfl ?_
  refine ite_frame (fun x : PositionMessage × Option JsonErr => (x.1).ETA) p.ETA rfl ?_
  refine ite_frame (fun x : PositionMessage × Option JsonErr => (x.1).ETA) p.ETA rfl ?_
  refine ite_frame (fun x : PositionMessage × Option JsonErr => (x.1).ETA) p.ETA rfl ?_
  refine ite_frame (fun x : PositionMessage × Option JsonErr => (x.1).ETA) p.ETA rfl ?_
  refine ite_frame (fun x : PositionMessage × Option JsonErr => (x.1).ETA) p.ETA rfl ?_
  refine ite_frame (fun x : PositionMessage × Option JsonErr => (x.1).ETA) p.ETA rfl ?_
  refine ite_frame (fun x : PositionMessage × Option JsonErr => (x.1).ETA) p.ETA rfl ?_
  refine ite_frame (fun x : PositionMessage × Option JsonErr => (x.1).ETA) p.ETA rfl ?_
  refine ite_frame (fun x : PositionMessage × Option JsonErr => (x.1).ETA) p.ETA rfl ?_
  refine ite_frame (fun x : PositionMessage × Option JsonErr => (x.1).ETA) p.ETA rfl ?_
  refine ite_frame (fun x : PositionMessage × Option JsonErr => (x.1).ETA) p.ETA rfl ?_
  refine ite_frame (fun x : PositionMessage × Option JsonErr => (x.1).ETA) p.ETA rfl ?_
  refine ite_frame (fun x : PositionMessage × Option JsonErr => (x.1).ETA) p.ETA rfl ?_
  refine ite_frame (fun x : PositionMessage × Option JsonErr => (x.1).ETA) p.ETA rfl ?_
  refine ite_frame (fun x : PositionMessage × Option JsonErr => (x.1).ETA) p.ETA rfl ?_
  rw [if_neg h]
  refine ite_frame (fun x : PositionMessage × Option JsonErr => (x.1).ETA) p.ETA rfl ?_
  refine ite_frame (fun x : PositionMessage × Option JsonErr => (x.1).ETA) p.ETA rfl ?_
  refine ite_frame (fun x : PositionMessage × Option JsonErr => (x.1).ETA) p.ETA rfl ?_
  refine ite_frame (fun x : PositionMessage × Option JsonErr => (x.1).ETA) p.ETA rfl ?_
  refine ite_frame (fun x : PositionMessage × Option JsonErr => (x.1).ETA) p.ETA rfl ?_
  refine ite_frame (fun x : PositionMessage × Option JsonErr => (x.1).ETA) p.ETA rfl ?_
  refine ite_frame (fun x : PositionMessage × Option JsonErr => (x.1).ETA) p.ETA rfl ?_
  refine ite_frame (fun x : PositionMessage × Option JsonErr => (x.1).ETA) p.ETA rfl ?_
  refine ite_frame (fun x : PositionMessage × Option JsonErr => (x.1).ETA) p.ETA rfl ?_
  refine ite_frame (fun x : PositionMessage × Option JsonErr => (x.1).ETA) p.ETA rfl ?_
  refine ite_frame (fun x : PositionMessage × Option JsonErr => (x.1).ETA) p.ETA rfl ?_
  refine ite_frame (fun x : PositionMessage × Option JsonErr => (x.1).ETA) p.ETA rfl ?_
  refine ite_frame (fun x : PositionMessage × Option JsonErr => (x.1).ETA) p.ETA rfl ?_
  refine ite_frame (fun x : PositionMessage × Option JsonErr => (x.1).ETA) p.ETA rfl ?_
  refine ite_frame (fun x : PositionMessage × Option JsonErr => (x.1).ETA) p.ETA rfl ?_
  refine ite_frame (fun x : PositionMessage × Option JsonErr => (x.1).ETA) p.ETA rfl ?_
  refine ite_frame (fun x : PositionMessage × Option JsonErr => (x.1).ETA) p.ETA rfl ?_
  refine ite_frame (fun x : PositionMessage × Option JsonErr => (x.1).ETA) p.ETA rfl ?_
  refine ite_frame (fun x : PositionMessage × Option JsonErr => (x.1).ETA) p.ETA rfl ?_
  refine ite_frame (fun x : PositionMessage × Option JsonErr => (x.1).ETA) p.ETA rfl ?_
  refine ite_frame (fun x : PositionMessage × Option JsonErr => (x.1).ETA) p.ETA rfl ?_
  refine ite_frame (fun x : PositionMessage × Option JsonErr => (x.1).ETA) p.ETA rfl ?_
  refine ite_frame (fun x : PositionMessage × Option JsonErr => (x.1).ETA) p.ETA rfl ?_
  refine ite_frame (fun x : PositionMessage × Option JsonErr => (x.1).ETA) p.ETA rfl ?_
  refine ite_frame (fun x : PositionMessage × Option JsonErr => (x.1).ETA) p.ETA rfl ?_
  refine ite_frame (fun x : PositionMessage × Option JsonErr => (x.1).ETA) p.ETA rfl ?_
  refine ite_frame (fun x : PositionMessage × Option JsonErr => (x.1).ETA) p.ETA rfl ?_
  refine ite_frame (fun x : PositionMessage × Option JsonErr => (x.1).ETA) p.ETA rfl ?_
  refine ite_frame (fun x : PositionMessage × Option JsonErr => (x.1).ETA) p.ETA rfl ?_
  refine ite_frame (fun x : PositionMessage × Option JsonErr => (x.1).ETA) p.ETA rfl ?_
  refine ite_frame (fun x : PositionMessage × Option JsonErr => (x.1).ETA) p.ETA rfl ?_
  refine ite_frame (fun x : PositionMessage × Option JsonErr => (x.1).ETA) p.ETA rfl ?_
  refine ite_frame (fun x : PositionMessage × Option JsonErr => (x.1).ETA) p.ETA rfl ?_
  rfl

lemma posFrame_EDT {k : String} (v : Json) (p : PositionMessage) (h : k ≠ "edt") :
    ((posAssign k v p).1).EDT = p.EDT := by
  unfold posAssign
  refine ite_frame (fun x : PositionMessage × Option JsonErr => (x.1).EDT) p.EDT rfl ?_
  refine ite_frame (fun x : PositionMessage × Option JsonErr => (x.1).EDT) p.EDT rfl ?_
  refine ite_frame (fun x : PositionMessage × Option JsonErr => (x.1).EDT) p.EDT rfl ?_
  refine ite_frame (fun x : PositionMessage × Option JsonErr => (x.1).EDT) p.EDT rfl ?_
  refine ite_frame (fun x : PositionMessage × Option JsonErr => (x.1).EDT) p.EDT rfl ?_
  refine ite_frame (fun x : PositionMessage × Option JsonErr => (x.1).EDT) p.EDT rfl ?_
  refine ite_frame (fun x : PositionMessage × Option JsonErr => (x.1).EDT) p.EDT rfl ?_
  refine ite_frame (fun x : PositionMessage × Option JsonErr => (x.1).EDT) p.EDT rfl ?_
  refine ite_frame (fun x : PositionMessage × Option JsonErr => (x.1).EDT) p.EDT rfl ?_
  refine ite_frame (fun x : PositionMessage × Option JsonErr => (x.1).EDT) p.EDT rfl ?_
  refine ite_frame (fun x : PositionMessage × Option JsonErr => (x.1).EDT) p.EDT rfl ?_
  refine ite_frame (fun x : PositionMessage × Option JsonErr => (x.1).EDT) p.EDT rfl ?_
  refine ite_frame (fun x : PositionMessage × Option JsonErr => (x.1).EDT) p.EDT rfl ?_
  refine ite_frame (fun x : PositionMessage × Option JsonErr => (x.1).EDT) p.EDT rfl ?_
  refine ite_frame (fun x : PositionMessage × Option JsonErr => (x.1).EDT) p.EDT rfl ?_
  refine ite_frame (fun x : PositionMessage × Option JsonErr => (x.1).EDT) p.EDT rfl ?_
  refine ite_frame (fun x : PositionMessage × Option JsonErr => (x.1).EDT) p.EDT rfl ?_
  refine ite_frame (fun x : PositionMessage × Option JsonErr => (x.1).EDT) p.EDT rfl ?_
  refine ite_frame (fun x : PositionMessage × Option JsonErr => (x.1).EDT) p.EDT rfl ?_
  refine ite_frame (fun x : PositionMessage × Option JsonErr => (x.1).EDT) p.EDT rfl ?_
  refine ite_frame (fun x : PositionMessage × Option JsonErr => (x.1).EDT) p.EDT rfl ?_
  refine ite_frame (fun x : PositionMessage × Option JsonErr => (x.1).EDT) p.EDT rfl ?_
  refine ite_frame (fun x : PositionMessage × Option JsonErr => (x.1).EDT) p.EDT rfl ?_
  rw [if_neg h]
  refine ite_frame (fun x : PositionMessage × Option JsonErr => (x.1).EDT) p.EDT rfl ?_
  refine ite_frame (fun x : PositionMessage × Option JsonErr => (x.1).EDT) p.EDT rfl ?_
  refine ite_frame (fun x : PositionMessage × Option JsonErr => (x.1).EDT) p.EDT rfl ?_
  refine ite_frame (fun x : PositionMessage × Option JsonErr => (x.1).EDT) p.EDT rfl ?_
  refine ite_frame (fun x : PositionMessage × Option JsonErr => (x.1).EDT) p.EDT rfl ?_
  refine ite_frame (fun x : PositionMessage × Option JsonErr => (x.1).EDT) p.EDT rfl ?_
  refine ite_frame (fun x : PositionMessage × Option JsonErr => (x.1).EDT) p.EDT rfl ?_
  refine ite_frame (fun x : PositionMessage × Option JsonErr => (x.1).EDT) p.EDT rfl ?_
  refine ite_frame (fun x : PositionMessage × Option JsonErr => (x.1).EDT) p.EDT rfl ?_
  refine ite_frame (fun x : PositionMessage × Option JsonErr => (x.1).EDT) p.EDT rfl ?_
  refine ite_frame (fun x : PositionMessage × Option JsonErr => (x.1).EDT) p.EDT rfl ?_
  refine ite_frame (fun x : PositionMessage × Option JsonErr => (x.1).EDT) p.EDT rfl ?_
  refine ite_frame (fun x : PositionMessage × Option JsonErr => (x.1).EDT) p.EDT rfl ?_
  refine ite_frame (fun x : PositionMessage × Option JsonErr => (x.1).EDT) p.EDT rfl ?_
  refine ite_frame (fun x : PositionMessage × Option JsonErr => (x.1).EDT) p.EDT rfl ?_
  refine ite_frame (fun x : PositionMessage × Option JsonErr => (x.1).EDT) p.EDT rfl ?_
  refine ite_frame (fun x : PositionMessage × Option JsonErr => (x.1).EDT) p.EDT rfl ?_
  refine ite_frame (fun x : PositionMessage × Option JsonErr => (x.1).EDT) p.EDT rfl ?_
  refine ite_frame (fun x : PositionMessage × Option JsonErr => (x.1).EDT) p.EDT rfl ?_
  refine ite_frame (fun x : PositionMessage × Option JsonErr => (x.1).EDT) p.EDT rfl ?_
  refine ite_frame (fun x : PositionMessage × Option JsonErr => (x.1).EDT) p.EDT rfl ?_
  refine ite_frame (fun x : PositionMessage × Option JsonErr => (x.1).EDT) p.EDT rfl ?_
  refine ite_frame (fun x : PositionMessage × Option JsonErr => (x.1).EDT) p.EDT rfl ?_
  refine ite_frame (fun x : PositionMessage × Option JsonErr => (x.1).EDT) p.EDT rfl ?_
  refine ite_frame (fun x : PositionMessage × Option JsonErr => (x.1).EDT) p.EDT rfl ?_
  refine ite_frame (fun x : PositionMessage × Option JsonErr => (x.1).EDT) p.EDT rfl ?_
  refine ite_frame (fun x : PositionMessage × Option JsonErr => (x.1).EDT) p.EDT rfl ?_
  refine ite_frame (fun x : PositionMessage × Option JsonErr => (x.1).EDT) p.EDT rfl ?_
  refine ite_frame (fun x : PositionMessage × Option JsonErr => (x.1).EDT) p.EDT rfl ?_
  refine ite_frame (fun x : PositionMessage × Option JsonErr => (x.1).EDT) p.EDT rfl ?_
  refine ite_frame (fun x : PositionMessage × Option JsonErr => (x.1).EDT) p.EDT rfl ?_
  refine ite_frame (fun x : PositionMessage × Option JsonErr => (x.1).EDT) p.EDT rfl ?_
  rfl

lemma posFrame_ETE {k : String} (v : Json) (p : PositionMessage) (h : k ≠ "ete") :
    ((posAssign k v p).1).ETE = p.ETE := by
  unfold posAssign
  refine ite_frame (fun x : PositionMessage × Option JsonErr => (x.1).ETE) p.ETE rfl ?_
  refine ite_frame (fun x : PositionMessage × Option JsonErr => (x.1).ETE) p.ETE rfl ?_
  refine ite_frame (fun x : PositionMessage × Option JsonErr => (x.1).ETE) p.ETE rfl ?_
  refine ite_frame (fun x : PositionMessage × Option JsonErr => (x.1).ETE) p.ETE rfl ?_
  refine ite_frame (fun x : PositionMessage × Option JsonErr => (x.1).ETE) p.ETE rfl ?_
  refine ite_frame (fun x : PositionMessage × Option JsonErr => (x.1).ETE) p.ETE rfl ?_
  refine ite_frame (fun x : PositionMessage × Option JsonErr => (x.1).ETE) p.ETE rfl ?_
  refine ite_frame (fun x : PositionMessage × Option JsonErr => (x.1).ETE) p.ETE rfl ?_
  refine ite_frame (fun x : PositionMessage × Option JsonErr => (x.1).ETE) p.ETE rfl ?_
  refine ite_frame (fun x : PositionMessage × Option JsonErr => (x.1).ETE) p.ETE rfl ?_
  refine ite_frame (fun x : PositionMessage × Option JsonErr => (x.1).ETE) p.ETE rfl ?_
  refine ite_frame (fun x : PositionMessage × Option JsonErr => (x.1).ETE) p.ETE rfl ?_
  refine ite_frame (fun x : PositionMessage × Option JsonErr => (x.1).ETE) p.ETE rfl ?_
  refine ite_frame (fun x : PositionMessage × Option JsonErr => (x.1).ETE) p.ETE rfl ?_
  refine ite_frame (fun x : PositionMessage × Option JsonErr => (x.1).ETE) p.ETE rfl ?_
  refine ite_frame (fun x : PositionMessage × Option JsonErr => (x.1).ETE) p.ETE rfl ?_
  refine ite_frame (fun x : PositionMessage × Option JsonErr => (x.1).ETE) p.ETE rfl ?_
  refine ite_frame (fun x : PositionMessage × Option JsonErr => (x.1).ETE) p.ETE rfl ?_
  refine ite_frame (fun x : PositionMessage × Option JsonErr => (x.1).ETE) p.ETE rfl ?_
  refine ite_frame (fun x : PositionMessage × Option JsonErr => (x.1).ETE) p.ETE rfl ?_
  refine ite_frame (fun x : PositionMessage × Option JsonErr => (x.1).ETE) p.ETE rfl ?_
  refine ite_frame (fun x : PositionMessage × Option JsonErr => (x.1).ETE) p.ETE rfl ?_
  refine ite_frame (fun x : PositionMessage × Option JsonErr => (x.1).ETE) p.ETE rfl ?_
  refine ite_frame (fun x : PositionMessage × Option JsonErr => (x.1).ETE) p.ETE rfl ?_
  rw [if_neg h]
  refine ite_frame (fun x : PositionMessage × Option JsonErr => (x.1).ETE) p.ETE rfl ?_
  refine ite_frame (fun x : PositionMessage × Option JsonErr => (x.1).ETE) p.ETE rfl ?_
  refine ite_frame (fun x : PositionMessage × Option JsonErr => (x.1).ETE) p.ETE rfl ?_
  refine ite_frame (fun x : PositionMessage × Option JsonErr => (x.1).ETE) p.ETE rfl ?_
  refine ite_frame (fun x : PositionMessage × Option JsonErr => (x.1).ETE) p.ETE rfl ?_
  refine ite_frame (fun x : PositionMessage × Option JsonErr => (x.1).ETE) p.ETE rfl ?_
  refine ite_frame (fun x : PositionMessage × Option JsonErr => (x.1).ETE) p.ETE rfl ?_
  refine ite_frame (fun x : PositionMessage × Option JsonErr => (x.1).ETE) p.ETE rfl ?_
  refine ite_frame (fun x : PositionMessage × Option JsonErr => (x.1).ETE) p.ETE rfl ?_
  refine ite_frame (fun x : PositionMessage × Option JsonErr => (x.1).ETE) p.ETE rfl ?_
  refine ite_frame (fun x : PositionMessage × Option JsonErr => (x.1).ETE) p.ETE rfl ?_
  refine ite_frame (fun x : PositionMessage × Option JsonErr => (x.1).ETE) p.ETE rfl ?_
  refine ite_frame (fun x : PositionMessage × Option JsonErr => (x.1).ETE) p.ETE rfl ?_
  refine ite_frame (fun x : PositionMessage × Option JsonErr => (x.1).ETE) p.ETE rfl ?_
  refine ite_frame (fun x : PositionMessage × Option JsonErr => (x.1).ETE) p.ETE rfl ?_
  refine ite_frame (fun x : PositionMessage × Option JsonErr => (x.1).ETE) p.ETE rfl ?_
  refine ite_frame (fun x : PositionMessage × Option JsonErr => (x.1).ETE) p.ETE rfl ?_
  refine ite_frame (fun x : PositionMessage × Option JsonErr => (x.1).ETE) p.ETE rfl ?_
  refine ite_frame (fun x : PositionMessage × Option JsonErr => (x.1).ETE) p.ETE rfl ?_
  refine ite_frame (fun x : PositionMessage × Option JsonErr => (x.1).ETE) p.ETE rfl ?_
  refine ite_frame (fun x : PositionMessage × Option JsonErr => (x.1).ETE) p.ETE rfl ?_
  refine ite_frame (fun x : PositionMessage × Option JsonErr => (x.1).ETE) p.ETE rfl ?_
  refine ite_frame (fun x : PositionMessage × Option JsonErr => (x.1).ETE) p.ETE rfl ?_
  refine ite_frame (fun x : PositionMessage × Option JsonErr => (x.1).ETE) p.ETE rfl ?_
  refine ite_frame (fun x : PositionMessage × Option JsonErr => (x.1).ETE) p.ETE rfl ?_
  refine ite_frame (fun x : PositionMessage × Option JsonErr => (x.1).ETE) p.ETE rfl ?_
  refine ite_frame (fun x : PositionMessage × Option JsonErr => (x.1).ETE) p.ETE rfl ?_
  refine ite_frame (fun x : PositionMessage × Option JsonErr => (x.1).ETE) p.ETE rfl ?_
  refine ite_frame (fun x : PositionMessage × Option JsonErr => (x.1).ETE) p.ETE rfl ?_
  refine ite_frame (fun x : PositionMessage × Option JsonErr => (x.1).ETE) p.ETE rfl ?_
  refine ite_frame (fun x : PositionMessage × Option JsonErr => (x.1).ETE) p.ETE rfl ?_
  rfl

lemma posFrame_Speed {k : String} (v : Json) (p : PositionMessage) (h : k ≠ "speed") :
    ((posAssign k v p).1).Speed = p.Speed := by
  unfold posAssign
  refine ite_frame (fun x : PositionMessage × Option JsonErr => (x.1).Speed) p.Speed rfl ?_
  refine ite_frame (fun x : PositionMessage × Option JsonErr => (x.1).Speed) p.Speed rfl ?_
  refine ite_frame (fun x : PositionMessage × Option JsonErr => (x.1).Speed) p.Speed rfl ?_
  refine ite_frame (fun x : PositionMessage × Option JsonErr => (x.1).Speed) p.Speed rfl ?_
  refine ite_frame (fun x : PositionMessage × Option JsonErr => (x.1).Speed) p.Speed rfl ?_
  refine ite_frame (fun x : PositionMessage × Option JsonErr => (x.1).Speed) p.Speed rfl ?_
  refine ite_frame (fun x : PositionMessage × Option JsonErr => (x.1).Speed) p.Speed rfl ?_
  refine ite_frame (fun x : PositionMessage × Option JsonErr => (x.1).Speed) p.Speed rfl ?_
  refine ite_frame (fun x : PositionMessage × Option JsonErr => (x.1).Speed) p.Speed rfl ?_
  refine ite_frame (fun x : PositionMessage × Option JsonErr => (x.1).Speed) p.Speed rfl ?_
  refine ite_frame (fun x : PositionMessage × Option JsonErr => (x.1).Speed) p.Speed rfl ?_
  refine ite_frame (fun x : PositionMessage × Option JsonErr => (x.1).Speed) p.Speed rfl ?_
  refine ite_frame (fun x : PositionMessage × Option JsonErr => (x.1).Speed) p.Speed rfl ?_
  refine ite_frame (fun x : PositionMessage × Option JsonErr => (x.1).Speed) p.Speed rfl ?_
  refine ite_frame (fun x : PositionMessage × Option JsonErr => (x.1).Speed) p.Speed rfl ?_
  refine ite_frame (fun x : PositionMessage × Option JsonErr => (x.1).Speed) p.Speed rfl ?_
  refine ite_frame (fun x : PositionMessage × Option JsonErr => (x.1).Speed) p.Speed rfl ?_
  refine ite_frame (fun x : PositionMessage × Option JsonErr => (x.1).Speed) p.Speed rfl ?_
  refine ite_frame (fun x : PositionMessage × Option JsonErr => (x.1).Speed) p.Speed rfl ?_
  refine ite_frame (fun x : PositionMessage × Option JsonErr => (x.1).Speed) p.Speed rfl ?_
  refine ite_frame (fun x : PositionMessage × Option JsonErr => (x.1).Speed) p.Speed rfl ?_
  refine ite_frame (fun x : PositionMessage × Option JsonErr => (x.1).Speed) p.Speed rfl ?_
  refine ite_frame (fun x : PositionMessage × Option JsonErr => (x.1).Speed) p.Speed rfl ?_
  refine ite_frame (fun x : PositionMessage × Option JsonErr => (x.1).Speed) p.Speed rfl ?_
  refine ite_frame (fun x : PositionMessage × Option JsonErr => (x.1).Speed) p.Speed rfl ?_
  rw [if_neg h]
  refine ite_frame (fun x : PositionMessage × Option JsonErr => (x.1).Speed) p.Speed rfl ?_
  refine ite_frame (fun x : PositionMessage × Option JsonErr => (x.1).Speed) p.Speed rfl ?_
  refine ite_frame (fun x : PositionMessage × Option JsonErr => (x.1).Speed) p.Speed rfl ?_
  refine ite_frame (fun x : PositionMessage × Option JsonErr => (x.1).Speed) p.Speed rfl ?_
  refine ite_frame (fun x : PositionMessage × Option JsonErr => (x.1).Speed) p.Speed rfl ?_
  refine ite_frame (fun x : PositionMessage × Option JsonErr => (x.1).Speed) p.Speed rfl ?_
  refine ite_frame (fun x : PositionMessage × Option JsonErr => (x.1).Speed) p.Speed rfl ?_
  refine ite_frame (fun x : PositionMessage × Option JsonErr => (x.1).Speed) p.Speed rfl ?_
  refine ite_frame (fun x : PositionMessage × Option JsonErr => (x.1).Speed) p.Speed rfl ?_
  refine ite_frame (fun x : PositionMessage × Option JsonErr => (x.1).Speed) p.Speed rfl ?_
  refine ite_frame (fun x : PositionMessage × Option JsonErr => (x.1).Speed) p.Speed rfl ?_
  refine ite_frame (fun x : PositionMessage × Option JsonErr => (x.1).Speed) p.Speed rfl ?_
  refine ite_frame (fun x : PositionMessage × Option JsonErr => (x.1).Speed) p.Speed rfl ?_
  refine ite_frame (fun x : PositionMessage × Option JsonErr => (x.1).Speed) p.Speed rfl ?_
  refine ite_frame (fun x : PositionMessage × Option JsonErr => (x.1).Speed) p.Speed rfl ?_
  refine ite_frame (fun x : PositionMessage × Option JsonErr => (x.1).Speed) p.Speed rfl ?_
  refine ite_frame (fun x : PositionMessage × Option JsonErr => (x.1).Speed) p.Speed rfl ?_
  refine ite_frame (fun x : PositionMessage × Option JsonErr => (x.1).Speed) p.Speed rfl ?_
  refine ite_frame (fun x : PositionMessage × Option JsonErr => (x.1).Speed) p.Speed rfl ?_
  refine ite_frame (fun x : PositionMessage × Option JsonErr => (x.1).Speed) p.Speed rfl ?_
  refine ite_frame (fun x : PositionMessage × Option JsonErr => (x.1).Speed) p.Speed rfl ?_
  refine ite_frame (fun x : PositionMessage × Option JsonErr => (x.1).Speed) p.Speed rfl ?_
  refine ite_frame (fun x : PositionMessage × Option JsonErr => (x.1).Speed) p.Speed rfl ?_
  refine ite_frame (fun x : PositionMessage × Option JsonErr => (x.1).Speed) p.Speed rfl ?_
  refine ite_frame (fun x : PositionMessage × Option JsonErr => (x.1).Speed) p.Speed rfl ?_
  refine ite_frame (fun x : PositionMessage × Option JsonErr => (x.1).Speed) p.Speed rfl ?_
  refine ite_frame (fun x : PositionMessage × Option JsonErr => (x.1).Speed) p.Speed rfl ?_
  refine ite_frame (fun x : PositionMessage × Option JsonErr => (x.1).Speed) p.Speed rfl ?_
  refine ite_frame (fun x : PositionMessage × Option JsonErr => (x.1).Speed) p.Speed rfl ?_
  refine ite_frame (fun x : PositionMessage × Option JsonErr => (x.1).Speed) p.Speed rfl ?_
  rfl

lemma posFrame_Waypoints {k : String} (v : Json) (p : PositionMessage) (h : k ≠ "waypoints") :
    ((posAssign k v p).1).Waypoints = p.Waypoints := by
  unfold posAssign
  refine ite_frame (fun x : PositionMessage × Option JsonErr => (x.1).Waypoints) p.Waypoints rfl ?_
  refine ite_frame (fun x : PositionMessage × Option JsonErr => (x.1).Waypoints) p.Waypoints rfl ?_
  refine ite_frame (fun x : PositionMessage × Option JsonErr => (x.1).Waypoints) p.Waypoints rfl ?_
  refine ite_frame (fun x : PositionMessage × Option JsonErr => (x.1).Waypoints) p.Waypoints rfl ?_
  refine ite_frame (fun x : PositionMessage × Option JsonErr => (x.1).Waypoints) p.Waypoints rfl ?_
  refine ite_frame (fun x : PositionMessage × Option JsonErr => (x.1).Waypoints) p.Waypoints rfl ?_
  refine ite_frame (fun x : PositionMessage × Option JsonErr => (x.1).Waypoints) p.Waypoints rfl ?_
  refine ite_frame (fun x : PositionMessage × Option JsonErr => (x.1).Waypoints) p.Waypoints rfl ?_
  refine ite_frame (fun x : PositionMessage × Option JsonErr => (x.1).Waypoints) p.Waypoints rfl ?_
  refine ite_frame (fun x : PositionMessage × Option JsonErr => (x.1).Waypoints) p.Waypoints rfl ?_
  refine ite_frame (fun x : PositionMessage × Option JsonErr => (x.1).Waypoints) p.Waypoints rfl ?_
  refine ite_frame (fun x : PositionMessage × Option JsonErr => (x.1).Waypoints) p.Waypoints rfl ?_
  refine ite_frame (fun x : PositionMessage × Option JsonErr => (x.1).Waypoints) p.Waypoints rfl ?_
  refine ite_frame (fun x : PositionMessage × Option JsonErr => (x.1).Waypoints) p.Waypoints rfl ?_
  refine ite_frame (fun x : PositionMessage × Option JsonErr => (x.1).Waypoints) p.Waypoints rfl ?_
  refine ite_frame (fun x : PositionMessage × Option JsonErr => (x.1).Waypoints) p.Waypoints rfl ?_
  refine ite_frame (fun x : PositionMessage × Option JsonErr => (x.1).Waypoints) p.Waypoints rfl ?_
  refine ite_frame (fun x : PositionMessage × Option JsonErr => (x.1).Waypoints) p.Waypoints rfl ?_
  refine ite_frame (fun x : PositionMessage × Option JsonErr => (x.1).Waypoints) p.Waypoints rfl ?_
  refine ite_frame (fun x : PositionMessage × Option JsonErr => (x.1).Waypoints) p.Waypoints rfl ?_
  refine ite_frame (fun x : PositionMessage × Option JsonErr => (x.1).Waypoints) p.Waypoints rfl ?_
  refine ite_frame (fun x : PositionMessage × Option JsonErr => (x.1).Waypoints) p.Waypoints rfl ?_
  refine ite_frame (fun x : PositionMessage × Option JsonErr => (x.1).Waypoints) p.Waypoints rfl ?_
  refine ite_frame (fun x : PositionMessage × Option JsonErr => (x.1).Waypoints) p.Waypoints rfl ?_
  refine ite_frame (fun x : PositionMessage × Option JsonErr => (x.1).Waypoints) p.Waypoints rfl ?_
  refine ite_frame (fun x : PositionMessage × Option JsonErr => (x.1).Waypoints) p.Waypoints rfl ?_
  rw [if_neg h]
  refine ite_frame (fun x : PositionMessage × Option JsonErr => (x.1).Waypoints) p.Waypoints rfl ?_
  refine ite_frame (fun x : PositionMessage × Option JsonErr => (x.1).Waypoints) p.Waypoints rfl ?_
  refine ite_frame (fun x : PositionMessage × Option JsonErr => (x.1).Waypoints) p.Waypoints rfl ?_
  refine ite_frame (fun x : PositionMessage × Option JsonErr => (x.1).Waypoints) p.Waypoints rfl ?_
  refine ite_frame (fun x : PositionMessage × Option JsonErr => (x.1).Waypoints) p.Waypoints rfl ?_
  refine ite_frame (fun x : PositionMessage × Option JsonErr => (x.1).Waypoints) p.Waypoints rfl ?_
  refine ite_frame (fun x : PositionMessage × Option JsonErr => (x.1).Waypoints) p.Waypoints rfl ?_
  refine ite_frame (fun x : PositionMessage × Option JsonErr => (x.1).Waypoints) p.Waypoints rfl ?_
  refine ite_frame (fun x : PositionMessage × Option JsonErr => (x.1).Waypoints) p.Waypoints rfl ?_
  refine ite_frame (fun x : PositionMessage × Option JsonErr => (x.1).Waypoints) p.Waypoints rfl ?_
  refine ite_frame (fun x : PositionMessage × Option JsonErr => (x.1).Waypoints) p.Waypoints rfl ?_
  refine ite_frame (fun x : PositionMessage × Option JsonErr => (x.1).Waypoints) p.Waypoints rfl ?_
  refine ite_frame (fun x : PositionMessage × Option JsonErr => (x.1).Waypoints) p.Waypoints rfl ?_
  refine ite_frame (fun x : PositionMessage × Option JsonErr => (x.1).Waypoints) p.Waypoints rfl ?_
  refine ite_frame (fun x : PositionMessage × Option JsonErr => (x.1).Waypoints) p.Waypoints rfl ?_
  refine ite_frame (fun x : PositionMessage × Option JsonErr => (x.1).Waypoints) p.Waypoints rfl ?_
  refine ite_frame (fun x : PositionMessage × Option JsonErr => (x.1).Waypoints) p.Waypoints rfl ?_
  refine ite_frame (fun x : PositionMessage × Option JsonErr => (x.1).Waypoints) p.Waypoints rfl ?_
  refine ite_frame (fun x : PositionMessage × Option JsonErr => (x.1).Waypoints) p.Waypoints rfl ?_
  refine ite_frame (fun x : PositionMessage × Option JsonErr => (x.1).Waypoints) p.Waypoints rfl ?_
  refine ite_frame (fun x : PositionMessage × Option JsonErr => (x.1).Waypoints) p.Waypoints rfl ?_
  refine ite_frame (fun x : PositionMessage × Option JsonErr => (x.1).Waypoints) p.Waypoints rfl ?_
  refine ite_frame (fun x : PositionMessage × Option JsonErr => (x.1).Waypoints) p.Waypoints rfl ?_
  refine ite_frame (fun x : PositionMessage × Option JsonErr => (x.1).Waypoints) p.Waypoints rfl ?_
  refine ite_frame (fun x : PositionMessage × Option JsonErr => (x.1).Waypoints) p.Waypoints rfl ?_
  refine ite_frame (fun x : PositionMessage × Option JsonErr => (x.1).Waypoints) p.Waypoints rfl ?_
  refine ite_frame (fun x : PositionMessage × Option JsonErr => (x.1).Waypoints) p.Waypoints rfl ?_
  refine ite_frame (fun x : PositionMessage × Option JsonErr => (x.1).Waypoints) p.Waypoints rfl ?_
  refine ite_frame (fun x : PositionMessage × Option JsonErr => (x.1).Waypoints) p.Waypoints rfl ?_
  rfl

lemma posFrame_Route {k : String} (v : Json) (p : PositionMessage) (h : k ≠ "route") :
    ((posAssign k v p).1).Route = p.Route := by
  unfold posAssign
  refine ite_frame (fun x : PositionMessage × Option JsonErr => (x.1).Route) p.Route rfl ?_
  refine ite_frame (fun x : PositionMessage × Option JsonErr => (x.1).Route) p.Route rfl ?_
  refine ite_frame (fun x : PositionMessage × Option JsonErr => (x.1).Route) p.Route rfl ?_
  refine ite_frame (fun x : PositionMessage × Option JsonErr => (x.1).Route) p.Route rfl ?_
  refine ite_frame (fun x : PositionMessage × Option JsonErr => (x.1).Route) p.Route rfl ?_
  refine ite_frame (fun x : PositionMessage × Option JsonErr => (x.1).Route) p.Route rfl ?_
  refine ite_frame (fun x : PositionMessage × Option JsonErr => (x.1).Route) p.Route rfl ?_
  refine ite_frame (fun x : PositionMessage × Option JsonErr => (x.1).Route) p.Route rfl ?_
  refine ite_frame (fun x : PositionMessage × Option JsonErr => (x.1).Route) p.Route rfl ?_
  refine ite_frame (fun x : PositionMessage × Option JsonErr => (x.1).Route) p.Route rfl ?_
  refine ite_frame (fun x : PositionMessage × Option JsonErr => (x.1).Route) p.Route rfl ?_
  refine ite_frame (fun x : PositionMessage × Option JsonErr => (x.1).Route) p.Route rfl ?_
  refine ite_frame (fun x : PositionMessage × Option JsonErr => (x.1).Route) p.Route rfl ?_
  refine ite_frame (fun x : PositionMessage × Option JsonErr => (x.1).Route) p.Route rfl ?_
  refine ite_frame (fun x : PositionMessage × Option JsonErr => (x.1).Route) p.Route rfl ?_
  refine ite_frame (fun x : PositionMessage × Option JsonErr => (x.1).Route) p.Route rfl ?_
  refine ite_frame (fun x : PositionMessage × Option JsonErr => (x.1).Route) p.Route rfl ?_
  refine ite_frame (fun x : PositionMessage × Option JsonErr => (x.1).Route) p.Route rfl ?_
  refine ite_frame (fun x : PositionMessage × Option JsonErr => (x.1).Route) p.Route rfl ?_
  refine ite_frame (fun x : PositionMessage × Option JsonErr => (x.1).Route) p.Route rfl ?_
  refine ite_frame (fun x : PositionMessage × Option JsonErr => (x.1).Route) p.Route rfl ?_
  refine ite_frame (fun x : PositionMessage × Option JsonErr => (x.1).Route) p.Route rfl ?_
  refine ite_frame (fun x : PositionMessage × Option JsonErr => (x.1).Route) p.Route rfl ?_
  refine ite_frame (fun x : PositionMessage × Option JsonErr => (x.1).Route) p.Route rfl ?_
  refine ite_frame (fun x : PositionMessage × Option JsonErr => (x.1).Route) p.Route rfl ?_
  refine ite_frame (fun x : PositionMessage × Option JsonErr => (x.1).Route) p.Route rfl ?_
  refine ite_frame (fun x : PositionMessage × Option JsonErr => (x.1).Route) p.Route rfl ?_
  rw [if_neg h]
  refine ite_frame (fun x : PositionMessage × Option JsonErr => (x.1).Route) p.Route rfl ?_
  refine ite_frame (fun x : PositionMessage × Option JsonErr => (x.1).Route) p.Route rfl ?_
  refine ite_frame (fun x : PositionMessage × Option JsonErr => (x.1).Route) p.Route rfl ?_
  refine ite_frame (fun x : PositionMessage × Option JsonErr => (x.1).Route) p.Route rfl ?_
  refine ite_frame (fun x : PositionMessage × Option JsonErr => (x.1).Route) p.Route rfl ?_
  refine ite_frame (fun x : PositionMessage × Option JsonErr => (x.1).Route) p.Route rfl ?_
  refine ite_frame (fun x : PositionMessage × Option JsonErr => (x.1).Route) p.Route rfl ?_
  refine ite_frame (fun x : PositionMessage × Option JsonErr => (x.1).Route) p.Route rfl ?_
  refine ite_frame (fun x : PositionMessage × Option JsonErr => (x.1).Route) p.Route rfl ?_
  refine ite_frame (fun x : PositionMessage × Option JsonErr => (x.1).Route) p.Route rfl ?_
  refine ite_frame (fun x : PositionMessage × Option JsonErr => (x.1).Route) p.Route rfl ?_
  refine ite_frame (fun x : PositionMessage × Option JsonErr => (x.1).Route) p.Route rfl ?_
  refine ite_frame (fun x : PositionMessage × Option JsonErr => (x.1).Route) p.Route rfl ?_
  refine ite_frame (fun x : PositionMessage × Option JsonErr => (x.1).Route) p.Route rfl ?_
  refine ite_frame (fun x : PositionMessage × Option JsonErr => (x.1).Route) p.Route rfl ?_
  refine ite_frame (fun x : PositionMessage × Option JsonErr => (x.1).Route) p.Route rfl ?_
  refine ite_frame (fun x : PositionMessage × Option JsonErr => (x.1).Route) p.Route rfl ?_
  refine ite_frame (fun x : PositionMessage × Option JsonErr => (x.1).Route) p.Route rfl ?_
  refine ite_frame (fun x : PositionMessage × Option JsonErr => (x.1).Route) p.Route rfl ?_
  refine ite_frame (fun x : PositionMessage × Option JsonErr => (x.1).Route) p.Route rfl ?_
  refine ite_frame (fun x : PositionMessage × Option JsonErr => (x.1).Route) p.Route rfl ?_
  refine ite_frame (fun x : PositionMessage × Option JsonErr => (x.1).Route) p.Route rfl ?_
  refine ite_frame (fun x : PositionMessage × Option JsonErr => (x.1).Route) p.Route rfl ?_
  refine ite_frame (fun x : PositionMessage × Option JsonErr => (x.1).Route) p.Route rfl ?_
  refine ite_frame (fun x : PositionMessage × Option JsonErr => (x.1).Route) p.Route rfl ?_
  refine ite_frame (fun x : PositionMessage × Option JsonErr => (x.1).Route) p.Route rfl ?_
  refine ite_frame (fun x : PositionMessage × Option JsonErr => (x.1).Route) p.Route rfl ?_
  refine ite_frame (fun x : PositionMessage × Option JsonErr => (x.1).Route) p.Route rfl ?_
  rfl

lemma posFrame_ADSBVersion {k : String} (v : Json) (p : PositionMessage) (h : k ≠ "adsb_version") :
    ((posAssign k v p).1).ADSBVersion = p.ADSBVersion := by
  unfold posAssign
  refine ite_frame (fun x : PositionMessage × Option JsonErr => (x.1).ADSBVersion) p.ADSBVersion rfl ?_
  refine ite_frame (fun x : PositionMessage × Option JsonErr => (x.1).ADSBVersion) p.ADSBVersion rfl ?_
  refine ite_frame (fun x : PositionMessage × Option JsonErr => (x.1).ADSBVersion) p.ADSBVersion rfl ?_
  refine ite_frame (fun x : PositionMessage × Option JsonErr => (x.1).ADSBVersion) p.ADSBVersion rfl ?_
  refine ite_frame (fun x : PositionMessage × Option JsonErr => (x.1).ADSBVersion) p.ADSBVersion rfl ?_
  refine ite_frame (fun x : PositionMessage × Option JsonErr => (x.1).ADSBVersion) p.ADSBVersion rfl ?_
  refine ite_frame (fun x : PositionMessage × Option JsonErr => (x.1).ADSBVersion) p.ADSBVersion rfl ?_
  refine ite_frame (fun x : PositionMessage × Option JsonErr => (x.1).ADSBVersion) p.ADSBVersion rfl ?_
  refine ite_frame (fun x : PositionMessage × Option JsonErr => (x.1).ADSBVersion) p.ADSBVersion rfl ?_
  refine ite_frame (fun x : PositionMessage × Option JsonErr => (x.1).ADSBVersion) p.ADSBVersion rfl ?_
  refine ite_frame (fun x : PositionMessage × Option JsonErr => (x.1).ADSBVersion) p.ADSBVersion rfl ?_
  refine ite_frame (fun x : PositionMessage × Option JsonErr => (x.1).ADSBVersion) p.ADSBVersion rfl ?_
  refine ite_frame (fun x : PositionMessage × Option JsonErr => (x.1).ADSBVersion) p.ADSBVersion rfl ?_
  refine ite_frame (fun x : PositionMessage × Option JsonErr => (x.1).ADSBVersion) p.ADSBVersion rfl ?_
  refine ite_frame (fun x : PositionMessage × Option JsonErr => (x.1).ADSBVersion) p.ADSBVersion rfl ?_
  refine ite_frame (fun x : PositionMessage × Option JsonErr => (x.1).ADSBVersion) p.ADSBVersion rfl ?_
  refine ite_frame (fun x : PositionMessage × Option JsonErr => (x.1).ADSBVersion) p.ADSBVersion rfl ?_
  refine ite_frame (fun x : PositionMessage × Option JsonErr => (x.1).ADSBVersion) p.ADSBVersion rfl ?_
  refine ite_frame (fun x : PositionMessage × Option JsonErr => (x.1).ADSBVersion) p.ADSBVersion rfl ?_
  refine ite_frame (fun x : PositionMessage × Option JsonErr => (x.1).ADSBVersion) p.ADSBVersion rfl ?_
  refine ite_frame (fun x : PositionMessage × Option JsonErr => (x.1).ADSBVersion) p.ADSBVersion rfl ?_
  refine ite_frame (fun x : PositionMessage × Option JsonErr => (x.1).ADSBVersion) p.ADSBVersion rfl ?_
  refine ite_frame (fun x : PositionMessage × Option JsonErr => (x.1).ADSBVersion) p.ADSBVersion rfl ?_
  refine ite_frame (fun x : PositionMessage × Option JsonErr => (x.1).ADSBVersion) p.ADSBVersion rfl ?_
  refine ite_frame (fun x : PositionMessage × Option JsonErr => (x.1).ADSBVersion) p.ADSBVersion rfl ?_
  refine ite_frame (fun x : PositionMessage × Option JsonErr => (x.1).ADSBVersion) p.ADSBVersion rfl ?_
  refine ite_frame (fun x : PositionMessage × Option JsonErr => (x.1).ADSBVersion) p.ADSBVersion rfl ?_
  refine ite_frame (fun x : PositionMessage × Option JsonErr => (x.1).ADSBVersion) p.ADSBVersion rfl ?_
  rw [if_neg h]
  refine ite_frame (fun x : PositionMessage × Option JsonErr => (x.1).ADSBVersion) p.ADSBVersion rfl ?_
  refine ite_frame (fun x : PositionMessage × Option JsonErr => (x.1).ADSBVersion) p.ADSBVersion rfl ?_
  refine ite_frame (fun x : PositionMessage × Option JsonErr => (x.1).ADSBVersion) p.ADSBVersion rfl ?_
  refine ite_frame (fun x : PositionMessage × Option JsonErr => (x.1).ADSBVersion) p.ADSBVersion rfl ?_
  refine ite_frame (fun x : PositionMessage × Option JsonErr => (x.1).ADSBVersion) p.ADSBVersion rfl ?_
  refine ite_frame (fun x : PositionMessage × Option JsonErr => (x.1).ADSBVersion) p.ADSBVersion rfl ?_
  refine ite_frame (fun x : PositionMessage × Option JsonErr => (x.1).ADSBVersion) p.ADSBVersion rfl ?_
  refine ite_frame (fun x : PositionMessage × Option JsonErr => (x.1).ADSBVersion) p.ADSBVersion rfl ?_
  refine ite_frame (fun x : PositionMessage × Option JsonErr => (x.1).ADSBVersion) p.ADSBVersion rfl ?_
  refine ite_frame (fun x : PositionMessage × Option JsonErr => (x.1).ADSBVersion) p.ADSBVersion rfl ?_
  refine ite_frame (fun x : PositionMessage × Option JsonErr => (x.1).ADSBVersion) p.ADSBVersion rfl ?_
  refine ite_frame (fun x : PositionMessage × Option JsonErr => (x.1).ADSBVersion) p.ADSBVersion rfl ?_
  refine ite_frame (fun x : PositionMessage × Option JsonErr => (x.1).ADSBVersion) p.ADSBVersion rfl ?_
  refine ite_frame (fun x : PositionMessage × Option JsonErr => (x.1).ADSBVersion) p.ADSBVersion rfl ?_
  refine ite_frame (fun x : PositionMessage × Option JsonErr => (x.1).ADSBVersion) p.ADSBVersion rfl ?_
  refine ite_frame (fun x : PositionMessage × Option JsonErr => (x.1).ADSBVersion) p.ADSBVersion rfl ?_
  refine ite_frame (fun x : PositionMessage × Option JsonErr => (x.1).ADSBVersion) p.ADSBVersion rfl ?_
  refine ite_frame (fun x : PositionMessage × Option JsonErr => (x.1).ADSBVersion) p.ADSBVersion rfl ?_
  refine ite_frame (fun x : PositionMessage × Option JsonErr => (x.1).ADSBVersion) p.ADSBVersion rfl ?_
  refine ite_frame (fun x : PositionMessage × Option JsonErr => (x.1).ADSBVersion) p.ADSBVersion rfl ?_
  refine ite_frame (fun x : PositionMessage × Option JsonErr => (x.1).ADSBVersion) p.ADSBVersion rfl ?_
  refine ite_frame (fun x : PositionMessage × Option JsonErr => (x.1).ADSBVersion) p.ADSBVersion rfl ?_
  refine ite_frame (fun x : PositionMessage × Option JsonErr => (x.1).ADSBVersion) p.ADSBVersion rfl ?_
  refine ite_frame (fun x : PositionMessage × Option JsonErr => (x.1).ADSBVersion) p.ADSBVersion rfl ?_
  refine ite_frame (fun x : PositionMessage × Option JsonErr => (x.1).ADSBVersion) p.ADSBVersion rfl ?_
  refine ite_frame (fun x : PositionMessage × Option JsonErr => (x.1).ADSBVersion) p.ADSBVersion rfl ?_
  refine ite_frame (fun x : PositionMessage × Option JsonErr => (x.1).ADSBVersion) p.ADSBVersion rfl ?_
  rfl

lemma posFrame_NACp {k : String} (v : Json) (p : PositionMessage) (h : k ≠ "nac_p") :
    ((posAssign k v p).1).NACp = p.NACp := by
  unfold posAssign
  refine ite_frame (fun x : PositionMessage × Option JsonErr => (x.1).NACp) p.NACp rfl ?_
  refine ite_frame (fun x : PositionMessage × Option JsonErr => (x.1).NACp) p.NACp rfl ?_
  refine ite_frame (fun x : PositionMessage × Option JsonErr => (x.1).NACp) p.NACp rfl ?_
  refine ite_frame (fun x : PositionMessage × Option JsonErr => (x.1).NACp) p.NACp rfl ?_
  refine ite_frame (fun x : PositionMessage × Option JsonErr => (x.1).NACp) p.NACp rfl ?_
  refine ite_frame (fun x : PositionMessage × Option JsonErr => (x.1).NACp) p.NACp rfl ?_
  refine ite_frame (fun x : PositionMessage × Option JsonErr => (x.1).NACp) p.NACp rfl ?_
  refine ite_frame (fun x : PositionMessage × Option JsonErr => (x.1).NACp) p.NACp rfl ?_
  refine ite_frame (fun x : PositionMessage × Option JsonErr => (x.1).NACp) p.NACp rfl ?_
  refine ite_frame (fun x : PositionMessage × Option JsonErr => (x.1).NACp) p.NACp rfl ?_
  refine ite_frame (fun x : PositionMessage × Option JsonErr => (x.1).NACp) p.NACp rfl ?_
  refine ite_frame (fun x : PositionMessage × Option JsonErr => (x.1).NACp) p.NACp rfl ?_
  refine ite_frame (fun x : PositionMessage × Option JsonErr => (x.1).NACp) p.NACp rfl ?_
  refine ite_frame (fun x : PositionMessage × Option JsonErr => (x.1).NACp) p.NACp rfl ?_
  refine ite_frame (fun x : PositionMessage × Option JsonErr => (x.1).NACp) p.NACp rfl ?_
  refine ite_frame (fun x : PositionMessage × Option JsonErr => (x.1).NACp) p.NACp rfl ?_
  refine ite_frame (fun x : PositionMessage × Option JsonErr => (x.1).NACp) p.NACp rfl ?_
  refine ite_frame (fun x : PositionMessage × Option JsonErr => (x.1).NACp) p.NACp rfl ?_
  refine ite_frame (fun x : PositionMessage × Option JsonErr => (x.1).NACp) p.NACp rfl ?_
  refine ite_frame (fun x : PositionMessage × Option JsonErr => (x.1).NACp) p.NACp rfl ?_
  refine ite_frame (fun x : PositionMessage × Option JsonErr => (x.1).NACp) p.NACp rfl ?_
  refine ite_frame (fun x : PositionMessage × Option JsonErr => (x.1).NACp) p.NACp rfl ?_
  refine ite_frame (fun x : PositionMessage × Option JsonErr => (x.1).NACp) p.NACp rfl ?_
  refine ite_frame (fun x : PositionMessage × Option JsonErr => (x.1).NACp) p.NACp rfl ?_
  refine ite_frame (fun x : PositionMessage × Option JsonErr => (x.1).NACp) p.NACp rfl ?_
  refine ite_frame (fun x : PositionMessage × Option JsonErr => (x.1).NACp) p.NACp rfl ?_
  refine ite_frame (fun x : PositionMessage × Option JsonErr => (x.1).NACp) p.NACp rfl ?_
  refine ite_frame (fun x : PositionMessage × Option JsonErr => (x.1).NACp) p.NACp rfl ?_
  refine ite_frame (fun x : PositionMessage × Option JsonErr => (x.1).NACp) p.NACp rfl ?_
  rw [if_neg h]
  refine ite_frame (fun x : PositionMessage × Option JsonErr => (x.1).NACp) p.NACp rfl ?_
  refine ite_frame (fun x : PositionMessage × Option JsonErr => (x.1).NACp) p.NACp rfl ?_
  refine ite_frame (fun x : PositionMessage × Option JsonErr => (x.1).NACp) p.NACp rfl ?_
  refine ite_frame (fun x : PositionMessage × Option JsonErr => (x.1).NACp) p.NACp rfl ?_
  refine ite_frame (fun x : PositionMessage × Option JsonErr => (x.1).NACp) p.NACp rfl ?_
  refine ite_frame (fun x : PositionMessage × Option JsonErr => (x.1).NACp) p.NACp rfl ?_
  refine ite_frame (fun x : PositionMessage × Option JsonErr => (x.1).NACp) p.NACp rfl ?_
  refine ite_frame (fun x : PositionMessage × Option JsonErr => (x.1).NACp) p.NACp rfl ?_
  refine ite_frame (fun x : PositionMessage × Option JsonErr => (x.1).NACp) p.NACp rfl ?_
  refine ite_frame (fun x : PositionMessage × Option JsonErr => (x.1).NACp) p.NACp rfl ?_
  refine ite_frame (fun x : PositionMessage × Option JsonErr => (x.1).NACp) p.NACp rfl ?_
  refine ite_frame (fun x : PositionMessage × Option JsonErr => (x.1).NACp) p.NACp rfl ?_
  refine ite_frame (fun x : PositionMessage × Option JsonErr => (x.1).NACp) p.NACp rfl ?_
  refine ite_frame (fun x : PositionMessage × Option JsonErr => (x.1).NACp) p.NACp rfl ?_
  refine ite_frame (fun x : PositionMessage × Option JsonErr => (x.1).NACp) p.NACp rfl ?_
  refine ite_frame (fun x : PositionMessage × Option JsonErr => (x.1).NACp) p.NACp rfl ?_
  refine ite_frame (fun x : PositionMessage × Option JsonErr => (x.1).NACp) p.NACp rfl ?_
  refine ite_frame (fun x : PositionMessage × Option JsonErr => (x.1).NACp) p.NACp rfl ?_
  refine ite_frame (fun x : PositionMessage × Option JsonErr => (x.1).NACp) p.NACp rfl ?_
  refine ite_frame (fun x : PositionMessage × Option JsonErr => (x.1).NACp) p.NACp rfl ?_
  refine ite_frame (fun x : PositionMessage × Option JsonErr => (x.1).NACp) p.NACp rfl ?_
  refine ite_frame (fun x : PositionMessage × Option JsonErr => (x.1).NACp) p.NACp rfl ?_
  refine ite_frame (fun x : PositionMessage × Option JsonErr => (x.1).NACp) p.NACp rfl ?_
  refine ite_frame (fun x : PositionMessage × Option JsonErr => (x.1).NACp) p.NACp rfl ?_
  refine ite_frame (fun x : PositionMessage × Option JsonErr => (x.1).NACp) p.NACp rfl ?_
  refine ite_frame (fun x : PositionMessage × Option JsonErr => (x.1).NACp) p.NACp rfl ?_
  rfl

lemma posFrame_NACv {k : String} (v : Json) (p : PositionMessage) (h : k ≠ "nac_v") :
    ((posAssign k v p).1).NACv = p.NACv := by
  unfold posAssign
  refine ite_frame (fun x : PositionMessage × Option JsonErr => (x.1).NACv) p.NACv rfl ?_
  refine ite_frame (fun x : PositionMessage × Option JsonErr => (x.1).NACv) p.NACv rfl ?_
  refine ite_frame (fun x : PositionMessage × Option JsonErr => (x.1).NACv) p.NACv rfl ?_
  refine ite_frame (fun x : PositionMessage × Option JsonErr => (x.1).NACv) p.NACv rfl ?_
  refine ite_frame (fun x : PositionMessage × Option JsonErr => (x.1).NACv) p.NACv rfl ?_
  refine ite_frame (fun x : PositionMessage × Option JsonErr => (x.1).NACv) p.NACv rfl ?_
  refine ite_frame (fun x : PositionMessage × Option JsonErr => (x.1).NACv) p.NACv rfl ?_
  refine ite_frame (fun x : PositionMessage × Option JsonErr => (x.1).NACv) p.NACv rfl ?_
  refine ite_frame (fun x : PositionMessage × Option JsonErr => (x.1).NACv) p.NACv rfl ?_
  refine ite_frame (fun x : PositionMessage × Option JsonErr => (x.1).NACv) p.NACv rfl ?_
  refine ite_frame (fun x : PositionMessage × Option JsonErr => (x.1).NACv) p.NACv rfl ?_
  refine ite_frame (fun x : PositionMessage × Option JsonErr => (x.1).NACv) p.NACv rfl ?_
  refine ite_frame (fun x : PositionMessage × Option JsonErr => (x.1).NACv) p.NACv rfl ?_
  refine ite_frame (fun x : PositionMessage × Option JsonErr => (x.1).NACv) p.NACv rfl ?_
  refine ite_frame (fun x : PositionMessage × Option JsonErr => (x.1).NACv) p.NACv rfl ?_
  refine ite_frame (fun x : PositionMessage × Option JsonErr => (x.1).NACv) p.NACv rfl ?_
  refine ite_frame (fun x : PositionMessage × Option JsonErr => (x.1).NACv) p.NACv rfl ?_
  refine ite_frame (fun x : PositionMessage × Option JsonErr => (x.1).NACv) p.NACv rfl ?_
  refine ite_frame (fun x : PositionMessage × Option JsonErr => (x.1).NACv) p.NACv rfl ?_
  refine ite_frame (fun x : PositionMessage × Option JsonErr => (x.1).NACv) p.NACv rfl ?_
  refine ite_frame (fun x : PositionMessage × Option JsonErr => (x.1).NACv) p.NACv rfl ?_
  refine ite_frame (fun x : PositionMessage × Option JsonErr => (x.1).NACv) p.NACv rfl ?_
  refine ite_frame (fun x : PositionMessage × Option JsonErr => (x.1).NACv) p.NACv rfl ?_
  refine ite_frame (fun x : PositionMessage × Option JsonErr => (x.1).NACv) p.NACv rfl ?_
  refine ite_frame (fun x : PositionMessage × Option JsonErr => (x.1).NACv) p.NACv rfl ?_
  refine ite_frame (fun x : PositionMessage × Option JsonErr => (x.1).NACv) p.NACv rfl ?_
  refine ite_frame (fun x : PositionMessage × Option JsonErr => (x.1).NACv) p.NACv rfl ?_
  refine ite_frame (fun x : PositionMessage × Option JsonErr => (x.1).NACv) p.NACv rfl ?_
  refine ite_frame (fun x : PositionMessage × Option JsonErr => (x.1).NACv) p.NACv rfl ?_
  refine ite_frame (fun x : PositionMessage × Option JsonErr => (x.1).NACv) p.NACv rfl ?_
  rw [if_neg h]
  refine ite_frame (fun x : PositionMessage × Option JsonErr => (x.1).NACv) p.NACv rfl ?_
  refine ite_frame (fun x : PositionMessage × Option JsonErr => (x.1).NACv) p.NACv rfl ?_
  refine ite_frame (fun x : PositionMessage × Option JsonErr => (x.1).NACv) p.NACv rfl ?_
  refine ite_frame (fun x : PositionMessage × Option JsonErr => (x.1).NACv) p.NACv rfl ?_
  refine ite_frame (fun x : PositionMessage × Option JsonErr => (x.1).NACv) p.NACv rfl ?_
  refine ite_frame (fun x : PositionMessage × Option JsonErr => (x.1).NACv) p.NACv rfl ?_
  refine ite_frame (fun x : PositionMessage × Option JsonErr => (x.1).NACv) p.NACv rfl ?_
  refine ite_frame (fun x : PositionMessage × Option JsonErr => (x.1).NACv) p.NACv rfl ?_
  refine ite_frame (fun x : PositionMessage × Option JsonErr => (x.1).NACv) p.NACv rfl ?_
  refine ite_frame (fun x : PositionMessage × Option JsonErr => (x.1).NACv) p.NACv rfl ?_
  refine ite_frame (fun x : PositionMessage × Option JsonErr => (x.1).NACv) p.NACv rfl ?_
  refine ite_frame (fun x : PositionMessage × Option JsonErr => (x.1).NACv) p.NACv rfl ?_
  refine ite_frame (fun x : PositionMessage × Option JsonErr => (x.1).NACv) p.NACv rfl ?_
  refine ite_frame (fun x : PositionMessage × Option JsonErr => (x.1).NACv) p.NACv rfl ?_
  refine ite_frame (fun x : PositionMessage × Option JsonErr => (x.1).NACv) p.NACv rfl ?_
  refine ite_frame (fun x : PositionMessage × Option JsonErr => (x.1).NACv) p.NACv rfl ?_
  refine ite_frame (fun x : PositionMessage × Option JsonErr => (x.1).NACv) p.NACv rfl ?_
  refine ite_frame (fun x : PositionMessage × Option JsonErr => (x.1).NACv) p.NACv rfl ?_
  refine ite_frame (fun x : PositionMessage × Option JsonErr => (x.1).NACv) p.NACv rfl ?_
  refine ite_frame (fun x : PositionMessage × Option JsonErr => (x.1).NACv) p.NACv rfl ?_
  refine ite_frame (fun x : PositionMessage × Option JsonErr => (x.1).NACv) p.NACv rfl ?_
  refine ite_frame (fun x : PositionMessage × Option JsonErr => (x.1).NACv) p.NACv rfl ?_
  refine ite_frame (fun x : PositionMessage × Option JsonErr => (x.1).NACv) p.NACv rfl ?_
  refine ite_frame (fun x : PositionMessage × Option JsonErr => (x.1).NACv) p.NACv rfl ?_
  refine ite_frame (fun x : PositionMessage × Option JsonErr => (x.1).NACv) p.NACv rfl ?_
  rfl

lemma posFrame_NIC {k : String} (v : Json) (p : PositionMessage) (h : k ≠ "nic") :
    ((posAssign k v p).1).NIC = p.NIC := by
  unfold posAssign
  refine ite_frame (fun x : PositionMessage × Option JsonErr => (x.1).NIC) p.NIC rfl ?_
  refine ite_frame (fun x : PositionMessage × Option JsonErr => (x.1).NIC) p.NIC rfl ?_
  refine ite_frame (fun x : PositionMessage × Option JsonErr => (x.1).NIC) p.NIC rfl ?_
  refine ite_frame (fun x : PositionMessage × Option JsonErr => (x.1).NIC) p.NIC rfl ?_
  refine ite_frame (fun x : PositionMessage × Option JsonErr => (x.1).NIC) p.NIC rfl ?_
  refine ite_frame (fun x : PositionMessage × Option JsonErr => (x.1).NIC) p.NIC rfl ?_
  refine ite_frame (fun x : PositionMessage × Option JsonErr => (x.1).NIC) p.NIC rfl ?_
  refine ite_frame (fun x : PositionMessage × Option JsonErr => (x.1).NIC) p.NIC rfl ?_
  refine ite_frame (fun x : PositionMessage × Option JsonErr => (x.1).NIC) p.NIC rfl ?_
  refine ite_frame (fun x : PositionMessage × Option JsonErr => (x.1).NIC) p.NIC rfl ?_
  refine ite_frame (fun x : PositionMessage × Option JsonErr => (x.1).NIC) p.NIC rfl ?_
  refine ite_frame (fun x : PositionMessage × Option JsonErr => (x.1).NIC) p.NIC rfl ?_
  refine ite_frame (fun x : PositionMessage × Option JsonErr => (x.1).NIC) p.NIC rfl ?_
  refine ite_frame (fun x : PositionMessage × Option JsonErr => (x.1).NIC) p.NIC rfl ?_
  refine ite_frame (fun x : PositionMessage × Option JsonErr => (x.1).NIC) p.NIC rfl ?_
  refine ite_frame (fun x : PositionMessage × Option JsonErr => (x.1).NIC) p.NIC rfl ?_
  refine ite_frame (fun x : PositionMessage × Option JsonErr => (x.1).NIC) p.NIC rfl ?_
  refine ite_frame (fun x : PositionMessage × Option JsonErr => (x.1).NIC) p.NIC rfl ?_
  refine ite_frame (fun x : PositionMessage × Option JsonErr => (x.1).NIC) p.NIC rfl ?_
  refine ite_frame (fun x : PositionMessage × Option JsonErr => (x.1).NIC) p.NIC rfl ?_
  refine ite_frame (fun x : PositionMessage × Option JsonErr => (x.1).NIC) p.NIC rfl ?_
  refine ite_frame (fun x : PositionMessage × Option JsonErr => (x.1).NIC) p.NIC rfl ?_
  refine ite_frame (fun x : PositionMessage × Option JsonErr => (x.1).NIC) p.NIC rfl ?_
  refine ite_frame (fun x : PositionMessage × Option JsonErr => (x.1).NIC) p.NIC rfl ?_
  refine ite_frame (fun x : PositionMessage × Option JsonErr => (x.1).NIC) p.NIC rfl ?_
  refine ite_frame (fun x : PositionMessage × Option JsonErr => (x.1).NIC) p.NIC rfl ?_
  refine ite_frame (fun x : PositionMessage × Option JsonErr => (x.1).NIC) p.NIC rfl ?_
  refine ite_frame (fun x : PositionMessage × Option JsonErr => (x.1).NIC) p.NIC rfl ?_
  refine ite_frame (fun x : PositionMessage × Option JsonErr => (x.1).NIC) p.NIC rfl ?_
  refine ite_frame (fun x : PositionMessage × Option JsonErr => (x.1).NIC) p.NIC rfl ?_
  refine ite_frame (fun x : PositionMessage × Option JsonErr => (x.1).NIC) p.NIC rfl ?_
  rw [if_neg h]
  refine ite_frame (fun x : PositionMessage × Option JsonErr => (x.1).NIC) p.NIC rfl ?_
  refine ite_frame (fun x : PositionMessage × Option JsonErr => (x.1).NIC) p.NIC rfl ?_
  refine ite_frame (fun x : PositionMessage × Option JsonErr => (x.1).NIC) p.NIC rfl ?_
  refine ite_frame (fun x : PositionMessage × Option JsonErr => (x.1).NIC) p.NIC rfl ?_
  refine ite_frame (fun x : PositionMessage × Option JsonErr => (x.1).NIC) p.NIC rfl ?_
  refine ite_frame (fun x : PositionMessage × Option JsonErr => (x.1).NIC) p.NIC rfl ?_
  refine ite_frame (fun x : PositionMessage × Option JsonErr => (x.1).NIC) p.NIC rfl ?_
  refine ite_frame (fun x : PositionMessage × Option JsonErr => (x.1).NIC) p.NIC rfl ?_
  refine ite_frame (fun x : PositionMessage × Option JsonErr => (x.1).NIC) p.NIC rfl ?_
  refine ite_frame (fun x : PositionMessage × Option JsonErr => (x.1).NIC) p.NIC rfl ?_
  refine ite_frame (fun x : PositionMessage × Option JsonErr => (x.1).NIC) p.NIC rfl ?_
  refine ite_frame (fun x : PositionMessage × Option JsonErr => (x.1).NIC) p.NIC rfl ?_
  refine ite_frame (fun x : PositionMessage × Option JsonErr => (x.1).NIC) p.NIC rfl ?_
  refine ite_frame (fun x : PositionMessage × Option JsonErr => (x.1).NIC) p.NIC rfl ?_
  refine ite_frame (fun x : PositionMessage × Option JsonErr => (x.1).NIC) p.NIC rfl ?_
  refine ite_frame (fun x : PositionMessage × Option JsonErr => (x.1).NIC) p.NIC rfl ?_
  refine ite_frame (fun x : PositionMessage × Option JsonErr => (x.1).NIC) p.NIC rfl ?_
  refine ite_frame (fun x : PositionMessage × Option JsonErr => (x.1).NIC) p.NIC rfl ?_
  refine ite_frame (fun x : PositionMessage × Option JsonErr => (x.1).NIC) p.NIC rfl ?_
  refine ite_frame (fun x : PositionMessage × Option JsonErr => (x.1).NIC) p.NIC rfl ?_
  refine ite_frame (fun x : PositionMessage × Option JsonErr => (x.1).NIC) p.NIC rfl ?_
  refine ite_frame (fun x : PositionMessage × Option JsonErr => (x.1).NIC) p.NIC rfl ?_
  refine ite_frame (fun x : PositionMessage × Option JsonErr => (x.1).NIC) p.NIC rfl ?_
  refine ite_frame (fun x : PositionMessage × Option JsonErr => (x.1).NIC) p.NIC rfl ?_
  rfl

lemma posFrame_NICBaro {k : String} (v : Json) (p : PositionMessage) (h : k ≠ "nic_baro") :
    ((posAssign k v p).1).NICBaro = p.NICBaro := by
  unfold posAssign
  refine ite_frame (fun x : PositionMessage × Option JsonErr => (x.1).NICBaro) p.NICBaro rfl ?_
  refine ite_frame (fun x : PositionMessage × Option JsonErr => (x.1).NICBaro) p.NICBaro rfl ?_
  refine ite_frame (fun x : PositionMessage × Option JsonErr => (x.1).NICBaro) p.NICBaro rfl ?_
  refine ite_frame (fun x : PositionMessage × Option JsonErr => (x.1).NICBaro) p.NICBaro rfl ?_
  refine ite_frame (fun x : PositionMessage × Option JsonErr => (x.1).NICBaro) p.NICBaro rfl ?_
  refine ite_frame (fun x : PositionMessage × Option JsonErr => (x.1).NICBaro) p.NICBaro rfl ?_
  refine ite_frame (fun x : PositionMessage × Option JsonErr => (x.1).NICBaro) p.NICBaro rfl ?_
  refine ite_frame (fun x : PositionMessage × Option JsonErr => (x.1).NICBaro) p.NICBaro rfl ?_
  refine ite_frame (fun x : PositionMessage × Option JsonErr => (x.1).NICBaro) p.NICBaro rfl ?_
  refine ite_frame (fun x : PositionMessage × Option JsonErr => (x.1).NICBaro) p.NICBaro rfl ?_
  refine ite_frame (fun x : PositionMessage × Option JsonErr => (x.1).NICBaro) p.NICBaro rfl ?_
  refine ite_frame (fun x : PositionMessage × Option JsonErr => (x.1).NICBaro) p.NICBaro rfl ?_
  refine ite_frame (fun x : PositionMessage × Option JsonErr => (x.1).NICBaro) p.NICBaro rfl ?_
  refine ite_frame (fun x : PositionMessage × Option JsonErr => (x.1).NICBaro) p.NICBaro rfl ?_
  refine ite_frame (fun x : PositionMessage × Option JsonErr => (x.1).NICBaro) p.NICBaro rfl ?_
  refine ite_frame (fun x : PositionMessage × Option JsonErr => (x.1).NICBaro) p.NICBaro rfl ?_
  refine ite_frame (fun x : PositionMessage × Option JsonErr => (x.1).NICBaro) p.NICBaro rfl ?_
  refine ite_frame (fun x : PositionMessage × Option JsonErr => (x.1).NICBaro) p.NICBaro rfl ?_
  refine ite_frame (fun x : PositionMessage × Option JsonErr => (x.1).NICBaro) p.NICBaro rfl ?_
  refine ite_frame (fun x : PositionMessage × Option JsonErr => (x.1).NICBaro) p.NICBaro rfl ?_
  refine ite_frame (fun x : PositionMessage × Option JsonErr => (x.1).NICBaro) p.NICBaro rfl ?_
  refine ite_frame (fun x : PositionMessage × Option JsonErr => (x.1).NICBaro) p.NICBaro rfl ?_
  refine ite_frame (fun x : PositionMessage × Option JsonErr => (x.1).NICBaro) p.NICBaro rfl ?_
  refine ite_frame (fun x : PositionMessage × Option JsonErr => (x.1).NICBaro) p.NICBaro rfl ?_
  refine ite_frame (fun x : PositionMessage × Option JsonErr => (x.1).NICBaro) p.NICBaro rfl ?_
  refine ite_frame (fun x : PositionMessage × Option JsonErr => (x.1).NICBaro) p.NICBaro rfl ?_
  refine ite_frame (fun x : PositionMessage × Option JsonErr => (x.1).NICBaro) p.NICBaro rfl ?_
  refine ite_frame (fun x : PositionMessage × Option JsonErr => (x.1).NICBaro) p.NICBaro rfl ?_
  refine ite_frame (fun x : PositionMessage × Option JsonErr => (x.1).NICBaro) p.NICBaro rfl ?_
  refine ite_frame (fun x : PositionMessage × Option JsonErr => (x.1).NICBaro) p.NICBaro rfl ?_
  refine ite_frame (fun x : PositionMessage × Option JsonErr => (x.1).NICBaro) p.NICBaro rfl ?_
  refine ite_frame (fun x : PositionMessage × Option JsonErr => (x.1).NICBaro) p.NICBaro rfl ?_
  rw [if_neg h]
  refine ite_frame (fun x : PositionMessage × Option JsonErr => (x.1).NICBaro) p.NICBaro rfl ?_
  refine ite_frame (fun x : PositionMessage × Option JsonErr => (x.1).NICBaro) p.NICBaro rfl ?_
  refine ite_frame (fun x : PositionMessage × Option JsonErr => (x.1).NICBaro) p.NICBaro rfl ?_
  refine ite_frame (fun x : PositionMessage × Option JsonErr => (x.1).NICBaro) p.NICBaro rfl ?_
  refine ite_frame (fun x : PositionMessage × Option JsonErr => (x.1).NICBaro) p.NICBaro rfl ?_
  refine ite_frame (fun x : PositionMessage × Option JsonErr => (x.1).NICBaro) p.NICBaro rfl ?_
  refine ite_frame (fun x : PositionMessage × Option JsonErr => (x.1).NICBaro) p.NICBaro rfl ?_
  refine ite_frame (fun x : PositionMessage × Option JsonErr => (x.1).NICBaro) p.NICBaro rfl ?_
  refine ite_frame (fun x : PositionMessage × Option JsonErr => (x.1).NICBaro) p.NICBaro rfl ?_
  refine ite_frame (fun x : PositionMessage × Option JsonErr => (x.1).NICBaro) p.NICBaro rfl ?_
  refine ite_frame (fun x : PositionMessage × Option JsonErr => (x.1).NICBaro) p.NICBaro rfl ?_
  refine ite_frame (fun x : PositionMessage × Option JsonErr => (x.1).NICBaro) p.NICBaro rfl ?_
  refine ite_frame (fun x : PositionMessage × Option JsonErr => (x.1).NICBaro) p.NICBaro rfl ?_
  refine ite_frame (fun x : PositionMessage × Option JsonErr => (x.1).NICBaro) p.NICBaro rfl ?_
  refine ite_frame (fun x : PositionMessage × Option JsonErr => (x.1).NICBaro) p.NICBaro rfl ?_
  refine ite_frame (fun x : PositionMessage × Option JsonErr => (x.1).NICBaro) p.NICBaro rfl ?_
  refine ite_frame (fun x : PositionMessage × Option JsonErr => (x.1).NICBaro) p.NICBaro rfl ?_
  refine ite_frame (fun x : PositionMessage × Option JsonErr => (x.1).NICBaro) p.NICBaro rfl ?_
  refine ite_frame (fun x : PositionMessage × Option JsonErr => (x.1).NICBaro) p.NICBaro rfl ?_
  refine ite_frame (fun x : PositionMessage × Option JsonErr => (x.1).NICBaro) p.NICBaro rfl ?_
  refine ite_frame (fun x : PositionMessage × Option JsonErr => (x.1).NICBaro) p.NICBaro rfl ?_
  refine ite_frame (fun x : PositionMessage × Option JsonErr => (x.1).NICBaro) p.NICBaro rfl ?_
  refine ite_frame (fun x : PositionMessage × Option JsonErr => (x.1).NICBaro) p.NICBaro rfl ?_
  rfl

lemma posFrame_SIL {k : String} (v : Json) (p : PositionMessage) (h : k ≠ "sil") :
    ((posAssign k v p).1).SIL = p.SIL := by
  unfold posAssign
  refine ite_frame (fun x : PositionMessage × Option JsonErr => (x.1).SIL) p.SIL rfl ?_
  refine ite_frame (fun x : PositionMessage × Option JsonErr => (x.1).SIL) p.SIL rfl ?_
  refine ite_frame (fun x : PositionMessage × Option JsonErr => (x.1).SIL) p.SIL rfl ?_
  refine ite_frame (fun x : PositionMessage × Option JsonErr => (x.1).SIL) p.SIL rfl ?_
  refine ite_frame (fun x : PositionMessage × Option JsonErr => (x.1).SIL) p.SIL rfl ?_
  refine ite_frame (fun x : PositionMessage × Option JsonErr => (x.1).SIL) p.SIL rfl ?_
  refine ite_frame (fun x : PositionMessage × Option JsonErr => (x.1).SIL) p.SIL rfl ?_
  refine ite_frame (fun x : PositionMessage × Option JsonErr => (x.1).SIL) p.SIL rfl ?_
  refine ite_frame (fun x : PositionMessage × Option JsonErr => (x.1).SIL) p.SIL rfl ?_
  refine ite_frame (fun x : PositionMessage × Option JsonErr => (x.1).SIL) p.SIL rfl ?_
  refine ite_frame (fun x : PositionMessage × Option JsonErr => (x.1).SIL) p.SIL rfl ?_
  refine ite_frame (fun x : PositionMessage × Option JsonErr => (x.1).SIL) p.SIL rfl ?_
  refine ite_frame (fun x : PositionMessage × Option JsonErr => (x.1).SIL) p.SIL rfl ?_
  refine ite_frame (fun x : PositionMessage × Option JsonErr => (x.1).SIL) p.SIL rfl ?_
  refine ite_frame (fun x : PositionMessage × Option JsonErr => (x.1).SIL) p.SIL rfl ?_
  refine ite_frame (fun x : PositionMessage × Option JsonErr => (x.1).SIL) p.SIL rfl ?_
  refine ite_frame (fun x : PositionMessage × Option JsonErr => (x.1).SIL) p.SIL rfl ?_
  refine ite_frame (fun x : PositionMessage × Option JsonErr => (x.1).SIL) p.SIL rfl ?_
  refine ite_frame (fun x : PositionMessage × Option JsonErr => (x.1).SIL) p.SIL rfl ?_
  refine ite_frame (fun x : PositionMessage × Option JsonErr => (x.1).SIL) p.SIL rfl ?_
  refine ite_frame (fun x : PositionMessage × Option JsonErr => (x.1).SIL) p.SIL rfl ?_
  refine ite_frame (fun x : PositionMessage × Option JsonErr => (x.1).SIL) p.SIL rfl ?_
  refine ite_frame (fun x : PositionMessage × Option JsonErr => (x.1).SIL) p.SIL rfl ?_
  refine ite_frame (fun x : PositionMessage × Option JsonErr => (x.1).SIL) p.SIL rfl ?_
  refine ite_frame (fun x : PositionMessage × Option JsonErr => (x.1).SIL) p.SIL rfl ?_
  refine ite_frame (fun x : PositionMessage × Option JsonErr => (x.1).SIL) p.SIL rfl ?_
  refine ite_frame (fun x : PositionMessage × Option JsonErr => (x.1).SIL) p.SIL rfl ?_
  refine ite_frame (fun x : PositionMessage × Option JsonErr => (x.1).SIL) p.SIL rfl ?_
  refine ite_frame (fun x : PositionMessage × Option JsonErr => (x.1).SIL) p.SIL rfl ?_
  refine ite_frame (fun x : PositionMessage × Option JsonErr => (x.1).SIL) p.SIL rfl ?_
  refine ite_frame (fun x : PositionMessage × Option JsonErr => (x.1).SIL) p.SIL rfl ?_
  refine ite_frame (fun x : PositionMessage × Option JsonErr => (x.1).SIL) p.SIL rfl ?_
  refine ite_frame (fun x : PositionMessage × Option JsonErr => (x.1).SIL) p.SIL rfl ?_
  rw [if_neg h]
  refine ite_frame (fun x : PositionMessage × Option JsonErr => (x.1).SIL) p.SIL rfl ?_
  refine ite_frame (fun x : PositionMessage × Option JsonErr => (x.1).SIL) p.SIL rfl ?_
  refine ite_frame (fun x : PositionMessage × Option JsonErr => (x.1).SIL) p.SIL rfl ?_
  refine ite_frame (fun x : PositionMessage × Option JsonErr => (x.1).SIL) p.SIL rfl ?_
  refine ite_frame (fun x : PositionMessage × Option JsonErr => (x.1).SIL) p.SIL rfl ?_
  refine ite_frame (fun x : PositionMessage × Option JsonErr => (x.1).SIL) p.SIL rfl ?_
  refine ite_frame (fun x : PositionMessage × Option JsonErr => (x.1).SIL) p.SIL rfl ?_
  refine ite_frame (fun x : PositionMessage × Option JsonErr => (x.1).SIL) p.SIL rfl ?_
  refine ite_frame (fun x : PositionMessage × Option JsonErr => (x.1).SIL) p.SIL rfl ?_
  refine ite_frame (fun x : PositionMessage × Option JsonErr => (x.1).SIL) p.SIL rfl ?_
  refine ite_frame (fun x : PositionMessage × Option JsonErr => (x.1).SIL) p.SIL rfl ?_
  refine ite_frame (fun x : PositionMessage × Option JsonErr => (x.1).SIL) p.SIL rfl ?_
  refine ite_frame (fun x : PositionMessage × Option JsonErr => (x.1).SIL) p.SIL rfl ?_
  refine ite_frame (fun x : PositionMessage × Option JsonErr => (x.1).SIL) p.SIL rfl ?_
  refine ite_frame (fun x : PositionMessage × Option JsonErr => (x.1).SIL) p.SIL rfl ?_
  refine ite_frame (fun x : PositionMessage × Option JsonErr => (x.1).SIL) p.SIL rfl ?_
  refine ite_frame (fun x : PositionMessage × Option JsonErr => (x.1).SIL) p.SIL rfl ?_
  refine ite_frame (fun x : PositionMessage × Option JsonErr => (x.1).SIL) p.SIL rfl ?_
  refine ite_frame (fun x : PositionMessage × Option JsonErr => (x.1).SIL) p.SIL rfl ?_
  refine ite_frame (fun x : PositionMessage × Option JsonErr => (x.1).SIL) p.SIL rfl ?_
  refine ite_frame (fun x : PositionMessage × Option JsonErr => (x.1).SIL) p.SIL rfl ?_
  refine ite_frame (fun x : PositionMessage × Option JsonErr => (x.1).SIL) p.SIL rfl ?_
  rfl

lemma posFrame_SILType {k : String} (v : Json) (p : PositionMessage) (h : k ≠ "sil_type") :
    ((posAssign k v p).1).SILType = p.SILType := by
  unfold posAssign
  refine ite_frame (fun x : PositionMessage × Option JsonErr => (x.1).SILType) p.SILType rfl ?_
  refine ite_frame (fun x : PositionMessage × Option JsonErr => (x.1).SILType) p.SILType rfl ?_
  refine ite_frame (fun x : PositionMessage × Option JsonErr => (x.1).SILType) p.SILType rfl ?_
  refine ite_frame (fun x : PositionMessage × Option JsonErr => (x.1).SILType) p.SILType rfl ?_
  refine ite_frame (fun x : PositionMessage × Option JsonErr => (x.1).SILType) p.SILType rfl ?_
  refine ite_frame (fun x : PositionMessage × Option JsonErr => (x.1).SILType) p.SILType rfl ?_
  refine ite_frame (fun x : PositionMessage × Option JsonErr => (x.1).SILType) p.SILType rfl ?_
  refine ite_frame (fun x : PositionMessage × Option JsonErr => (x.1).SILType) p.SILType rfl ?_
  refine ite_frame (fun x : PositionMessage × Option JsonErr => (x.1).SILType) p.SILType rfl ?_
  refine ite_frame (fun x : PositionMessage × Option JsonErr => (x.1).SILType) p.SILType rfl ?_
  refine ite_frame (fun x : PositionMessage × Option JsonErr => (x.1).SILType) p.SILType rfl ?_
  refine ite_frame (fun x : PositionMessage × Option JsonErr => (x.1).SILType) p.SILType rfl ?_
  refine ite_frame (fun x : PositionMessage × Option JsonErr => (x.1).SILType) p.SILType rfl ?_
  refine ite_frame (fun x : PositionMessage × Option JsonErr => (x.1).SILType) p.SILType rfl ?_
  refine ite_frame (fun x : PositionMessage × Option JsonErr => (x.1).SILType) p.SILType rfl ?_
  refine ite_frame (fun x : PositionMessage × Option JsonErr => (x.1).SILType) p.SILType rfl ?_
  refine ite_frame (fun x : PositionMessage × Option JsonErr => (x.1).SILType) p.SILType rfl ?_
  refine ite_frame (fun x : PositionMessage × Option JsonErr => (x.1).SILType) p.SILType rfl ?_
  refine ite_frame (fun x : PositionMessage × Option JsonErr => (x.1).SILType) p.SILType rfl ?_
  refine ite_frame (fun x : PositionMessage × Option JsonErr => (x.1).SILType) p.SILType rfl ?_
  refine ite_frame (fun x : PositionMessage × Option JsonErr => (x.1).SILType) p.SILType rfl ?_
  refine ite_frame (fun x : PositionMessage × Option JsonErr => (x.1).SILType) p.SILType rfl ?_
  refine ite_frame (fun x : PositionMessage × Option JsonErr => (x.1).SILType) p.SILType rfl ?_
  refine ite_frame (fun x : PositionMessage × Option JsonErr => (x.1).SILType) p.SILType rfl ?_
  refine ite_frame (fun x : PositionMessage × Option JsonErr => (x.1).SILType) p.SILType rfl ?_
  refine ite_frame (fun x : PositionMessage × Option JsonErr => (x.1).SILType) p.SILType rfl ?_
  refine ite_frame (fun x : PositionMessage × Option JsonErr => (x.1).SILType) p.SILType rfl ?_
  refine ite_frame (fun x : PositionMessage × Option JsonErr => (x.1).SILType) p.SILType rfl ?_
  refine ite_frame (fun x : PositionMessage × Option JsonErr => (x.1).SILType) p.SILType rfl ?_
  refine ite_frame (fun x : PositionMessage × Option JsonErr => (x.1).SILType) p.SILType rfl ?_
  refine ite_frame (fun x : PositionMessage × Option JsonErr => (x.1).SILType) p.SILType rfl ?_
  refine ite_frame (fun x : PositionMessage × Option JsonErr => (x.1).SILType) p.SILType rfl ?_
  refine ite_frame (fun x : PositionMessage × Option JsonErr => (x.1).SILType) p.SILType rfl ?_
  refine ite_frame (fun x : PositionMessage × Option JsonErr => (x.1).SILType) p.SILType rfl ?_
  rw [if_neg h]
  refine ite_frame (fun x : PositionMessage × Option JsonErr => (x.1).SILType) p.SILType rfl ?_
  refine ite_frame (fun x : PositionMessage × Option JsonErr => (x.1).SILType) p.SILType rfl ?_
  refine ite_frame (fun x : PositionMessage × Option JsonErr => (x.1).SILType) p.SILType rfl ?_
  refine ite_frame (fun x : PositionMessage × Option JsonErr => (x.1).SILType) p.SILType rfl ?_
  refine ite_frame (fun x : PositionMessage × Option JsonErr => (x.1).SILType) p.SILType rfl ?_
  refine ite_frame (fun x : PositionMessage × Option JsonErr => (x.1).SILType) p.SILType rfl ?_
  refine ite_frame (fun x : PositionMessage × Option JsonErr => (x.1).SILType) p.SILType rfl ?_
  refine ite_frame (fun x : PositionMessage × Option JsonErr => (x.1).SILType) p.SILType rfl ?_
  refine ite_frame (fun x : PositionMessage × Option JsonErr => (x.1).SILType) p.SILType rfl ?_
  refine ite_frame (fun x : PositionMessage × Option JsonErr => (x.1).SILType) p.SILType rfl ?_
  refine ite_frame (fun x : PositionMessage × Option JsonErr => (x.1).SILType) p.SILType rfl ?_
  refine ite_frame (fun x : PositionMessage × Option JsonErr => (x.1).SILType) p.SILType rfl ?_
  refine ite_frame (fun x : PositionMessage × Option JsonErr => (x.1).SILType) p.SILType rfl ?_
  refine ite_frame (fun x : PositionMessage × Option JsonErr => (x.1).SILType) p.SILType rfl ?_
  refine ite_frame (fun x : PositionMessage × Option JsonErr => (x.1).SILType) p.SILType rfl ?_
  refine ite_frame (fun x : PositionMessage × Option JsonErr => (x.1).SILType) p.SILType rfl ?_
  refine ite_frame (fun x : PositionMessage × Option JsonErr => (x.1).SILType) p.SILType rfl ?_
  refine ite_frame (fun x : PositionMessage × Option JsonErr => (x.1).SILType) p.SILType rfl ?_
  refine ite_frame (fun x : PositionMessage × Option JsonErr => (x.1).SILType) p.SILType rfl ?_
  refine ite_frame (fun x : PositionMessage × Option JsonErr => (x.1).SILType) p.SILType rfl ?_
  refine ite_frame (fun x : PositionMessage × Option JsonErr => (x.1).SILType) p.SILType rfl ?_
  rfl

lemma posFrame_PosRC {k : String} (v : Json) (p : PositionMessage) (h : k ≠ "pos_rc") :
    ((posAssign k v p).1).PosRC = p.PosRC := by
  unfold posAssign
  refine ite_frame (fun x : PositionMessage × Option JsonErr => (x.1).PosRC) p.PosRC rfl ?_
  refine ite_frame (fun x : PositionMessage × Option JsonErr => (x.1).PosRC) p.PosRC rfl ?_
  refine ite_frame (fun x : PositionMessage × Option JsonErr => (x.1).PosRC) p.PosRC rfl ?_
  refine ite_frame (fun x : PositionMessage × Option JsonErr => (x.1).PosRC) p.PosRC rfl ?_
  refine ite_frame (fun x : PositionMessage × Option JsonErr => (x.1).PosRC) p.PosRC rfl ?_
  refine ite_frame (fun x : PositionMessage × Option JsonErr => (x.1).PosRC) p.PosRC rfl ?_
  refine ite_frame (fun x : PositionMessage × Option JsonErr => (x.1).PosRC) p.PosRC rfl ?_
  refine ite_frame (fun x : PositionMessage × Option JsonErr => (x.1).PosRC) p.PosRC rfl ?_
  refine ite_frame (fun x : PositionMessage × Option JsonErr => (x.1).PosRC) p.PosRC rfl ?_
  refine ite_frame (fun x : PositionMessage × Option JsonErr => (x.1).PosRC) p.PosRC rfl ?_
  refine ite_frame (fun x : PositionMessage × Option JsonErr => (x.1).PosRC) p.PosRC rfl ?_
  refine ite_frame (fun x : PositionMessage × Option JsonErr => (x.1).PosRC) p.PosRC rfl ?_
  refine ite_frame (fun x : PositionMessage × Option JsonErr => (x.1).PosRC) p.PosRC rfl ?_
  refine ite_frame (fun x : PositionMessage × Option JsonErr => (x.1).PosRC) p.PosRC rfl ?_
  refine ite_frame (fun x : PositionMessage × Option JsonErr => (x.1).PosRC) p.PosRC rfl ?_
  refine ite_frame (fun x : PositionMessage × Option JsonErr => (x.1).PosRC) p.PosRC rfl ?_
  refine ite_frame (fun x : PositionMessage × Option JsonErr => (x.1).PosRC) p.PosRC rfl ?_
  refine ite_frame (fun x : PositionMessage × Option JsonErr => (x.1).PosRC) p.PosRC rfl ?_
  refine ite_frame (fun x : PositionMessage × Option JsonErr => (x.1).PosRC) p.PosRC rfl ?_
  refine ite_frame (fun x : PositionMessage × Option JsonErr => (x.1).PosRC) p.PosRC rfl ?_
  refine ite_frame (fun x : PositionMessage × Option JsonErr => (x.1).PosRC) p.PosRC rfl ?_
  refine ite_frame (fun x : PositionMessage × Option JsonErr => (x.1).PosRC) p.PosRC rfl ?_
  refine ite_frame (fun x : PositionMessage × Option JsonErr => (x.1).PosRC) p.PosRC rfl ?_
  refine ite_frame (fun x : PositionMessage × Option JsonErr => (x.1).PosRC) p.PosRC rfl ?_
  refine ite_frame (fun x : PositionMessage × Option JsonErr => (x.1).PosRC) p.PosRC rfl ?_
  refine ite_frame (fun x : PositionMessage × Option JsonErr => (x.1).PosRC) p.PosRC rfl ?_
  refine ite_frame (fun x : PositionMessage × Option JsonErr => (x.1).PosRC) p.PosRC rfl ?_
  refine ite_frame (fun x : PositionMessage × Option JsonErr => (x.1).PosRC) p.PosRC rfl ?_
  refine ite_frame (fun x : PositionMessage × Option JsonErr => (x.1).PosRC) p.PosRC rfl ?_
  refine ite_frame (fun x : PositionMessage × Option JsonErr => (x.1).PosRC) p.PosRC rfl ?_
  refine ite_frame (fun x : PositionMessage × Option JsonErr => (x.1).PosRC) p.PosRC rfl ?_
  refine ite_frame (fun x : PositionMessage × Option JsonErr => (x.1).PosRC) p.PosRC rfl ?_
  refine ite_frame (fun x : PositionMessage × Option JsonErr => (x.1).PosRC) p.PosRC rfl ?_
  refine ite_frame (fun x : PositionMessage × Option JsonErr => (x.1).PosRC) p.PosRC rfl ?_
  refine ite_frame (fun x : PositionMessage × Option JsonErr => (x.1).PosRC) p.PosRC rfl ?_
  rw [if_neg h]
  refine ite_frame (fun x : PositionMessage × Option JsonErr => (x.1).PosRC) p.PosRC rfl ?_
  refine ite_frame (fun x : PositionMessage × Option JsonErr => (x.1).PosRC) p.PosRC rfl ?_
  refine ite_frame (fun x : PositionMessage × Option JsonErr => (x.1).PosRC) p.PosRC rfl ?_
  refine ite_frame (fun x : PositionMessage × Option JsonErr => (x.1).PosRC) p.PosRC rfl ?_
  refine ite_frame (fun x : PositionMessage × Option JsonErr => (x.1).PosRC) p.PosRC rfl ?_
  refine ite_frame (fun x : PositionMessage × Option JsonErr => (x.1).PosRC) p.PosRC rfl ?_
  refine ite_frame (fun x : PositionMessage × Option JsonErr => (x.1).PosRC) p.PosRC rfl ?_
  refine ite_frame (fun x : PositionMessage × Option JsonErr => (x.1).PosRC) p.PosRC rfl ?_
  refine ite_frame (fun x : PositionMessage × Option JsonErr => (x.1).PosRC) p.PosRC rfl ?_
  refine ite_frame (fun x : PositionMessage × Option JsonErr => (x.1).PosRC) p.PosRC rfl ?_
  refine ite_frame (fun x : PositionMessage × Option JsonErr => (x.1).PosRC) p.PosRC rfl ?_
  refine ite_frame (fun x : PositionMessage × Option JsonErr => (x.1).PosRC) p.PosRC rfl ?_
  refine ite_frame (fun x : PositionMessage × Option JsonErr => (x.1).PosRC) p.PosRC rfl ?_
  refine ite_frame (fun x : PositionMessage × Option JsonErr => (x.1).PosRC) p.PosRC rfl ?_
  refine ite_frame (fun x : PositionMessage × Option JsonErr => (x.1).PosRC) p.PosRC rfl ?_
  refine ite_frame (fun x : PositionMessage × Option JsonErr => (x.1).PosRC) p.PosRC rfl ?_
  refine ite_frame (fun x : PositionMessage × Option JsonErr => (x.1).PosRC) p.PosRC rfl ?_
  refine ite_frame (fun x : PositionMessage × Option JsonErr => (x.1).PosRC) p.PosRC rfl ?_
  refine ite_frame (fun x : PositionMessage × Option JsonErr => (x.1).PosRC) p.PosRC rfl ?_
  refine ite_frame (fun x : PositionMessage × Option JsonErr => (x.1).PosRC) p.PosRC rfl ?_
  rfl

lemma posFrame_HeadingMagnetic {k : String} (v : Json) (p : PositionMessage) (h : k ≠ "heading_magnetic") :
    ((posAssign k v p).1).HeadingMagnetic = p.HeadingMagnetic := by
  unfold posAssign
  refine ite_frame (fun x : PositionMessage × Option JsonErr => (x.1).HeadingMagnetic) p.HeadingMagnetic rfl ?_
  refine ite_frame (fun x : PositionMessage × Option JsonErr => (x.1).HeadingMagnetic) p.HeadingMagnetic rfl ?_
  refine ite_frame (fun x : PositionMessage × Option JsonErr => (x.1).HeadingMagnetic) p.HeadingMagnetic rfl ?_
  refine ite_frame (fun x : PositionMessage × Option JsonErr => (x.1).HeadingMagnetic) p.HeadingMagnetic rfl ?_
  refine ite_frame (fun x : PositionMessage × Option JsonErr => (x.1).HeadingMagnetic) p.HeadingMagnetic rfl ?_
  refine ite_frame (fun x : PositionMessage × Option JsonErr => (x.1).HeadingMagnetic) p.HeadingMagnetic rfl ?_
  refine ite_frame (fun x : PositionMessage × Option JsonErr => (x.1).HeadingMagnetic) p.HeadingMagnetic rfl ?_
  refine ite_frame (fun x : PositionMessage × Option JsonErr => (x.1).HeadingMagnetic) p.HeadingMagnetic rfl ?_
  refine ite_frame (fun x : PositionMessage × Option JsonErr => (x.1).HeadingMagnetic) p.HeadingMagnetic rfl ?_
  refine ite_frame (fun x : PositionMessage × Option JsonErr => (x.1).HeadingMagnetic) p.HeadingMagnetic rfl ?_
  refine ite_frame (fun x : PositionMessage × Option JsonErr => (x.1).HeadingMagnetic) p.HeadingMagnetic rfl ?_
  refine ite_frame (fun x : PositionMessage × Option JsonErr => (x.1).HeadingMagnetic) p.HeadingMagnetic rfl ?_
  refine ite_frame (fun x : PositionMessage × Option JsonErr => (x.1).HeadingMagnetic) p.HeadingMagnetic rfl ?_
  refine ite_frame (fun x : PositionMessage × Option JsonErr => (x.1).HeadingMagnetic) p.HeadingMagnetic rfl ?_
  refine ite_frame (fun x : PositionMessage × Option JsonErr => (x.1).HeadingMagnetic) p.HeadingMagnetic rfl ?_
  refine ite_frame (fun x : PositionMessage × Option JsonErr => (x.1).HeadingMagnetic) p.HeadingMagnetic rfl ?_
  refine ite_frame (fun x : PositionMessage × Option JsonErr => (x.1).HeadingMagnetic) p.HeadingMagnetic rfl ?_
  refine ite_frame (fun x : PositionMessage × Option JsonErr => (x.1).HeadingMagnetic) p.HeadingMagnetic rfl ?_
  refine ite_frame (fun x : PositionMessage × Option JsonErr => (x.1).HeadingMagnetic) p.HeadingMagnetic rfl ?_
  refine ite_frame (fun x : PositionMessage × Option JsonErr => (x.1).HeadingMagnetic) p.HeadingMagnetic rfl ?_
  refine ite_frame (fun x : PositionMessage × Option JsonErr => (x.1).HeadingMagnetic) p.HeadingMagnetic rfl ?_
  refine ite_frame (fun x : PositionMessage × Option JsonErr => (x.1).HeadingMagnetic) p.HeadingMagnetic rfl ?_
  refine ite_frame (fun x : PositionMessage × Option JsonErr => (x.1).HeadingMagnetic) p.HeadingMagnetic rfl ?_
  refine ite_frame (fun x : PositionMessage × Option JsonErr => (x.1).HeadingMagnetic) p.HeadingMagnetic rfl ?_
  refine ite_frame (fun x : PositionMessage × Option JsonErr => (x.1).HeadingMagnetic) p.HeadingMagnetic rfl ?_
  refine ite_frame (fun x : PositionMessage × Option JsonErr => (x.1).HeadingMagnetic) p.HeadingMagnetic rfl ?_
  refine ite_frame (fun x : PositionMessage × Option JsonErr => (x.1).HeadingMagnetic) p.HeadingMagnetic rfl ?_
  refine ite_frame (fun x : PositionMessage × Option JsonErr => (x.1).HeadingMagnetic) p.HeadingMagnetic rfl ?_
  refine ite_frame (fun x : PositionMessage × Option JsonErr => (x.1).HeadingMagnetic) p.HeadingMagnetic rfl ?_
  refine ite_frame (fun x : PositionMessage × Option JsonErr => (x.1).HeadingMagnetic) p.HeadingMagnetic rfl ?_
  refine ite_frame (fun x : PositionMessage × Option JsonErr => (x.1).HeadingMagnetic) p.HeadingMagnetic rfl ?_
  refine ite_frame (fun x : PositionMessage × Option JsonErr => (x.1).HeadingMagnetic) p.HeadingMagnetic rfl ?_
  refine ite_frame (fun x : PositionMessage × Option JsonErr => (x.1).HeadingMagnetic) p.HeadingMagnetic rfl ?_
  refine ite_frame (fun x : PositionMessage × Option JsonErr => (x.1).HeadingMagnetic) p.HeadingMagnetic rfl ?_
  refine ite_frame (fun x : PositionMessage × Option JsonErr => (x.1).HeadingMagnetic) p.HeadingMagnetic rfl ?_
  refine ite_frame (fun x : PositionMessage × Option JsonErr => (x.1).HeadingMagnetic) p.HeadingMagnetic rfl ?_
  rw [if_neg h]
  refine ite_frame (fun x : PositionMessage × Option JsonErr => (x.1).HeadingMagnetic) p.HeadingMagnetic rfl ?_
  refine ite_frame (fun x : PositionMessage × Option JsonErr => (x.1).HeadingMagnetic) p.HeadingMagnetic rfl ?_
  refine ite_frame (fun x : PositionMessage × Option JsonErr => (x.1).HeadingMagnetic) p.HeadingMagnetic rfl ?_
  refine ite_frame (fun x : PositionMessage × Option JsonErr => (x.1).HeadingMagnetic) p.HeadingMagnetic rfl ?_
  refine ite_frame (fun x : PositionMessage × Option JsonErr => (x.1).HeadingMagnetic) p.HeadingMagnetic rfl ?_
  refine ite_frame (fun x : PositionMessage × Option JsonErr => (x.1).HeadingMagnetic) p.HeadingMagnetic rfl ?_
  refine ite_frame (fun x : PositionMessage × Option JsonErr => (x.1).HeadingMagnetic) p.HeadingMagnetic rfl ?_
  refine ite_frame (fun x : PositionMessage × Option JsonErr => (x.1).HeadingMagnetic) p.HeadingMagnetic rfl ?_
  refine ite_frame (fun x : PositionMessage × Option JsonErr => (x.1).HeadingMagnetic) p.HeadingMagnetic rfl ?_
  refine ite_frame (fun x : PositionMessage × Option JsonErr => (x.1).HeadingMagnetic) p.HeadingMagnetic rfl ?_
  refine ite_frame (fun x : PositionMessage × Option JsonErr => (x.1).HeadingMagnetic) p.HeadingMagnetic rfl ?_
  refine ite_frame (fun x : PositionMessage × Option JsonErr => (x.1).HeadingMagnetic) p.HeadingMagnetic rfl ?_
  refine ite_frame (fun x : PositionMessage × Option JsonErr => (x.1).HeadingMagnetic) p.HeadingMagnetic rfl ?_
  refine ite_frame (fun x : PositionMessage × Option JsonErr => (x.1).HeadingMagnetic) p.HeadingMagnetic rfl ?_
  refine ite_frame (fun x : PositionMessage × Option JsonErr => (x.1).HeadingMagnetic) p.HeadingMagnetic rfl ?_
  refine ite_frame (fun x : PositionMessage × Option JsonErr => (x.1).HeadingMagnetic) p.HeadingMagnetic rfl ?_
  refine ite_frame (fun x : PositionMessage × Option JsonErr => (x.1).HeadingMagnetic) p.HeadingMagnetic rfl ?_
  refine ite_frame (fun x : PositionMessage × Option JsonErr => (x.1).HeadingMagnetic) p.HeadingMagnetic rfl ?_
  refine ite_frame (fun x : PositionMessage × Option JsonErr => (x.1).HeadingMagnetic) p.HeadingMagnetic rfl ?_
  rfl

lemma posFrame_HeadingTrue {k : String} (v : Json) (p : PositionMessage) (h : k ≠ "heading_true") :
    ((posAssign k v p).1).HeadingTrue = p.HeadingTrue := by
  unfold posAssign
  refine ite_frame (fun x : PositionMessage × Option JsonErr => (x.1).HeadingTrue) p.HeadingTrue rfl ?_
  refine ite_frame (fun x : PositionMessage × Option JsonErr => (x.1).HeadingTrue) p.HeadingTrue rfl ?_
  refine ite_frame (fun x : PositionMessage × Option JsonErr => (x.1).HeadingTrue) p.HeadingTrue rfl ?_
  refine ite_frame (fun x : PositionMessage × Option JsonErr => (x.1).HeadingTrue) p.HeadingTrue rfl ?_
  refine ite_frame (fun x : PositionMessage × Option JsonErr => (x.1).HeadingTrue) p.HeadingTrue rfl ?_
  refine ite_frame (fun x : PositionMessage × Option JsonErr => (x.1).HeadingTrue) p.HeadingTrue rfl ?_
  refine ite_frame (fun x : PositionMessage × Option JsonErr => (x.1).HeadingTrue) p.HeadingTrue rfl ?_
  refine ite_frame (fun x : PositionMessage × Option JsonErr => (x.1).HeadingTrue) p.HeadingTrue rfl ?_
  refine ite_frame (fun x : PositionMessage × Option JsonErr => (x.1).HeadingTrue) p.HeadingTrue rfl ?_
  refine ite_frame (fun x : PositionMessage × Option JsonErr => (x.1).HeadingTrue) p.HeadingTrue rfl ?_
  refine ite_frame (fun x : PositionMessage × Option JsonErr => (x.1).HeadingTrue) p.HeadingTrue rfl ?_
  refine ite_frame (fun x : PositionMessage × Option JsonErr => (x.1).HeadingTrue) p.HeadingTrue rfl ?_
  refine ite_frame (fun x : PositionMessage × Option JsonErr => (x.1).HeadingTrue) p.HeadingTrue rfl ?_
  refine ite_frame (fun x : PositionMessage × Option JsonErr => (x.1).HeadingTrue) p.HeadingTrue rfl ?_
  refine ite_frame (fun x : PositionMessage × Option JsonErr => (x.1).HeadingTrue) p.HeadingTrue rfl ?_
  refine ite_frame (fun x : PositionMessage × Option JsonErr => (x.1).HeadingTrue) p.HeadingTrue rfl ?_
  refine ite_frame (fun x : PositionMessage × Option JsonErr => (x.1).HeadingTrue) p.HeadingTrue rfl ?_
  refine ite_frame (fun x : PositionMessage × Option JsonErr => (x.1).HeadingTrue) p.HeadingTrue rfl ?_
  refine ite_frame (fun x : PositionMessage × Option JsonErr => (x.1).HeadingTrue) p.HeadingTrue rfl ?_
  refine ite_frame (fun x : PositionMessage × Option JsonErr => (x.1).HeadingTrue) p.HeadingTrue rfl ?_
  refine ite_frame (fun x : PositionMessage × Option JsonErr => (x.1).HeadingTrue) p.HeadingTrue rfl ?_
  refine ite_frame (fun x : PositionMessage × Option JsonErr => (x.1).HeadingTrue) p.HeadingTrue rfl ?_
  refine ite_frame (fun x : PositionMessage × Option JsonErr => (x.1).HeadingTrue) p.HeadingTrue rfl ?_
  refine ite_frame (fun x : PositionMessage × Option JsonErr => (x.1).HeadingTrue) p.HeadingTrue rfl ?_
  refine ite_frame (fun x : PositionMessage × Option JsonErr => (x.1).HeadingTrue) p.HeadingTrue rfl ?_
  refine ite_frame (fun x : PositionMessage × Option JsonErr => (x.1).HeadingTrue) p.HeadingTrue rfl ?_
  refine ite_frame (fun x : PositionMessage × Option JsonErr => (x.1).HeadingTrue) p.HeadingTrue rfl ?_
  refine ite_frame (fun x : PositionMessage × Option JsonErr => (x.1).HeadingTrue) p.HeadingTrue rfl ?_
  refine ite_frame (fun x : PositionMessage × Option JsonErr => (x.1).HeadingTrue) p.HeadingTrue rfl ?_
  refine ite_frame (fun x : PositionMessage × Option JsonErr => (x.1).HeadingTrue) p.HeadingTrue rfl ?_
  refine ite_frame (fun x : PositionMessage × Option JsonErr => (x.1).HeadingTrue) p.HeadingTrue rfl ?_
  refine ite_frame (fun x : PositionMessage × Option JsonErr => (x.1).HeadingTrue) p.HeadingTrue rfl ?_
  refine ite_frame (fun x : PositionMessage × Option JsonErr => (x.1).HeadingTrue) p.HeadingTrue rfl ?_
  refine ite_frame (fun x : PositionMessage × Option JsonErr => (x.1).HeadingTrue) p.HeadingTrue rfl ?_
  refine ite_frame (fun x : PositionMessage × Option JsonErr => (x.1).HeadingTrue) p.HeadingTrue rfl ?_
  refine ite_frame (fun x : PositionMessage × Option JsonErr => (x.1).HeadingTrue) p.HeadingTrue rfl ?_
  refine ite_frame (fun x : PositionMessage × Option JsonErr => (x.1).HeadingTrue) p.HeadingTrue rfl ?_
  rw [if_neg h]
  refine ite_frame (fun x : PositionMessage × Option JsonErr => (x.1).HeadingTrue) p.HeadingTrue rfl ?_
  refine ite_frame (fun x : PositionMessage × Option JsonErr => (x.1).HeadingTrue) p.HeadingTrue rfl ?_
  refine ite_frame (fun x : PositionMessage × Option JsonErr => (x.1).HeadingTrue) p.HeadingTrue rfl ?_
  refine ite_frame (fun x : PositionMessage × Option JsonErr => (x.1).HeadingTrue) p.HeadingTrue rfl ?_
  refine ite_frame (fun x : PositionMessage × Option JsonErr => (x.1).HeadingTrue) p.HeadingTrue rfl ?_
  refine ite_frame (fun x : PositionMessage × Option JsonErr => (x.1).HeadingTrue) p.HeadingTrue rfl ?_
  refine ite_frame (fun x : PositionMessage × Option JsonErr => (x.1).HeadingTrue) p.HeadingTrue rfl ?_
  refine ite_frame (fun x : PositionMessage × Option JsonErr => (x.1).HeadingTrue) p.HeadingTrue rfl ?_
  refine ite_frame (fun x : PositionMessage × Option JsonErr => (x.1).HeadingTrue) p.HeadingTrue rfl ?_
  refine ite_frame (fun x : PositionMessage × Option JsonErr => (x.1).HeadingTrue) p.HeadingTrue rfl ?_
  refine ite_frame (fun x : PositionMessage × Option JsonErr => (x.1).HeadingTrue) p.HeadingTrue rfl ?_
  refine ite_frame (fun x : PositionMessage × Option JsonErr => (x.1).HeadingTrue) p.HeadingTrue rfl ?_
  refine ite_frame (fun x : PositionMessage × Option JsonErr => (x.1).HeadingTrue) p.HeadingTrue rfl ?_
  refine ite_frame (fun x : PositionMessage × Option JsonErr => (x.1).HeadingTrue) p.HeadingTrue rfl ?_
  refine ite_frame (fun x : PositionMessage × Option JsonErr => (x.1).HeadingTrue) p.HeadingTrue rfl ?_
  refine ite_frame (fun x : PositionMessage × Option JsonErr => (x.1).HeadingTrue) p.HeadingTrue rfl ?_
  refine ite_frame (fun x : PositionMessage × Option JsonErr => (x.1).HeadingTrue) p.HeadingTrue rfl ?_
  refine ite_frame (fun x : PositionMessage × Option JsonErr => (x.1).HeadingTrue) p.HeadingTrue rfl ?_
  rfl

lemma posFrame_Mach {k : String} (v : Json) (p : PositionMessage) (h : k ≠ "mach") :
    ((posAssign k v p).1).Mach = p.Mach := by
  unfold posAssign
  refine ite_frame (fun x : PositionMessage × Option JsonErr => (x.1).Mach) p.Mach rfl ?_
  refine ite_frame (fun x : PositionMessage × Option JsonErr => (x.1).Mach) p.Mach rfl ?_
  refine ite_frame (fun x : PositionMessage × Option JsonErr => (x.1).Mach) p.Mach rfl ?_
  refine ite_frame (fun x : PositionMessage × Option JsonErr => (x.1).Mach) p.Mach rfl ?_
  refine ite_frame (fun x : PositionMessage × Option JsonErr => (x.1).Mach) p.Mach rfl ?_
  refine ite_frame (fun x : PositionMessage × Option JsonErr => (x.1).Mach) p.Mach rfl ?_
  refine ite_frame (fun x : PositionMessage × Option JsonErr => (x.1).Mach) p.Mach rfl ?_
  refine ite_frame (fun x : PositionMessage × Option JsonErr => (x.1).Mach) p.Mach rfl ?_
  refine ite_frame (fun x : PositionMessage × Option JsonErr => (x.1).Mach) p.Mach rfl ?_
  refine ite_frame (fun x : PositionMessage × Option JsonErr => (x.1).Mach) p.Mach rfl ?_
  refine ite_frame (fun x : PositionMessage × Option JsonErr => (x.1).Mach) p.Mach rfl ?_
  refine ite_frame (fun x : PositionMessage × Option JsonErr => (x.1).Mach) p.Mach rfl ?_
  refine ite_frame (fun x : PositionMessage × Option JsonErr => (x.1).Mach) p.Mach rfl ?_
  refine ite_frame (fun x : PositionMessage × Option JsonErr => (x.1).Mach) p.Mach rfl ?_
  refine ite_frame (fun x : PositionMessage × Option JsonErr => (x.1).Mach) p.Mach rfl ?_
  refine ite_frame (fun x : PositionMessage × Option JsonErr => (x.1).Mach) p.Mach rfl ?_
  refine ite_frame (fun x : PositionMessage × Option JsonErr => (x.1).Mach) p.Mach rfl ?_
  refine ite_frame (fun x : PositionMessage × Option JsonErr => (x.1).Mach) p.Mach rfl ?_
  refine ite_frame (fun x : PositionMessage × Option JsonErr => (x.1).Mach) p.Mach rfl ?_
  refine ite_frame (fun x : PositionMessage × Option JsonErr => (x.1).Mach) p.Mach rfl ?_
  refine ite_frame (fun x : PositionMessage × Option JsonErr => (x.1).Mach) p.Mach rfl ?_
  refine ite_frame (fun x : PositionMessage × Option JsonErr => (x.1).Mach) p.Mach rfl ?_
  refine ite_frame (fun x : PositionMessage × Option JsonErr => (x.1).Mach) p.Mach rfl ?_
  refine ite_frame (fun x : PositionMessage × Option JsonErr => (x.1).Mach) p.Mach rfl ?_
  refine ite_frame (fun x : PositionMessage × Option JsonErr => (x.1).Mach) p.Mach rfl ?_
  refine ite_frame (fun x : PositionMessage × Option JsonErr => (x.1).Mach) p.Mach rfl ?_
  refine ite_frame (fun x : PositionMessage × Option JsonErr => (x.1).Mach) p.Mach rfl ?_
  refine ite_frame (fun x : PositionMessage × Option JsonErr => (x.1).Mach) p.Mach rfl ?_
  refine ite_frame (fun x : PositionMessage × Option JsonErr => (x.1).Mach) p.Mach rfl ?_
  refine ite_frame (fun x : PositionMessage × Option JsonErr => (x.1).Mach) p.Mach rfl ?_
  refine ite_frame (fun x : PositionMessage × Option JsonErr => (x.1).Mach) p.Mach rfl ?_
  refine ite_frame (fun x : PositionMessage × Option JsonErr => (x.1).Mach) p.Mach rfl ?_
  refine ite_frame (fun x : PositionMessage × Option JsonErr => (x.1).Mach) p.Mach rfl ?_
  refine ite_frame (fun x : PositionMessage × Option JsonErr => (x.1).Mach) p.Mach rfl ?_
  refine ite_frame (fun x : PositionMessage × Option JsonErr => (x.1).Mach) p.Mach rfl ?_
  refine ite_frame (fun x : PositionMessage × Option JsonErr => (x.1).Mach) p.Mach rfl ?_
  refine ite_frame (fun x : PositionMessage × Option JsonErr => (x.1).Mach) p.Mach rfl ?_
  refine ite_frame (fun x : PositionMessage × Option JsonErr => (x.1).Mach) p.Mach rfl ?_
  rw [if_neg h]
  refine ite_frame (fun x : PositionMessage × Option JsonErr => (x.1).Mach) p.Mach rfl ?_
  refine ite_frame (fun x : PositionMessage × Option JsonErr => (x.1).Mach) p.Mach rfl ?_
  refine ite_frame (fun x : PositionMessage × Option JsonErr => (x.1).Mach) p.Mach rfl ?_
  refine ite_frame (fun x : PositionMessage × Option JsonErr => (x.1).Mach) p.Mach rfl ?_
  refine ite_frame (fun x : PositionMessage × Option JsonErr => (x.1).Mach) p.Mach rfl ?_
  refine ite_frame (fun x : PositionMessage × Option JsonErr => (x.1).Mach) p.Mach rfl ?_
  refine ite_frame (fun x : PositionMessage × Option JsonErr => (x.1).Mach) p.Mach rfl ?_
  refine ite_frame (fun x : PositionMessage × Option JsonErr => (x.1).Mach) p.Mach rfl ?_
  refine ite_frame (fun x : PositionMessage × Option JsonErr => (x.1).Mach) p.Mach rfl ?_
  refine ite_frame (fun x : PositionMessage × Option JsonErr => (x.1).Mach) p.Mach rfl ?_
  refine ite_frame (fun x : PositionMessage × Option JsonErr => (x.1).Mach) p.Mach rfl ?_
  refine ite_frame (fun x : PositionMessage × Option JsonErr => (x.1).Mach) p.Mach rfl ?_
  refine ite_frame (fun x : PositionMessage × Option JsonErr => (x.1).Mach) p.Mach rfl ?_
  refine ite_frame (fun x : PositionMessage × Option JsonErr => (x.1).Mach) p.Mach rfl ?_
  refine ite_frame (fun x : PositionMessage × Option JsonErr => (x.1).Mach) p.Mach rfl ?_
  refine ite_frame (fun x : PositionMessage × Option JsonErr => (x.1).Mach) p.Mach rfl ?_
  refine ite_frame (fun x : PositionMessage × Option JsonErr => (x.1).Mach) p.Mach rfl ?_
  rfl

lemma posFrame_SpeedTAS {k : String} (v : Json) (p : PositionMessage) (h : k ≠ "speed_tas") :
    ((posAssign k v p).1).SpeedTAS = p.SpeedTAS := by
  unfold posAssign
  refine ite_frame (fun x : PositionMessage × Option JsonErr => (x.1).SpeedTAS) p.SpeedTAS rfl ?_
  refine ite_frame (fun x : PositionMessage × Option JsonErr => (x.1).SpeedTAS) p.SpeedTAS rfl ?_
  refine ite_frame (fun x : PositionMessage × Option JsonErr => (x.1).SpeedTAS) p.SpeedTAS rfl ?_
  refine ite_frame (fun x : PositionMessage × Option JsonErr => (x.1).SpeedTAS) p.SpeedTAS rfl ?_
  refine ite_frame (fun x : PositionMessage × Option JsonErr => (x.1).SpeedTAS) p.SpeedTAS rfl ?_
  refine ite_frame (fun x : PositionMessage × Option JsonErr => (x.1).SpeedTAS) p.SpeedTAS rfl ?_
  refine ite_frame (fun x : PositionMessage × Option JsonErr => (x.1).SpeedTAS) p.SpeedTAS rfl ?_
  refine ite_frame (fun x : PositionMessage × Option JsonErr => (x.1).SpeedTAS) p.SpeedTAS rfl ?_
  refine ite_frame (fun x : PositionMessage × Option JsonErr => (x.1).SpeedTAS) p.SpeedTAS rfl ?_
  refine ite_frame (fun x : PositionMessage × Option JsonErr => (x.1).SpeedTAS) p.SpeedTAS rfl ?_
  refine ite_frame (fun x : PositionMessage × Option JsonErr => (x.1).SpeedTAS) p.SpeedTAS rfl ?_
  refine ite_frame (fun x : PositionMessage × Option JsonErr => (x.1).SpeedTAS) p.SpeedTAS rfl ?_
  refine ite_frame (fun x : PositionMessage × Option JsonErr => (x.1).SpeedTAS) p.SpeedTAS rfl ?_
  refine ite_frame (fun x : PositionMessage × Option JsonErr => (x.1).SpeedTAS) p.SpeedTAS rfl ?_
  refine ite_frame (fun x : PositionMessage × Option JsonErr => (x.1).SpeedTAS) p.SpeedTAS rfl ?_
  refine ite_frame (fun x : PositionMessage × Option JsonErr => (x.1).SpeedTAS) p.SpeedTAS rfl ?_
  refine ite_frame (fun x : PositionMessage × Option JsonErr => (x.1).SpeedTAS) p.SpeedTAS rfl ?_
  refine ite_frame (fun x : PositionMessage × Option JsonErr => (x.1).SpeedTAS) p.SpeedTAS rfl ?_
  refine ite_frame (fun x : PositionMessage × Option JsonErr => (x.1).SpeedTAS) p.SpeedTAS rfl ?_
  refine ite_frame (fun x : PositionMessage × Option JsonErr => (x.1).SpeedTAS) p.SpeedTAS rfl ?_
  refine ite_frame (fun x : PositionMessage × Option JsonErr => (x.1).SpeedTAS) p.SpeedTAS rfl ?_
  refine ite_frame (fun x : PositionMessage × Option JsonErr => (x.1).SpeedTAS) p.SpeedTAS rfl ?_
  refine ite_frame (fun x : PositionMessage × Option JsonErr => (x.1).SpeedTAS) p.SpeedTAS rfl ?_
  refine ite_frame (fun x : PositionMessage × Option JsonErr => (x.1).SpeedTAS) p.SpeedTAS rfl ?_
  refine ite_frame (fun x : PositionMessage × Option JsonErr => (x.1).SpeedTAS) p.SpeedTAS rfl ?_
  refine ite_frame (fun x : PositionMessage × Option JsonErr => (x.1).SpeedTAS) p.SpeedTAS rfl ?_
  refine ite_frame (fun x : PositionMessage × Option JsonErr => (x.1).SpeedTAS) p.SpeedTAS rfl ?_
  refine ite_frame (fun x : PositionMessage × Option JsonErr => (x.1).SpeedTAS) p.SpeedTAS rfl ?_
  refine ite_frame (fun x : PositionMessage × Option JsonErr => (x.1).SpeedTAS) p.SpeedTAS rfl ?_
  refine ite_frame (fun x : PositionMessage × Option JsonErr => (x.1).SpeedTAS) p.SpeedTAS rfl ?_
  refine ite_frame (fun x : PositionMessage × Option JsonErr => (x.1).SpeedTAS) p.SpeedTAS rfl ?_
  refine ite_frame (fun x : PositionMessage × Option JsonErr => (x.1).SpeedTAS) p.SpeedTAS rfl ?_
  refine ite_frame (fun x : PositionMessage × Option JsonErr => (x.1).SpeedTAS) p.SpeedTAS rfl ?_
  refine ite_frame (fun x : PositionMessage × Option JsonErr => (x.1).SpeedTAS) p.SpeedTAS rfl ?_
  refine ite_frame (fun x : PositionMessage × Option JsonErr => (x.1).SpeedTAS) p.SpeedTAS rfl ?_
  refine ite_frame (fun x : PositionMessage × Option JsonErr => (x.1).SpeedTAS) p.SpeedTAS rfl ?_
  refine ite_frame (fun x : PositionMessage × Option JsonErr => (x.1).SpeedTAS) p.SpeedTAS rfl ?_
  refine ite_frame (fun x : PositionMessage × Option JsonErr => (x.1).SpeedTAS) p.SpeedTAS rfl ?_
  refine ite_frame (fun x : PositionMessage × Option JsonErr => (x.1).SpeedTAS) p.SpeedTAS rfl ?_
  rw [if_neg h]
  refine ite_frame (fun x : PositionMessage × Option JsonErr => (x.1).SpeedTAS) p.SpeedTAS rfl ?_
  refine ite_frame (fun x : PositionMessage × Option JsonErr => (x.1).SpeedTAS) p.SpeedTAS rfl ?_
  refine ite_frame (fun x : PositionMessage × Option JsonErr => (x.1).SpeedTAS) p.SpeedTAS rfl ?_
  refine ite_frame (fun x : PositionMessage × Option JsonErr => (x.1).SpeedTAS) p.SpeedTAS rfl ?_
  refine ite_frame (fun x : PositionMessage × Option JsonErr => (x.1).SpeedTAS) p.SpeedTAS rfl ?_
  refine ite_frame (fun x : PositionMessage × Option JsonErr => (x.1).SpeedTAS) p.SpeedTAS rfl ?_
  refine ite_frame (fun x : PositionMessage × Option JsonErr => (x.1).SpeedTAS) p.SpeedTAS rfl ?_
  refine ite_frame (fun x : PositionMessage × Option JsonErr => (x.1).SpeedTAS) p.SpeedTAS rfl ?_
  refine ite_frame (fun x : PositionMessage × Option JsonErr => (x.1).SpeedTAS) p.SpeedTAS rfl ?_
  refine ite_frame (fun x : PositionMessage × Option JsonErr => (x.1).SpeedTAS) p.SpeedTAS rfl ?_
  refine ite_frame (fun x : PositionMessage × Option JsonErr => (x.1).SpeedTAS) p.SpeedTAS rfl ?_
  refine ite_frame (fun x : PositionMessage × Option JsonErr => (x.1).SpeedTAS) p.SpeedTAS rfl ?_
  refine ite_frame (fun x : PositionMessage × Option JsonErr => (x.1).SpeedTAS) p.SpeedTAS rfl ?_
  refine ite_frame (fun x : PositionMessage × Option JsonErr => (x.1).SpeedTAS) p.SpeedTAS rfl ?_
  refine ite_frame (fun x : PositionMessage × Option JsonErr => (x.1).SpeedTAS) p.SpeedTAS rfl ?_
  refine ite_frame (fun x : PositionMessage × Option JsonErr => (x.1).SpeedTAS) p.SpeedTAS rfl ?_
  rfl

lemma posFrame_SpeedIAS {k : String} (v : Json) (p : PositionMessage) (h : k ≠ "speed_ias") :
    ((posAssign k v p).1).SpeedIAS = p.SpeedIAS := by
  unfold posAssign
  refine ite_frame (fun x : PositionMessage × Option JsonErr => (x.1).SpeedIAS) p.SpeedIAS rfl ?_
  refine ite_frame (fun x : PositionMessage × Option JsonErr => (x.1).SpeedIAS) p.SpeedIAS rfl ?_
  refine ite_frame (fun x : PositionMessage × Option JsonErr => (x.1).SpeedIAS) p.SpeedIAS rfl ?_
  refine ite_frame (fun x : PositionMessage × Option JsonErr => (x.1).SpeedIAS) p.SpeedIAS rfl ?_
  refine ite_frame (fun x : PositionMessage × Option JsonErr => (x.1).SpeedIAS) p.SpeedIAS rfl ?_
  refine ite_frame (fun x : PositionMessage × Option JsonErr => (x.1).SpeedIAS) p.SpeedIAS rfl ?_
  refine ite_frame (fun x : PositionMessage × Option JsonErr => (x.1).SpeedIAS) p.SpeedIAS rfl ?_
  refine ite_frame (fun x : PositionMessage × Option JsonErr => (x.1).SpeedIAS) p.SpeedIAS rfl ?_
  refine ite_frame (fun x : PositionMessage × Option JsonErr => (x.1).SpeedIAS) p.SpeedIAS rfl ?_
  refine ite_frame (fun x : PositionMessage × Option JsonErr => (x.1).SpeedIAS) p.SpeedIAS rfl ?_
  refine ite_frame (fun x : PositionMessage × Option JsonErr => (x.1).SpeedIAS) p.SpeedIAS rfl ?_
  refine ite_frame (fun x : PositionMessage × Option JsonErr => (x.1).SpeedIAS) p.SpeedIAS rfl ?_
  refine ite_frame (fun x : PositionMessage × Option JsonErr => (x.1).SpeedIAS) p.SpeedIAS rfl ?_
  refine ite_frame (fun x : PositionMessage × Option JsonErr => (x.1).SpeedIAS) p.SpeedIAS rfl ?_
  refine ite_frame (fun x : PositionMessage × Option JsonErr => (x.1).SpeedIAS) p.SpeedIAS rfl ?_
  refine ite_frame (fun x : PositionMessage × Option JsonErr => (x.1).SpeedIAS) p.SpeedIAS rfl ?_
  refine ite_frame (fun x : PositionMessage × Option JsonErr => (x.1).SpeedIAS) p.SpeedIAS rfl ?_
  refine ite_frame (fun x : PositionMessage × Option JsonErr => (x.1).SpeedIAS) p.SpeedIAS rfl ?_
  refine ite_frame (fun x : PositionMessage × Option JsonErr => (x.1).SpeedIAS) p.SpeedIAS rfl ?_
  refine ite_frame (fun x : PositionMessage × Option JsonErr => (x.1).SpeedIAS) p.SpeedIAS rfl ?_
  refine ite_frame (fun x : PositionMessage × Option JsonErr => (x.1).SpeedIAS) p.SpeedIAS rfl ?_
  refine ite_frame (fun x : PositionMessage × Option JsonErr => (x.1).SpeedIAS) p.SpeedIAS rfl ?_
  refine ite_frame (fun x : PositionMessage × Option JsonErr => (x.1).SpeedIAS) p.SpeedIAS rfl ?_
  refine ite_frame (fun x : PositionMessage × Option JsonErr => (x.1).SpeedIAS) p.SpeedIAS rfl ?_
  refine ite_frame (fun x : PositionMessage × Option JsonErr => (x.1).SpeedIAS) p.SpeedIAS rfl ?_
  refine ite_frame (fun x : PositionMessage × Option JsonErr => (x.1).SpeedIAS) p.SpeedIAS rfl ?_
  refine ite_frame (fun x : PositionMessage × Option JsonErr => (x.1).SpeedIAS) p.SpeedIAS rfl ?_
  refine ite_frame (fun x : PositionMessage × Option JsonErr => (x.1).SpeedIAS) p.SpeedIAS rfl ?_
  refine ite_frame (fun x : PositionMessage × Option JsonErr => (x.1).SpeedIAS) p.SpeedIAS rfl ?_
  refine ite_frame (fun x : PositionMessage × Option JsonErr => (x.1).SpeedIAS) p.SpeedIAS rfl ?_
  refine ite_frame (fun x : PositionMessage × Option JsonErr => (x.1).SpeedIAS) p.SpeedIAS rfl ?_
  refine ite_frame (fun x : PositionMessage × Option JsonErr => (x.1).SpeedIAS) p.SpeedIAS rfl ?_
  refine ite_frame (fun x : PositionMessage × Option JsonErr => (x.1).SpeedIAS) p.SpeedIAS rfl ?_
  refine ite_frame (fun x : PositionMessage × Option JsonErr => (x.1).SpeedIAS) p.SpeedIAS rfl ?_
  refine ite_frame (fun x : PositionMessage × Option JsonErr => (x.1).SpeedIAS) p.SpeedIAS rfl ?_
  refine ite_frame (fun x : PositionMessage × Option JsonErr => (x.1).SpeedIAS) p.SpeedIAS rfl ?_
  refine ite_frame (fun x : PositionMessage × Option JsonErr => (x.1).SpeedIAS) p.SpeedIAS rfl ?_
  refine ite_frame (fun x : PositionMessage × Option JsonErr => (x.1).SpeedIAS) p.SpeedIAS rfl ?_
  refine ite_frame (fun x : PositionMessage × Option JsonErr => (x.1).SpeedIAS) p.SpeedIAS rfl ?_
  refine ite_frame (fun x : PositionMessage × Option JsonErr => (x.1).SpeedIAS) p.SpeedIAS rfl ?_
  rw [if_neg h]
  refine ite_frame (fun x : PositionMessage × Option JsonErr => (x.1).SpeedIAS) p.SpeedIAS rfl ?_
  refine ite_frame (fun x : PositionMessage × Option JsonErr => (x.1).SpeedIAS) p.SpeedIAS rfl ?_
  refine ite_frame (fun x : PositionMessage × Option JsonErr => (x.1).SpeedIAS) p.SpeedIAS rfl ?_
  refine ite_frame (fun x : PositionMessage × Option JsonErr => (x.1).SpeedIAS) p.SpeedIAS rfl ?_
  refine ite_frame (fun x : PositionMessage × Option JsonErr => (x.1).SpeedIAS) p.SpeedIAS rfl ?_
  refine ite_frame (fun x : PositionMessage × Option JsonErr => (x.1).SpeedIAS) p.SpeedIAS rfl ?_
  refine ite_frame (fun x : PositionMessage × Option JsonErr => (x.1).SpeedIAS) p.SpeedIAS rfl ?_
  refine ite_frame (fun x : PositionMessage × Option JsonErr => (x.1).SpeedIAS) p.SpeedIAS rfl ?_
  refine ite_frame (fun x : PositionMessage × Option JsonErr => (x.1).SpeedIAS) p.SpeedIAS rfl ?_
  refine ite_frame (fun x : PositionMessage × Option JsonErr => (x.1).SpeedIAS) p.SpeedIAS rfl ?_
  refine ite_frame (fun x : PositionMessage × Option JsonErr => (x.1).SpeedIAS) p.SpeedIAS rfl ?_
  refine ite_frame (fun x : PositionMessage × Option JsonErr => (x.1).SpeedIAS) p.SpeedIAS rfl ?_
  refine ite_frame (fun x : PositionMessage × Option JsonErr => (x.1).SpeedIAS) p.SpeedIAS rfl ?_
  refine ite_frame (fun x : PositionMessage × Option JsonErr => (x.1).SpeedIAS) p.SpeedIAS rfl ?_
  refine ite_frame (fun x : PositionMessage × Option JsonErr => (x.1).SpeedIAS) p.SpeedIAS rfl ?_
  rfl

lemma posFrame_Pressure {k : String} (v : Json) (p : PositionMessage) (h : k ≠ "pressure") :
    ((posAssign k v p).1).Pressure = p.Pressure := by
  unfold posAssign
  refine ite_frame (fun x : PositionMessage × Option JsonErr => (x.1).Pressure) p.Pressure rfl ?_
  refine ite_frame (fun x : PositionMessage × Option JsonErr => (x.1).Pressure) p.Pressure rfl ?_
  refine ite_frame (fun x : PositionMessage × Option JsonErr => (x.1).Pressure) p.Pressure rfl ?_
  refine ite_frame (fun x : PositionMessage × Option JsonErr => (x.1).Pressure) p.Pressure rfl ?_
  refine ite_frame (fun x : PositionMessage × Option JsonErr => (x.1).Pressure) p.Pressure rfl ?_
  refine ite_frame (fun x : PositionMessage × Option JsonErr => (x.1).Pressure) p.Pressure rfl ?_
  refine ite_frame (fun x : PositionMessage × Option JsonErr => (x.1).Pressure) p.Pressure rfl ?_
  refine ite_frame (fun x : PositionMessage × Option JsonErr => (x.1).Pressure) p.Pressure rfl ?_
  refine ite_frame (fun x : PositionMessage × Option JsonErr => (x.1).Pressure) p.Pressure rfl ?_
  refine ite_frame (fun x : PositionMessage × Option JsonErr => (x.1).Pressure) p.Pressure rfl ?_
  refine ite_frame (fun x : PositionMessage × Option JsonErr => (x.1).Pressure) p.Pressure rfl ?_
  refine ite_frame (fun x : PositionMessage × Option JsonErr => (x.1).Pressure) p.Pressure rfl ?_
  refine ite_frame (fun x : PositionMessage × Option JsonErr => (x.1).Pressure) p.Pressure rfl ?_
  refine ite_frame (fun x : PositionMessage × Option JsonErr => (x.1).Pressure) p.Pressure rfl ?_
  refine ite_frame (fun x : PositionMessage × Option JsonErr => (x.1).Pressure) p.Pressure rfl ?_
  refine ite_frame (fun x : PositionMessage × Option JsonErr => (x.1).Pressure) p.Pressure rfl ?_
  refine ite_frame (fun x : PositionMessage × Option JsonErr => (x.1).Pressure) p.Pressure rfl ?_
  refine ite_frame (fun x : PositionMessage × Option JsonErr => (x.1).Pressure) p.Pressure rfl ?_
  refine ite_frame (fun x : PositionMessage × Option JsonErr => (x.1).Pressure) p.Pressure rfl ?_
  refine ite_frame (fun x : PositionMessage × Option JsonErr => (x.1).Pressure) p.Pressure rfl ?_
  refine ite_frame (fun x : PositionMessage × Option JsonErr => (x.1).Pressure) p.Pressure rfl ?_
  refine ite_frame (fun x : PositionMessage × Option JsonErr => (x.1).Pressure) p.Pressure rfl ?_
  refine ite_frame (fun x : PositionMessage × Option JsonErr => (x.1).Pressure) p.Pressure rfl ?_
  refine ite_frame (fun x : PositionMessage × Option JsonErr => (x.1).Pressure) p.Pressure rfl ?_
  refine ite_frame (fun x : PositionMessage × Option JsonErr => (x.1).Pressure) p.Pressure rfl ?_
  refine ite_frame (fun x : PositionMessage × Option JsonErr => (x.1).Pressure) p.Pressure rfl ?_
  refine ite_frame (fun x : PositionMessage × Option JsonErr => (x.1).Pressure) p.Pressure rfl ?_
  refine ite_frame (fun x : PositionMessage × Option JsonErr => (x.1).Pressure) p.Pressure rfl ?_
  refine ite_frame (fun x : PositionMessage × Option JsonErr => (x.1).Pressure) p.Pressure rfl ?_
  refine ite_frame (fun x : PositionMessage × Option JsonErr => (x.1).Pressure) p.Pressure rfl ?_
  refine ite_frame (fun x : PositionMessage × Option JsonErr => (x.1).Pressure) p.Pressure rfl ?_
  refine ite_frame (fun x : PositionMessage × Option JsonErr => (x.1).Pressure) p.Pressure rfl ?_
  refine ite_frame (fun x : PositionMessage × Option JsonErr => (x.1).Pressure) p.Pressure rfl ?_
  refine ite_frame (fun x : PositionMessage × Option JsonErr => (x.1).Pressure) p.Pressure rfl ?_
  refine ite_frame (fun x : PositionMessage × Option JsonErr => (x.1).Pressure) p.Pressure rfl ?_
  refine ite_frame (fun x : PositionMessage × Option JsonErr => (x.1).Pressure) p.Pressure rfl ?_
  refine ite_frame (fun x : PositionMessage × Option JsonErr => (x.1).Pressure) p.Pressure rfl ?_
  refine ite_frame (fun x : PositionMessage × Option JsonErr => (x.1).Pressure) p.Pressure rfl ?_
  refine ite_frame (fun x : PositionMessage × Option JsonErr => (x.1).Pressure) p.Pressure rfl ?_
  refine ite_frame (fun x : PositionMessage × Option JsonErr => (x.1).Pressure) p.Pressure rfl ?_
  refine ite_frame (fun x : PositionMessage × Option JsonErr => (x.1).Pressure) p.Pressure rfl ?_
  rw [if_neg h]
  refine ite_frame (fun x : PositionMessage × Option JsonErr => (x.1).Pressure) p.Pressure rfl ?_
  refine ite_frame (fun x : PositionMessage × Option JsonErr => (x.1).Pressure) p.Pressure rfl ?_
  refine ite_frame (fun x : PositionMessage × Option JsonErr => (x.1).Pressure) p.Pressure rfl ?_
  refine ite_frame (fun x : PositionMessage × Option JsonErr => (x.1).Pressure) p.Pressure rfl ?_
  refine ite_frame (fun x : PositionMessage × Option JsonErr => (x.1).Pressure) p.Pressure rfl ?_
  refine ite_frame (fun x : PositionMessage × Option JsonErr => (x.1).Pressure) p.Pressure rfl ?_
  refine ite_frame (fun x : PositionMessage × Option JsonErr => (x.1).Pressure) p.Pressure rfl ?_
  refine ite_frame (fun x : PositionMessage × Option JsonErr => (x.1).Pressure) p.Pressure rfl ?_
  refine ite_frame (fun x : PositionMessage × Option JsonErr => (x.1).Pressure) p.Pressure rfl ?_
  refine ite_frame (fun x : PositionMessage × Option JsonErr => (x.1).Pressure) p.Pressure rfl ?_
  refine ite_frame (fun x : PositionMessage × Option JsonErr => (x.1).Pressure) p.Pressure rfl ?_
  refine ite_frame (fun x : PositionMessage × Option JsonErr => (x.1).Pressure) p.Pressure rfl ?_
  refine ite_frame (fun x : PositionMessage × Option JsonErr => (x.1).Pressure) p.Pressure rfl ?_
  refine ite_frame (fun x : PositionMessage × Option JsonErr => (x.1).Pressure) p.Pressure rfl ?_
  rfl

lemma posFrame_WindQuality {k : String} (v : Json) (p : PositionMessage) (h : k ≠ "wind_quality") :
    ((posAssign k v p).1).WindQuality = p.WindQuality := by
  unfold posAssign
  refine ite_frame (fun x : PositionMessage × Option JsonErr => (x.1).WindQuality) p.WindQuality rfl ?_
  refine ite_frame (fun x : PositionMessage × Option JsonErr => (x.1).WindQuality) p.WindQuality rfl ?_
  refine ite_frame (fun x : PositionMessage × Option JsonErr => (x.1).WindQuality) p.WindQuality rfl ?_
  refine ite_frame (fun x : PositionMessage × Option JsonErr => (x.1).WindQuality) p.WindQuality rfl ?_
  refine ite_frame (fun x : PositionMessage × Option JsonErr => (x.1).WindQuality) p.WindQuality rfl ?_
  refine ite_frame (fun x : PositionMessage × Option JsonErr => (x.1).WindQuality) p.WindQuality rfl ?_
  refine ite_frame (fun x : PositionMessage × Option JsonErr => (x.1).WindQuality) p.WindQuality rfl ?_
  refine ite_frame (fun x : PositionMessage × Option JsonErr => (x.1).WindQuality) p.WindQuality rfl ?_
  refine ite_frame (fun x : PositionMessage × Option JsonErr => (x.1).WindQuality) p.WindQuality rfl ?_
  refine ite_frame (fun x : PositionMessage × Option JsonErr => (x.1).WindQuality) p.WindQuality rfl ?_
  refine ite_frame (fun x : PositionMessage × Option JsonErr => (x.1).WindQuality) p.WindQuality rfl ?_
  refine ite_frame (fun x : PositionMessage × Option JsonErr => (x.1).WindQuality) p.WindQuality rfl ?_
  refine ite_frame (fun x : PositionMessage × Option JsonErr => (x.1).WindQuality) p.WindQuality rfl ?_
  refine ite_frame (fun x : PositionMessage × Option JsonErr => (x.1).WindQuality) p.WindQuality rfl ?_
  refine ite_frame (fun x : PositionMessage × Option JsonErr => (x.1).WindQuality) p.WindQuality rfl ?_
  refine ite_frame (fun x : PositionMessage × Option JsonErr => (x.1).WindQuality) p.WindQuality rfl ?_
  refine ite_frame (fun x : PositionMessage × Option JsonErr => (x.1).WindQuality) p.WindQuality rfl ?_
  refine ite_frame (fun x : PositionMessage × Option JsonErr => (x.1).WindQuality) p.WindQuality rfl ?_
  refine ite_frame (fun x : PositionMessage × Option JsonErr => (x.1).WindQuality) p.WindQuality rfl ?_
  refine ite_frame (fun x : PositionMessage × Option JsonErr => (x.1).WindQuality) p.WindQuality rfl ?_
  refine ite_frame (fun x : PositionMessage × Option JsonErr => (x.1).WindQuality) p.WindQuality rfl ?_
  refine ite_frame (fun x : PositionMessage × Option JsonErr => (x.1).WindQuality) p.WindQuality rfl ?_
  refine ite_frame (fun x : PositionMessage × Option JsonErr => (x.1).WindQuality) p.WindQuality rfl ?_
  refine ite_frame (fun x : PositionMessage × Option JsonErr => (x.1).WindQuality) p.WindQuality rfl ?_
  refine ite_frame (fun x : PositionMessage × Option JsonErr => (x.1).WindQuality) p.WindQuality rfl ?_
  refine ite_frame (fun x : PositionMessage × Option JsonErr => (x.1).WindQuality) p.WindQuality rfl ?_
  refine ite_frame (fun x : PositionMessage × Option JsonErr => (x.1).WindQuality) p.WindQuality rfl ?_
  refine ite_frame (fun x : PositionMessage × Option JsonErr => (x.1).WindQuality) p.WindQuality rfl ?_
  refine ite_frame (fun x : PositionMessage × Option JsonErr => (x.1).WindQuality) p.WindQuality rfl ?_
  refine ite_frame (fun x : PositionMessage × Option JsonErr => (x.1).WindQuality) p.WindQuality rfl ?_
  refine ite_frame (fun x : PositionMessage × Option JsonErr => (x.1).WindQuality) p.WindQuality rfl ?_
  refine ite_frame (fun x : PositionMessage × Option JsonErr => (x.1).WindQuality) p.WindQuality rfl ?_
  refine ite_frame (fun x : PositionMessage × Option JsonErr => (x.1).WindQuality) p.WindQuality rfl ?_
  refine ite_frame (fun x : PositionMessage × Option JsonErr => (x.1).WindQuality) p.WindQuality rfl ?_
  refine ite_frame (fun x : PositionMessage × Option JsonErr => (x.1).WindQuality) p.WindQuality rfl ?_
  refine ite_frame (fun x : PositionMessage × Option JsonErr => (x.1).WindQuality) p.WindQuality rfl ?_
  refine ite_frame (fun x : PositionMessage × Option JsonErr => (x.1).WindQuality) p.WindQuality rfl ?_
  refine ite_frame (fun x : PositionMessage × Option JsonErr => (x.1).WindQuality) p.WindQuality rfl ?_
  refine ite_frame (fun x : PositionMessage × Option JsonErr => (x.1).WindQuality) p.WindQuality rfl ?_
  refine ite_frame (fun x : PositionMessage × Option JsonErr => (x.1).WindQuality) p.WindQuality rfl ?_
  refine ite_frame (fun x : PositionMessage × Option JsonErr => (x.1).WindQuality) p.WindQuality rfl ?_
  refine ite_frame (fun x : PositionMessage × Option JsonErr => (x.1).WindQuality) p.WindQuality rfl ?_
  rw [if_neg h]
  refine ite_frame (fun x : PositionMessage × Option JsonErr => (x.1).WindQuality) p.WindQuality rfl ?_
  refine ite_frame (fun x : PositionMessage × Option JsonErr => (x.1).WindQuality) p.WindQuality rfl ?_
  refine ite_frame (fun x : PositionMessage × Option JsonErr => (x.1).WindQuality) p.WindQuality rfl ?_
  refine ite_frame (fun x : PositionMessage × Option JsonErr => (x.1).WindQuality) p.WindQuality rfl ?_
  refine ite_frame (fun x : PositionMessage × Option JsonErr => (x.1).WindQuality) p.WindQuality rfl ?_
  refine ite_frame (fun x : PositionMessage × Option JsonErr => (x.1).WindQuality) p.WindQuality rfl ?_
  refine ite_frame (fun x : PositionMessage × Option JsonErr => (x.1).WindQuality) p.WindQuality rfl ?_
  refine ite_frame (fun x : PositionMessage × Option JsonErr => (x.1).WindQuality) p.WindQuality rfl ?_
  refine ite_frame (fun x : PositionMessage × Option JsonErr => (x.1).WindQuality) p.WindQuality rfl ?_
  refine ite_frame (fun x : PositionMessage × Option JsonErr => (x.1).WindQuality) p.WindQuality rfl ?_
  refine ite_frame (fun x : PositionMessage × Option JsonErr => (x.1).WindQuality) p.WindQuality rfl ?_
  refine ite_frame (fun x : PositionMessage × Option JsonErr => (x.1).WindQuality) p.WindQuality rfl ?_
  refine ite_frame (fun x : PositionMessage × Option JsonErr => (x.1).WindQuality) p.WindQuality rfl ?_
  rfl

lemma posFrame_WindDir {k : String} (v : Json) (p : PositionMessage) (h : k ≠ "wind_dir") :
    ((posAssign k v p).1).WindDir = p.WindDir := by
  unfold posAssign
  refine ite_frame (fun x : PositionMessage × Option JsonErr => (x.1).WindDir) p.WindDir rfl ?_
  refine ite_frame (fun x : PositionMessage × Option JsonErr => (x.1).WindDir) p.WindDir rfl ?_
  refine ite_frame (fun x : PositionMessage × Option JsonErr => (x.1).WindDir) p.WindDir rfl ?_
  refine ite_frame (fun x : PositionMessage × Option JsonErr => (x.1).WindDir) p.WindDir rfl ?_
  refine ite_frame (fun x : PositionMessage × Option JsonErr => (x.1).WindDir) p.WindDir rfl ?_
  refine ite_frame (fun x : PositionMessage × Option JsonErr => (x.1).WindDir) p.WindDir rfl ?_
  refine ite_frame (fun x : PositionMessage × Option JsonErr => (x.1).WindDir) p.WindDir rfl ?_
  refine ite_frame (fun x : PositionMessage × Option JsonErr => (x.1).WindDir) p.WindDir rfl ?_
  refine ite_frame (fun x : PositionMessage × Option JsonErr => (x.1).WindDir) p.WindDir rfl ?_
  refine ite_frame (fun x : PositionMessage × Option JsonErr => (x.1).WindDir) p.WindDir rfl ?_
  refine ite_frame (fun x : PositionMessage × Option JsonErr => (x.1).WindDir) p.WindDir rfl ?_
  refine ite_frame (fun x : PositionMessage × Option JsonErr => (x.1).WindDir) p.WindDir rfl ?_
  refine ite_frame (fun x : PositionMessage × Option JsonErr => (x.1).WindDir) p.WindDir rfl ?_
  refine ite_frame (fun x : PositionMessage × Option JsonErr => (x.1).WindDir) p.WindDir rfl ?_
  refine ite_frame (fun x : PositionMessage × Option JsonErr => (x.1).WindDir) p.WindDir rfl ?_
  refine ite_frame (fun x : PositionMessage × Option JsonErr => (x.1).WindDir) p.WindDir rfl ?_
  refine ite_frame (fun x : PositionMessage × Option JsonErr => (x.1).WindDir) p.WindDir rfl ?_
  refine ite_frame (fun x : PositionMessage × Option JsonErr => (x.1).WindDir) p.WindDir rfl ?_
  refine ite_frame (fun x : PositionMessage × Option JsonErr => (x.1).WindDir) p.WindDir rfl ?_
  refine ite_frame (fun x : PositionMessage × Option JsonErr => (x.1).WindDir) p.WindDir rfl ?_
  refine ite_frame (fun x : PositionMessage × Option JsonErr => (x.1).WindDir) p.WindDir rfl ?_
  refine ite_frame (fun x : PositionMessage × Option JsonErr => (x.1).WindDir) p.WindDir rfl ?_
  refine ite_frame (fun x : PositionMessage × Option JsonErr => (x.1).WindDir) p.WindDir rfl ?_
  refine ite_frame (fun x : PositionMessage × Option JsonErr => (x.1).WindDir) p.WindDir rfl ?_
  refine ite_frame (fun x : PositionMessage × Option JsonErr => (x.1).WindDir) p.WindDir rfl ?_
  refine ite_frame (fun x : PositionMessage × Option JsonErr => (x.1).WindDir) p.WindDir rfl ?_
  refine ite_frame (fun x : PositionMessage × Option JsonErr => (x.1).WindDir) p.WindDir rfl ?_
  refine ite_frame (fun x : PositionMessage × Option JsonErr => (x.1).WindDir) p.WindDir rfl ?_
  refine ite_frame (fun x : PositionMessage × Option JsonErr => (x.1).WindDir) p.WindDir rfl ?_
  refine ite_frame (fun x : PositionMessage × Option JsonErr => (x.1).WindDir) p.WindDir rfl ?_
  refine ite_frame (fun x : PositionMessage × Option JsonErr => (x.1).WindDir) p.WindDir rfl ?_
  refine ite_frame (fun x : PositionMessage × Option JsonErr => (x.1).WindDir) p.WindDir rfl ?_
  refine ite_frame (fun x : PositionMessage × Option JsonErr => (x.1).WindDir) p.WindDir rfl ?_
  refine ite_frame (fun x : PositionMessage × Option JsonErr => (x.1).WindDir) p.WindDir rfl ?_
  refine ite_frame (fun x : PositionMessage × Option JsonErr => (x.1).WindDir) p.WindDir rfl ?_
  refine ite_frame (fun x : PositionMessage × Option JsonErr => (x.1).WindDir) p.WindDir rfl ?_
  refine ite_frame (fun x : PositionMessage × Option JsonErr => (x.1).WindDir) p.WindDir rfl ?_
  refine ite_frame (fun x : PositionMessage × Option JsonErr => (x.1).WindDir) p.WindDir rfl ?_
  refine ite_frame (fun x : PositionMessage × Option JsonErr => (x.1).WindDir) p.WindDir rfl ?_
  refine ite_frame (fun x : PositionMessage × Option JsonErr => (x.1).WindDir) p.WindDir rfl ?_
  refine ite_frame (fun x : PositionMessage × Option JsonErr => (x.1).WindDir) p.WindDir rfl ?_
  refine ite_frame (fun x : PositionMessage × Option JsonErr => (x.1).WindDir) p.WindDir rfl ?_
  refine ite_frame (fun x : PositionMessage × Option JsonErr => (x.1).WindDir) p.WindDir rfl ?_
  rw [if_neg h]
  refine ite_frame (fun x : PositionMessage × Option JsonErr => (x.1).WindDir) p.WindDir rfl ?_
  refine ite_frame (fun x : PositionMessage × Option JsonErr => (x.1).WindDir) p.WindDir rfl ?_
  refine ite_frame (fun x : PositionMessage × Option JsonErr => (x.1).WindDir) p.WindDir rfl ?_
  refine ite_frame (fun x : PositionMessage × Option JsonErr => (x.1).WindDir) p.WindDir rfl ?_
  refine ite_frame (fun x : PositionMessage × Option JsonErr => (x.1).WindDir) p.WindDir rfl ?_
  refine ite_frame (fun x : PositionMessage × Option JsonErr => (x.1).WindDir) p.WindDir rfl ?_
  refine ite_frame (fun x : PositionMessage × Option JsonErr => (x.1).WindDir) p.WindDir rfl ?_
  refine ite_frame (fun x : PositionMessage × Option JsonErr => (x.1).WindDir) p.WindDir rfl ?_
  refine ite_frame (fun x : PositionMessage × Option JsonErr => (x.1).WindDir) p.WindDir rfl ?_
  refine ite_frame (fun x : PositionMessage × Option JsonErr => (x.1).WindDir) p.WindDir rfl ?_
  refine ite_frame (fun x : PositionMessage × Option JsonErr => (x.1).WindDir) p.WindDir rfl ?_
  refine ite_frame (fun x : PositionMessage × Option JsonErr => (x.1).WindDir) p.WindDir rfl ?_
  rfl

lemma posFrame_WindSpeed {k : String} (v : Json) (p : PositionMessage) (h : k ≠ "wind_speed") :
    ((posAssign k v p).1).WindSpeed = p.WindSpeed := by
  unfold posAssign
  refine ite_frame (fun x : PositionMessage × Option JsonErr => (x.1).WindSpeed) p.WindSpeed rfl ?_
  refine ite_frame (fun x : PositionMessage × Option JsonErr => (x.1).WindSpeed) p.WindSpeed rfl ?_
  refine ite_frame (fun x : PositionMessage × Option JsonErr => (x.1).WindSpeed) p.WindSpeed rfl ?_
  refine ite_frame (fun x : PositionMessage × Option JsonErr => (x.1).WindSpeed) p.WindSpeed rfl ?_
  refine ite_frame (fun x : PositionMessage × Option JsonErr => (x.1).WindSpeed) p.WindSpeed rfl ?_
  refine ite_frame (fun x : PositionMessage × Option JsonErr => (x.1).WindSpeed) p.WindSpeed rfl ?_
  refine ite_frame (fun x : PositionMessage × Option JsonErr => (x.1).WindSpeed) p.WindSpeed rfl ?_
  refine ite_frame (fun x : PositionMessage × Option JsonErr => (x.1).WindSpeed) p.WindSpeed rfl ?_
  refine ite_frame (fun x : PositionMessage × Option JsonErr => (x.1).WindSpeed) p.WindSpeed rfl ?_
  refine ite_frame (fun x : PositionMessage × Option JsonErr => (x.1).WindSpeed) p.WindSpeed rfl ?_
  refine ite_frame (fun x : PositionMessage × Option JsonErr => (x.1).WindSpeed) p.WindSpeed rfl ?_
  refine ite_frame (fun x : PositionMessage × Option JsonErr => (x.1).WindSpeed) p.WindSpeed rfl ?_
  refine ite_frame (fun x : PositionMessage × Option JsonErr => (x.1).WindSpeed) p.WindSpeed rfl ?_
  refine ite_frame (fun x : PositionMessage × Option JsonErr => (x.1).WindSpeed) p.WindSpeed rfl ?_
  refine ite_frame (fun x : PositionMessage × Option JsonErr => (x.1).WindSpeed) p.WindSpeed rfl ?_
  refine ite_frame (fun x : PositionMessage × Option JsonErr => (x.1).WindSpeed) p.WindSpeed rfl ?_
  refine ite_frame (fun x : PositionMessage × Option JsonErr => (x.1).WindSpeed) p.WindSpeed rfl ?_
  refine ite_frame (fun x : PositionMessage × Option JsonErr => (x.1).WindSpeed) p.WindSpeed rfl ?_
  refine ite_frame (fun x : PositionMessage × Option JsonErr => (x.1).WindSpeed) p.WindSpeed rfl ?_
  refine ite_frame (fun x : PositionMessage × Option JsonErr => (x.1).WindSpeed) p.WindSpeed rfl ?_
  refine ite_frame (fun x : PositionMessage × Option JsonErr => (x.1).WindSpeed) p.WindSpeed rfl ?_
  refine ite_frame (fun x : PositionMessage × Option JsonErr => (x.1).WindSpeed) p.WindSpeed rfl ?_
  refine ite_frame (fun x : PositionMessage × Option JsonErr => (x.1).WindSpeed) p.WindSpeed rfl ?_
  refine ite_frame (fun x : PositionMessage × Option JsonErr => (x.1).WindSpeed) p.WindSpeed rfl ?_
  refine ite_frame (fun x : PositionMessage × Option JsonErr => (x.1).WindSpeed) p.WindSpeed rfl ?_
  refine ite_frame (fun x : PositionMessage × Option JsonErr => (x.1).WindSpeed) p.WindSpeed rfl ?_
  refine ite_frame (fun x : PositionMessage × Option JsonErr => (x.1).WindSpeed) p.WindSpeed rfl ?_
  refine ite_frame (fun x : PositionMessage × Option JsonErr => (x.1).WindSpeed) p.WindSpeed rfl ?_
  refine ite_frame (fun x : PositionMessage × Option JsonErr => (x.1).WindSpeed) p.WindSpeed rfl ?_
  refine ite_frame (fun x : PositionMessage × Option JsonErr => (x.1).WindSpeed) p.WindSpeed rfl ?_
  refine ite_frame (fun x : PositionMessage × Option JsonErr => (x.1).WindSpeed) p.WindSpeed rfl ?_
  refine ite_frame (fun x : PositionMessage × Option JsonErr => (x.1).WindSpeed) p.WindSpeed rfl ?_
  refine ite_frame (fun x : PositionMessage × Option JsonErr => (x.1).WindSpeed) p.WindSpeed rfl ?_
  refine ite_frame (fun x : PositionMessage × Option JsonErr => (x.1).WindSpeed) p.WindSpeed rfl ?_
  refine ite_frame (fun x : PositionMessage × Option JsonErr => (x.1).WindSpeed) p.WindSpeed rfl ?_
  refine ite_frame (fun x : PositionMessage × Option JsonErr => (x.1).WindSpeed) p.WindSpeed rfl ?_
  refine ite_frame (fun x : PositionMessage × Option JsonErr => (x.1).WindSpeed) p.WindSpeed rfl ?_
  refine ite_frame (fun x : PositionMessage × Option JsonErr => (x.1).WindSpeed) p.WindSpeed rfl ?_
  refine ite_frame (fun x : PositionMessage × Option JsonErr => (x.1).WindSpeed) p.WindSpeed rfl ?_
  refine ite_frame (fun x : PositionMessage × Option JsonErr => (x.1).WindSpeed) p.WindSpeed rfl ?_
  refine ite_frame (fun x : PositionMessage × Option JsonErr => (x.1).WindSpeed) p.WindSpeed rfl ?_
  refine ite_frame (fun x : PositionMessage × Option JsonErr => (x.1).WindSpeed) p.WindSpeed rfl ?_
  refine ite_frame (fun x : PositionMessage × Option JsonErr => (x.1).WindSpeed) p.WindSpeed rfl ?_
  refine ite_frame (fun x : PositionMessage × Option JsonErr => (x.1).WindSpeed) p.WindSpeed rfl ?_
  rw [if_neg h]
  refine ite_frame (fun x : PositionMessage × Option JsonErr => (x.1).WindSpeed) p.WindSpeed rfl ?_
  refine ite_frame (fun x : PositionMessage × Option JsonErr => (x.1).WindSpeed) p.WindSpeed rfl ?_
  refine ite_frame (fun x : PositionMessage × Option JsonErr => (x.1).WindSpeed) p.WindSpeed rfl ?_
  refine ite_frame (fun x : PositionMessage × Option JsonErr => (x.1).WindSpeed) p.WindSpeed rfl ?_
  refine ite_frame (fun x : PositionMessage × Option JsonErr => (x.1).WindSpeed) p.WindSpeed rfl ?_
  refine ite_frame (fun x : PositionMessage × Option JsonErr => (x.1).WindSpeed) p.WindSpeed rfl ?_
  refine ite_frame (fun x : PositionMessage × Option JsonErr => (x.1).WindSpeed) p.WindSpeed rfl ?_
  refine ite_frame (fun x : PositionMessage × Option JsonErr => (x.1).WindSpeed) p.WindSpeed rfl ?_
  refine ite_frame (fun x : PositionMessage × Option JsonErr => (x.1).WindSpeed) p.WindSpeed rfl ?_
  refine ite_frame (fun x : PositionMessage × Option JsonErr => (x.1).WindSpeed) p.WindSpeed rfl ?_
  refine ite_frame (fun x : PositionMessage × Option JsonErr => (x.1).WindSpeed) p.WindSpeed rfl ?_
  rfl

lemma posFrame_TemperatureQuality {k : String} (v : Json) (p : PositionMessage) (h : k ≠ "temperature_quality") :
    ((posAssign k v p).1).TemperatureQuality = p.TemperatureQuality := by
  unfold posAssign
  refine ite_frame (fun x : PositionMessage × Option JsonErr => (x.1).TemperatureQuality) p.TemperatureQuality rfl ?_
  refine ite_frame (fun x : PositionMessage × Option JsonErr => (x.1).TemperatureQuality) p.TemperatureQuality rfl ?_
  refine ite_frame (fun x : PositionMessage × Option JsonErr => (x.1).TemperatureQuality) p.TemperatureQuality rfl ?_
  refine ite_frame (fun x : PositionMessage × Option JsonErr => (x.1).TemperatureQuality) p.TemperatureQuality rfl ?_
  refine ite_frame (fun x : PositionMessage × Option JsonErr => (x.1).TemperatureQuality) p.TemperatureQuality rfl ?_
  refine ite_frame (fun x : PositionMessage × Option JsonErr => (x.1).TemperatureQuality) p.TemperatureQuality rfl ?_
  refine ite_frame (fun x : PositionMessage × Option JsonErr => (x.1).TemperatureQuality) p.TemperatureQuality rfl ?_
  refine ite_frame (fun x : PositionMessage × Option JsonErr => (x.1).TemperatureQuality) p.TemperatureQuality rfl ?_
  refine ite_frame (fun x : PositionMessage × Option JsonErr => (x.1).TemperatureQuality) p.TemperatureQuality rfl ?_
  refine ite_frame (fun x : PositionMessage × Option JsonErr => (x.1).TemperatureQuality) p.TemperatureQuality rfl ?_
  refine ite_frame (fun x : PositionMessage × Option JsonErr => (x.1).TemperatureQuality) p.TemperatureQuality rfl ?_
  refine ite_frame (fun x : PositionMessage × Option JsonErr => (x.1).TemperatureQuality) p.TemperatureQuality rfl ?_
  refine ite_frame (fun x : PositionMessage × Option JsonErr => (x.1).TemperatureQuality) p.TemperatureQuality rfl ?_
  refine ite_frame (fun x : PositionMessage × Option JsonErr => (x.1).TemperatureQuality) p.TemperatureQuality rfl ?_
  refine ite_frame (fun x : PositionMessage × Option JsonErr => (x.1).TemperatureQuality) p.TemperatureQuality rfl ?_
  refine ite_frame (fun x : PositionMessage × Option JsonErr => (x.1).TemperatureQuality) p.TemperatureQuality rfl ?_
  refine ite_frame (fun x : PositionMessage × Option JsonErr => (x.1).TemperatureQuality) p.TemperatureQuality rfl ?_
  refine ite_frame (fun x : PositionMessage × Option JsonErr => (x.1).TemperatureQuality) p.TemperatureQuality rfl ?_
  refine ite_frame (fun x : PositionMessage × Option JsonErr => (x.1).TemperatureQuality) p.TemperatureQuality rfl ?_
  refine ite_frame (fun x : PositionMessage × Option JsonErr => (x.1).TemperatureQuality) p.TemperatureQuality rfl ?_
  refine ite_frame (fun x : PositionMessage × Option JsonErr => (x.1).TemperatureQuality) p.TemperatureQuality rfl ?_
  refine ite_frame (fun x : PositionMessage × Option JsonErr => (x.1).TemperatureQuality) p.TemperatureQuality rfl ?_
  refine ite_frame (fun x : PositionMessage × Option JsonErr => (x.1).TemperatureQuality) p.TemperatureQuality rfl ?_
  refine ite_frame (fun x : PositionMessage × Option JsonErr => (x.1).TemperatureQuality) p.TemperatureQuality rfl ?_
  refine ite_frame (fun x : PositionMessage × Option JsonErr => (x.1).TemperatureQuality) p.TemperatureQuality rfl ?_
  refine ite_frame (fun x : PositionMessage × Option JsonErr => (x.1).TemperatureQuality) p.TemperatureQuality rfl ?_
  refine ite_frame (fun x : PositionMessage × Option JsonErr => (x.1).TemperatureQuality) p.TemperatureQuality rfl ?_
  refine ite_frame (fun x : PositionMessage × Option JsonErr => (x.1).TemperatureQuality) p.TemperatureQuality rfl ?_
  refine ite_frame (fun x : PositionMessage × Option JsonErr => (x.1).TemperatureQuality) p.TemperatureQuality rfl ?_
  refine ite_frame (fun x : PositionMessage × Option JsonErr => (x.1).TemperatureQuality) p.TemperatureQuality rfl ?_
  refine ite_frame (fun x : PositionMessage × Option JsonErr => (x.1).TemperatureQuality) p.TemperatureQuality rfl ?_
  refine ite_frame (fun x : PositionMessage × Option JsonErr => (x.1).TemperatureQuality) p.TemperatureQuality rfl ?_
  refine ite_frame (fun x : PositionMessage × Option JsonErr => (x.1).TemperatureQuality) p.TemperatureQuality rfl ?_
  refine ite_frame (fun x : PositionMessage × Option JsonErr => (x.1).TemperatureQuality) p.TemperatureQuality rfl ?_
  refine ite_frame (fun x : PositionMessage × Option JsonErr => (x.1).TemperatureQuality) p.TemperatureQuality rfl ?_
  refine ite_frame (fun x : PositionMessage × Option JsonErr => (x.1).TemperatureQuality) p.TemperatureQuality rfl ?_
  refine ite_frame (fun x : PositionMessage × Option JsonErr => (x.1).TemperatureQuality) p.TemperatureQuality rfl ?_
  refine ite_frame (fun x : PositionMessage × Option JsonErr => (x.1).TemperatureQuality) p.TemperatureQuality rfl ?_
  refine ite_frame (fun x : PositionMessage × Option JsonErr => (x.1).TemperatureQuality) p.TemperatureQuality rfl ?_
  refine ite_frame (fun x : PositionMessage × Option JsonErr => (x.1).TemperatureQuality) p.TemperatureQuality rfl ?_
  refine ite_frame (fun x : PositionMessage × Option JsonErr => (x.1).TemperatureQuality) p.TemperatureQuality rfl ?_
  refine ite_frame (fun x : PositionMessage × Option JsonErr => (x.1).TemperatureQuality) p.TemperatureQuality rfl ?_
  refine ite_frame (fun x : PositionMessage × Option JsonErr => (x.1).TemperatureQuality) p.TemperatureQuality rfl ?_
  refine ite_frame (fun x : PositionMessage × Option JsonErr => (x.1).TemperatureQuality) p.TemperatureQuality rfl ?_
  refine ite_frame (fun x : PositionMessage × Option JsonErr => (x.1).TemperatureQuality) p.TemperatureQuality rfl ?_
  rw [if_neg h]
  refine ite_frame (fun x : PositionMessage × Option JsonErr => (x.1).TemperatureQuality) p.TemperatureQuality rfl ?_
  refine ite_frame (fun x : PositionMessage × Option JsonErr => (x.1).TemperatureQuality) p.TemperatureQuality rfl ?_
  refine ite_frame (fun x : PositionMessage × Option JsonErr => (x.1).TemperatureQuality) p.TemperatureQuality rfl ?_
  refine ite_frame (fun x : PositionMessage × Option JsonErr => (x.1).TemperatureQuality) p.TemperatureQuality rfl ?_
  refine ite_frame (fun x : PositionMessage × Option JsonErr => (x.1).TemperatureQuality) p.TemperatureQuality rfl ?_
  refine ite_frame (fun x : PositionMessage × Option JsonErr => (x.1).TemperatureQuality) p.TemperatureQuality rfl ?_
  refine ite_frame (fun x : PositionMessage × Option JsonErr => (x.1).TemperatureQuality) p.TemperatureQuality rfl ?_
  refine ite_frame (fun x : PositionMessage × Option JsonErr => (x.1).TemperatureQuality) p.TemperatureQuality rfl ?_
  refine ite_frame (fun x : PositionMessage × Option JsonErr => (x.1).TemperatureQuality) p.TemperatureQuality rfl ?_
  refine ite_frame (fun x : PositionMessage × Option JsonErr => (x.1).TemperatureQuality) p.TemperatureQuality rfl ?_
  rfl

lemma posFrame_Temperature {k : String} (v : Json) (p : PositionMessage) (h : k ≠ "temperature") :
    ((posAssign k v p).1).Temperature = p.Temperature := by
  unfold posAssign
  refine ite_frame (fun x : PositionMessage × Option JsonErr => (x.1).Temperature) p.Temperature rfl ?_
  refine ite_frame (fun x : PositionMessage × Option JsonErr => (x.1).Temperature) p.Temperature rfl ?_
  refine ite_frame (fun x : PositionMessage × Option JsonErr => (x.1).Temperature) p.Temperature rfl ?_
  refine ite_frame (fun x : PositionMessage × Option JsonErr => (x.1).Temperature) p.Temperature rfl ?_
  refine ite_frame (fun x : PositionMessage × Option JsonErr => (x.1).Temperature) p.Temperature rfl ?_
  refine ite_frame (fun x : PositionMessage × Option JsonErr => (x.1).Temperature) p.Temperature rfl ?_
  refine ite_frame (fun x : PositionMessage × Option JsonErr => (x.1).Temperature) p.Temperature rfl ?_
  refine ite_frame (fun x : PositionMessage × Option JsonErr => (x.1).Temperature) p.Temperature rfl ?_
  refine ite_frame (fun x : PositionMessage × Option JsonErr => (x.1).Temperature) p.Temperature rfl ?_
  refine ite_frame (fun x : PositionMessage × Option JsonErr => (x.1).Temperature) p.Temperature rfl ?_
  refine ite_frame (fun x : PositionMessage × Option JsonErr => (x.1).Temperature) p.Temperature rfl ?_
  refine ite_frame (fun x : PositionMessage × Option JsonErr => (x.1).Temperature) p.Temperature rfl ?_
  refine ite_frame (fun x : PositionMessage × Option JsonErr => (x.1).Temperature) p.Temperature rfl ?_
  refine ite_frame (fun x : PositionMessage × Option JsonErr => (x.1).Temperature) p.Temperature rfl ?_
  refine ite_frame (fun x : PositionMessage × Option JsonErr => (x.1).Temperature) p.Temperature rfl ?_
  refine ite_frame (fun x : PositionMessage × Option JsonErr => (x.1).Temperature) p.Temperature rfl ?_
  refine ite_frame (fun x : PositionMessage × Option JsonErr => (x.1).Temperature) p.Temperature rfl ?_
  refine ite_frame (fun x : PositionMessage × Option JsonErr => (x.1).Temperature) p.Temperature rfl ?_
  refine ite_frame (fun x : PositionMessage × Option JsonErr => (x.1).Temperature) p.Temperature rfl ?_
  refine ite_frame (fun x : PositionMessage × Option JsonErr => (x.1).Temperature) p.Temperature rfl ?_
  refine ite_frame (fun x : PositionMessage × Option JsonErr => (x.1).Temperature) p.Temperature rfl ?_
  refine ite_frame (fun x : PositionMessage × Option JsonErr => (x.1).Temperature) p.Temperature rfl ?_
  refine ite_frame (fun x : PositionMessage × Option JsonErr => (x.1).Temperature) p.Temperature rfl ?_
  refine ite_frame (fun x : PositionMessage × Option JsonErr => (x.1).Temperature) p.Temperature rfl ?_
  refine ite_frame (fun x : PositionMessage × Option JsonErr => (x.1).Temperature) p.Temperature rfl ?_
  refine ite_frame (fun x : PositionMessage × Option JsonErr => (x.1).Temperature) p.Temperature rfl ?_
  refine ite_frame (fun x : PositionMessage × Option JsonErr => (x.1).Temperature) p.Temperature rfl ?_
  refine ite_frame (fun x : PositionMessage × Option JsonErr => (x.1).Temperature) p.Temperature rfl ?_
  refine ite_frame (fun x : PositionMessage × Option JsonErr => (x.1).Temperature) p.Temperature rfl ?_
  refine ite_frame (fun x : PositionMessage × Option JsonErr => (x.1).Temperature) p.Temperature rfl ?_
  refine ite_frame (fun x : PositionMessage × Option JsonErr => (x.1).Temperature) p.Temperature rfl ?_
  refine ite_frame (fun x : PositionMessage × Option JsonErr => (x.1).Temperature) p.Temperature rfl ?_
  refine ite_frame (fun x : PositionMessage × Option JsonErr => (x.1).Temperature) p.Temperature rfl ?_
  refine ite_frame (fun x : PositionMessage × Option JsonErr => (x.1).Temperature) p.Temperature rfl ?_
  refine ite_frame (fun x : PositionMessage × Option JsonErr => (x.1).Temperature) p.Temperature rfl ?_
  refine ite_frame (fun x : PositionMessage × Option JsonErr => (x.1).Temperature) p.Temperature rfl ?_
  refine ite_frame (fun x : PositionMessage × Option JsonErr => (x.1).Temperature) p.Temperature rfl ?_
  refine ite_frame (fun x : PositionMessage × Option JsonErr => (x.1).Temperature) p.Temperature rfl ?_
  refine ite_frame (fun x : PositionMessage × Option JsonErr => (x.1).Temperature) p.Temperature rfl ?_
  refine ite_frame (fun x : PositionMessage × Option JsonErr => (x.1).Temperature) p.Temperature rfl ?_
  refine ite_frame (fun x : PositionMessage × Option JsonErr => (x.1).Temperature) p.Temperature rfl ?_
  refine ite_frame (fun x : PositionMessage × Option JsonErr => (x.1).Temperature) p.Temperature rfl ?_
  refine ite_frame (fun x : PositionMessage × Option JsonErr => (x.1).Temperature) p.Temperature rfl ?_
  refine ite_frame (fun x : PositionMessage × Option JsonErr => (x.1).Temperature) p.Temperature rfl ?_
  refine ite_frame (fun x : PositionMessage × Option JsonErr => (x.1).Temperature) p.Temperature rfl ?_
  refine ite_frame (fun x : PositionMessage × Option JsonErr => (x.1).Temperature) p.Temperature rfl ?_
  rw [if_neg h]
  refine ite_frame (fun x : PositionMessage × Option JsonErr => (x.1).Temperature) p.Temperature rfl ?_
  refine ite_frame (fun x : PositionMessage × Option JsonErr => (x.1).Temperature) p.Temperature rfl ?_
  refine ite_frame (fun x : PositionMessage × Option JsonErr => (x.1).Temperature) p.Temperature rfl ?_
  refine ite_frame (fun x : PositionMessage × Option JsonErr => (x.1).Temperature) p.Temperature rfl ?_
  refine ite_frame (fun x : PositionMessage × Option JsonErr => (x.1).Temperature) p.Temperature rfl ?_
  refine ite_frame (fun x : PositionMessage × Option JsonErr => (x.1).Temperature) p.Temperature rfl ?_
  refine ite_frame (fun x : PositionMessage × Option JsonErr => (x.1).Temperature) p.Temperature rfl ?_
  refine ite_frame (fun x : PositionMessage × Option JsonErr => (x.1).Temperature) p.Temperature rfl ?_
  refine ite_frame (fun x : PositionMessage × Option JsonErr => (x.1).Temperature) p.Temperature rfl ?_
  rfl

lemma posFrame_NavHeading {k : String} (v : Json) (p : PositionMessage) (h : k ≠ "nav_heading") :
    ((posAssign k v p).1).NavHeading = p.NavHeading := by
  unfold posAssign
  refine ite_frame (fun x : PositionMessage × Option JsonErr => (x.1).NavHeading) p.NavHeading rfl ?_
  refine ite_frame (fun x : PositionMessage × Option JsonErr => (x.1).NavHeading) p.NavHeading rfl ?_
  refine ite_frame (fun x : PositionMessage × Option JsonErr => (x.1).NavHeading) p.NavHeading rfl ?_
  refine ite_frame (fun x : PositionMessage × Option JsonErr => (x.1).NavHeading) p.NavHeading rfl ?_
  refine ite_frame (fun x : PositionMessage × Option JsonErr => (x.1).NavHeading) p.NavHeading rfl ?_
  refine ite_frame (fun x : PositionMessage × Option JsonErr => (x.1).NavHeading) p.NavHeading rfl ?_
  refine ite_frame (fun x : PositionMessage × Option JsonErr => (x.1).NavHeading) p.NavHeading rfl ?_
  refine ite_frame (fun x : PositionMessage × Option JsonErr => (x.1).NavHeading) p.NavHeading rfl ?_
  refine ite_frame (fun x : PositionMessage × Option JsonErr => (x.1).NavHeading) p.NavHeading rfl ?_
  refine ite_frame (fun x : PositionMessage × Option JsonErr => (x.1).NavHeading) p.NavHeading rfl ?_
  refine ite_frame (fun x : PositionMessage × Option JsonErr => (x.1).NavHeading) p.NavHeading rfl ?_
  refine ite_frame (fun x : PositionMessage × Option JsonErr => (x.1).NavHeading) p.NavHeading rfl ?_
  refine ite_frame (fun x : PositionMessage × Option JsonErr => (x.1).NavHeading) p.NavHeading rfl ?_
  refine ite_frame (fun x : PositionMessage × Option JsonErr => (x.1).NavHeading) p.NavHeading rfl ?_
  refine ite_frame (fun x : PositionMessage × Option JsonErr => (x.1).NavHeading) p.NavHeading rfl ?_
  refine ite_frame (fun x : PositionMessage × Option JsonErr => (x.1).NavHeading) p.NavHeading rfl ?_
  refine ite_frame (fun x : PositionMessage × Option JsonErr => (x.1).NavHeading) p.NavHeading rfl ?_
  refine ite_frame (fun x : PositionMessage × Option JsonErr => (x.1).NavHeading) p.NavHeading rfl ?_
  refine ite_frame (fun x : PositionMessage × Option JsonErr => (x.1).NavHeading) p.NavHeading rfl ?_
  refine ite_frame (fun x : PositionMessage × Option JsonErr => (x.1).NavHeading) p.NavHeading rfl ?_
  refine ite_frame (fun x : PositionMessage × Option JsonErr => (x.1).NavHeading) p.NavHeading rfl ?_
  refine ite_frame (fun x : PositionMessage × Option JsonErr => (x.1).NavHeading) p.NavHeading rfl ?_
  refine ite_frame (fun x : PositionMessage × Option JsonErr => (x.1).NavHeading) p.NavHeading rfl ?_
  refine ite_frame (fun x : PositionMessage × Option JsonErr => (x.1).NavHeading) p.NavHeading rfl ?_
  refine ite_frame (fun x : PositionMessage × Option JsonErr => (x.1).NavHeading) p.NavHeading rfl ?_
  refine ite_frame (fun x : PositionMessage × Option JsonErr => (x.1).NavHeading) p.NavHeading rfl ?_
  refine ite_frame (fun x : PositionMessage × Option JsonErr => (x.1).NavHeading) p.NavHeading rfl ?_
  refine ite_frame (fun x : PositionMessage × Option JsonErr => (x.1).NavHeading) p.NavHeading rfl ?_
  refine ite_frame (fun x : PositionMessage × Option JsonErr => (x.1).NavHeading) p.NavHeading rfl ?_
  refine ite_frame (fun x : PositionMessage × Option JsonErr => (x.1).NavHeading) p.NavHeading rfl ?_
  refine ite_frame (fun x : PositionMessage × Option JsonErr => (x.1).NavHeading) p.NavHeading rfl ?_
  refine ite_frame (fun x : PositionMessage × Option JsonErr => (x.1).NavHeading) p.NavHeading rfl ?_
  refine ite_frame (fun x : PositionMessage × Option JsonErr => (x.1).NavHeading) p.NavHeading rfl ?_
  refine ite_frame (fun x : PositionMessage × Option JsonErr => (x.1).NavHeading) p.NavHeading rfl ?_
  refine ite_frame (fun x : PositionMessage × Option JsonErr => (x.1).NavHeading) p.NavHeading rfl ?_
  refine ite_frame (fun x : PositionMessage × Option JsonErr => (x.1).NavHeading) p.NavHeading rfl ?_
  refine ite_frame (fun x : PositionMessage × Option JsonErr => (x.1).NavHeading) p.NavHeading rfl ?_
  refine ite_frame (fun x : PositionMessage × Option JsonErr => (x.1).NavHeading) p.NavHeading rfl ?_
  refine ite_frame (fun x : PositionMessage × Option JsonErr => (x.1).NavHeading) p.NavHeading rfl ?_
  refine ite_frame (fun x : PositionMessage × Option JsonErr => (x.1).NavHeading) p.NavHeading rfl ?_
  refine ite_frame (fun x : PositionMessage × Option JsonErr => (x.1).NavHeading) p.NavHeading rfl ?_
  refine ite_frame (fun x : PositionMessage × Option JsonErr => (x.1).NavHeading) p.NavHeading rfl ?_
  refine ite_frame (fun x : PositionMessage × Option JsonErr => (x.1).NavHeading) p.NavHeading rfl ?_
  refine ite_frame (fun x : PositionMessage × Option JsonErr => (x.1).NavHeading) p.NavHeading rfl ?_
  refine ite_frame (fun x : PositionMessage × Option JsonErr => (x.1).NavHeading) p.NavHeading rfl ?_
  refine ite_frame (fun x : PositionMessage × Option JsonErr => (x.1).NavHeading) p.NavHeading rfl ?_
  refine ite_frame (fun x : PositionMessage × Option JsonErr => (x.1).NavHeading) p.NavHeading rfl ?_
  rw [if_neg h]
  refine ite_frame (fun x : PositionMessage × Option JsonErr => (x.1).NavHeading) p.NavHeading rfl ?_
  refine ite_frame (fun x : PositionMessage × Option JsonErr => (x.1).NavHeading) p.NavHeading rfl ?_
  refine ite_frame (fun x : PositionMessage × Option JsonErr => (x.1).NavHeading) p.NavHeading rfl ?_
  refine ite_frame (fun x : PositionMessage × Option JsonErr => (x.1).NavHeading) p.NavHeading rfl ?_
  refine ite_frame (fun x : PositionMessage × Option JsonErr => (x.1).NavHeading) p.NavHeading rfl ?_
  refine ite_frame (fun x : PositionMessage × Option JsonErr => (x.1).NavHeading) p.NavHeading rfl ?_
  refine ite_frame (fun x : PositionMessage × Option JsonErr => (x.1).NavHeading) p.NavHeading rfl ?_
  refine ite_frame (fun x : PositionMessage × Option JsonErr => (x.1).NavHeading) p.NavHeading rfl ?_
  rfl

lemma posFrame_NavAltitude {k : String} (v : Json) (p : PositionMessage) (h : k ≠ "nav_altitude") :
    ((posAssign k v p).1).NavAltitude = p.NavAltitude := by
  unfold posAssign
  refine ite_frame (fun x : PositionMessage × Option JsonErr => (x.1).NavAltitude) p.NavAltitude rfl ?_
  refine ite_frame (fun x : PositionMessage × Option JsonErr => (x.1).NavAltitude) p.NavAltitude rfl ?_
  refine ite_frame (fun x : PositionMessage × Option JsonErr => (x.1).NavAltitude) p.NavAltitude rfl ?_
  refine ite_frame (fun x : PositionMessage × Option JsonErr => (x.1).NavAltitude) p.NavAltitude rfl ?_
  refine ite_frame (fun x : PositionMessage × Option JsonErr => (x.1).NavAltitude) p.NavAltitude rfl ?_
  refine ite_frame (fun x : PositionMessage × Option JsonErr => (x.1).NavAltitude) p.NavAltitude rfl ?_
  refine ite_frame (fun x : PositionMessage × Option JsonErr => (x.1).NavAltitude) p.NavAltitude rfl ?_
  refine ite_frame (fun x : PositionMessage × Option JsonErr => (x.1).NavAltitude) p.NavAltitude rfl ?_
  refine ite_frame (fun x : PositionMessage × Option JsonErr => (x.1).NavAltitude) p.NavAltitude rfl ?_
  refine ite_frame (fun x : PositionMessage × Option JsonErr => (x.1).NavAltitude) p.NavAltitude rfl ?_
  refine ite_frame (fun x : PositionMessage × Option JsonErr => (x.1).NavAltitude) p.NavAltitude rfl ?_
  refine ite_frame (fun x : PositionMessage × Option JsonErr => (x.1).NavAltitude) p.NavAltitude rfl ?_
  refine ite_frame (fun x : PositionMessage × Option JsonErr => (x.1).NavAltitude) p.NavAltitude rfl ?_
  refine ite_frame (fun x : PositionMessage × Option JsonErr => (x.1).NavAltitude) p.NavAltitude rfl ?_
  refine ite_frame (fun x : PositionMessage × Option JsonErr => (x.1).NavAltitude) p.NavAltitude rfl ?_
  refine ite_frame (fun x : PositionMessage × Option JsonErr => (x.1).NavAltitude) p.NavAltitude rfl ?_
  refine ite_frame (fun x : PositionMessage × Option JsonErr => (x.1).NavAltitude) p.NavAltitude rfl ?_
  refine ite_frame (fun x : PositionMessage × Option JsonErr => (x.1).NavAltitude) p.NavAltitude rfl ?_
  refine ite_frame (fun x : PositionMessage × Option JsonErr => (x.1).NavAltitude) p.NavAltitude rfl ?_
  refine ite_frame (fun x : PositionMessage × Option JsonErr => (x.1).NavAltitude) p.NavAltitude rfl ?_
  refine ite_frame (fun x : PositionMessage × Option JsonErr => (x.1).NavAltitude) p.NavAltitude rfl ?_
  refine ite_frame (fun x : PositionMessage × Option JsonErr => (x.1).NavAltitude) p.NavAltitude rfl ?_
  refine ite_frame (fun x : PositionMessage × Option JsonErr => (x.1).NavAltitude) p.NavAltitude rfl ?_
  refine ite_frame (fun x : PositionMessage × Option JsonErr => (x.1).NavAltitude) p.NavAltitude rfl ?_
  refine ite_frame (fun x : PositionMessage × Option JsonErr => (x.1).NavAltitude) p.NavAltitude rfl ?_
  refine ite_frame (fun x : PositionMessage × Option JsonErr => (x.1).NavAltitude) p.NavAltitude rfl ?_
  refine ite_frame (fun x : PositionMessage × Option JsonErr => (x.1).NavAltitude) p.NavAltitude rfl ?_
  refine ite_frame (fun x : PositionMessage × Option JsonErr => (x.1).NavAltitude) p.NavAltitude rfl ?_
  refine ite_frame (fun x : PositionMessage × Option JsonErr => (x.1).NavAltitude) p.NavAltitude rfl ?_
  refine ite_frame (fun x : PositionMessage × Option JsonErr => (x.1).NavAltitude) p.NavAltitude rfl ?_
  refine ite_frame (fun x : PositionMessage × Option JsonErr => (x.1).NavAltitude) p.NavAltitude rfl ?_
  refine ite_frame (fun x : PositionMessage × Option JsonErr => (x.1).NavAltitude) p.NavAltitude rfl ?_
  refine ite_frame (fun x : PositionMessage × Option JsonErr => (x.1).NavAltitude) p.NavAltitude rfl ?_
  refine ite_frame (fun x : PositionMessage × Option JsonErr => (x.1).NavAltitude) p.NavAltitude rfl ?_
  refine ite_frame (fun x : PositionMessage × Option JsonErr => (x.1).NavAltitude) p.NavAltitude rfl ?_
  refine ite_frame (fun x : PositionMessage × Option JsonErr => (x.1).NavAltitude) p.NavAltitude rfl ?_
  refine ite_frame (fun x : PositionMessage × Option JsonErr => (x.1).NavAltitude) p.NavAltitude rfl ?_
  refine ite_frame (fun x : PositionMessage × Option JsonErr => (x.1).NavAltitude) p.NavAltitude rfl ?_
  refine ite_frame (fun x : PositionMessage × Option JsonErr => (x.1).NavAltitude) p.NavAltitude rfl ?_
  refine ite_frame (fun x : PositionMessage × Option JsonErr => (x.1).NavAltitude) p.NavAltitude rfl ?_
  refine ite_frame (fun x : PositionMessage × Option JsonErr => (x.1).NavAltitude) p.NavAltitude rfl ?_
  refine ite_frame (fun x : PositionMessage × Option JsonErr => (x.1).NavAltitude) p.NavAltitude rfl ?_
  refine ite_frame (fun x : PositionMessage × Option JsonErr => (x.1).NavAltitude) p.NavAltitude rfl ?_
  refine ite_frame (fun x : PositionMessage × Option JsonErr => (x.1).NavAltitude) p.NavAltitude rfl ?_
  refine ite_frame (fun x : PositionMessage × Option JsonErr => (x.1).NavAltitude) p.NavAltitude rfl ?_
  refine ite_frame (fun x : PositionMessage × Option JsonErr => (x.1).NavAltitude) p.NavAltitude rfl ?_
  refine ite_frame (fun x : PositionMessage × Option JsonErr => (x.1).NavAltitude) p.NavAltitude rfl ?_
  refine ite_frame (fun x : PositionMessage × Option JsonErr => (x.1).NavAltitude) p.NavAltitude rfl ?_
  rw [if_neg h]
  refine ite_frame (fun x : PositionMessage × Option JsonErr => (x.1).NavAltitude) p.NavAltitude rfl ?_
  refine ite_frame (fun x : PositionMessage × Option JsonErr => (x.1).NavAltitude) p.NavAltitude rfl ?_
  refine ite_frame (fun x : PositionMessage × Option JsonErr => (x.1).NavAltitude) p.NavAltitude rfl ?_
  refine ite_frame (fun x : PositionMessage × Option JsonErr => (x.1).NavAltitude) p.NavAltitude rfl ?_
  refine ite_frame (fun x : PositionMessage × Option JsonErr => (x.1).NavAltitude) p.NavAltitude rfl ?_
  refine ite_frame (fun x : PositionMessage × Option JsonErr => (x.1).NavAltitude) p.NavAltitude rfl ?_
  refine ite_frame (fun x : PositionMessage × Option JsonErr => (x.1).NavAltitude) p.NavAltitude rfl ?_
  rfl

lemma posFrame_NavQNH {k : String} (v : Json) (p : PositionMessage) (h : k ≠ "nav_qnh") :
    ((posAssign k v p).1).NavQNH = p.NavQNH := by
  unfold posAssign
  refine ite_frame (fun x : PositionMessage × Option JsonErr => (x.1).NavQNH) p.NavQNH rfl ?_
  refine ite_frame (fun x : PositionMessage × Option JsonErr => (x.1).NavQNH) p.NavQNH rfl ?_
  refine ite_frame (fun x : PositionMessage × Option JsonErr => (x.1).NavQNH) p.NavQNH rfl ?_
  refine ite_frame (fun x : PositionMessage × Option JsonErr => (x.1).NavQNH) p.NavQNH rfl ?_
  refine ite_frame (fun x : PositionMessage × Option JsonErr => (x.1).NavQNH) p.NavQNH rfl ?_
  refine ite_frame (fun x : PositionMessage × Option JsonErr => (x.1).NavQNH) p.NavQNH rfl ?_
  refine ite_frame (fun x : PositionMessage × Option JsonErr => (x.1).NavQNH) p.NavQNH rfl ?_
  refine ite_frame (fun x : PositionMessage × Option JsonErr => (x.1).NavQNH) p.NavQNH rfl ?_
  refine ite_frame (fun x : PositionMessage × Option JsonErr => (x.1).NavQNH) p.NavQNH rfl ?_
  refine ite_frame (fun x : PositionMessage × Option JsonErr => (x.1).NavQNH) p.NavQNH rfl ?_
  refine ite_frame (fun x : PositionMessage × Option JsonErr => (x.1).NavQNH) p.NavQNH rfl ?_
  refine ite_frame (fun x : PositionMessage × Option JsonErr => (x.1).NavQNH) p.NavQNH rfl ?_
  refine ite_frame (fun x : PositionMessage × Option JsonErr => (x.1).NavQNH) p.NavQNH rfl ?_
  refine ite_frame (fun x : PositionMessage × Option JsonErr => (x.1).NavQNH) p.NavQNH rfl ?_
  refine ite_frame (fun x : PositionMessage × Option JsonErr => (x.1).NavQNH) p.NavQNH rfl ?_
  refine ite_frame (fun x : PositionMessage × Option JsonErr => (x.1).NavQNH) p.NavQNH rfl ?_
  refine ite_frame (fun x : PositionMessage × Option JsonErr => (x.1).NavQNH) p.NavQNH rfl ?_
  refine ite_frame (fun x : PositionMessage × Option JsonErr => (x.1).NavQNH) p.NavQNH rfl ?_
  refine ite_frame (fun x : PositionMessage × Option JsonErr => (x.1).NavQNH) p.NavQNH rfl ?_
  refine ite_frame (fun x : PositionMessage × Option JsonErr => (x.1).NavQNH) p.NavQNH rfl ?_
  refine ite_frame (fun x : PositionMessage × Option JsonErr => (x.1).NavQNH) p.NavQNH rfl ?_
  refine ite_frame (fun x : PositionMessage × Option JsonErr => (x.1).NavQNH) p.NavQNH rfl ?_
  refine ite_frame (fun x : PositionMessage × Option JsonErr => (x.1).NavQNH) p.NavQNH rfl ?_
  refine ite_frame (fun x : PositionMessage × Option JsonErr => (x.1).NavQNH) p.NavQNH rfl ?_
  refine ite_frame (fun x : PositionMessage × Option JsonErr => (x.1).NavQNH) p.NavQNH rfl ?_
  refine ite_frame (fun x : PositionMessage × Option JsonErr => (x.1).NavQNH) p.NavQNH rfl ?_
  refine ite_frame (fun x : PositionMessage × Option JsonErr => (x.1).NavQNH) p.NavQNH rfl ?_
  refine ite_frame (fun x : PositionMessage × Option JsonErr => (x.1).NavQNH) p.NavQNH rfl ?_
  refine ite_frame (fun x : PositionMessage × Option JsonErr => (x.1).NavQNH) p.NavQNH rfl ?_
  refine ite_frame (fun x : PositionMessage × Option JsonErr => (x.1).NavQNH) p.NavQNH rfl ?_
  refine ite_frame (fun x : PositionMessage × Option JsonErr => (x.1).NavQNH) p.NavQNH rfl ?_
  refine ite_frame (fun x : PositionMessage × Option JsonErr => (x.1).NavQNH) p.NavQNH rfl ?_
  refine ite_frame (fun x : PositionMessage × Option JsonErr => (x.1).NavQNH) p.NavQNH rfl ?_
  refine ite_frame (fun x : PositionMessage × Option JsonErr => (x.1).NavQNH) p.NavQNH rfl ?_
  refine ite_frame (fun x : PositionMessage × Option JsonErr => (x.1).NavQNH) p.NavQNH rfl ?_
  refine ite_frame (fun x : PositionMessage × Option JsonErr => (x.1).NavQNH) p.NavQNH rfl ?_
  refine ite_frame (fun x : PositionMessage × Option JsonErr => (x.1).NavQNH) p.NavQNH rfl ?_
  refine ite_frame (fun x : PositionMessage × Option JsonErr => (x.1).NavQNH) p.NavQNH rfl ?_
  refine ite_frame (fun x : PositionMessage × Option JsonErr => (x.1).NavQNH) p.NavQNH rfl ?_
  refine ite_frame (fun x : PositionMessage × Option JsonErr => (x.1).NavQNH) p.NavQNH rfl ?_
  refine ite_frame (fun x : PositionMessage × Option JsonErr => (x.1).NavQNH) p.NavQNH rfl ?_
  refine ite_frame (fun x : PositionMessage × Option JsonErr => (x.1).NavQNH) p.NavQNH rfl ?_
  refine ite_frame (fun x : PositionMessage × Option JsonErr => (x.1).NavQNH) p.NavQNH rfl ?_
  refine ite_frame (fun x : PositionMessage × Option JsonErr => (x.1).NavQNH) p.NavQNH rfl ?_
  refine ite_frame (fun x : PositionMessage × Option JsonErr => (x.1).NavQNH) p.NavQNH rfl ?_
  refine ite_frame (fun x : PositionMessage × Option JsonErr => (x.1).NavQNH) p.NavQNH rfl ?_
  refine ite_frame (fun x : PositionMessage × Option JsonErr => (x.1).NavQNH) p.NavQNH rfl ?_
  refine ite_frame (fun x : PositionMessage × Option JsonErr => (x.1).NavQNH) p.NavQNH rfl ?_
  refine ite_frame (fun x : PositionMessage × Option JsonErr => (x.1).NavQNH) p.NavQNH rfl ?_
  rw [if_neg h]
  refine ite_frame (fun x : PositionMessage × Option JsonErr => (x.1).NavQNH) p.NavQNH rfl ?_
  refine ite_frame (fun x : PositionMessage × Option JsonErr => (x.1).NavQNH) p.NavQNH rfl ?_
  refine ite_frame (fun x : PositionMessage × Option JsonErr => (x.1).NavQNH) p.NavQNH rfl ?_
  refine ite_frame (fun x : PositionMessage × Option JsonErr => (x.1).NavQNH) p.NavQNH rfl ?_
  refine ite_frame (fun x : PositionMessage × Option JsonErr => (x.1).NavQNH) p.NavQNH rfl ?_
  refine ite_frame (fun x : PositionMessage × Option JsonErr => (x.1).NavQNH) p.NavQNH rfl ?_
  rfl

lemma posFrame_NavModes {k : String} (v : Json) (p : PositionMessage) (h : k ≠ "nav_modes") :
    ((posAssign k v p).1).NavModes = p.NavModes := by
  unfold posAssign
  refine ite_frame (fun x : PositionMessage × Option JsonErr => (x.1).NavModes) p.NavModes rfl ?_
  refine ite_frame (fun x : PositionMessage × Option JsonErr => (x.1).NavModes) p.NavModes rfl ?_
  refine ite_frame (fun x : PositionMessage × Option JsonErr => (x.1).NavModes) p.NavModes rfl ?_
  refine ite_frame (fun x : PositionMessage × Option JsonErr => (x.1).NavModes) p.NavModes rfl ?_
  refine ite_frame (fun x : PositionMessage × Option JsonErr => (x.1).NavModes) p.NavModes rfl ?_
  refine ite_frame (fun x : PositionMessage × Option JsonErr => (x.1).NavModes) p.NavModes rfl ?_
  refine ite_frame (fun x : PositionMessage × Option JsonErr => (x.1).NavModes) p.NavModes rfl ?_
  refine ite_frame (fun x : PositionMessage × Option JsonErr => (x.1).NavModes) p.NavModes rfl ?_
  refine ite_frame (fun x : PositionMessage × Option JsonErr => (x.1).NavModes) p.NavModes rfl ?_
  refine ite_frame (fun x : PositionMessage × Option JsonErr => (x.1).NavModes) p.NavModes rfl ?_
  refine ite_frame (fun x : PositionMessage × Option JsonErr => (x.1).NavModes) p.NavModes rfl ?_
  refine ite_frame (fun x : PositionMessage × Option JsonErr => (x.1).NavModes) p.NavModes rfl ?_
  refine ite_frame (fun x : PositionMessage × Option JsonErr => (x.1).NavModes) p.NavModes rfl ?_
  refine ite_frame (fun x : PositionMessage × Option JsonErr => (x.1).NavModes) p.NavModes rfl ?_
  refine ite_frame (fun x : PositionMessage × Option JsonErr => (x.1).NavModes) p.NavModes rfl ?_
  refine ite_frame (fun x : PositionMessage × Option JsonErr => (x.1).NavModes) p.NavModes rfl ?_
  refine ite_frame (fun x : PositionMessage × Option JsonErr => (x.1).NavModes) p.NavModes rfl ?_
  refine ite_frame (fun x : PositionMessage × Option JsonErr => (x.1).NavModes) p.NavModes rfl ?_
  refine ite_frame (fun x : PositionMessage × Option JsonErr => (x.1).NavModes) p.NavModes rfl ?_
  refine ite_frame (fun x : PositionMessage × Option JsonErr => (x.1).NavModes) p.NavModes rfl ?_
  refine ite_frame (fun x : PositionMessage × Option JsonErr => (x.1).NavModes) p.NavModes rfl ?_
  refine ite_frame (fun x : PositionMessage × Option JsonErr => (x.1).NavModes) p.NavModes rfl ?_
  refine ite_frame (fun x : PositionMessage × Option JsonErr => (x.1).NavModes) p.NavModes rfl ?_
  refine ite_frame (fun x : PositionMessage × Option JsonErr => (x.1).NavModes) p.NavModes rfl ?_
  refine ite_frame (fun x : PositionMessage × Option JsonErr => (x.1).NavModes) p.NavModes rfl ?_
  refine ite_frame (fun x : PositionMessage × Option JsonErr => (x.1).NavModes) p.NavModes rfl ?_
  refine ite_frame (fun x : PositionMessage × Option JsonErr => (x.1).NavModes) p.NavModes rfl ?_
  refine ite_frame (fun x : PositionMessage × Option JsonErr => (x.1).NavModes) p.NavModes rfl ?_
  refine ite_frame (fun x : PositionMessage × Option JsonErr => (x.1).NavModes) p.NavModes rfl ?_
  refine ite_frame (fun x : PositionMessage × Option JsonErr => (x.1).NavModes) p.NavModes rfl ?_
  refine ite_frame (fun x : PositionMessage × Option JsonErr => (x.1).NavModes) p.NavModes rfl ?_
  refine ite_frame (fun x : PositionMessage × Option JsonErr => (x.1).NavModes) p.NavModes rfl ?_
  refine ite_frame (fun x : PositionMessage × Option JsonErr => (x.1).NavModes) p.NavModes rfl ?_
  refine ite_frame (fun x : PositionMessage × Option JsonErr => (x.1).NavModes) p.NavModes rfl ?_
  refine ite_frame (fun x : PositionMessage × Option JsonErr => (x.1).NavModes) p.NavModes rfl ?_
  refine ite_frame (fun x : PositionMessage × Option JsonErr => (x.1).NavModes) p.NavModes rfl ?_
  refine ite_frame (fun x : PositionMessage × Option JsonErr => (x.1).NavModes) p.NavModes rfl ?_
  refine ite_frame (fun x : PositionMessage × Option JsonErr => (x.1).NavModes) p.NavModes rfl ?_
  refine ite_frame (fun x : PositionMessage × Option JsonErr => (x.1).NavModes) p.NavModes rfl ?_
  refine ite_frame (fun x : PositionMessage × Option JsonErr => (x.1).NavModes) p.NavModes rfl ?_
  refine ite_frame (fun x : PositionMessage × Option JsonErr => (x.1).NavModes) p.NavModes rfl ?_
  refine ite_frame (fun x : PositionMessage × Option JsonErr => (x.1).NavModes) p.NavModes rfl ?_
  refine ite_frame (fun x : PositionMessage × Option JsonErr => (x.1).NavModes) p.NavModes rfl ?_
  refine ite_frame (fun x : PositionMessage × Option JsonErr => (x.1).NavModes) p.NavModes rfl ?_
  refine ite_frame (fun x : PositionMessage × Option JsonErr => (x.1).NavModes) p.NavModes rfl ?_
  refine ite_frame (fun x : PositionMessage × Option JsonErr => (x.1).NavModes) p.NavModes rfl ?_
  refine ite_frame (fun x : PositionMessage × Option JsonErr => (x.1).NavModes) p.NavModes rfl ?_
  refine ite_frame (fun x : PositionMessage × Option JsonErr => (x.1).NavModes) p.NavModes rfl ?_
  refine ite_frame (fun x : PositionMessage × Option JsonErr => (x.1).NavModes) p.NavModes rfl ?_
  refine ite_frame (fun x : PositionMessage × Option JsonErr => (x.1).NavModes) p.NavModes rfl ?_
  rw [if_neg h]
  refine ite_frame (fun x : PositionMessage × Option JsonErr => (x.1).NavModes) p.NavModes rfl ?_
  refine ite_frame (fun x : PositionMessage × Option JsonErr => (x.1).NavModes) p.NavModes rfl ?_
  refine ite_frame (fun x : PositionMessage × Option JsonErr => (x.1).NavModes) p.NavModes rfl ?_
  refine ite_frame (fun x : PositionMessage × Option JsonErr => (x.1).NavModes) p.NavModes rfl ?_
  refine ite_frame (fun x : PositionMessage × Option JsonErr => (x.1).NavModes) p.NavModes rfl ?_
  rfl

lemma posFrame_AltGNSS {k : String} (v : Json) (p : PositionMessage) (h : k ≠ "alt_gnss") :
    ((posAssign k v p).1).AltGNSS = p.AltGNSS := by
  unfold posAssign
  refine ite_frame (fun x : PositionMessage × Option JsonErr => (x.1).AltGNSS) p.AltGNSS rfl ?_
  refine ite_frame (fun x : PositionMessage × Option JsonErr => (x.1).AltGNSS) p.AltGNSS rfl ?_
  refine ite_frame (fun x : PositionMessage × Option JsonErr => (x.1).AltGNSS) p.AltGNSS rfl ?_
  refine ite_frame (fun x : PositionMessage × Option JsonErr => (x.1).AltGNSS) p.AltGNSS rfl ?_
  refine ite_frame (fun x : PositionMessage × Option JsonErr => (x.1).AltGNSS) p.AltGNSS rfl ?_
  refine ite_frame (fun x : PositionMessage × Option JsonErr => (x.1).AltGNSS) p.AltGNSS rfl ?_
  refine ite_frame (fun x : PositionMessage × Option JsonErr => (x.1).AltGNSS) p.AltGNSS rfl ?_
  refine ite_frame (fun x : PositionMessage × Option JsonErr => (x.1).AltGNSS) p.AltGNSS rfl ?_
  refine ite_frame (fun x : PositionMessage × Option JsonErr => (x.1).AltGNSS) p.AltGNSS rfl ?_
  refine ite_frame (fun x : PositionMessage × Option JsonErr => (x.1).AltGNSS) p.AltGNSS rfl ?_
  refine ite_frame (fun x : PositionMessage × Option JsonErr => (x.1).AltGNSS) p.AltGNSS rfl ?_
  refine ite_frame (fun x : PositionMessage × Option JsonErr => (x.1).AltGNSS) p.AltGNSS rfl ?_
  refine ite_frame (fun x : PositionMessage × Option JsonErr => (x.1).AltGNSS) p.AltGNSS rfl ?_
  refine ite_frame (fun x : PositionMessage × Option JsonErr => (x.1).AltGNSS) p.AltGNSS rfl ?_
  refine ite_frame (fun x : PositionMessage × Option JsonErr => (x.1).AltGNSS) p.AltGNSS rfl ?_
  refine ite_frame (fun x : PositionMessage × Option JsonErr => (x.1).AltGNSS) p.AltGNSS rfl ?_
  refine ite_frame (fun x : PositionMessage × Option JsonErr => (x.1).AltGNSS) p.AltGNSS rfl ?_
  refine ite_frame (fun x : PositionMessage × Option JsonErr => (x.1).AltGNSS) p.AltGNSS rfl ?_
  refine ite_frame (fun x : PositionMessage × Option JsonErr => (x.1).AltGNSS) p.AltGNSS rfl ?_
  refine ite_frame (fun x : PositionMessage × Option JsonErr => (x.1).AltGNSS) p.AltGNSS rfl ?_
  refine ite_frame (fun x : PositionMessage × Option JsonErr => (x.1).AltGNSS) p.AltGNSS rfl ?_
  refine ite_frame (fun x : PositionMessage × Option JsonErr => (x.1).AltGNSS) p.AltGNSS rfl ?_
  refine ite_frame (fun x : PositionMessage × Option JsonErr => (x.1).AltGNSS) p.AltGNSS rfl ?_
  refine ite_frame (fun x : PositionMessage × Option JsonErr => (x.1).AltGNSS) p.AltGNSS rfl ?_
  refine ite_frame (fun x : PositionMessage × Option JsonErr => (x.1).AltGNSS) p.AltGNSS rfl ?_
  refine ite_frame (fun x : PositionMessage × Option JsonErr => (x.1).AltGNSS) p.AltGNSS rfl ?_
  refine ite_frame (fun x : PositionMessage × Option JsonErr => (x.1).AltGNSS) p.AltGNSS rfl ?_
  refine ite_frame (fun x : PositionMessage × Option JsonErr => (x.1).AltGNSS) p.AltGNSS rfl ?_
  refine ite_frame (fun x : PositionMessage × Option JsonErr => (x.1).AltGNSS) p.AltGNSS rfl ?_
  refine ite_frame (fun x : PositionMessage × Option JsonErr => (x.1).AltGNSS) p.AltGNSS rfl ?_
  refine ite_frame (fun x : PositionMessage × Option JsonErr => (x.1).AltGNSS) p.AltGNSS rfl ?_
  refine ite_frame (fun x : PositionMessage × Option JsonErr => (x.1).AltGNSS) p.AltGNSS rfl ?_
  refine ite_frame (fun x : PositionMessage × Option JsonErr => (x.1).AltGNSS) p.AltGNSS rfl ?_
  refine ite_frame (fun x : PositionMessage × Option JsonErr => (x.1).AltGNSS) p.AltGNSS rfl ?_
  refine ite_frame (fun x : PositionMessage × Option JsonErr => (x.1).AltGNSS) p.AltGNSS rfl ?_
  refine ite_frame (fun x : PositionMessage × Option JsonErr => (x.1).AltGNSS) p.AltGNSS rfl ?_
  refine ite_frame (fun x : PositionMessage × Option JsonErr => (x.1).AltGNSS) p.AltGNSS rfl ?_
  refine ite_frame (fun x : PositionMessage × Option JsonErr => (x.1).AltGNSS) p.AltGNSS rfl ?_
  refine ite_frame (fun x : PositionMessage × Option JsonErr => (x.1).AltGNSS) p.AltGNSS rfl ?_
  refine ite_frame (fun x : PositionMessage × Option JsonErr => (x.1).AltGNSS) p.AltGNSS rfl ?_
  refine ite_frame (fun x : PositionMessage × Option JsonErr => (x.1).AltGNSS) p.AltGNSS rfl ?_
  refine ite_frame (fun x : PositionMessage × Option JsonErr => (x.1).AltGNSS) p.AltGNSS rfl ?_
  refine ite_frame (fun x : PositionMessage × Option JsonErr => (x.1).AltGNSS) p.AltGNSS rfl ?_
  refine ite_frame (fun x : PositionMessage × Option JsonErr => (x.1).AltGNSS) p.AltGNSS rfl ?_
  refine ite_frame (fun x : PositionMessage × Option JsonErr => (x.1).AltGNSS) p.AltGNSS rfl ?_
  refine ite_frame (fun x : PositionMessage × Option JsonErr => (x.1).AltGNSS) p.AltGNSS rfl ?_
  refine ite_frame (fun x : PositionMessage × Option JsonErr => (x.1).AltGNSS) p.AltGNSS rfl ?_
  refine ite_frame (fun x : PositionMessage × Option JsonErr => (x.1).AltGNSS) p.AltGNSS rfl ?_
  refine ite_frame (fun x : PositionMessage × Option JsonErr => (x.1).AltGNSS) p.AltGNSS rfl ?_
  refine ite_frame (fun x : PositionMessage × Option JsonErr => (x.1).AltGNSS) p.AltGNSS rfl ?_
  refine ite_frame (fun x : PositionMessage × Option JsonErr => (x.1).AltGNSS) p.AltGNSS rfl ?_
  rw [if_neg h]
  refine ite_frame (fun x : PositionMessage × Option JsonErr => (x.1).AltGNSS) p.AltGNSS rfl ?_
  refine ite_frame (fun x : PositionMessage × Option JsonErr => (x.1).AltGNSS) p.AltGNSS rfl ?_
  refine ite_frame (fun x : PositionMessage × Option JsonErr => (x.1).AltGNSS) p.AltGNSS rfl ?_
  refine ite_frame (fun x : PositionMessage × Option JsonErr => (x.1).AltGNSS) p.AltGNSS rfl ?_
  rfl

lemma posFrame_VertRate {k : String} (v : Json) (p : PositionMessage) (h : k ≠ "vertrate") :
    ((posAssign k v p).1).VertRate = p.VertRate := by
  unfold posAssign
  refine ite_frame (fun x : PositionMessage × Option JsonErr => (x.1).VertRate) p.VertRate rfl ?_
  refine ite_frame (fun x : PositionMessage × Option JsonErr => (x.1).VertRate) p.VertRate rfl ?_
  refine ite_frame (fun x : PositionMessage × Option JsonErr => (x.1).VertRate) p.VertRate rfl ?_
  refine ite_frame (fun x : PositionMessage × Option JsonErr => (x.1).VertRate) p.VertRate rfl ?_
  refine ite_frame (fun x : PositionMessage × Option JsonErr => (x.1).VertRate) p.VertRate rfl ?_
  refine ite_frame (fun x : PositionMessage × Option JsonErr => (x.1).VertRate) p.VertRate rfl ?_
  refine ite_frame (fun x : PositionMessage × Option JsonErr => (x.1).VertRate) p.VertRate rfl ?_
  refine ite_frame (fun x : PositionMessage × Option JsonErr => (x.1).VertRate) p.VertRate rfl ?_
  refine ite_frame (fun x : PositionMessage × Option JsonErr => (x.1).VertRate) p.VertRate rfl ?_
  refine ite_frame (fun x : PositionMessage × Option JsonErr => (x.1).VertRate) p.VertRate rfl ?_
  refine ite_frame (fun x : PositionMessage × Option JsonErr => (x.1).VertRate) p.VertRate rfl ?_
  refine ite_frame (fun x : PositionMessage × Option JsonErr => (x.1).VertRate) p.VertRate rfl ?_
  refine ite_frame (fun x : PositionMessage × Option JsonErr => (x.1).VertRate) p.VertRate rfl ?_
  refine ite_frame (fun x : PositionMessage × Option JsonErr => (x.1).VertRate) p.VertRate rfl ?_
  refine ite_frame (fun x : PositionMessage × Option JsonErr => (x.1).VertRate) p.VertRate rfl ?_
  refine ite_frame (fun x : PositionMessage × Option JsonErr => (x.1).VertRate) p.VertRate rfl ?_
  refine ite_frame (fun x : PositionMessage × Option JsonErr => (x.1).VertRate) p.VertRate rfl ?_
  refine ite_frame (fun x : PositionMessage × Option JsonErr => (x.1).VertRate) p.VertRate rfl ?_
  refine ite_frame (fun x : PositionMessage × Option JsonErr => (x.1).VertRate) p.VertRate rfl ?_
  refine ite_frame (fun x : PositionMessage × Option JsonErr => (x.1).VertRate) p.VertRate rfl ?_
  refine ite_frame (fun x : PositionMessage × Option JsonErr => (x.1).VertRate) p.VertRate rfl ?_
  refine ite_frame (fun x : PositionMessage × Option JsonErr => (x.1).VertRate) p.VertRate rfl ?_
  refine ite_frame (fun x : PositionMessage × Option JsonErr => (x.1).VertRate) p.VertRate rfl ?_
  refine ite_frame (fun x : PositionMessage × Option JsonErr => (x.1).VertRate) p.VertRate rfl ?_
  refine ite_frame (fun x : PositionMessage × Option JsonErr => (x.1).VertRate) p.VertRate rfl ?_
  refine ite_frame (fun x : PositionMessage × Option JsonErr => (x.1).VertRate) p.VertRate rfl ?_
  refine ite_frame (fun x : PositionMessage × Option JsonErr => (x.1).VertRate) p.VertRate rfl ?_
  refine ite_frame (fun x : PositionMessage × Option JsonErr => (x.1).VertRate) p.VertRate rfl ?_
  refine ite_frame (fun x : PositionMessage × Option JsonErr => (x.1).VertRate) p.VertRate rfl ?_
  refine ite_frame (fun x : PositionMessage × Option JsonErr => (x.1).VertRate) p.VertRate rfl ?_
  refine ite_frame (fun x : PositionMessage × Option JsonErr => (x.1).VertRate) p.VertRate rfl ?_
  refine ite_frame (fun x : PositionMessage × Option JsonErr => (x.1).VertRate) p.VertRate rfl ?_
  refine ite_frame (fun x : PositionMessage × Option JsonErr => (x.1).VertRate) p.VertRate rfl ?_
  refine ite_frame (fun x : PositionMessage × Option JsonErr => (x.1).VertRate) p.VertRate rfl ?_
  refine ite_frame (fun x : PositionMessage × Option JsonErr => (x.1).VertRate) p.VertRate rfl ?_
  refine ite_frame (fun x : PositionMessage × Option JsonErr => (x.1).VertRate) p.VertRate rfl ?_
  refine ite_frame (fun x : PositionMessage × Option JsonErr => (x.1).VertRate) p.VertRate rfl ?_
  refine ite_frame (fun x : PositionMessage × Option JsonErr => (x.1).VertRate) p.VertRate rfl ?_
  refine ite_frame (fun x : PositionMessage × Option JsonErr => (x.1).VertRate) p.VertRate rfl ?_
  refine ite_frame (fun x : PositionMessage × Option JsonErr => (x.1).VertRate) p.VertRate rfl ?_
  refine ite_frame (fun x : PositionMessage × Option JsonErr => (x.1).VertRate) p.VertRate rfl ?_
  refine ite_frame (fun x : PositionMessage × Option JsonErr => (x.1).VertRate) p.VertRate rfl ?_
  refine ite_frame (fun x : PositionMessage × Option JsonErr => (x.1).VertRate) p.VertRate rfl ?_
  refine ite_frame (fun x : PositionMessage × Option JsonErr => (x.1).VertRate) p.VertRate rfl ?_
  refine ite_frame (fun x : PositionMessage × Option JsonErr => (x.1).VertRate) p.VertRate rfl ?_
  refine ite_frame (fun x : PositionMessage × Option JsonErr => (x.1).VertRate) p.VertRate rfl ?_
  refine ite_frame (fun x : PositionMessage × Option JsonErr => (x.1).VertRate) p.VertRate rfl ?_
  refine ite_frame (fun x : PositionMessage × Option JsonErr => (x.1).VertRate) p.VertRate rfl ?_
  refine ite_frame (fun x : PositionMessage × Option JsonErr => (x.1).VertRate) p.VertRate rfl ?_
  refine ite_frame (fun x : PositionMessage × Option JsonErr => (x.1).VertRate) p.VertRate rfl ?_
  refine ite_frame (fun x : PositionMessage × Option JsonErr => (x.1).VertRate) p.VertRate rfl ?_
  refine ite_frame (fun x : PositionMessage × Option JsonErr => (x.1).VertRate) p.VertRate rfl ?_
  rw [if_neg h]
  refine ite_frame (fun x : PositionMessage × Option JsonErr => (x.1).VertRate) p.VertRate rfl ?_
  refine ite_frame (fun x : PositionMessage × Option JsonErr => (x.1).VertRate) p.VertRate rfl ?_
  refine ite_frame (fun x : PositionMessage × Option JsonErr => (x.1).VertRate) p.VertRate rfl ?_
  rfl

lemma posFrame_VertRateGeom {k : String} (v : Json) (p : PositionMessage) (h : k ≠ "vertrate_geom") :
    ((posAssign k v p).1).VertRateGeom = p.VertRateGeom := by
  unfold posAssign
  refine ite_frame (fun x : PositionMessage × Option JsonErr => (x.1).VertRateGeom) p.VertRateGeom rfl ?_
  refine ite_frame (fun x : PositionMessage × Option JsonErr => (x.1).VertRateGeom) p.VertRateGeom rfl ?_
  refine ite_frame (fun x : PositionMessage × Option JsonErr => (x.1).VertRateGeom) p.VertRateGeom rfl ?_
  refine ite_frame (fun x : PositionMessage × Option JsonErr => (x.1).VertRateGeom) p.VertRateGeom rfl ?_
  refine ite_frame (fun x : PositionMessage × Option JsonErr => (x.1).VertRateGeom) p.VertRateGeom rfl ?_
  refine ite_frame (fun x : PositionMessage × Option JsonErr => (x.1).VertRateGeom) p.VertRateGeom rfl ?_
  refine ite_frame (fun x : PositionMessage × Option JsonErr => (x.1).VertRateGeom) p.VertRateGeom rfl ?_
  refine ite_frame (fun x : PositionMessage × Option JsonErr => (x.1).VertRateGeom) p.VertRateGeom rfl ?_
  refine ite_frame (fun x : PositionMessage × Option JsonErr => (x.1).VertRateGeom) p.VertRateGeom rfl ?_
  refine ite_frame (fun x : PositionMessage × Option JsonErr => (x.1).VertRateGeom) p.VertRateGeom rfl ?_
  refine ite_frame (fun x : PositionMessage × Option JsonErr => (x.1).VertRateGeom) p.VertRateGeom rfl ?_
  refine ite_frame (fun x : PositionMessage × Option JsonErr => (x.1).VertRateGeom) p.VertRateGeom rfl ?_
  refine ite_frame (fun x : PositionMessage × Option JsonErr => (x.1).VertRateGeom) p.VertRateGeom rfl ?_
  refine ite_frame (fun x : PositionMessage × Option JsonErr => (x.1).VertRateGeom) p.VertRateGeom rfl ?_
  refine ite_frame (fun x : PositionMessage × Option JsonErr => (x.1).VertRateGeom) p.VertRateGeom rfl ?_
  refine ite_frame (fun x : PositionMessage × Option JsonErr => (x.1).VertRateGeom) p.VertRateGeom rfl ?_
  refine ite_frame (fun x : PositionMessage × Option JsonErr => (x.1).VertRateGeom) p.VertRateGeom rfl ?_
  refine ite_frame (fun x : PositionMessage × Option JsonErr => (x.1).VertRateGeom) p.VertRateGeom rfl ?_
  refine ite_frame (fun x : PositionMessage × Option JsonErr => (x.1).VertRateGeom) p.VertRateGeom rfl ?_
  refine ite_frame (fun x : PositionMessage × Option JsonErr => (x.1).VertRateGeom) p.VertRateGeom rfl ?_
  refine ite_frame (fun x : PositionMessage × Option JsonErr => (x.1).VertRateGeom) p.VertRateGeom rfl ?_
  refine ite_frame (fun x : PositionMessage × Option JsonErr => (x.1).VertRateGeom) p.VertRateGeom rfl ?_
  refine ite_frame (fun x : PositionMessage × Option JsonErr => (x.1).VertRateGeom) p.VertRateGeom rfl ?_
  refine ite_frame (fun x : PositionMessage × Option JsonErr => (x.1).VertRateGeom) p.VertRateGeom rfl ?_
  refine ite_frame (fun x : PositionMessage × Option JsonErr => (x.1).VertRateGeom) p.VertRateGeom rfl ?_
  refine ite_frame (fun x : PositionMessage × Option JsonErr => (x.1).VertRateGeom) p.VertRateGeom rfl ?_
  refine ite_frame (fun x : PositionMessage × Option JsonErr => (x.1).VertRateGeom) p.VertRateGeom rfl ?_
  refine ite_frame (fun x : PositionMessage × Option JsonErr => (x.1).VertRateGeom) p.VertRateGeom rfl ?_
  refine ite_frame (fun x : PositionMessage × Option JsonErr => (x.1).VertRateGeom) p.VertRateGeom rfl ?_
  refine ite_frame (fun x : PositionMessage × Option JsonErr => (x.1).VertRateGeom) p.VertRateGeom rfl ?_
  refine ite_frame (fun x : PositionMessage × Option JsonErr => (x.1).VertRateGeom) p.VertRateGeom rfl ?_
  refine ite_frame (fun x : PositionMessage × Option JsonErr => (x.1).VertRateGeom) p.VertRateGeom rfl ?_
  refine ite_frame (fun x : PositionMessage × Option JsonErr => (x.1).VertRateGeom) p.VertRateGeom rfl ?_
  refine ite_frame (fun x : PositionMessage × Option JsonErr => (x.1).VertRateGeom) p.VertRateGeom rfl ?_
  refine ite_frame (fun x : PositionMessage × Option JsonErr => (x.1).VertRateGeom) p.VertRateGeom rfl ?_
  refine ite_frame (fun x : PositionMessage × Option JsonErr => (x.1).VertRateGeom) p.VertRateGeom rfl ?_
  refine ite_frame (fun x : PositionMessage × Option JsonErr => (x.1).VertRateGeom) p.VertRateGeom rfl ?_
  refine ite_frame (fun x : PositionMessage × Option JsonErr => (x.1).VertRateGeom) p.VertRateGeom rfl ?_
  refine ite_frame (fun x : PositionMessage × Option JsonErr => (x.1).VertRateGeom) p.VertRateGeom rfl ?_
  refine ite_frame (fun x : PositionMessage × Option JsonErr => (x.1).VertRateGeom) p.VertRateGeom rfl ?_
  refine ite_frame (fun x : PositionMessage × Option JsonErr => (x.1).VertRateGeom) p.VertRateGeom rfl ?_
  refine ite_frame (fun x : PositionMessage × Option JsonErr => (x.1).VertRateGeom) p.VertRateGeom rfl ?_
  refine ite_frame (fun x : PositionMessage × Option JsonErr => (x.1).VertRateGeom) p.VertRateGeom rfl ?_
  refine ite_frame (fun x : PositionMessage × Option JsonErr => (x.1).VertRateGeom) p.VertRateGeom rfl ?_
  refine ite_frame (fun x : PositionMessage × Option JsonErr => (x.1).VertRateGeom) p.VertRateGeom rfl ?_
  refine ite_frame (fun x : PositionMessage × Option JsonErr => (x.1).VertRateGeom) p.VertRateGeom rfl ?_
  refine ite_frame (fun x : PositionMessage × Option JsonErr => (x.1).VertRateGeom) p.VertRateGeom rfl ?_
  refine ite_frame (fun x : PositionMessage × Option JsonErr => (x.1).VertRateGeom) p.VertRateGeom rfl ?_
  refine ite_frame (fun x : PositionMessage × Option JsonErr => (x.1).VertRateGeom) p.VertRateGeom rfl ?_
  refine ite_frame (fun x : PositionMessage × Option JsonErr => (x.1).VertRateGeom) p.VertRateGeom rfl ?_
  refine ite_frame (fun x : PositionMessage × Option JsonErr => (x.1).VertRateGeom) p.VertRateGeom rfl ?_
  refine ite_frame (fun x : PositionMessage × Option JsonErr => (x.1).VertRateGeom) p.VertRateGeom rfl ?_
  refine ite_frame (fun x : PositionMessage × Option JsonErr => (x.1).VertRateGeom) p.VertRateGeom rfl ?_
  rw [if_neg h]
  refine ite_frame (fun x : PositionMessage × Option JsonErr => (x.1).VertRateGeom) p.VertRateGeom rfl ?_
  refine ite_frame (fun x : PositionMessage × Option JsonErr => (x.1).VertRateGeom) p.VertRateGeom rfl ?_
  rfl

lemma posFrame_FuelOnBoard {k : String} (v : Json) (p : PositionMessage) (h : k ≠ "fuel_on_board") :
    ((posAssign k v p).1).FuelOnBoard = p.FuelOnBoard := by
  unfold posAssign
  refine ite_frame (fun x : PositionMessage × Option JsonErr => (x.1).FuelOnBoard) p.FuelOnBoard rfl ?_
  refine ite_frame (fun x : PositionMessage × Option JsonErr => (x.1).FuelOnBoard) p.FuelOnBoard rfl ?_
  refine ite_frame (fun x : PositionMessage × Option JsonErr => (x.1).FuelOnBoard) p.FuelOnBoard rfl ?_
  refine ite_frame (fun x : PositionMessage × Option JsonErr => (x.1).FuelOnBoard) p.FuelOnBoard rfl ?_
  refine ite_frame (fun x : PositionMessage × Option JsonErr => (x.1).FuelOnBoard) p.FuelOnBoard rfl ?_
  refine ite_frame (fun x : PositionMessage × Option JsonErr => (x.1).FuelOnBoard) p.FuelOnBoard rfl ?_
  refine ite_frame (fun x : PositionMessage × Option JsonErr => (x.1).FuelOnBoard) p.FuelOnBoard rfl ?_
  refine ite_frame (fun x : PositionMessage × Option JsonErr => (x.1).FuelOnBoard) p.FuelOnBoard rfl ?_
  refine ite_frame (fun x : PositionMessage × Option JsonErr => (x.1).FuelOnBoard) p.FuelOnBoard rfl ?_
  refine ite_frame (fun x : PositionMessage × Option JsonErr => (x.1).FuelOnBoard) p.FuelOnBoard rfl ?_
  refine ite_frame (fun x : PositionMessage × Option JsonErr => (x.1).FuelOnBoard) p.FuelOnBoard rfl ?_
  refine ite_frame (fun x : PositionMessage × Option JsonErr => (x.1).FuelOnBoard) p.FuelOnBoard rfl ?_
  refine ite_frame (fun x : PositionMessage × Option JsonErr => (x.1).FuelOnBoard) p.FuelOnBoard rfl ?_
  refine ite_frame (fun x : PositionMessage × Option JsonErr => (x.1).FuelOnBoard) p.FuelOnBoard rfl ?_
  refine ite_frame (fun x : PositionMessage × Option JsonErr => (x.1).FuelOnBoard) p.FuelOnBoard rfl ?_
  refine ite_frame (fun x : PositionMessage × Option JsonErr => (x.1).FuelOnBoard) p.FuelOnBoard rfl ?_
  refine ite_frame (fun x : PositionMessage × Option JsonErr => (x.1).FuelOnBoard) p.FuelOnBoard rfl ?_
  refine ite_frame (fun x : PositionMessage × Option JsonErr => (x.1).FuelOnBoard) p.FuelOnBoard rfl ?_
  refine ite_frame (fun x : PositionMessage × Option JsonErr => (x.1).FuelOnBoard) p.FuelOnBoard rfl ?_
  refine ite_frame (fun x : PositionMessage × Option JsonErr => (x.1).FuelOnBoard) p.FuelOnBoard rfl ?_
  refine ite_frame (fun x : PositionMessage × Option JsonErr => (x.1).FuelOnBoard) p.FuelOnBoard rfl ?_
  refine ite_frame (fun x : PositionMessage × Option JsonErr => (x.1).FuelOnBoard) p.FuelOnBoard rfl ?_
  refine ite_frame (fun x : PositionMessage × Option JsonErr => (x.1).FuelOnBoard) p.FuelOnBoard rfl ?_
  refine ite_frame (fun x : PositionMessage × Option JsonErr => (x.1).FuelOnBoard) p.FuelOnBoard rfl ?_
  refine ite_frame (fun x : PositionMessage × Option JsonErr => (x.1).FuelOnBoard) p.FuelOnBoard rfl ?_
  refine ite_frame (fun x : PositionMessage × Option JsonErr => (x.1).FuelOnBoard) p.FuelOnBoard rfl ?_
  refine ite_frame (fun x : PositionMessage × Option JsonErr => (x.1).FuelOnBoard) p.FuelOnBoard rfl ?_
  refine ite_frame (fun x : PositionMessage × Option JsonErr => (x.1).FuelOnBoard) p.FuelOnBoard rfl ?_
  refine ite_frame (fun x : PositionMessage × Option JsonErr => (x.1).FuelOnBoard) p.FuelOnBoard rfl ?_
  refine ite_frame (fun x : PositionMessage × Option JsonErr => (x.1).FuelOnBoard) p.FuelOnBoard rfl ?_
  refine ite_frame (fun x : PositionMessage × Option JsonErr => (x.1).FuelOnBoard) p.FuelOnBoard rfl ?_
  refine ite_frame (fun x : PositionMessage × Option JsonErr => (x.1).FuelOnBoard) p.FuelOnBoard rfl ?_
  refine ite_frame (fun x : PositionMessage × Option JsonErr => (x.1).FuelOnBoard) p.FuelOnBoard rfl ?_
  refine ite_frame (fun x : PositionMessage × Option JsonErr => (x.1).FuelOnBoard) p.FuelOnBoard rfl ?_
  refine ite_frame (fun x : PositionMessage × Option JsonErr => (x.1).FuelOnBoard) p.FuelOnBoard rfl ?_
  refine ite_frame (fun x : PositionMessage × Option JsonErr => (x.1).FuelOnBoard) p.FuelOnBoard rfl ?_
  refine ite_frame (fun x : PositionMessage × Option JsonErr => (x.1).FuelOnBoard) p.FuelOnBoard rfl ?_
  refine ite_frame (fun x : PositionMessage × Option JsonErr => (x.1).FuelOnBoard) p.FuelOnBoard rfl ?_
  refine ite_frame (fun x : PositionMessage × Option JsonErr => (x.1).FuelOnBoard) p.FuelOnBoard rfl ?_
  refine ite_frame (fun x : PositionMessage × Option JsonErr => (x.1).FuelOnBoard) p.FuelOnBoard rfl ?_
  refine ite_frame (fun x : PositionMessage × Option JsonErr => (x.1).FuelOnBoard) p.FuelOnBoard rfl ?_
  refine ite_frame (fun x : PositionMessage × Option JsonErr => (x.1).FuelOnBoard) p.FuelOnBoard rfl ?_
  refine ite_frame (fun x : PositionMessage × Option JsonErr => (x.1).FuelOnBoard) p.FuelOnBoard rfl ?_
  refine ite_frame (fun x : PositionMessage × Option JsonErr => (x.1).FuelOnBoard) p.FuelOnBoard rfl ?_
  refine ite_frame (fun x : PositionMessage × Option JsonErr => (x.1).FuelOnBoard) p.FuelOnBoard rfl ?_
  refine ite_frame (fun x : PositionMessage × Option JsonErr => (x.1).FuelOnBoard) p.FuelOnBoard rfl ?_
  refine ite_frame (fun x : PositionMessage × Option JsonErr => (x.1).FuelOnBoard) p.FuelOnBoard rfl ?_
  refine ite_frame (fun x : PositionMessage × Option JsonErr => (x.1).FuelOnBoard) p.FuelOnBoard rfl ?_
  refine ite_frame (fun x : PositionMessage × Option JsonErr => (x.1).FuelOnBoard) p.FuelOnBoard rfl ?_
  refine ite_frame (fun x : PositionMessage × Option JsonErr => (x.1).FuelOnBoard) p.FuelOnBoard rfl ?_
  refine ite_frame (fun x : PositionMessage × Option JsonErr => (x.1).FuelOnBoard) p.FuelOnBoard rfl ?_
  refine ite_frame (fun x : PositionMessage × Option JsonErr => (x.1).FuelOnBoard) p.FuelOnBoard rfl ?_
  refine ite_frame (fun x : PositionMessage × Option JsonErr => (x.1).FuelOnBoard) p.FuelOnBoard rfl ?_
  refine ite_frame (fun x : PositionMessage × Option JsonErr => (x.1).FuelOnBoard) p.FuelOnBoard rfl ?_
  rw [if_neg h]
  refine ite_frame (fun x : PositionMessage × Option JsonErr => (x.1).FuelOnBoard) p.FuelOnBoard rfl ?_
  rfl

lemma posFrame_FuelOnBoardUnit {k : String} (v : Json) (p : PositionMessage) (h : k ≠ "fuel_on_board_unit") :
    ((posAssign k v p).1).FuelOnBoardUnit = p.FuelOnBoardUnit := by
  unfold posAssign
  refine ite_frame (fun x : PositionMessage × Option JsonErr => (x.1).FuelOnBoardUnit) p.FuelOnBoardUnit rfl ?_
  refine ite_frame (fun x : PositionMessage × Option JsonErr => (x.1).FuelOnBoardUnit) p.FuelOnBoardUnit rfl ?_
  refine ite_frame (fun x : PositionMessage × Option JsonErr => (x.1).FuelOnBoardUnit) p.FuelOnBoardUnit rfl ?_
  refine ite_frame (fun x : PositionMessage × Option JsonErr => (x.1).FuelOnBoardUnit) p.FuelOnBoardUnit rfl ?_
  refine ite_frame (fun x : PositionMessage × Option JsonErr => (x.1).FuelOnBoardUnit) p.FuelOnBoardUnit rfl ?_
  refine ite_frame (fun x : PositionMessage × Option JsonErr => (x.1).FuelOnBoardUnit) p.FuelOnBoardUnit rfl ?_
  refine ite_frame (fun x : PositionMessage × Option JsonErr => (x.1).FuelOnBoardUnit) p.FuelOnBoardUnit rfl ?_
  refine ite_frame (fun x : PositionMessage × Option JsonErr => (x.1).FuelOnBoardUnit) p.FuelOnBoardUnit rfl ?_
  refine ite_frame (fun x : PositionMessage × Option JsonErr => (x.1).FuelOnBoardUnit) p.FuelOnBoardUnit rfl ?_
  refine ite_frame (fun x : PositionMessage × Option JsonErr => (x.1).FuelOnBoardUnit) p.FuelOnBoardUnit rfl ?_
  refine ite_frame (fun x : PositionMessage × Option JsonErr => (x.1).FuelOnBoardUnit) p.FuelOnBoardUnit rfl ?_
  refine ite_frame (fun x : PositionMessage × Option JsonErr => (x.1).FuelOnBoardUnit) p.FuelOnBoardUnit rfl ?_
  refine ite_frame (fun x : PositionMessage × Option JsonErr => (x.1).FuelOnBoardUnit) p.FuelOnBoardUnit rfl ?_
  refine ite_frame (fun x : PositionMessage × Option JsonErr => (x.1).FuelOnBoardUnit) p.FuelOnBoardUnit rfl ?_
  refine ite_frame (fun x : PositionMessage × Option JsonErr => (x.1).FuelOnBoardUnit) p.FuelOnBoardUnit rfl ?_
  refine ite_frame (fun x : PositionMessage × Option JsonErr => (x.1).FuelOnBoardUnit) p.FuelOnBoardUnit rfl ?_
  refine ite_frame (fun x : PositionMessage × Option JsonErr => (x.1).FuelOnBoardUnit) p.FuelOnBoardUnit rfl ?_
  refine ite_frame (fun x : PositionMessage × Option JsonErr => (x.1).FuelOnBoardUnit) p.FuelOnBoardUnit rfl ?_
  refine ite_frame (fun x : PositionMessage × Option JsonErr => (x.1).FuelOnBoardUnit) p.FuelOnBoardUnit rfl ?_
  refine ite_frame (fun x : PositionMessage × Option JsonErr => (x.1).FuelOnBoardUnit) p.FuelOnBoardUnit rfl ?_
  refine ite_frame (fun x : PositionMessage × Option JsonErr => (x.1).FuelOnBoardUnit) p.FuelOnBoardUnit rfl ?_
  refine ite_frame (fun x : PositionMessage × Option JsonErr => (x.1).FuelOnBoardUnit) p.FuelOnBoardUnit rfl ?_
  refine ite_frame (fun x : PositionMessage × Option JsonErr => (x.1).FuelOnBoardUnit) p.FuelOnBoardUnit rfl ?_
  refine ite_frame (fun x : PositionMessage × Option JsonErr => (x.1).FuelOnBoardUnit) p.FuelOnBoardUnit rfl ?_
  refine ite_frame (fun x : PositionMessage × Option JsonErr => (x.1).FuelOnBoardUnit) p.FuelOnBoardUnit rfl ?_
  refine ite_frame (fun x : PositionMessage × Option JsonErr => (x.1).FuelOnBoardUnit) p.FuelOnBoardUnit rfl ?_
  refine ite_frame (fun x : PositionMessage × Option JsonErr => (x.1).FuelOnBoardUnit) p.FuelOnBoardUnit rfl ?_
  refine ite_frame (fun x : PositionMessage × Option JsonErr => (x.1).FuelOnBoardUnit) p.FuelOnBoardUnit rfl ?_
  refine ite_frame (fun x : PositionMessage × Option JsonErr => (x.1).FuelOnBoardUnit) p.FuelOnBoardUnit rfl ?_
  refine ite_frame (fun x : PositionMessage × Option JsonErr => (x.1).FuelOnBoardUnit) p.FuelOnBoardUnit rfl ?_
  refine ite_frame (fun x : PositionMessage × Option JsonErr => (x.1).FuelOnBoardUnit) p.FuelOnBoardUnit rfl ?_
  refine ite_frame (fun x : PositionMessage × Option JsonErr => (x.1).FuelOnBoardUnit) p.FuelOnBoardUnit rfl ?_
  refine ite_frame (fun x : PositionMessage × Option JsonErr => (x.1).FuelOnBoardUnit) p.FuelOnBoardUnit rfl ?_
  refine ite_frame (fun x : PositionMessage × Option JsonErr => (x.1).FuelOnBoardUnit) p.FuelOnBoardUnit rfl ?_
  refine ite_frame (fun x : PositionMessage × Option JsonErr => (x.1).FuelOnBoardUnit) p.FuelOnBoardUnit rfl ?_
  refine ite_frame (fun x : PositionMessage × Option JsonErr => (x.1).FuelOnBoardUnit) p.FuelOnBoardUnit rfl ?_
  refine ite_frame (fun x : PositionMessage × Option JsonErr => (x.1).FuelOnBoardUnit) p.FuelOnBoardUnit rfl ?_
  refine ite_frame (fun x : PositionMessage × Option JsonErr => (x.1).FuelOnBoardUnit) p.FuelOnBoardUnit rfl ?_
  refine ite_frame (fun x : PositionMessage × Option JsonErr => (x.1).FuelOnBoardUnit) p.FuelOnBoardUnit rfl ?_
  refine ite_frame (fun x : PositionMessage × Option JsonErr => (x.1).FuelOnBoardUnit) p.FuelOnBoardUnit rfl ?_
  refine ite_frame (fun x : PositionMessage × Option JsonErr => (x.1).FuelOnBoardUnit) p.FuelOnBoardUnit rfl ?_
  refine ite_frame (fun x : PositionMessage × Option JsonErr => (x.1).FuelOnBoardUnit) p.FuelOnBoardUnit rfl ?_
  refine ite_frame (fun x : PositionMessage × Option JsonErr => (x.1).FuelOnBoardUnit) p.FuelOnBoardUnit rfl ?_
  refine ite_frame (fun x : PositionMessage × Option JsonErr => (x.1).FuelOnBoardUnit) p.FuelOnBoardUnit rfl ?_
  refine ite_frame (fun x : PositionMessage × Option JsonErr => (x.1).FuelOnBoardUnit) p.FuelOnBoardUnit rfl ?_
  refine ite_frame (fun x : PositionMessage × Option JsonErr => (x.1).FuelOnBoardUnit) p.FuelOnBoardUnit rfl ?_
  refine ite_frame (fun x : PositionMessage × Option JsonErr => (x.1).FuelOnBoardUnit) p.FuelOnBoardUnit rfl ?_
  refine ite_frame (fun x : PositionMessage × Option JsonErr => (x.1).FuelOnBoardUnit) p.FuelOnBoardUnit rfl ?_
  refine ite_frame (fun x : PositionMessage × Option JsonErr => (x.1).FuelOnBoardUnit) p.FuelOnBoardUnit rfl ?_
  refine ite_frame (fun x : PositionMessage × Option JsonErr => (x.1).FuelOnBoardUnit) p.FuelOnBoardUnit rfl ?_
  refine ite_frame (fun x : PositionMessage × Option JsonErr => (x.1).FuelOnBoardUnit) p.FuelOnBoardUnit rfl ?_
  refine ite_frame (fun x : PositionMessage × Option JsonErr => (x.1).FuelOnBoardUnit) p.FuelOnBoardUnit rfl ?_
  refine ite_frame (fun x : PositionMessage × Option JsonErr => (x.1).FuelOnBoardUnit) p.FuelOnBoardUnit rfl ?_
  refine ite_frame (fun x : PositionMessage × Option JsonErr => (x.1).FuelOnBoardUnit) p.FuelOnBoardUnit rfl ?_
  refine ite_frame (fun x : PositionMessage × Option JsonErr => (x.1).FuelOnBoardUnit) p.FuelOnBoardUnit rfl ?_
  rw [if_neg h]

lemma posAssign_err_indep (k : String) (v : Json) (a b : PositionMessage) :
    (posAssign k v a).2 = (posAssign k v b).2 := by
  unfold posAssign
  refine ite_rel (fun (x y : PositionMessage × Option JsonErr) => x.2 = y.2) (setString_snd v _ _) ?_
  refine ite_rel (fun (x y : PositionMessage × Option JsonErr) => x.2 = y.2) (setString_snd v _ _) ?_
  refine ite_rel (fun (x y : PositionMessage × Option JsonErr) => x.2 = y.2) (setString_snd v _ _) ?_
  refine ite_rel (fun (x y : PositionMessage × Option JsonErr) => x.2 = y.2) (setString_snd v _ _) ?_
  refine ite_rel (fun (x y : PositionMessage × Option JsonErr) => x.2 = y.2) (setString_snd v _ _) ?_
  refine ite_rel (fun (x y : PositionMessage × Option JsonErr) => x.2 = y.2) (setString_snd v _ _) ?_
  refine ite_rel (fun (x y : PositionMessage × Option JsonErr) => x.2 = y.2) (setString_snd v _ _) ?_
  refine ite_rel (fun (x y : PositionMessage × Option JsonErr) => x.2 = y.2) (setString_snd v _ _) ?_
  refine ite_rel (fun (x y : PositionMessage × Option JsonErr) => x.2 = y.2) (setString_snd v _ _) ?_
  refine ite_rel (fun (x y : PositionMessage × Option JsonErr) => x.2 = y.2) (setString_snd v _ _) ?_
  refine ite_rel (fun (x y : PositionMessage × Option JsonErr) => x.2 = y.2) (setString_snd v _ _) ?_
  refine ite_rel (fun (x y : PositionMessage × Option JsonErr) => x.2 = y.2) (setOptString_snd v _ _) ?_
  refine ite_rel (fun (x y : PositionMessage × Option JsonErr) => x.2 = y.2) (setOptString_snd v _ _) ?_
  refine ite_rel (fun (x y : PositionMessage × Option JsonErr) => x.2 = y.2) (setOptString_snd v _ _) ?_
  refine ite_rel (fun (x y : PositionMessage × Option JsonErr) => x.2 = y.2) (setOptString_snd v _ _) ?_
  refine ite_rel (fun (x y : PositionMessage × Option JsonErr) => x.2 = y.2) (setOptString_snd v _ _) ?_
  refine ite_rel (fun (x y : PositionMessage × Option JsonErr) => x.2 = y.2) (setOptString_snd v _ _) ?_
  refine ite_rel (fun (x y : PositionMessage × Option JsonErr) => x.2 = y.2) (setOptString_snd v _ _) ?_
  refine ite_rel (fun (x y : PositionMessage × Option JsonErr) => x.2 = y.2) (setOptString_snd v _ _) ?_
  refine ite_rel (fun (x y : PositionMessage × Option JsonErr) => x.2 = y.2) (setOptString_snd v _ _) ?_
  refine ite_rel (fun (x y : PositionMessage × Option JsonErr) => x.2 = y.2) (setOptString_snd v _ _) ?_
  refine ite_rel (fun (x y : PositionMessage × Option JsonErr) => x.2 = y.2) (setOptString_snd v _ _) ?_
  refine ite_rel (fun (x y : PositionMessage × Option JsonErr) => x.2 = y.2) (setOptString_snd v _ _) ?_
  refine ite_rel (fun (x y : PositionMessage × Option JsonErr) => x.2 = y.2) (setOptString_snd v _ _) ?_
  refine ite_rel (fun (x y : PositionMessage × Option JsonErr) => x.2 = y.2) (setOptString_snd v _ _) ?_
  refine ite_rel (fun (x y : PositionMessage × Option JsonErr) => x.2 = y.2) (setOptString_snd v _ _) ?_
  refine ite_rel (fun (x y : PositionMessage × Option JsonErr) => x.2 = y.2) (setWaypoints_snd v _ _) ?_
  refine ite_rel (fun (x y : PositionMessage × Option JsonErr) => x.2 = y.2) (setOptString_snd v _ _) ?_
  refine ite_rel (fun (x y : PositionMessage × Option JsonErr) => x.2 = y.2) (setOptString_snd v _ _) ?_
  refine ite_rel (fun (x y : PositionMessage × Option JsonErr) => x.2 = y.2) (setOptInt_snd v _ _) ?_
  refine ite_rel (fun (x y : PositionMessage × Option JsonErr) => x.2 = y.2) (setOptInt_snd v _ _) ?_
  refine ite_rel (fun (x y : PositionMessage × Option JsonErr) => x.2 = y.2) (setOptInt_snd v _ _) ?_
  refine ite_rel (fun (x y : PositionMessage × Option JsonErr) => x.2 = y.2) (setOptInt_snd v _ _) ?_
  refine ite_rel (fun (x y : PositionMessage × Option JsonErr) => x.2 = y.2) (setOptInt_snd v _ _) ?_
  refine ite_rel (fun (x y : PositionMessage × Option JsonErr) => x.2 = y.2) (setOptString_snd v _ _) ?_
  refine ite_rel (fun (x y : PositionMessage × Option JsonErr) => x.2 = y.2) (setOptNum_snd v _ _) ?_
  refine ite_rel (fun (x y : PositionMessage × Option JsonErr) => x.2 = y.2) (setOptString_snd v _ _) ?_
  refine ite_rel (fun (x y : PositionMessage × Option JsonErr) => x.2 = y.2) (setOptString_snd v _ _) ?_
  refine ite_rel (fun (x y : PositionMessage × Option JsonErr) => x.2 = y.2) (setOptString_snd v _ _) ?_
  refine ite_rel (fun (x y : PositionMessage × Option JsonErr) => x.2 = y.2) (setOptString_snd v _ _) ?_
  refine ite_rel (fun (x y : PositionMessage × Option JsonErr) => x.2 = y.2) (setOptString_snd v _ _) ?_
  refine ite_rel (fun (x y : PositionMessage × Option JsonErr) => x.2 = y.2) (setOptString_snd v _ _) ?_
  refine ite_rel (fun (x y : PositionMessage × Option JsonErr) => x.2 = y.2) (setOptString_snd v _ _) ?_
  refine ite_rel (fun (x y : PositionMessage × Option JsonErr) => x.2 = y.2) (setOptString_snd v _ _) ?_
  refine ite_rel (fun (x y : PositionMessage × Option JsonErr) => x.2 = y.2) (setOptString_snd v _ _) ?_
  refine ite_rel (fun (x y : PositionMessage × Option JsonErr) => x.2 = y.2) (setOptString_snd v _ _) ?_
  refine ite_rel (fun (x y : PositionMessage × Option JsonErr) => x.2 = y.2) (setOptString_snd v _ _) ?_
  refine ite_rel (fun (x y : PositionMessage × Option JsonErr) => x.2 = y.2) (setOptString_snd v _ _) ?_
  refine ite_rel (fun (x y : PositionMessage × Option JsonErr) => x.2 = y.2) (setOptString_snd v _ _) ?_
  refine ite_rel (fun (x y : PositionMessage × Option JsonErr) => x.2 = y.2) (setOptString_snd v _ _) ?_
  refine ite_rel (fun (x y : PositionMessage × Option JsonErr) => x.2 = y.2) (setOptString_snd v _ _) ?_
  refine ite_rel (fun (x y : PositionMessage × Option JsonErr) => x.2 = y.2) (setOptString_snd v _ _) ?_
  refine ite_rel (fun (x y : PositionMessage × Option JsonErr) => x.2 = y.2) (setOptString_snd v _ _) ?_
  refine ite_rel (fun (x y : PositionMessage × Option JsonErr) => x.2 = y.2) (setOptString_snd v _ _) ?_
  refine ite_rel (fun (x y : PositionMessage × Option JsonErr) => x.2 = y.2) (setOptString_snd v _ _) ?_
  refine ite_rel (fun (x y : PositionMessage × Option JsonErr) => x.2 = y.2) (setOptString_snd v _ _) ?_
  rfl

/-! ## Claim theorems -/

/-- C1: for every InitCommand, String builds exactly the fixed-order token
sequence live, pitr, range, username, password, airport_filter, events and
one latlong per rectangle, each optional segment present exactly when its
field is, joined by single spaces with nothing appended after the last
token; and it is deterministic: two values that agree on all eight fields
serialize to the same string. -/
theorem spec_c1 :
    (∀ i : InitCommand, InitCommand.String i = String.intercalate " " (initTokens i))
    ∧ (∀ i j : InitCommand, i.Live = j.Live → i.PITR = j.PITR → i.Range = j.Range →
        i.Password = j.Password → i.Username = j.Username →
        i.AirportFilter = j.AirportFilter → i.Events = j.Events → i.LatLong = j.LatLong →
        InitCommand.String i = InitCommand.String j) := by
  refine ⟨stringEqTokens, ?_⟩
  intro i j h1 h2 h3 h4 h5 h6 h7 h8
  cases i
  cases j
  simp_all

/-- Witness for C1 at a concrete pair of field-equal commands. -/
theorem spec_c1_witness :
    InitCommand.String { Live := true, PITR := "" } = InitCommand.String { Live := true } :=
  spec_c1.2 _ _ rfl rfl rfl rfl rfl rfl rfl rfl

/-- C2 counterexample: the object carrying only the position discriminant
decodes successfully to the very same value as the object that carries an
explicitly empty ident string, so an absent plain-string wire field is
represented as the empty string, not as a distinct not-present marker. -/
theorem spec_c2_counterexample :
    unmarshalMessage (.obj [("type", Json.str "position")]) =
      unmarshalMessage (.obj [("type", Json.str "position"), ("ident", Json.str "")])
    ∧ (unmarshalMessage (.obj [("type", Json.str "position")])).2 = none
    ∧ ((decodeWith posAssign {} (.obj [("type", Json.str "position")])).1).Ident = "" :=
  ⟨rfl, rfl, rfl⟩

/-- C2 (amended): for every object dispatched to the position variant, each
absent pointer-typed wire field decodes to the not-present marker none and
an absent waypoints list to the empty list, while each absent plain-string
field (type, ident, lat, lon, clock, id, updateType, air_ground,
facility_hash, facility_name, pitr) decodes to the empty string,
indistinguishable from a present empty string; and any member whose value
has an unexpected JSON type for its field makes the decode return an
error. -/
theorem spec_c2_amended : ∀ F : List (String × Json),
    (stubDecode (.obj F) = .ok "position" →
      (unmarshalMessage (.obj F)).1 =
        { «Type» := "position", Payload := .position (decodeWith posAssign {} (.obj F)).1 })
    ∧ (∀ kv ∈ F, (posAssign (foldKey kv.1) kv.2 {}).2.isSome = true →
        ((decodeWith posAssign {} (.obj F)).2).isSome = true)
    ∧ (absentKey "alt" F → ((decodeWith posAssign {} (.obj F)).1).Alt = none)
    ∧ (absentKey "ident" F → ((decodeWith posAssign {} (.obj F)).1).Ident = "")
    ∧ (absentKey "type" F → ((decodeWith posAssign {} (.obj F)).1).«Type» = "")
    ∧ (absentKey "lat" F → ((decodeWith posAssign {} (.obj F)).1).Lat = "")
    ∧ (absentKey "lon" F → ((decodeWith posAssign {} (.obj F)).1).Lon = "")
    ∧ (absentKey "clock" F → ((decodeWith posAssign {} (.obj F)).1).Clock = "")
    ∧ (absentKey "id" F → ((decodeWith posAssign {} (.obj F)).1).ID = "")
    ∧ (absentKey "updatetype" F → ((decodeWith posAssign {} (.obj F)).1).UpdateType = "")
    ∧ (absentKey "air_ground" F → ((decodeWith posAssign {} (.obj F)).1).AirGround = "")
    ∧ (absentKey "facility_hash" F → ((decodeWith posAssign {} (.obj F)).1).FacilityHash = "")
    ∧ (absentKey "facility_name" F → ((decodeWith posAssign {} (.obj F)).1).FacilityName = "")
    ∧ (absentKey "pitr" F → ((decodeWith posAssign {} (.obj F)).1).PITR = "")
    ∧ (absentKey "alt_change" F → ((decodeWith posAssign {} (.obj F)).1).AltChange = none)
    ∧ (absentKey "gs" F → ((decodeWith posAssign {} (.obj F)).1).GS = none)
    ∧ (absentKey "heading" F → ((decodeWith posAssign {} (.obj F)).1).Heading = none)
    ∧ (absentKey "squawk" F → ((decodeWith posAssign {} (.obj F)).1).Squawk = none)
    ∧ (absentKey "hexid" F → ((decodeWith posAssign {} (.obj F)).1).Hexid = none)
    ∧ (absentKey "atcident" F → ((decodeWith posAssign {} (.obj F)).1).ATCIdent = none)
    ∧ (absentKey "aircrafttype" F → ((decodeWith posAssign {} (.obj F)).1).AircraftType = none)
    ∧ (absentKey "orig" F → ((decodeWith posAssign {} (.obj F)).1).Orig = none)
    ∧ (absentKey "dest" F → ((decodeWith posAssign {} (.obj F)).1).Dest = none)
    ∧ (absentKey "reg" F → ((decodeWith posAssign {} (.obj F)).1).Reg = none)
    ∧ (absentKey "eta" F → ((decodeWith posAssign {} (.obj F)).1).ETA = none)
    ∧ (absentKey "edt" F → ((decodeWith posAssign {} (.obj F)).1).EDT = none)
    ∧ (absentKey "ete" F → ((decodeWith posAssign {} (.obj F)).1).ETE = none)
    ∧ (absentKey "speed" F → ((decodeWith posAssign {} (.obj F)).1).Speed = none)
    ∧ (absentKey "waypoints" F → ((decodeWith posAssign {} (.obj F)).1).Waypoints = [])
    ∧ (absentKey "route" F → ((decodeWith posAssign {} (.obj F)).1).Route = none)
    ∧ (absentKey "adsb_version" F → ((decodeWith posAssign {} (.obj F)).1).ADSBVersion = none)
    ∧ (absentKey "nac_p" F → ((decodeWith posAssign {} (.obj F)).1).NACp = none)
    ∧ (absentKey "nac_v" F → ((decodeWith posAssign {} (.obj F)).1).NACv = none)
    ∧ (absentKey "nic" F → ((decodeWith posAssign {} (.obj F)).1).NIC = none)
    ∧ (absentKey "nic_baro" F → ((decodeWith posAssign {} (.obj F)).1).NICBaro = none)
    ∧ (absentKey "sil" F → ((decodeWith posAssign {} (.obj F)).1).SIL = none)
    ∧ (absentKey "sil_type" F → ((decodeWith posAssign {} (.obj F)).1).SILType = none)
    ∧ (absentKey "pos_rc" F → ((decodeWith posAssign {} (.obj F)).1).PosRC = none)
    ∧ (absentKey "heading_magnetic" F → ((decodeWith posAssign {} (.obj F)).1).HeadingMagnetic = none)
    ∧ (absentKey "heading_true" F → ((decodeWith posAssign {} (.obj F)).1).HeadingTrue = none)
    ∧ (absentKey "mach" F → ((decodeWith posAssign {} (.obj F)).1).Mach = none)
    ∧ (absentKey "speed_tas" F → ((decodeWith posAssign {} (.obj F)).1).SpeedTAS = none)
    ∧ (absentKey "speed_ias" F → ((decodeWith posAssign {} (.obj F)).1).SpeedIAS = none)
    ∧ (absentKey "pressure" F → ((decodeWith posAssign {} (.obj F)).1).Pressure = none)
    ∧ (absentKey "wind_quality" F → ((decodeWith posAssign {} (.obj F)).1).WindQuality = none)
    ∧ (absentKey "wind_dir" F → ((decodeWith posAssign {} (.obj F)).1).WindDir = none)
    ∧ (absentKey "wind_speed" F → ((decodeWith posAssign {} (.obj F)).1).WindSpeed = none)
    ∧ (absentKey "temperature_quality" F → ((decodeWith posAssign {} (.obj F)).1).TemperatureQuality = none)
    ∧ (absentKey "temperature" F → ((decodeWith posAssign {} (.obj F)).1).Temperature = none)
    ∧ (absentKey "nav_heading" F → ((decodeWith posAssign {} (.obj F)).1).NavHeading = none)
    ∧ (absentKey "nav_altitude" F → ((decodeWith posAssign {} (.obj F)).1).NavAltitude = none)
    ∧ (absentKey "nav_qnh" F → ((decodeWith posAssign {} (.obj F)).1).NavQNH = none)
    ∧ (absentKey "nav_modes" F → ((decodeWith posAssign {} (.obj F)).1).NavModes = none)
    ∧ (absentKey "alt_gnss" F → ((decodeWith posAssign {} (.obj F)).1).AltGNSS = none)
    ∧ (absentKey "vertrate" F → ((decodeWith posAssign {} (.obj F)).1).VertRate = none)
    ∧ (absentKey "vertrate_geom" F → ((decodeWith posAssign {} (.obj F)).1).VertRateGeom = none)
    ∧ (absentKey "fuel_on_board" F → ((decodeWith posAssign {} (.obj F)).1).FuelOnBoard = none)
    ∧ (absentKey "fuel_on_board_unit" F → ((decodeWith posAssign {} (.obj F)).1).FuelOnBoardUnit = none)
    := by
  intro F
  exact ⟨fun h => by simp only [unmarshalMessage, h]; rfl,
    fun kv hm he => foldFields_err_mem posAssign posAssign_err_indep F kv {} he ({}, none) hm,
    fun h => foldFields_proj posAssign (fun p => p.Alt) "alt" (fun _ v s hk => posFrame_Alt v s hk) F ({}, none) h,
    fun h => foldFields_proj posAssign (fun p => p.Ident) "ident" (fun _ v s hk => posFrame_Ident v s hk) F ({}, none) h,
    fun h => foldFields_proj posAssign (fun p => p.«Type») "type" (fun _ v s hk => posFrame_Type v s hk) F ({}, none) h,
    fun h => foldFields_proj posAssign (fun p => p.Lat) "lat" (fun _ v s hk => posFrame_Lat v s hk) F ({}, none) h,
    fun h => foldFields_proj posAssign (fun p => p.Lon) "lon" (fun _ v s hk => posFrame_Lon v s hk) F ({}, none) h,
    fun h => foldFields_proj posAssign (fun p => p.Clock) "clock" (fun _ v s hk => posFrame_Clock v s hk) F ({}, none) h,
    fun h => foldFields_proj posAssign (fun p => p.ID) "id" (fun _ v s hk => posFrame_ID v s hk) F ({}, none) h,
    fun h => foldFields_proj posAssign (fun p => p.UpdateType) "updatetype" (fun _ v s hk => posFrame_UpdateType v s hk) F ({}, none) h,
    fun h => foldFields_proj posAssign (fun p => p.AirGround) "air_ground" (fun _ v s hk => posFrame_AirGround v s hk) F ({}, none) h,
    fun h => foldFields_proj posAssign (fun p => p.FacilityHash) "facility_hash" (fun _ v s hk => posFrame_FacilityHash v s hk) F ({}, none) h,
    fun h => foldFields_proj posAssign (fun p => p.FacilityName) "facility_name" (fun _ v s hk => posFrame_FacilityName v s hk) F ({}, none) h,
    fun h => foldFields_proj posAssign (fun p => p.PITR) "pitr" (fun _ v s hk => posFrame_PITR v s hk) F ({}, none) h,
    fun h => foldFields_proj posAssign (fun p => p.AltChange) "alt_change" (fun _ v s hk => posFrame_AltChange v s hk) F ({}, none) h,
    fun h => foldFields_proj posAssign (fun p => p.GS) "gs" (fun _ v s hk => posFrame_GS v s hk) F ({}, none) h,
    fun h => foldFields_proj posAssign (fun p => p.Heading) "heading" (fun _ v s hk => posFrame_Heading v s hk) F ({}, none) h,
    fun h => foldFields_proj posAssign (fun p => p.Squawk) "squawk" (fun _ v s hk => posFrame_Squawk v s hk) F ({}, none) h,
    fun h => foldFields_proj posAssign (fun p => p.Hexid) "hexid" (fun _ v s hk => posFrame_Hexid v s hk) F ({}, none) h,
    fun h => foldFields_proj posAssign (fun p => p.ATCIdent) "atcident" (fun _ v s hk => posFrame_ATCIdent v s hk) F ({}, none) h,
    fun h => foldFields_proj posAssign (fun p => p.AircraftType) "aircrafttype" (fun _ v s hk => posFrame_AircraftType v s hk) F ({}, none) h,
    fun h => foldFields_proj posAssign (fun p => p.Orig) "orig" (fun _ v s hk => posFrame_Orig v s hk) F ({}, none) h,
    fun h => foldFields_proj posAssign (fun p => p.Dest) "dest" (fun _ v s hk => posFrame_Dest v s hk) F ({}, none) h,
    fun h => foldFields_proj posAssign (fun p => p.Reg) "reg" (fun _ v s hk => posFrame_Reg v s hk) F ({}, none) h,
    fun h => foldFields_proj posAssign (fun p => p.ETA) "eta" (fun _ v s hk => posFrame_ETA v s hk) F ({}, none) h,
    fun h => foldFields_proj posAssign (fun p => p.EDT) "edt" (fun _ v s hk => posFrame_EDT v s hk) F ({}, none) h,
    fun h => foldFields_proj posAssign (fun p => p.ETE) "ete" (fun _ v s hk => posFrame_ETE v s hk) F ({}, none) h,
    fun h => foldFields_proj posAssign (fun p => p.Speed) "speed" (fun _ v s hk => posFrame_Speed v s hk) F ({}, none) h,
    fun h => foldFields_proj posAssign (fun p => p.Waypoints) "waypoints" (fun _ v s hk => posFrame_Waypoints v s hk) F ({}, none) h,
    fun h => foldFields_proj posAssign (fun p => p.Route) "route" (fun _ v s hk => posFrame_Route v s hk) F ({}, none) h,
    fun h => foldFields_proj posAssign (fun p => p.ADSBVersion) "adsb_version" (fun _ v s hk => posFrame_ADSBVersion v s hk) F ({}, none) h,
    fun h => foldFields_proj posAssign (fun p => p.NACp) "nac_p" (fun _ v s hk => posFrame_NACp v s hk) F ({}, none) h,
    fun h => foldFields_proj posAssign (fun p => p.NACv) "nac_v" (fun _ v s hk => posFrame_NACv v s hk) F ({}, none) h,
    fun h => foldFields_proj posAssign (fun p => p.NIC) "nic" (fun _ v s hk => posFrame_NIC v s hk) F ({}, none) h,
    fun h => foldFields_proj posAssign (fun p => p.NICBaro) "nic_baro" (fun _ v s hk => posFrame_NICBaro v s hk) F ({}, none) h,
    fun h => foldFields_proj posAssign (fun p => p.SIL) "sil" (fun _ v s hk => posFrame_SIL v s hk) F ({}, none) h,
    fun h => foldFields_proj posAssign (fun p => p.SILType) "sil_type" (fun _ v s hk => posFrame_SILType v s hk) F ({}, none) h,
    fun h => foldFields_proj posAssign (fun p => p.PosRC) "pos_rc" (fun _ v s hk => posFrame_PosRC v s hk) F ({}, none) h,
    fun h => foldFields_proj posAssign (fun p => p.HeadingMagnetic) "heading_magnetic" (fun _ v s hk => posFrame_HeadingMagnetic v s hk) F ({}, none) h,
    fun h => foldFields_proj posAssign (fun p => p.HeadingTrue) "heading_true" (fun _ v s hk => posFrame_HeadingTrue v s hk) F ({}, none) h,
    fun h => foldFields_proj posAssign (fun p => p.Mach) "mach" (fun _ v s hk => posFrame_Mach v s hk) F ({}, none) h,
    fun h => foldFields_proj posAssign (fun p => p.SpeedTAS) "speed_tas" (fun _ v s hk => posFrame_SpeedTAS v s hk) F ({}, none) h,
    fun h => foldFields_proj posAssign (fun p => p.SpeedIAS) "speed_ias" (fun _ v s hk => posFrame_SpeedIAS v s hk) F ({}, none) h,
    fun h => foldFields_proj posAssign (fun p => p.Pressure) "pressure" (fun _ v s hk => posFrame_Pressure v s hk) F ({}, none) h,
    fun h => foldFields_proj posAssign (fun p => p.WindQuality) "wind_quality" (fun _ v s hk => posFrame_WindQuality v s hk) F ({}, none) h,
    fun h => foldFields_proj posAssign (fun p => p.WindDir) "wind_dir" (fun _ v s hk => posFrame_WindDir v s hk) F ({}, none) h,
    fun h => foldFields_proj posAssign (fun p => p.WindSpeed) "wind_speed" (fun _ v s hk => posFrame_WindSpeed v s hk) F ({}, none) h,
    fun h => foldFields_proj posAssign (fun p => p.TemperatureQuality) "temperature_quality" (fun _ v s hk => posFrame_TemperatureQuality v s hk) F ({}, none) h,
    fun h => foldFields_proj posAssign (fun p => p.Temperature) "temperature" (fun _ v s hk => posFrame_Temperature v s hk) F ({}, none) h,
    fun h => foldFields_proj posAssign (fun p => p.NavHeading) "nav_heading" (fun _ v s hk => posFrame_NavHeading v s hk) F ({}, none) h,
    fun h => foldFields_proj posAssign (fun p => p.NavAltitude) "nav_altitude" (fun _ v s hk => posFrame_NavAltitude v s hk) F ({}, none) h,
    fun h => foldFields_proj posAssign (fun p => p.NavQNH) "nav_qnh" (fun _ v s hk => posFrame_NavQNH v s hk) F ({}, none) h,
    fun h => foldFields_proj posAssign (fun p => p.NavModes) "nav_modes" (fun _ v s hk => posFrame_NavModes v s hk) F ({}, none) h,
    fun h => foldFields_proj posAssign (fun p => p.AltGNSS) "alt_gnss" (fun _ v s hk => posFrame_AltGNSS v s hk) F ({}, none) h,
    fun h => foldFields_proj posAssign (fun p => p.VertRate) "vertrate" (fun _ v s hk => posFrame_VertRate v s hk) F ({}, none) h,
    fun h => foldFields_proj posAssign (fun p => p.VertRateGeom) "vertrate_geom" (fun _ v s hk => posFrame_VertRateGeom v s hk) F ({}, none) h,
    fun h => foldFields_proj posAssign (fun p => p.FuelOnBoard) "fuel_on_board" (fun _ v s hk => posFrame_FuelOnBoard v s hk) F ({}, none) h,
    fun h => foldFields_proj posAssign (fun p => p.FuelOnBoardUnit) "fuel_on_board_unit" (fun _ v s hk => posFrame_FuelOnBoardUnit v s hk) F ({}, none) h⟩

/-- Witness for C2 (amended) at concrete objects: with only the
discriminant present, Alt is none and Ident is the empty string; adding a
numeric lat member makes the decode fail; and the dispatch equation holds. -/
theorem spec_c2_witness :
    ((decodeWith posAssign {} (.obj [("type", Json.str "position")])).1).Alt = none
    ∧ ((decodeWith posAssign {} (.obj [("type", Json.str "position")])).1).Ident = ""
    ∧ ((decodeWith posAssign {}
        (.obj [("type", Json.str "position"), ("lat", Json.num 5)])).2).isSome = true
    ∧ (unmarshalMessage (.obj [("type", Json.str "position")])).1 =
        { «Type» := "position",
          Payload := .position (decodeWith posAssign {} (.obj [("type", Json.str "position")])).1 } := by
  obtain ⟨hdisp, herr, halt, hident, -⟩ := spec_c2_amended [("type", Json.str "position")]
  obtain ⟨-, herr2, -⟩ := spec_c2_amended [("type", Json.str "position"), ("lat", Json.num 5)]
  exact ⟨halt (by decide), hident (by decide),
    herr2 ("lat", Json.num 5) (List.mem_cons_of_mem _ (List.mem_singleton.mpr rfl)) rfl,
    hdisp rfl⟩

/-- C3 counterexample: the empty JSON object is a valid JSON object that
lacks a usable discriminant, yet decoding fails with the unknown message
type error carrying the empty string, not with the malformed envelope
error. -/
theorem spec_c3_counterexample :
    unmarshalMessage (.obj []) = ({}, some (.unknownMessageType ""))
    ∧ isMalformedB (unmarshalMessage (.obj [])).2 = false :=
  ⟨rfl, rfl⟩

/-- C3 (amended): input that is not syntactically valid JSON, or whose
value is neither an object nor null, or an object whose type member holds a
value that is neither a string nor null, fails with the malformed envelope
error; but input that parses and merely lacks a usable discriminant (a
top-level null, an object with no type member, or a null type member)
instead fails with the unknown message type error carrying the empty
discriminant. -/
theorem spec_c3_amended :
    unmarshalRaw none = ({}, some (.malformedEnvelope .badSyntax))
    ∧ (∀ j : Json, notObjNull j = true → isMalformedB (unmarshalMessage j).2 = true)
    ∧ (∀ (F : List (String × Json)) (kv : String × Json), kv ∈ F →
        foldKey kv.1 = "type" → notStrNull kv.2 = true →
        isMalformedB (unmarshalMessage (.obj F)).2 = true)
    ∧ (∀ F : List (String × Json), (∀ kv ∈ F, foldKey kv.1 = "type" → kv.2 = Json.null) →
        unmarshalMessage (.obj F) = ({}, some (.unknownMessageType "")))
    ∧ unmarshalMessage Json.null = ({}, some (.unknownMessageType "")) := by
  refine ⟨rfl, ?_, ?_, ?_, rfl⟩
  · intro j h
    cases j <;> first | rfl | simp [notObjNull] at h
  · intro F kv hm hk hv
    have he : (stubAssign (foldKey kv.1) kv.2 "").2.isSome = true := by
      rw [hk]
      unfold stubAssign
      rw [if_pos rfl]
      cases hkv : kv.2 <;> simp_all [setString, notStrNull]
    have hsome := foldFields_err_mem stubAssign stubAssign_snd F kv "" he ("", none) hm
    obtain ⟨e, hfe⟩ := Option.isSome_iff_exists.mp hsome
    have hstub : stubDecode (.obj F) = .error e := by
      simp only [stubDecode]
      rcases hff : foldFields stubAssign ("", none) F with ⟨t2, e2⟩
      rw [hff] at hfe
      simp only at hfe
      rw [hfe]
    simp only [unmarshalMessage, hstub]
    rfl
  · intro F h
    have hstub : stubDecode (.obj F) = .ok "" := by
      simp only [stubDecode]
      rw [stubFold_null F h]
    simp only [unmarshalMessage, hstub]
    rfl

/-- Witness for C3 (amended) at concrete inputs: a bare number, an object
with a boolean type member, and an object without any type member. -/
theorem spec_c3_witness :
    isMalformedB (unmarshalMessage (Json.num 5)).2 = true
    ∧ isMalformedB (unmarshalMessage (.obj [("type", Json.bool true)])).2 = true
    ∧ unmarshalMessage (.obj [("a", Json.str "b")]) = ({}, some (.unknownMessageType "")) := by
  refine ⟨spec_c3_amended.2.1 _ rfl,
    spec_c3_amended.2.2.1 [("type", Json.bool true)] ("type", Json.bool true)
      (List.mem_singleton.mpr rfl) rfl rfl,
    spec_c3_amended.2.2.2.1 _ ?_⟩
  intro kv hkv hk
  rcases List.mem_singleton.mp hkv with rfl
  exact absurd hk (by decide)

/-- C4: a valid JSON object whose usable discriminant is any string other
than error or position makes decoding fail with the unknown message type
error carrying that very discriminant string; the decode is a total
function, so it neither panics nor hangs. -/
theorem spec_c4 : ∀ (F : List (String × Json)) (t : String),
    stubDecode (.obj F) = .ok t → t ≠ "error" → t ≠ "position" →
    unmarshalMessage (.obj F) =
      ({ «Type» := t, Payload := .empty }, some (.unknownMessageType t)) := by
  intro F t h hE hP
  simp only [unmarshalMessage, h]
  rw [if_neg hE, if_neg hP]

/-- Witness for C4 at a concrete object with discriminant weird. -/
theorem spec_c4_witness :
    unmarshalMessage (.obj [("type", Json.str "weird")]) =
      ({ «Type» := "weird", Payload := .empty }, some (.unknownMessageType "weird")) :=
  spec_c4 [("type", Json.str "weird")] "weird" rfl (by decide) (by decide)

/-- C5: when the cancellation branch of the select fires first,
NextMessage closes the transport of the Stream and returns a nil message
together with the error of the context itself, and that error value is
distinct from every transport, syntax and decode error, so the caller can
recognize cancellation. -/
theorem spec_c5 :
    (∀ (st : Stream) (e : CtxErr),
        Stream.nextMessage st false false (.ctxDone e) = (st.close, none, some (.fromCtx e))
        ∧ Stream.nextMessage st true false (.ctxDone e) = (st.close, none, some (.fromCtx e))
        ∧ (st.close).closed = true)
    ∧ (∀ (e : CtxErr) (d : DecodeError), StreamErr.fromCtx e ≠ .unmarshal d)
    ∧ (∀ e : CtxErr, StreamErr.fromCtx e ≠ .transport)
    ∧ (∀ e : CtxErr, StreamErr.fromCtx e ≠ .badSyntax)
    ∧ (∀ e : CtxErr, StreamErr.fromCtx e ≠ .deadlineSet) :=
  ⟨fun st e => ⟨rfl, rfl, rfl⟩,
    fun e d h => StreamErr.noConfusion h,
    fun e h => StreamErr.noConfusion h,
    fun e h => StreamErr.noConfusion h,
    fun e h => StreamErr.noConfusion h⟩

/-- Witness for C5 at a concrete open stream and the canceled error. -/
theorem spec_c5_witness :
    Stream.nextMessage { closed := false } false false (.ctxDone .canceled) =
      (Stream.close { closed := false }, none, some (.fromCtx .canceled)) :=
  (spec_c5.1 { closed := false } .canceled).1

set_option maxRecDepth 10000 in
/-- C6: the concrete InitCommand of the specification serializes to
exactly the expected command line. -/
theorem spec_c6 :
    InitCommand.String
      { Live := true, Username := "un", Password := "pw",
        Events := ["position"], LatLong := [⟨1, 2, 3, 4⟩] } =
    "live username un password pw events \"position\" latlong \"1.000000 2.000000 3.000000 4.000000\"" := by
  decide

/-- C7: an error object with any error_msg text decodes to the error
variant carrying exactly that text, and the concrete boom object of the
specification does so in particular. -/
theorem spec_c7 :
    (∀ s : String,
      unmarshalMessage (.obj [("type", Json.str "error"), ("error_msg", Json.str s)]) =
        ({ «Type» := "error", Payload := .errorMsg { «Type» := "error", ErrorMessage := s } },
          none))
    ∧ unmarshalMessage (.obj [("type", Json.str "error"), ("error_msg", Json.str "boom")]) =
        ({ «Type» := "error", Payload := .errorMsg { «Type» := "error", ErrorMessage := "boom" } },
          none) :=
  ⟨fun s => rfl, rfl⟩

/-- Witness for C7 at the concrete boom message. -/
theorem spec_c7_witness :
    unmarshalMessage (.obj [("type", Json.str "error"), ("error_msg", Json.str "I am an error")]) =
      ({ «Type» := "error",
         Payload := .errorMsg { «Type» := "error", ErrorMessage := "I am an error" } }, none) :=
  spec_c7.1 "I am an error"

/-- C8: every InitCommand serialization contains the four consecutive
tokens username, the username value, password, the password value, with the
values as bare unquoted tokens, whatever the other fields are; and the
all-empty aggregate still emits both, its serialization being exactly the
string with the two empty values. -/
theorem spec_c8 :
    (∀ i : InitCommand, ∃ pre post, InitCommand.String i =
      String.intercalate " " (pre ++ (["username", i.Username, "password", i.Password] ++ post)))
    ∧ InitCommand.String {} = "username  password " := by
  constructor
  · intro i
    refine ⟨(if i.Live then ["live"] else [])
        ++ ((if i.PITR ≠ "" then ["pitr", i.PITR] else [])
        ++ (match i.Range with
            | some r => ["range", r.Start, r.End]
            | none => [])),
      (if i.AirportFilter ≠ [] then
          ["airport_filter", "\"" ++ String.intercalate " " i.AirportFilter ++ "\""]
        else [])
        ++ ((if i.Events ≠ [] then
            ["events", "\"" ++ String.intercalate " " (i.Events.map (fun e => (e : String))) ++ "\""]
          else [])
        ++ (i.LatLong.map (fun r => ["latlong", rectQuoted r])).flatten), ?_⟩
    rw [stringEqTokens]
    unfold initTokens
    simp [List.append_assoc]
  · decide

/-- Witness for C8 at the all-empty aggregate. -/
theorem spec_c8_witness :
    ∃ pre post, InitCommand.String {} =
      String.intercalate " " (pre ++ (["username", "", "password", ""] ++ post)) :=
  spec_c8.1 {}

/-- C9: every serialization ends with one independently quoted latlong
token pair per rectangle, in list order, two tokens per rectangle; and the
percent-f formatting of any rational bound is an optional minus sign, a
nonempty all-digit integer part, a point, and exactly six decimal digits,
with no exponential notation. -/
theorem spec_c9 : ∀ i : InitCommand,
    (∃ pre, InitCommand.String i = String.intercalate " "
        (pre ++ (i.LatLong.map (fun r => ["latlong", rectQuoted r])).flatten))
    ∧ ((i.LatLong.map (fun r => ["latlong", rectQuoted r])).flatten).length = 2 * i.LatLong.length
    ∧ (∀ q : ℚ, ∃ ip fp,
        fmtF q = (if q.num < 0 then "-" else "") ++ ip ++ "." ++ fp
        ∧ ip ≠ "" ∧ (∀ c ∈ ip.data, c.isDigit = true)
        ∧ fp.length = 6 ∧ (∀ c ∈ fp.data, c.isDigit = true)) := by
  intro i
  refine ⟨?_, latlongTokensLength i.LatLong, ?_⟩
  · refine ⟨(if i.Live then ["live"] else [])
        ++ ((if i.PITR ≠ "" then ["pitr", i.PITR] else [])
        ++ ((match i.Range with
            | some r => ["range", r.Start, r.End]
            | none => [])
        ++ (["username", i.Username, "password", i.Password]
        ++ ((if i.AirportFilter ≠ [] then
              ["airport_filter", "\"" ++ String.intercalate " " i.AirportFilter ++ "\""]
            else [])
        ++ (if i.Events ≠ [] then
              ["events", "\"" ++ String.intercalate " " (i.Events.map (fun e => (e : String))) ++ "\""]
            else []))))), ?_⟩
    rw [stringEqTokens]
    unfold initTokens
    simp [List.append_assoc]
  · intro q
    exact ⟨natRepr (scaled6 q / 1000000), pad6 (scaled6 q % 1000000), rfl,
      natRepr_ne_empty _, natRepr_digits _, pad6_length _, pad6_digits _⟩

/-- Witness for C9 at a concrete command with one rectangle. -/
theorem spec_c9_witness :
    ((({ LatLong := [⟨1, 2, 3, 4⟩] } : InitCommand).LatLong.map
        (fun r => ["latlong", rectQuoted r])).flatten).length =
      2 * ({ LatLong := [⟨1, 2, 3, 4⟩] } : InitCommand).LatLong.length :=
  (spec_c9 { LatLong := [⟨1, 2, 3, 4⟩] }).2.1

/-- C10: whenever pass 1 succeeds with some discriminant, the Type field of
the Message is set to it, also on the error paths of pass 2; and in the
decode-finished branch NextMessage returns the message variable (a non-nil
pointer, modelled as some) alongside the decode error. -/
theorem spec_c10 :
    (∀ (j : Json) (t : String), stubDecode j = .ok t → ((unmarshalMessage j).1).«Type» = t)
    ∧ (∀ (st : Stream) (d : DecodeOutcome),
        (Stream.nextMessage st false false (.decodeDone d)).2.1 = some (runDecode d).1) := by
  constructor
  · intro j t h
    simp only [unmarshalMessage, h]
    split_ifs <;> rfl
  · intro st d
    rfl

/-- Witness for C10 at an unknown discriminant and a transport failure. -/
theorem spec_c10_witness :
    ((unmarshalMessage (.obj [("type", Json.str "weird")])).1).«Type» = "weird"
    ∧ (Stream.nextMessage { closed := false } false false
        (.decodeDone .transportFailure)).2.1 = some (runDecode .transportFailure).1 :=
  ⟨spec_c10.1 _ "weird" rfl, spec_c10.2 { closed := false } .transportFailure⟩

end Firehose
